import Mathlib

/-! Graphics task scheduler and frame loop (`src/code/graph.c`)

A shallow embedding of `graph.c`, of the structures of `gfx.h` and `z64game.h`
it works on, and of `osCreateMesgQueue`.

* Pointers are byte addresses (`Nat`, `0` is `NULL`).
* The two command pools `gGfxPools[2]` live in a flat memory of 8-byte words,
  addressed by the byte address of the word.
* Code of other modules (`thga.c`, `fault.c`, the message-queue primitives, the
  scheduler, the game states) is either a parameter of `Env` or a definition
  whose doc comment says what it was modelled from.
* Every call into another module leaves an `Event` in the trace of the state.
-/

namespace Oot

/-! ## Display-list commands and pool memory -/

/-- Display-list commands (`Gfx`, one 8-byte word each), kept symbolic: one
constructor per `gbi.h` macro that `graph.c` uses, and `raw` for every other
command word a game state may write (drawing commands, none of them a branch or
an end of display list). -/
inductive Gfx where
  | raw (w0 w1 : Nat)
  | gDPNoOpString (data : String) (n : Nat)
  | gDPNoOpOpenDisp (file : String) (line : Nat)
  | gDPNoOpCloseDisp (file : String) (line : Nat)
  | gSPBranchList (dl : Nat)
  | gDPPipeSync
  | gDPFullSync
  | gSPEndDisplayList
  deriving DecidableEq, Repr

/-- One 8-byte word of pool memory: either a display-list command, or a word
whose first halfword is a `u16` field (the pool sentinels) followed by padding.
A command stored over a sentinel word destroys the sentinel. -/
inductive Cell where
  | half (v : Nat)
  | gfx (g : Gfx)
  deriving DecidableEq, Repr

/-- Pool memory, by byte address of the word. -/
abbrev Mem := Nat → Cell

/-- Store of one word. -/
def Mem.store (m : Mem) (a : Nat) (c : Cell) : Mem :=
  fun x => if x = a then c else m x

def GFXPOOL_HEAD_MAGIC : Nat := 0x1234
def GFXPOOL_TAIL_MAGIC : Nat := 0x5678

/-- The value of `sizeof(Gfx)`. -/
def sizeofGfx : Nat := 8

/-! Layout of `GfxPool` (`gfx.h`): a `u16`, padded to the alignment of `Gfx`,
five `Gfx` arrays, a `u16`, padded to `0x12410` bytes. -/

def GfxPool.headMagic : Nat := 0x00000
def GfxPool.polyOpaBuffer : Nat := 0x00008
def GfxPool.polyXluBuffer : Nat := 0x0BF08
def GfxPool.overlayBuffer : Nat := 0x0FF08
def GfxPool.workBuffer : Nat := 0x11F08
def GfxPool.unusedBuffer : Nat := 0x12308
def GfxPool.tailMagic : Nat := 0x12408
def GfxPool.sizeof : Nat := 0x12410

def GfxPool.polyOpaBufferCount : Nat := 0x17E0
def GfxPool.polyXluBufferCount : Nat := 0x800
def GfxPool.overlayBufferCount : Nat := 0x400
def GfxPool.workBufferCount : Nat := 0x80
def GfxPool.unusedBufferCount : Nat := 0x20

/-! ## Arenas -/

/-- The record `TwoHeadGfxArena` (`thga.h`; the field names are those `Graph_Alloc`
prints): total size, base address, head cursor `p`, tail cursor `d`. -/
structure TwoHeadGfxArena where
  size : Nat
  start : Nat
  p : Nat
  d : Nat
  deriving DecidableEq, Repr

/-- Modelled from the spec: `THGA_Init` of `thga.c`, which is not among the
sources. "a region descriptor holding {base address, total size, head cursor
(grows forward from base), tail cursor (grows backward from base+size)}"; "the
whole region is implicitly reset once per frame by reinitializing both cursors
to the region's ends". -/
def THGA_Init (start size : Nat) : TwoHeadGfxArena :=
  { size := size, start := start, p := start, d := start + size }

/-- Modelled from the spec: `THGA_IsCrash` of `thga.c`, which is not among the
sources. "Invariant: head cursor ≤ tail cursor at all times; an allocation that
would violate this is a capacity-exhaustion fault"; "detects overflow ("crash")
when cursors cross". -/
def THGA_IsCrash (thga : TwoHeadGfxArena) : Bool :=
  decide (thga.d < thga.p)

/-! ## Records of `gfx.h`, `sched.h`, `z64game.h` -/

/-- The record `OSMesgQueue`, with the fields `osCreateMesgQueue` writes. -/
structure OSMesgQueue where
  mtqueue : Nat
  fullqueue : Nat
  validCount : Int
  first : Int
  msgCount : Int
  msg : Nat
  deriving DecidableEq, Repr

/-- The record `OSTask_t`, with the fields `Graph_TaskSet00` writes. -/
structure OSTask_t where
  type : Nat
  flags : Nat
  ucode_boot : Nat
  ucode_boot_size : Nat
  ucode : Nat
  ucode_size : Nat
  ucode_data : Nat
  ucode_data_size : Nat
  dram_stack : Nat
  dram_stack_size : Nat
  output_buff : Nat
  output_buff_size : Nat
  data_ptr : Nat
  data_size : Nat
  yield_data_ptr : Nat
  yield_data_size : Nat
  deriving DecidableEq, Repr

/-- The record `CfbInfo`, with the fields `Graph_TaskSet00` writes. `xScale` and
`yScale` are `f32` values, only ever copied: they are kept as bit patterns. -/
structure CfbInfo where
  framebuffer : Nat
  swapBuffer : Nat
  viMode : Nat
  viFeatures : Nat
  xScale : Nat
  yScale : Nat
  unk_10 : Nat
  updateRate : Nat
  deriving DecidableEq, Repr

/-- The record `OSScTask`. The pointer `framebuffer` always points into the
static array `sGraphCfbInfos`: it is kept as the index of the slot (`none` is
`NULL`). -/
structure OSScTask where
  next : Nat
  state : Nat
  flags : Nat
  framebuffer : Option Nat
  list : OSTask_t
  msgQueue : Nat
  msg : Nat
  deriving DecidableEq, Repr

/-- The record `GraphicsContext` (`gfx.h`), without its unknown padding. -/
structure GraphicsContext where
  polyOpaBuffer : Nat
  polyXluBuffer : Nat
  overlayBuffer : Nat
  unk_014 : Nat
  msgBuff : Nat → Nat
  schedMsgQueue : Nat
  queue : OSMesgQueue
  task : OSScTask
  workBuffer : Nat
  work : TwoHeadGfxArena
  viMode : Nat
  overlay : TwoHeadGfxArena
  polyOpa : TwoHeadGfxArena
  polyXlu : TwoHeadGfxArena
  gfxPoolIdx : Nat
  curFrameBuffer : Nat
  viFeatures : Nat
  fbIdx : Int
  callback : Nat
  callbackParam : Nat
  xScale : Nat
  yScale : Nat

/-- The record `GameState` (`z64game.h`), with the fields `graph.c` reads or
writes; of `input` only the buttons of controller 0. -/
structure GameState where
  main : Nat
  destroy : Nat
  init : Nat
  size : Nat
  input0_cur_button : Nat
  input0_press_button : Nat
  running : Nat
  frames : Nat
  inPreNMIState : Nat
  deriving DecidableEq, Repr

/-! ## The environment -/

/-- Counters of a finished `UCodeDisas` run, read by `Graph_DisassembleUCode`. -/
structure UCodeDisas where
  dlCnt : Nat
  tri2Cnt : Nat
  tri1Cnt : Nat
  quadCnt : Nat
  lineCnt : Nat
  vtxCnt : Nat
  spvtxCnt : Nat
  syncErr : Nat
  loaducodeCnt : Nat
  dlDepth : Nat
  deriving DecidableEq, Repr

/-- What code outside `graph.c` (the game state's hooks, the per-frame callback,
the audio and scheduler threads) may write: pool memory, the cursors of the
four arenas, the debug registers, the game state, the callback registration
and the time accumulators. It does not write the pool index, the frame-buffer
index or the buffer-base pointers of the context. -/
structure World where
  mem : Mem
  regs : Nat → Nat
  work : TwoHeadGfxArena
  overlay : TwoHeadGfxArena
  polyOpa : TwoHeadGfxArena
  polyXlu : TwoHeadGfxArena
  callback : Nat
  callbackParam : Nat
  gameState : GameState
  gAudioThreadUpdateTimeStart : Nat
  gAudioThreadUpdateTimeAcc : Nat
  gRSPGfxTimeAcc : Nat
  gRSPAudioTimeAcc : Nat
  gRDPTimeAcc : Nat
  gIsCtrlr2Valid : Nat
  preNmiResetting : Nat
  gSaveContext_gameMode : Nat

/-- Build configuration, constants of headers that are not among the sources,
link-time addresses, and the behaviour of the other modules. -/
structure Env where
  /- build configuration (`versions.h`) -/
  DEBUG_FEATURES : Bool
  OOT_VERSION : Nat
  NTSC_1_1 : Nat
  PAL_1_0 : Nat
  GC_JP : Nat
  /- addresses -/
  gGfxPools : Nat
  gfxCtx : Nat
  osThreadTail : Nat
  gScheduler_cmdQueue : Nat
  gGfxSPTaskYieldBuffer : Nat
  sizeof_gGfxSPTaskYieldBuffer : Nat
  gGfxSPTaskStack : Nat
  sizeof_gGfxSPTaskStack : Nat
  gGfxSPTaskOutputBuffer : Nat
  sizeof_gGfxSPTaskOutputBuffer : Nat
  SysUcode_GetUCodeBoot : Nat
  SysUcode_GetUCodeBootSize : Nat
  SysUcode_GetUCode : Nat
  SysUcode_GetUCodeData : Nat
  SysCfb_GetFbPtr : Int → Nat
  gViConfigFeatures : Nat
  gViConfigXScale : Nat
  gViConfigYScale : Nat
  /- constants of `sched.h`, `sptask.h`, `ucode.h`, `os_time.h` -/
  M_GFXTASK : Nat
  OS_SC_DRAM_DLIST : Nat
  OS_SC_NEEDS_RDP : Nat
  OS_SC_NEEDS_RSP : Nat
  OS_SC_LAST_TASK : Nat
  OS_SC_SWAPBUFFER : Nat
  SP_UCODE_SIZE : Nat
  SP_UCODE_DATA_SIZE : Nat
  OS_USEC_TO_CYCLES : Nat → Nat
  /- registers of `regs.h` (index into the register file) and their modes -/
  R_HREG_MODE : Nat
  R_UCODE_DISAS_TOGGLE : Nat
  R_UCODE_DISAS_LOG_MODE : Nat
  R_UCODE_DISAS_LOG_LEVEL : Nat
  R_UCODE_DISAS_DL_COUNT : Nat
  R_UCODE_DISAS_TOTAL_COUNT : Nat
  R_UCODE_DISAS_VTX_COUNT : Nat
  R_UCODE_DISAS_SPVTX_COUNT : Nat
  R_UCODE_DISAS_TRI1_COUNT : Nat
  R_UCODE_DISAS_TRI2_COUNT : Nat
  R_UCODE_DISAS_QUAD_COUNT : Nat
  R_UCODE_DISAS_LINE_COUNT : Nat
  R_UCODE_DISAS_SYNC_ERROR_COUNT : Nat
  R_UCODE_DISAS_LOAD_COUNT : Nat
  R_PLAY_ENABLE_UCODE_DISAS : Nat
  R_PLAY_UCODE_DISAS_LOG_LEVEL : Nat
  R_GRAPH_TASKSET00_FLAGS : Nat
  R_UPDATE_RATE : Nat
  SREG_6 : Nat
  HREG_59 : Nat
  HREG_MODE_UCODE_DISAS : Nat
  HREG_MODE_PLAY : Nat
  /- constants of `controller.h`, `z64save.h` and the game-state table -/
  BTN_Z : Nat
  BTN_L : Nat
  BTN_R : Nat
  GAMEMODE_NORMAL : Nat
  MapSelect_Init : Nat
  sizeof_MapSelectState : Nat
  PreNMI_Init : Nat
  sizeof_PreNMIState : Nat
  /- other modules -/
  /-- The value the `k`-th call of `osGetTime` returns. -/
  osGetTime : Nat → Nat
  /-- The messages other threads (scheduler, timer) have sent to the context
  queue by the time the `k`-th `osRecvMesg` of the graph thread completes; for
  a blocking receive on an empty queue, `[]` means that none ever arrives. -/
  arrivals : Nat → List Nat
  GameState_ReqPadData : World → World
  GameState_Update : World → World
  callback : Nat → Nat → World → World
  Audio_Update : World → World
  UCodeDisas_Disassemble : Mem → Nat → Nat → UCodeDisas
  /-- Contents of a `dispRefs` array before `Graph_OpenDisps` fills it. -/
  dispRefsGarbage : Nat → Nat
  /- the game-state table (`tables/gamestate_table.h`) and `gGameStateOverlayTable` -/
  GAMESTATE_SETUP : Nat
  /-- The init hooks `typeName##_Init` of the entries of `tables/gamestate_table.h`,
  which is not among the sources, in the order of the table: the enumerator of
  entry `i` in `GameStateId` is `i`. -/
  gamestate_table : List Nat
  /-- The field `gGameStateOverlayTable[i].instanceSize`. -/
  instanceSize : Nat → Nat
  /-- The field `gGameStateOverlayTable[i].init` of a loaded overlay. -/
  ovlInit : Nat → Nat
  /- the system arena, the overlay loader and `game.c` -/
  /-- The pointer an allocation of `size` bytes returns (0 is `NULL`) and the world
  it leaves. -/
  SYSTEM_ARENA_MALLOC : Nat → World → Nat × World
  SYSTEM_ARENA_FREE : Nat → World → World
  Overlay_LoadGameState : Nat → World → World
  Overlay_FreeGameState : Nat → World → World
  GameState_Init : Nat → Nat → World → World
  GameState_Destroy : Nat → World → World

/-- Calls into other modules, and entries into the functions of `graph.c`
that the frame loop and the host loop call (`call`). -/
inductive Event where
  | call (fn : String)
  | printf (fmt : String)
  | osGetTime (t : Nat)
  | osSetTimer (countdown interval mq msg : Nat)
  | osStopTimer
  | osRecvMesg (mq : Nat) (block : Bool) (msg : Option Nat)
  | osSendMesg (mq : Nat) (task : OSScTask) (block : Bool)
  | Sched_Notify
  | LogUtils_LogHexDump (what : String)
  | UCodeDisas_Disassemble (workBuf : Nat)
  | Fault_AddHungupAndCrashImpl (exp1 exp2 : String)
  | Fault_AddHungupAndCrash (file : String) (line : Nat)
  | Fault_AddClient (client : String)
  | Fault_RemoveClient (client : String)
  | callback (fn param : Nat)
  | GameState_ReqPadData
  | GameState_Update
  | Audio_Update
  | func_800D31F0
  | func_800D3210
  | Overlay_LoadGameState (ovl : Nat)
  | SYSTEM_ARENA_MALLOC (size : Nat) (file : String) (line : Nat)
  | GameState_Init (gameState init : Nat)
  | GameState_Destroy (gameState : Nat)
  | SYSTEM_ARENA_FREE (gameState : Nat) (file : String) (line : Nat)
  | Overlay_FreeGameState (ovl : Nat)
  | LOG_ADDRESS (name : String) (value : Nat) (file : String) (line : Nat)
  deriving DecidableEq, Repr

/-- The state of the graph thread: the context, the live game state, the
globals and function statics of `graph.c`, the globals of other modules it
reads, and the trace. `problem` is the local of `Graph_Update`; `nTime` and
`nRecv` count the calls of `osGetTime` and `osRecvMesg` so far. -/
structure Sys where
  gfxCtx : GraphicsContext
  gameState : GameState
  mem : Mem
  regs : Nat → Nat
  sGraphPrevUpdateEndTime : Nat
  sGraphPrevTaskTimeStart : Nat
  sPrevTaskWorkBuffer : Nat
  sGraphCfbInfos : Nat → CfbInfo
  sGraphCfbInfoIdx : Int
  gGfxTaskSentToNextReadyMinusAudioThreadUpdateTime : Nat
  gAudioThreadUpdateTimeStart : Nat
  gAudioThreadUpdateTimeAcc : Nat
  gAudioThreadUpdateTimeTotalPerGfxTask : Nat
  gRSPGfxTimeAcc : Nat
  gRSPAudioTimeAcc : Nat
  gRDPTimeAcc : Nat
  gRSPGfxTimeTotal : Nat
  gRSPAudioTimeTotal : Nat
  gRDPTimeTotal : Nat
  gGraphUpdatePeriod : Nat
  gIsCtrlr2Valid : Nat
  preNmiResetting : Nat
  gSaveContext_gameMode : Nat
  problem : Bool
  nTime : Nat
  nRecv : Nat
  trace : List Event

/-- The part of the state that code outside `graph.c` may write. -/
def Sys.world (s : Sys) : World :=
  { mem := s.mem, regs := s.regs,
    work := s.gfxCtx.work, overlay := s.gfxCtx.overlay,
    polyOpa := s.gfxCtx.polyOpa, polyXlu := s.gfxCtx.polyXlu,
    callback := s.gfxCtx.callback, callbackParam := s.gfxCtx.callbackParam,
    gameState := s.gameState,
    gAudioThreadUpdateTimeStart := s.gAudioThreadUpdateTimeStart,
    gAudioThreadUpdateTimeAcc := s.gAudioThreadUpdateTimeAcc,
    gRSPGfxTimeAcc := s.gRSPGfxTimeAcc, gRSPAudioTimeAcc := s.gRSPAudioTimeAcc,
    gRDPTimeAcc := s.gRDPTimeAcc, gIsCtrlr2Valid := s.gIsCtrlr2Valid,
    preNmiResetting := s.preNmiResetting,
    gSaveContext_gameMode := s.gSaveContext_gameMode }

/-- The state after code outside `graph.c` has run and left `w`. -/
def Sys.setWorld (s : Sys) (w : World) : Sys :=
  { s with
    mem := w.mem, regs := w.regs,
    gfxCtx := { s.gfxCtx with
      work := w.work, overlay := w.overlay, polyOpa := w.polyOpa, polyXlu := w.polyXlu,
      callback := w.callback, callbackParam := w.callbackParam },
    gameState := w.gameState,
    gAudioThreadUpdateTimeStart := w.gAudioThreadUpdateTimeStart,
    gAudioThreadUpdateTimeAcc := w.gAudioThreadUpdateTimeAcc,
    gRSPGfxTimeAcc := w.gRSPGfxTimeAcc, gRSPAudioTimeAcc := w.gRSPAudioTimeAcc,
    gRDPTimeAcc := w.gRDPTimeAcc, gIsCtrlr2Valid := w.gIsCtrlr2Valid,
    preNmiResetting := w.preNmiResetting,
    gSaveContext_gameMode := w.gSaveContext_gameMode }

/-- A call into another module that may write the world. -/
def Sys.external (s : Sys) (f : World → World) : Sys :=
  s.setWorld (f s.world)

/-- Append an event to the trace. -/
def Sys.emit (s : Sys) (e : Event) : Sys :=
  { s with trace := s.trace ++ [e] }

/-! ## Machine arithmetic -/

/-- A value of type `u32`. -/
def wrapU32 (x : Nat) : Nat := x % 2 ^ 32

/-- A value of type `s32`, in two's complement. -/
def wrapS32 (x : Int) : Int := (x + 2 ^ 31) % 2 ^ 32 - 2 ^ 31

/-- A value of type `s16`, as its 16-bit pattern. -/
def wrapU16 (x : Nat) : Nat := x % 2 ^ 16

/-- Subtraction of `u64` values (`OSTime`). -/
def sub64 (a b : Nat) : Nat := (a + (2 ^ 64 - b % 2 ^ 64)) % 2 ^ 64

/-- Addition of `u64` values (`OSTime`). -/
def add64 (a b : Nat) : Nat := (a + b) % 2 ^ 64

/-- Subtraction of `uintptr_t` values (32 bits). -/
def sub32 (a b : Nat) : Nat := (a + (2 ^ 32 - b % 2 ^ 32)) % 2 ^ 32

/-- The address `&gGfxPools[i]`. -/
def gGfxPoolsAt (env : Env) (i : Nat) : Nat :=
  env.gGfxPools + i * GfxPool.sizeof

/-! ## `Graph_InitTHGA` -/

def Graph_InitTHGA (env : Env) (s0 : Sys) : Sys :=
  let s := s0.emit (.call "Graph_InitTHGA")
  let pool := gGfxPoolsAt env (s.gfxCtx.gfxPoolIdx &&& 1)
  -- pool->headMagic = GFXPOOL_HEAD_MAGIC; pool->tailMagic = GFXPOOL_TAIL_MAGIC;
  let s := { s with mem := s.mem.store (pool + GfxPool.headMagic) (.half GFXPOOL_HEAD_MAGIC) }
  let s := { s with mem := s.mem.store (pool + GfxPool.tailMagic) (.half GFXPOOL_TAIL_MAGIC) }
  -- THGA_Init(&gfxCtx->polyOpa, pool->polyOpaBuffer, sizeof(pool->polyOpaBuffer)); ...
  let s := { s with gfxCtx := { s.gfxCtx with
    polyOpa := THGA_Init (pool + GfxPool.polyOpaBuffer) (GfxPool.polyOpaBufferCount * sizeofGfx) } }
  let s := { s with gfxCtx := { s.gfxCtx with
    polyXlu := THGA_Init (pool + GfxPool.polyXluBuffer) (GfxPool.polyXluBufferCount * sizeofGfx) } }
  let s := { s with gfxCtx := { s.gfxCtx with
    overlay := THGA_Init (pool + GfxPool.overlayBuffer) (GfxPool.overlayBufferCount * sizeofGfx) } }
  let s := { s with gfxCtx := { s.gfxCtx with
    work := THGA_Init (pool + GfxPool.workBuffer) (GfxPool.workBufferCount * sizeofGfx) } }
  let s := { s with gfxCtx := { s.gfxCtx with polyOpaBuffer := pool + GfxPool.polyOpaBuffer } }
  let s := { s with gfxCtx := { s.gfxCtx with polyXluBuffer := pool + GfxPool.polyXluBuffer } }
  let s := { s with gfxCtx := { s.gfxCtx with overlayBuffer := pool + GfxPool.overlayBuffer } }
  let s := { s with gfxCtx := { s.gfxCtx with workBuffer := pool + GfxPool.workBuffer } }
  -- gfxCtx->curFrameBuffer = SysCfb_GetFbPtr(gfxCtx->fbIdx % 2);
  let s := { s with gfxCtx := { s.gfxCtx with
    curFrameBuffer := env.SysCfb_GetFbPtr (Int.tmod s.gfxCtx.fbIdx 2) } }
  { s with gfxCtx := { s.gfxCtx with unk_014 := 0 } }

/-! ## `osCreateMesgQueue` and `Graph_Init` -/

def osCreateMesgQueue (env : Env) (msg : Nat) (count : Int) : OSMesgQueue :=
  { mtqueue := env.osThreadTail,
    fullqueue := env.osThreadTail,
    validCount := 0,
    first := 0,
    msgCount := count,
    msg := msg }

/-- The address `gfxCtx->msgBuff` (offset `0x0038`). -/
def msgBuffAddr (env : Env) : Nat := env.gfxCtx + 0x38

/-- The address `&gfxCtx->queue` (offset `0x005C`). -/
def queueAddr (env : Env) : Nat := env.gfxCtx + 0x5C

/-- The address `&gfxCtx->task` (offset `0x0078`). -/
def taskAddr (env : Env) : Nat := env.gfxCtx + 0x78

/-- The record `OSTask_t` after `bzero`. -/
def OSTask_t.zero : OSTask_t :=
  { type := 0, flags := 0, ucode_boot := 0, ucode_boot_size := 0, ucode := 0, ucode_size := 0,
    ucode_data := 0, ucode_data_size := 0, dram_stack := 0, dram_stack_size := 0,
    output_buff := 0, output_buff_size := 0, data_ptr := 0, data_size := 0,
    yield_data_ptr := 0, yield_data_size := 0 }

/-- The record `TwoHeadGfxArena` after `bzero`. -/
def TwoHeadGfxArena.zero : TwoHeadGfxArena :=
  { size := 0, start := 0, p := 0, d := 0 }

/-- The record `GraphicsContext` after `bzero(gfxCtx, sizeof(GraphicsContext))`. -/
def GraphicsContext.zero : GraphicsContext :=
  { polyOpaBuffer := 0, polyXluBuffer := 0, overlayBuffer := 0, unk_014 := 0,
    msgBuff := fun _ => 0, schedMsgQueue := 0,
    queue := { mtqueue := 0, fullqueue := 0, validCount := 0, first := 0, msgCount := 0, msg := 0 },
    task := { next := 0, state := 0, flags := 0, framebuffer := none, list := OSTask_t.zero,
              msgQueue := 0, msg := 0 },
    workBuffer := 0, work := TwoHeadGfxArena.zero, viMode := 0,
    overlay := TwoHeadGfxArena.zero, polyOpa := TwoHeadGfxArena.zero,
    polyXlu := TwoHeadGfxArena.zero, gfxPoolIdx := 0, curFrameBuffer := 0, viFeatures := 0,
    fbIdx := 0, callback := 0, callbackParam := 0, xScale := 0, yScale := 0 }

def Graph_Init (env : Env) (s0 : Sys) : Sys :=
  let s := s0.emit (.call "Graph_Init")
  -- bzero(gfxCtx, sizeof(GraphicsContext));
  let s := { s with gfxCtx := GraphicsContext.zero }
  let s := { s with gfxCtx := { s.gfxCtx with gfxPoolIdx := 0 } }
  let s := { s with gfxCtx := { s.gfxCtx with fbIdx := 0 } }
  let s := { s with gfxCtx := { s.gfxCtx with viMode := 0 } }
  let s :=
    if env.OOT_VERSION < env.PAL_1_0 then
      { s with gfxCtx := { s.gfxCtx with viFeatures := 0 } }
    else
      { s with gfxCtx := { s.gfxCtx with
          viFeatures := env.gViConfigFeatures,
          xScale := env.gViConfigXScale,
          yScale := env.gViConfigYScale } }
  -- osCreateMesgQueue(&gfxCtx->queue, gfxCtx->msgBuff, ARRAY_COUNT(gfxCtx->msgBuff));
  let s := { s with gfxCtx := { s.gfxCtx with queue := osCreateMesgQueue env (msgBuffAddr env) 8 } }
  if env.DEBUG_FEATURES then
    let s := s.emit .func_800D31F0
    s.emit (.Fault_AddClient "sGraphFaultClient")
  else
    s

def Graph_Destroy (env : Env) (s0 : Sys) : Sys :=
  let s := s0.emit (.call "Graph_Destroy")
  if env.DEBUG_FEATURES then
    let s := s.emit .func_800D3210
    s.emit (.Fault_RemoveClient "sGraphFaultClient")
  else
    s

/-! ## Execution that may stop -/

/-- Why the graph thread stopped for good: it entered the fault handler, or it
waits on a queue no message will ever be sent to. -/
inductive Stop where
  | hungup
  | blocked
  deriving DecidableEq, Repr

/-- Result of running a piece of code: it returned a value, or the thread
stopped inside it; in both cases with the state reached. -/
inductive Res (α : Type) where
  | ok (a : α) (s : Sys)
  | stop (why : Stop) (s : Sys)

/-- The state reached. -/
def Res.state {α : Type} : Res α → Sys
  | .ok _ s => s
  | .stop _ s => s

/-- Whether the code returned. -/
def Res.returned {α : Type} : Res α → Bool
  | .ok _ _ => true
  | .stop _ _ => false

/-- Why the thread stopped, if it did. -/
def Res.stopped {α : Type} : Res α → Option Stop
  | .ok _ _ => none
  | .stop w _ => some w

/-- Code of the graph thread. -/
abbrev M (α : Type) : Type := Sys → Res α

def M.pure {α : Type} (a : α) : M α := fun s => .ok a s

def M.bind {α β : Type} (m : M α) (f : α → M β) : M β := fun s =>
  match m s with
  | .ok a s1 => f a s1
  | .stop w s1 => .stop w s1

instance : Monad M where
  pure := M.pure
  bind := M.bind

/-- Read the state. -/
def getS : M Sys := fun s => .ok s s

/-- Run code that always returns. -/
def run (f : Sys → Sys) : M Unit := fun s => .ok () (f s)

/-- Record an event. -/
def emit (e : Event) : M Unit := run fun s => s.emit e

/-- Stop for good. -/
def halt {α : Type} (w : Stop) : M α := fun s => .stop w s

/-- The macro `PRINTF`. -/
def PRINTF (fmt : String) : M Unit := emit (.printf fmt)

/-- Modelled from the spec: `Fault_AddHungupAndCrashImpl` of `fault.c`, which is
not among the sources. Faults are "routed directly to a fault-reporting
facility (external collaborator) that is expected to halt the process after
logging"; "on fatal fault, the process stops advancing frames". -/
def Fault_AddHungupAndCrashImpl {α : Type} (exp1 exp2 : String) : M α := do
  emit (.Fault_AddHungupAndCrashImpl exp1 exp2)
  halt .hungup

/-- Modelled from the spec: `Fault_AddHungupAndCrash` of `fault.c`, which is not
among the sources; see `Fault_AddHungupAndCrashImpl`. -/
def Fault_AddHungupAndCrash {α : Type} (file : String) (line : Nat) : M α := do
  emit (.Fault_AddHungupAndCrash file line)
  halt .hungup

/-- The function `osGetTime`: the next value of the clock. -/
def osGetTime (env : Env) : M Nat := fun s =>
  let t := env.osGetTime s.nTime % 2 ^ 64
  .ok t { (s.emit (.osGetTime t)) with nTime := s.nTime + 1 }

/-! ## The context queue -/

/-- Modelled from the spec: the sending half of the message-queue primitive,
"bounded FIFO with blocking/non-blocking send and receive". A message another
thread sends goes behind the `validCount` messages that start at `first`; a
full queue takes no message. -/
def OSMesgQueue.put (qb : OSMesgQueue × (Nat → Nat)) (m : Nat) : OSMesgQueue × (Nat → Nat) :=
  if qb.1.validCount < qb.1.msgCount then
    let last := ((qb.1.first + qb.1.validCount) % qb.1.msgCount).toNat
    ({ qb.1 with validCount := qb.1.validCount + 1 }, fun i => if i = last then m else qb.2 i)
  else
    qb

/-- The context queue once the messages `ms` of other threads have arrived. -/
def Sys.deliver (s : Sys) (ms : List Nat) : Sys :=
  let qb := ms.foldl OSMesgQueue.put (s.gfxCtx.queue, s.gfxCtx.msgBuff)
  { s with gfxCtx := { s.gfxCtx with queue := qb.1, msgBuff := qb.2 } }

def OS_MESG_NOBLOCK : Bool := false
def OS_MESG_BLOCK : Bool := true

/-- The context queue at the `k`-th receive of the graph thread (`k` is `nRecv`),
once the messages other threads have sent by then are in it. -/
def Sys.arrived (env : Env) (s : Sys) : Sys :=
  { (s.deliver (env.arrivals s.nRecv)) with nRecv := s.nRecv + 1 }

/-- The message at the front of the context queue, `none` when it is empty. -/
def Sys.front (s : Sys) : Option Nat :=
  if s.gfxCtx.queue.validCount = 0 then none
  else some (s.gfxCtx.msgBuff s.gfxCtx.queue.first.toNat)

/-- The context queue with its front message, if any, taken out. -/
def Sys.dequeue (s : Sys) : Sys :=
  { s with gfxCtx := { s.gfxCtx with
      queue :=
        if s.gfxCtx.queue.validCount = 0 then s.gfxCtx.queue
        else { s.gfxCtx.queue with
          first := (s.gfxCtx.queue.first + 1) % s.gfxCtx.queue.msgCount,
          validCount := s.gfxCtx.queue.validCount - 1 } } }

/-- The state a receive on the context queue leaves: the front message, if any,
is taken out. -/
def Sys.recv (env : Env) (block : Bool) (s : Sys) : Sys :=
  (s.arrived env).dequeue.emit (.osRecvMesg (queueAddr env) block (s.arrived env).front)

/-- Modelled from the spec: `osRecvMesg` on the context queue, the receiving
half of the message-queue primitive: "bounded FIFO", "blocking receive, and
non-blocking receive", "queue-empty on non-blocking receive returns immediately
with a "no message" indication". The result is the message received, `none`
for "no message"; a blocking receive that no message ever answers stops the
thread. -/
def osRecvMesg (env : Env) (block : Bool) : M (Option Nat) := fun s =>
  match (s.arrived env).front with
  | none => if block then .stop .blocked (s.recv env block) else .ok none (s.recv env block)
  | some m => .ok (some m) (s.recv env block)

/-! ## Registers and display-list cursors -/

/-- Read of a register (`s16`, as its 16-bit pattern). -/
def Sys.reg (s : Sys) (r : Nat) : Nat := wrapU16 (s.regs r)

/-- Write of a register. -/
def Sys.setReg (s : Sys) (r v : Nat) : Sys :=
  { s with regs := fun i => if i = r then wrapU16 v else s.regs i }

/-- The statement `*WORK_DISP++ = g`. -/
def put_WORK_DISP (g : Gfx) (s : Sys) : Sys :=
  { s with
    mem := s.mem.store s.gfxCtx.work.p (.gfx g),
    gfxCtx := { s.gfxCtx with work := { s.gfxCtx.work with p := s.gfxCtx.work.p + sizeofGfx } } }

/-- The statement `*POLY_OPA_DISP++ = g`. -/
def put_POLY_OPA_DISP (g : Gfx) (s : Sys) : Sys :=
  { s with
    mem := s.mem.store s.gfxCtx.polyOpa.p (.gfx g),
    gfxCtx := { s.gfxCtx with
      polyOpa := { s.gfxCtx.polyOpa with p := s.gfxCtx.polyOpa.p + sizeofGfx } } }

/-- The statement `*POLY_XLU_DISP++ = g`. -/
def put_POLY_XLU_DISP (g : Gfx) (s : Sys) : Sys :=
  { s with
    mem := s.mem.store s.gfxCtx.polyXlu.p (.gfx g),
    gfxCtx := { s.gfxCtx with
      polyXlu := { s.gfxCtx.polyXlu with p := s.gfxCtx.polyXlu.p + sizeofGfx } } }

/-- The statement `*OVERLAY_DISP++ = g`. -/
def put_OVERLAY_DISP (g : Gfx) (s : Sys) : Sys :=
  { s with
    mem := s.mem.store s.gfxCtx.overlay.p (.gfx g),
    gfxCtx := { s.gfxCtx with
      overlay := { s.gfxCtx.overlay with p := s.gfxCtx.overlay.p + sizeofGfx } } }

/-- The condition under which `Graph_OpenDisps` and `Graph_CloseDisps` act. -/
def dispsMarked (env : Env) (s : Sys) : Bool :=
  decide (s.reg env.R_HREG_MODE = wrapU16 env.HREG_MODE_UCODE_DISAS) &&
    decide (s.reg env.R_UCODE_DISAS_LOG_MODE ≠ 4)

/-- Debug builds only. The result carries the array `dispRefs`. -/
def Graph_OpenDisps (env : Env) (dispRefs : Nat → Nat) (file : String) (line : Nat) (s : Sys) :
    (Nat → Nat) × Sys :=
  if dispsMarked env s then
    let dispRefs := fun i =>
      if i = 0 then s.gfxCtx.polyOpa.p
      else if i = 1 then s.gfxCtx.polyXlu.p
      else if i = 2 then s.gfxCtx.overlay.p
      else dispRefs i
    let s := put_POLY_OPA_DISP (.gDPNoOpOpenDisp file line) s
    let s := put_POLY_XLU_DISP (.gDPNoOpOpenDisp file line) s
    let s := put_OVERLAY_DISP (.gDPNoOpOpenDisp file line) s
    (dispRefs, s)
  else
    (dispRefs, s)

/-- Debug builds only. -/
def Graph_CloseDisps (env : Env) (dispRefs : Nat → Nat) (file : String) (line : Nat) (s : Sys) :
    Sys :=
  if dispsMarked env s then
    let s :=
      if dispRefs 0 + sizeofGfx = s.gfxCtx.polyOpa.p then
        { s with gfxCtx := { s.gfxCtx with polyOpa := { s.gfxCtx.polyOpa with p := dispRefs 0 } } }
      else
        put_POLY_OPA_DISP (.gDPNoOpCloseDisp file line) s
    let s :=
      if dispRefs 1 + sizeofGfx = s.gfxCtx.polyXlu.p then
        { s with gfxCtx := { s.gfxCtx with polyXlu := { s.gfxCtx.polyXlu with p := dispRefs 1 } } }
      else
        put_POLY_XLU_DISP (.gDPNoOpCloseDisp file line) s
    if dispRefs 2 + sizeofGfx = s.gfxCtx.overlay.p then
      { s with gfxCtx := { s.gfxCtx with overlay := { s.gfxCtx.overlay with p := dispRefs 2 } } }
    else
      put_OVERLAY_DISP (.gDPNoOpCloseDisp file line) s
  else
    s

/-- The opening half `OPEN_DISPS(gfxCtx, file, line)` of a display block; the
result carries the local array `dispRefs` of the block. -/
def OPEN_DISPS (env : Env) (file : String) (line : Nat) (s : Sys) : (Nat → Nat) × Sys :=
  if env.DEBUG_FEATURES then
    Graph_OpenDisps env env.dispRefsGarbage file line s
  else
    (env.dispRefsGarbage, s)

/-- The closing half `CLOSE_DISPS(gfxCtx, file, line)` of a display block. -/
def CLOSE_DISPS (env : Env) (dispRefs : Nat → Nat) (file : String) (line : Nat) (s : Sys) : Sys :=
  if env.DEBUG_FEATURES then
    Graph_CloseDisps env dispRefs file line s
  else
    s

/-- Debug builds only. -/
def Graph_DisassembleUCode (env : Env) (workBuf : Nat) (s : Sys) : Sys :=
  if s.reg env.R_HREG_MODE = wrapU16 env.HREG_MODE_UCODE_DISAS
      ∧ s.reg env.R_UCODE_DISAS_TOGGLE ≠ 0 then
    let enableLog := s.reg env.R_UCODE_DISAS_LOG_LEVEL
    let s := s.emit (.UCodeDisas_Disassemble workBuf)
    let disassembler := env.UCodeDisas_Disassemble s.mem workBuf enableLog
    let s := s.setReg env.R_UCODE_DISAS_DL_COUNT disassembler.dlCnt
    let s := s.setReg env.R_UCODE_DISAS_TOTAL_COUNT
      (disassembler.tri2Cnt * 2 + disassembler.tri1Cnt + (disassembler.quadCnt * 2)
        + disassembler.lineCnt)
    let s := s.setReg env.R_UCODE_DISAS_VTX_COUNT disassembler.vtxCnt
    let s := s.setReg env.R_UCODE_DISAS_SPVTX_COUNT disassembler.spvtxCnt
    let s := s.setReg env.R_UCODE_DISAS_TRI1_COUNT disassembler.tri1Cnt
    let s := s.setReg env.R_UCODE_DISAS_TRI2_COUNT disassembler.tri2Cnt
    let s := s.setReg env.R_UCODE_DISAS_QUAD_COUNT disassembler.quadCnt
    let s := s.setReg env.R_UCODE_DISAS_LINE_COUNT disassembler.lineCnt
    let s := s.setReg env.R_UCODE_DISAS_SYNC_ERROR_COUNT disassembler.syncErr
    let s := s.setReg env.R_UCODE_DISAS_LOAD_COUNT disassembler.loaducodeCnt
    if s.reg env.R_UCODE_DISAS_LOG_MODE = 1 ∨ s.reg env.R_UCODE_DISAS_LOG_MODE = 2 then
      let s := s.emit (.printf "vtx_cnt=%d\n")
      let s := s.emit (.printf "spvtx_cnt=%d\n")
      let s := s.emit (.printf "tri1_cnt=%d\n")
      let s := s.emit (.printf "tri2_cnt=%d\n")
      let s := s.emit (.printf "quad_cnt=%d\n")
      let s := s.emit (.printf "line_cnt=%d\n")
      let s := s.emit (.printf "sync_err=%d\n")
      let s := s.emit (.printf "loaducode_cnt=%d\n")
      let s := s.emit (.printf "dl_depth=%d\n")
      s.emit (.printf "dl_cnt=%d\n")
    else
      s
  else
    s

/-! ## `Graph_TaskSet00` -/

/-- The diagnostic output of `Graph_TaskSet00` when the RCP did not answer
(debug builds). -/
def Graph_TaskSet00_hangLog (env : Env) (s : Sys) : Sys :=
  let s := s.emit (.printf "VT_FGCOL(RED)")
  let s := s.emit (.printf "RCP did not return.")
  let s := s.emit (.printf "VT_RST")
  let s := s.emit (.LogUtils_LogHexDump "PHYS_TO_K1(SP_BASE_REG)")
  let s := s.emit (.LogUtils_LogHexDump "PHYS_TO_K1(DPC_BASE_REG)")
  let s := s.emit (.LogUtils_LogHexDump "gGfxSPTaskYieldBuffer")
  let s := s.setReg env.SREG_6 0xFFFF
  if s.sPrevTaskWorkBuffer ≠ 0 then
    let s := s.setReg env.R_HREG_MODE env.HREG_MODE_UCODE_DISAS
    let s := s.setReg env.R_UCODE_DISAS_TOGGLE 1
    let s := s.setReg env.R_UCODE_DISAS_LOG_LEVEL 2
    Graph_DisassembleUCode env s.sPrevTaskWorkBuffer s
  else
    s

/-- The call `osSetTimer(&timer, OS_USEC_TO_CYCLES(3000000), 0, &gfxCtx->queue,
(OSMesg)666)`. -/
def timerEvent (env : Env) : Event :=
  .osSetTimer (env.OS_USEC_TO_CYCLES 3000000) 0 (queueAddr env) 666

/-- The RCP-timeout handshake for the previous task (the first block of
`Graph_TaskSet00`). -/
def Graph_TaskSet00_handshake (env : Env) : M Unit := do
  -- Schedule a message to be handled in 3 seconds, for RCP timeout
  emit (timerEvent env)
  let msg ← osRecvMesg env OS_MESG_BLOCK
  emit .osStopTimer
  if msg = some 666 then
    if env.DEBUG_FEATURES then
      run (Graph_TaskSet00_hangLog env)
    Fault_AddHungupAndCrashImpl "RCP is HUNG UP!!" "Oh! MY GOD!!"
  let _ ← osRecvMesg env OS_MESG_NOBLOCK
  if env.DEBUG_FEATURES then
    run fun s => { s with sPrevTaskWorkBuffer := s.gfxCtx.workBuffer }

/-- The per-frame callback of `Graph_TaskSet00`. -/
def Graph_TaskSet00_callback (env : Env) : M Unit := do
  let s ← getS
  if s.gfxCtx.callback ≠ 0 then
    emit (.callback s.gfxCtx.callback s.gfxCtx.callbackParam)
    run fun s1 => s1.external (env.callback s.gfxCtx.callback s.gfxCtx.callbackParam)

/-- The audio-time bookkeeping of `Graph_TaskSet00`. -/
def Graph_TaskSet00_time (env : Env) : M Unit := do
  let timeNow ← osGetTime env
  let s ← getS
  if s.gAudioThreadUpdateTimeStart ≠ 0 then
    run fun s => { s with
      gAudioThreadUpdateTimeAcc :=
        add64 s.gAudioThreadUpdateTimeAcc (sub64 timeNow s.gAudioThreadUpdateTimeStart) }
    run fun s => { s with gAudioThreadUpdateTimeStart := timeNow }
  run fun s => { s with gAudioThreadUpdateTimeTotalPerGfxTask := s.gAudioThreadUpdateTimeAcc }
  run fun s => { s with gAudioThreadUpdateTimeAcc := 0 }
  let t ← osGetTime env
  run fun s => { s with sGraphPrevTaskTimeStart := t }

/-- The statements of `Graph_TaskSet00` that fill `task` (`gfxCtx->task.list.t`). -/
def Graph_TaskSet00_task (env : Env) (s : Sys) : Sys :=
  let setT (f : OSTask_t → OSTask_t) (s : Sys) : Sys :=
    { s with gfxCtx := { s.gfxCtx with task := { s.gfxCtx.task with list := f s.gfxCtx.task.list } } }
  let s := setT (fun t => { t with type := env.M_GFXTASK }) s
  let s := setT (fun t => { t with flags := env.OS_SC_DRAM_DLIST }) s
  let s := setT (fun t => { t with ucode_boot := env.SysUcode_GetUCodeBoot }) s
  let s := setT (fun t => { t with ucode_boot_size := env.SysUcode_GetUCodeBootSize }) s
  let s := setT (fun t => { t with ucode := env.SysUcode_GetUCode }) s
  let s := setT (fun t => { t with ucode_data := env.SysUcode_GetUCodeData }) s
  let s := setT (fun t => { t with ucode_size := env.SP_UCODE_SIZE }) s
  let s := setT (fun t => { t with ucode_data_size := env.SP_UCODE_DATA_SIZE }) s
  let s := setT (fun t => { t with dram_stack := env.gGfxSPTaskStack }) s
  let s := setT (fun t => { t with dram_stack_size := env.sizeof_gGfxSPTaskStack }) s
  let s := setT (fun t => { t with output_buff := env.gGfxSPTaskOutputBuffer }) s
  let s := setT (fun t => { t with
    output_buff_size := env.gGfxSPTaskOutputBuffer + env.sizeof_gGfxSPTaskOutputBuffer }) s
  let s := setT (fun t => { t with data_ptr := s.gfxCtx.workBuffer }) s
  -- OPEN_DISPS(gfxCtx, "../graph.c", 828);
  let disps := OPEN_DISPS env "../graph.c" 828 s
  let dispRefs := disps.1
  let s := disps.2
  let s := setT (fun t => { t with data_size := sub32 s.gfxCtx.work.p s.gfxCtx.workBuffer }) s
  let s := CLOSE_DISPS env dispRefs "../graph.c" 830 s
  let s := setT (fun t => { t with yield_data_ptr := env.gGfxSPTaskYieldBuffer }) s
  setT (fun t => { t with yield_data_size := env.sizeof_gGfxSPTaskYieldBuffer }) s

/-- The value of `flags & ~bits` on `u32`. -/
def clearBits32 (flags bits : Nat) : Nat := flags &&& (0xFFFFFFFF ^^^ wrapU32 bits)

/-- The statements of `Graph_TaskSet00` that fill `scTask` (`gfxCtx->task`) up to
its completion message. -/
def Graph_TaskSet00_scTask (env : Env) (s : Sys) : Sys :=
  let s := { s with gfxCtx := { s.gfxCtx with task := { s.gfxCtx.task with next := 0 } } }
  let s := { s with gfxCtx := { s.gfxCtx with task := { s.gfxCtx.task with
    flags := env.OS_SC_NEEDS_RSP ||| env.OS_SC_NEEDS_RDP ||| env.OS_SC_SWAPBUFFER
      ||| env.OS_SC_LAST_TASK } } }
  let s :=
    if s.reg env.R_GRAPH_TASKSET00_FLAGS &&& 1 ≠ 0 then
      let s := s.setReg env.R_GRAPH_TASKSET00_FLAGS (s.reg env.R_GRAPH_TASKSET00_FLAGS &&& 0xFFFE)
      let s := { s with gfxCtx := { s.gfxCtx with task := { s.gfxCtx.task with
        flags := clearBits32 s.gfxCtx.task.flags env.OS_SC_SWAPBUFFER } } }
      { s with gfxCtx := { s.gfxCtx with fbIdx := wrapS32 (s.gfxCtx.fbIdx - 1) } }
    else
      s
  let s := { s with gfxCtx := { s.gfxCtx with task := { s.gfxCtx.task with
    msgQueue := queueAddr env } } }
  { s with gfxCtx := { s.gfxCtx with task := { s.gfxCtx.task with msg := 0 } } }

/-- The block of `Graph_TaskSet00` that fills the next frame-buffer record. -/
def Graph_TaskSet00_cfb (env : Env) (s : Sys) : Sys :=
  let cfb := s.sGraphCfbInfoIdx.toNat
  let setCfb (f : CfbInfo → CfbInfo) (s : Sys) : Sys :=
    { s with sGraphCfbInfos := fun i => if i = cfb then f (s.sGraphCfbInfos i) else s.sGraphCfbInfos i }
  let s := { s with sGraphCfbInfoIdx := Int.tmod (wrapS32 (s.sGraphCfbInfoIdx + 1)) 3 }
  let s := setCfb (fun c => { c with framebuffer := s.gfxCtx.curFrameBuffer }) s
  let s := setCfb (fun c => { c with swapBuffer := s.gfxCtx.curFrameBuffer }) s
  let s := setCfb (fun c => { c with viMode := s.gfxCtx.viMode }) s
  let s := setCfb (fun c => { c with viFeatures := s.gfxCtx.viFeatures }) s
  let s :=
    if env.OOT_VERSION ≥ env.PAL_1_0 then
      let s := setCfb (fun c => { c with xScale := s.gfxCtx.xScale }) s
      setCfb (fun c => { c with yScale := s.gfxCtx.yScale }) s
    else
      s
  let s := setCfb (fun c => { c with unk_10 := 0 }) s
  let s := setCfb (fun c => { c with updateRate := s.reg env.R_UPDATE_RATE }) s
  { s with gfxCtx := { s.gfxCtx with task := { s.gfxCtx.task with framebuffer := some cfb } } }

/-- The blocking send of the task to the scheduler, and its notification. The
message is the address of `gfxCtx->task`; the event carries the record it
points to. The scheduler thread empties its command queue, so the send
returns. -/
def Graph_TaskSet00_send (env : Env) : M Unit := do
  run fun s => { s with gfxCtx := { s.gfxCtx with schedMsgQueue := env.gScheduler_cmdQueue } }
  let s ← getS
  emit (.osSendMesg env.gScheduler_cmdQueue s.gfxCtx.task OS_MESG_BLOCK)
  emit .Sched_Notify

/-- The function `Graph_TaskSet00` up to the point where it tests the
swap-suppression flag: handshake, callback, time bookkeeping, task record. -/
def Graph_TaskSet00_head (env : Env) : M Unit := do
  emit (.call "Graph_TaskSet00")
  let t ← osGetTime env
  run fun s => { s with
    gGfxTaskSentToNextReadyMinusAudioThreadUpdateTime :=
      sub64 (sub64 t s.sGraphPrevTaskTimeStart) s.gAudioThreadUpdateTimeAcc }
  Graph_TaskSet00_handshake env
  Graph_TaskSet00_callback env
  Graph_TaskSet00_time env
  run (Graph_TaskSet00_task env)

def Graph_TaskSet00 (env : Env) : M Unit := do
  Graph_TaskSet00_head env
  run (Graph_TaskSet00_scTask env)
  run (Graph_TaskSet00_cfb env)
  Graph_TaskSet00_send env

/-! ## `Graph_Update` -/

/-- The `u16` field at address `a`: `none` once a command word has been stored
over it (no command starts with one of the two magic values). -/
def Mem.half (m : Mem) (a : Nat) : Option Nat :=
  match m a with
  | .half v => some v
  | .gfx _ => none

/-- The macro `CHECK_BTN_ALL(state, combo)` of `controller.h`. -/
def CHECK_BTN_ALL (state combo : Nat) : Bool := decide (state &&& combo = combo)

/-- The macro `SET_NEXT_GAMESTATE(curState, nextInit, nextSize)` of `z64game.h`. -/
def SET_NEXT_GAMESTATE (nextInit nextSize : Nat) (s : Sys) : Sys :=
  { s with gameState := { s.gameState with init := nextInit, size := nextSize } }

/-- Start of the frame: the pool of this frame is bound, and in debug builds
each region gets its start marker. -/
def Graph_Update_begin (env : Env) (s : Sys) : Sys :=
  let s := { s with gameState := { s.gameState with inPreNMIState := 0 } }
  let s := Graph_InitTHGA env s
  if env.DEBUG_FEATURES then
    let disps := OPEN_DISPS env "../graph.c" 966 s
    let dispRefs := disps.1
    let s := disps.2
    let s := put_WORK_DISP (.gDPNoOpString "WORK_DISP 開始" 0) s
    let s := put_POLY_OPA_DISP (.gDPNoOpString "POLY_OPA_DISP 開始" 0) s
    let s := put_POLY_XLU_DISP (.gDPNoOpString "POLY_XLU_DISP 開始" 0) s
    let s := put_OVERLAY_DISP (.gDPNoOpString "OVERLAY_DISP 開始" 0) s
    CLOSE_DISPS env dispRefs "../graph.c" 975 s
  else
    s

/-- The calls `GameState_ReqPadData(gameState); GameState_Update(gameState);`
into `game.c`, and in debug builds the end marker of each region. -/
def Graph_Update_game (env : Env) (s : Sys) : Sys :=
  let s := (s.emit .GameState_ReqPadData).external env.GameState_ReqPadData
  let s := (s.emit .GameState_Update).external env.GameState_Update
  if env.DEBUG_FEATURES then
    let disps := OPEN_DISPS env "../graph.c" 987 s
    let dispRefs := disps.1
    let s := disps.2
    let s := put_WORK_DISP (.gDPNoOpString "WORK_DISP 終了" 0) s
    let s := put_POLY_OPA_DISP (.gDPNoOpString "POLY_OPA_DISP 終了" 0) s
    let s := put_POLY_XLU_DISP (.gDPNoOpString "POLY_XLU_DISP 終了" 0) s
    let s := put_OVERLAY_DISP (.gDPNoOpString "OVERLAY_DISP 終了" 0) s
    CLOSE_DISPS env dispRefs "../graph.c" 996 s
  else
    s

/-- The display block of `Graph_Update` that chains the four regions. -/
def Graph_Update_chain (env : Env) (s : Sys) : Sys :=
  let disps := OPEN_DISPS env "../graph.c" 999 s
  let dispRefs := disps.1
  let s := disps.2
  let s := put_WORK_DISP (.gSPBranchList s.gfxCtx.polyOpaBuffer) s
  let s := put_POLY_OPA_DISP (.gSPBranchList s.gfxCtx.polyXluBuffer) s
  let s := put_POLY_XLU_DISP (.gSPBranchList s.gfxCtx.overlayBuffer) s
  let s := put_OVERLAY_DISP .gDPPipeSync s
  let s := put_OVERLAY_DISP .gDPFullSync s
  let s := put_OVERLAY_DISP .gSPEndDisplayList s
  CLOSE_DISPS env dispRefs "../graph.c" 1028 s

/-- The switch of the registers from play mode to disassembly mode (start of the
debug block of `Graph_Update`). -/
def Graph_Update_disas_mode (env : Env) (s : Sys) : Sys :=
  if s.reg env.R_HREG_MODE = wrapU16 env.HREG_MODE_PLAY
      ∧ s.reg env.R_PLAY_ENABLE_UCODE_DISAS = 2 then
    let s := s.setReg env.R_HREG_MODE env.HREG_MODE_UCODE_DISAS
    let s := s.setReg env.R_UCODE_DISAS_TOGGLE 0xFFFF
    s.setReg env.R_UCODE_DISAS_LOG_LEVEL (s.reg env.R_PLAY_UCODE_DISAS_LOG_LEVEL)
  else
    s

/-- The statements of the debug block before `Graph_DisassembleUCode`. -/
def Graph_Update_disas_pre (env : Env) (s : Sys) : Sys :=
  if s.reg env.R_UCODE_DISAS_LOG_MODE = 3 then
    s.emit (.Fault_AddClient "sGraphUcodeFaultClient")
  else s

/-- The statements of the debug block after `Graph_DisassembleUCode`. -/
def Graph_Update_disas_post (env : Env) (s : Sys) : Sys :=
  let s :=
    if s.reg env.R_UCODE_DISAS_LOG_MODE = 3 then
      s.emit (.Fault_RemoveClient "sGraphUcodeFaultClient")
    else s
  let s :=
    if s.reg env.R_UCODE_DISAS_TOGGLE ≥ 0x8000 then
      let s := s.emit (.LogUtils_LogHexDump "PHYS_TO_K1(SP_BASE_REG)")
      s.emit (.LogUtils_LogHexDump "PHYS_TO_K1(DPC_BASE_REG)")
    else s
  if s.reg env.R_UCODE_DISAS_TOGGLE ≥ 0x8000 then
    s.setReg env.R_UCODE_DISAS_TOGGLE 0
  else s

/-- The microcode disassembly of `Graph_Update` (debug builds). -/
def Graph_Update_disas (env : Env) (s : Sys) : Sys :=
  if env.DEBUG_FEATURES then
    let s := Graph_Update_disas_mode env s
    if s.reg env.R_HREG_MODE = wrapU16 env.HREG_MODE_UCODE_DISAS
        ∧ s.reg env.R_UCODE_DISAS_TOGGLE ≠ 0 then
      let s := Graph_Update_disas_pre env s
      let s := Graph_DisassembleUCode env s.gfxCtx.workBuffer s
      Graph_Update_disas_post env s
    else
      s
  else
    s

/-- Everything `Graph_Update` does before it validates the pool. -/
def Graph_Update_build (env : Env) (s : Sys) : Sys :=
  Graph_Update_disas env (Graph_Update_chain env (Graph_Update_game env (Graph_Update_begin env s)))

/-- The line of the `Fault_AddHungupAndCrash` call for a corrupted head sentinel. -/
def headFaultLine (env : Env) : Nat :=
  if env.OOT_VERSION < env.NTSC_1_1 then 937
  else if env.OOT_VERSION < env.PAL_1_0 then 940
  else if env.OOT_VERSION < env.GC_JP then 951
  else 1070

/-- The line of the `Fault_AddHungupAndCrash` call for a corrupted tail sentinel. -/
def tailFaultLine (env : Env) : Nat :=
  if env.OOT_VERSION < env.NTSC_1_1 then 943
  else if env.OOT_VERSION < env.PAL_1_0 then 946
  else if env.OOT_VERSION < env.GC_JP then 957
  else 1076

/-- The end-of-frame validation of `Graph_Update`: it computes the local
`problem`. -/
def Graph_Update_validate (env : Env) : M Unit := do
  run fun s => { s with problem := false }
  let s ← getS
  let pool := gGfxPoolsAt env (s.gfxCtx.gfxPoolIdx &&& 1)
  if s.mem.half (pool + GfxPool.headMagic) ≠ some GFXPOOL_HEAD_MAGIC then
    --! @bug (?) : "problem = true;" may be missing
    PRINTF "%c"
    PRINTF "Dynamic area head is destroyed\n"
    Fault_AddHungupAndCrash "../graph.c" (headFaultLine env)
  if s.mem.half (pool + GfxPool.tailMagic) ≠ some GFXPOOL_TAIL_MAGIC then
    run fun s => { s with problem := true }
    PRINTF "%c"
    PRINTF "Dynamic region tail is destroyed\n"
    Fault_AddHungupAndCrash "../graph.c" (tailFaultLine env)
  if THGA_IsCrash s.gfxCtx.polyOpa then
    run fun s => { s with problem := true }
    PRINTF "%c"
    PRINTF "Zelda 0 is dead (graph_alloc is empty)\n"
  if THGA_IsCrash s.gfxCtx.polyXlu then
    run fun s => { s with problem := true }
    PRINTF "%c"
    PRINTF "Zelda 1 is dead (graph_alloc is empty)\n"
  if THGA_IsCrash s.gfxCtx.overlay then
    run fun s => { s with problem := true }
    PRINTF "%c"
    PRINTF "Zelda 4 is dead (graph_alloc is empty)\n"

/-- The submission of the frame's task when the validation found no problem. -/
def Graph_Update_submit (env : Env) : M Unit := do
  let s ← getS
  if !s.problem then
    Graph_TaskSet00 env
    run fun s => { s with gfxCtx := { s.gfxCtx with gfxPoolIdx := wrapU32 (s.gfxCtx.gfxPoolIdx + 1) } }
    run fun s => { s with gfxCtx := { s.gfxCtx with fbIdx := wrapS32 (s.gfxCtx.fbIdx + 1) } }

/-- The timing bookkeeping of `Graph_Update`. -/
def Graph_Update_time (env : Env) : M Unit := do
  let timeNow ← osGetTime env
  run fun s => { s with gRSPGfxTimeTotal := s.gRSPGfxTimeAcc }
  run fun s => { s with gRSPAudioTimeTotal := s.gRSPAudioTimeAcc }
  run fun s => { s with gRDPTimeTotal := s.gRDPTimeAcc }
  run fun s => { s with gRSPGfxTimeAcc := 0 }
  run fun s => { s with gRSPAudioTimeAcc := 0 }
  run fun s => { s with gRDPTimeAcc := 0 }
  let s ← getS
  if s.sGraphPrevUpdateEndTime ≠ 0 then
    run fun s => { s with gGraphUpdatePeriod := sub64 timeNow s.sGraphPrevUpdateEndTime }
  run fun s => { s with sGraphPrevUpdateEndTime := timeNow }

/-- The state-transition shortcuts at the end of `Graph_Update` (debug builds). -/
def Graph_Update_transitions (env : Env) (s : Sys) : Sys :=
  if env.DEBUG_FEATURES then
    let s :=
      if s.gIsCtrlr2Valid ≠ 0 ∧ CHECK_BTN_ALL s.gameState.input0_press_button env.BTN_Z
          ∧ CHECK_BTN_ALL s.gameState.input0_cur_button (env.BTN_L ||| env.BTN_R) then
        let s := { s with gSaveContext_gameMode := env.GAMEMODE_NORMAL }
        let s := SET_NEXT_GAMESTATE env.MapSelect_Init env.sizeof_MapSelectState s
        { s with gameState := { s.gameState with running := 0 } }
      else s
    if s.gIsCtrlr2Valid ≠ 0 ∧ s.preNmiResetting ≠ 0 ∧ s.gameState.inPreNMIState = 0 then
      let s := s.emit (.printf "PRE-NMI causes the system to transition to reset mode\n")
      let s := SET_NEXT_GAMESTATE env.PreNMI_Init env.sizeof_PreNMIState s
      { s with gameState := { s.gameState with running := 0 } }
    else s
  else
    s

def Graph_Update (env : Env) : M Unit := do
  emit (.call "Graph_Update")
  run (Graph_Update_build env)
  Graph_Update_validate env
  Graph_Update_submit env
  run fun s => (s.emit .Audio_Update).external env.Audio_Update
  Graph_Update_time env
  run (Graph_Update_transitions env)

/-! ## What the blocks of `Graph_TaskSet00` leave when they return -/

/-- The state `Graph_TaskSet00_handshake` leaves when the blocking receive
returns a message other than 666. -/
def Graph_TaskSet00_handshake_ok (env : Env) (s : Sys) : Sys :=
  let s := (((s.emit (timerEvent env)).recv env OS_MESG_BLOCK).emit .osStopTimer).recv env
    OS_MESG_NOBLOCK
  if env.DEBUG_FEATURES then { s with sPrevTaskWorkBuffer := s.gfxCtx.workBuffer } else s

/-- The state in which `Graph_TaskSet00_handshake` calls the fault handler when
the blocking receive returns the message 666. -/
def Graph_TaskSet00_handshake_hung (env : Env) (s : Sys) : Sys :=
  let s := ((s.emit (timerEvent env)).recv env OS_MESG_BLOCK).emit .osStopTimer
  let s := if env.DEBUG_FEATURES then Graph_TaskSet00_hangLog env s else s
  s.emit (.Fault_AddHungupAndCrashImpl "RCP is HUNG UP!!" "Oh! MY GOD!!")

/-- The state `Graph_TaskSet00_callback` leaves. -/
def Graph_TaskSet00_callback_ok (env : Env) (s : Sys) : Sys :=
  if s.gfxCtx.callback ≠ 0 then
    (s.emit (.callback s.gfxCtx.callback s.gfxCtx.callbackParam)).external
      (env.callback s.gfxCtx.callback s.gfxCtx.callbackParam)
  else s

/-- The state `Graph_TaskSet00_time` leaves. -/
def Graph_TaskSet00_time_ok (env : Env) (s : Sys) : Sys :=
  let timeNow := env.osGetTime s.nTime % 2 ^ 64
  let t := env.osGetTime (s.nTime + 1) % 2 ^ 64
  { s with
    nTime := s.nTime + 2,
    trace := s.trace ++ [.osGetTime timeNow, .osGetTime t],
    gAudioThreadUpdateTimeStart :=
      if s.gAudioThreadUpdateTimeStart ≠ 0 then timeNow else s.gAudioThreadUpdateTimeStart,
    gAudioThreadUpdateTimeTotalPerGfxTask :=
      if s.gAudioThreadUpdateTimeStart ≠ 0 then
        add64 s.gAudioThreadUpdateTimeAcc (sub64 timeNow s.gAudioThreadUpdateTimeStart)
      else s.gAudioThreadUpdateTimeAcc,
    gAudioThreadUpdateTimeAcc := 0,
    sGraphPrevTaskTimeStart := t }

/-- The state `Graph_TaskSet00` is in when it starts the handshake. -/
def Graph_TaskSet00_enter (env : Env) (s : Sys) : Sys :=
  let s := s.emit (.call "Graph_TaskSet00")
  let t := env.osGetTime s.nTime % 2 ^ 64
  let s := { (s.emit (.osGetTime t)) with nTime := s.nTime + 1 }
  { s with
    gGfxTaskSentToNextReadyMinusAudioThreadUpdateTime :=
      sub64 (sub64 t s.sGraphPrevTaskTimeStart) s.gAudioThreadUpdateTimeAcc }

/-- The state `Graph_TaskSet00_head` leaves when the handshake succeeds. -/
def Graph_TaskSet00_head_ok (env : Env) (s : Sys) : Sys :=
  Graph_TaskSet00_task env (Graph_TaskSet00_time_ok env (Graph_TaskSet00_callback_ok env
    (Graph_TaskSet00_handshake_ok env (Graph_TaskSet00_enter env s))))

/-- The state `Graph_TaskSet00_send` leaves. -/
def Graph_TaskSet00_send_ok (env : Env) (s : Sys) : Sys :=
  let s := { s with gfxCtx := { s.gfxCtx with schedMsgQueue := env.gScheduler_cmdQueue } }
  (s.emit (.osSendMesg env.gScheduler_cmdQueue s.gfxCtx.task OS_MESG_BLOCK)).emit .Sched_Notify

/-- The state `Graph_TaskSet00` leaves, from the state in which it tests the
swap-suppression flag. -/
def Graph_TaskSet00_tail_ok (env : Env) (s : Sys) : Sys :=
  Graph_TaskSet00_send_ok env (Graph_TaskSet00_cfb env (Graph_TaskSet00_scTask env s))

/-! ## What the blocks of `Graph_Update` leave -/

/-- The state in which the validation calls the fault handler for a corrupted
head sentinel. -/
def Graph_Update_validate_head (env : Env) (s : Sys) : Sys :=
  let s := { s with problem := false }
  let s := s.emit (.printf "%c")
  let s := s.emit (.printf "Dynamic area head is destroyed\n")
  s.emit (.Fault_AddHungupAndCrash "../graph.c" (headFaultLine env))

/-- The state in which the validation calls the fault handler for a corrupted
tail sentinel (under an intact head sentinel). -/
def Graph_Update_validate_tail (env : Env) (s : Sys) : Sys :=
  let s := { s with problem := true }
  let s := s.emit (.printf "%c")
  let s := s.emit (.printf "Dynamic region tail is destroyed\n")
  s.emit (.Fault_AddHungupAndCrash "../graph.c" (tailFaultLine env))

/-- The state the validation leaves when both sentinels are intact. -/
def Graph_Update_validate_ok (s : Sys) : Sys :=
  let s := { s with problem := false }
  let s :=
    if THGA_IsCrash s.gfxCtx.polyOpa then
      ({ s with problem := true }.emit (.printf "%c")).emit
        (.printf "Zelda 0 is dead (graph_alloc is empty)\n")
    else s
  let s :=
    if THGA_IsCrash s.gfxCtx.polyXlu then
      ({ s with problem := true }.emit (.printf "%c")).emit
        (.printf "Zelda 1 is dead (graph_alloc is empty)\n")
    else s
  if THGA_IsCrash s.gfxCtx.overlay then
    ({ s with problem := true }.emit (.printf "%c")).emit
      (.printf "Zelda 4 is dead (graph_alloc is empty)\n")
  else s

/-- The state `Graph_Update_time` leaves. -/
def Graph_Update_time_ok (env : Env) (s : Sys) : Sys :=
  let timeNow := env.osGetTime s.nTime % 2 ^ 64
  { s with
    nTime := s.nTime + 1,
    trace := s.trace ++ [.osGetTime timeNow],
    gRSPGfxTimeTotal := s.gRSPGfxTimeAcc,
    gRSPAudioTimeTotal := s.gRSPAudioTimeAcc,
    gRDPTimeTotal := s.gRDPTimeAcc,
    gRSPGfxTimeAcc := 0, gRSPAudioTimeAcc := 0, gRDPTimeAcc := 0,
    gGraphUpdatePeriod :=
      if s.sGraphPrevUpdateEndTime ≠ 0 then sub64 timeNow s.sGraphPrevUpdateEndTime
      else s.gGraphUpdatePeriod,
    sGraphPrevUpdateEndTime := timeNow }

/-- What `Graph_Update` does after the submission block: audio update, timing
bookkeeping, state transitions. -/
def Graph_Update_finish (env : Env) (s : Sys) : Sys :=
  Graph_Update_transitions env
    (Graph_Update_time_ok env ((s.emit .Audio_Update).external env.Audio_Update))

/-- The two increments `gfxCtx->gfxPoolIdx++; gfxCtx->fbIdx++;` after the
submission. -/
def Graph_Update_advance (s : Sys) : Sys :=
  let s := { s with gfxCtx := { s.gfxCtx with gfxPoolIdx := wrapU32 (s.gfxCtx.gfxPoolIdx + 1) } }
  { s with gfxCtx := { s.gfxCtx with fbIdx := wrapS32 (s.gfxCtx.fbIdx + 1) } }

/-! ## `Graph_GetNextGameState` and `Graph_ThreadEntry` -/

/-- Modelled from the spec: `GameState_GetInit` of `game.c`, which is not among
the sources: "matching the state's init hook against a static table". -/
def GameState_GetInit (gameState : GameState) : Nat := gameState.init

/-- Modelled from the spec: `GameState_IsRunning` of `game.c`, which is not
among the sources: "while the instance's running flag is set". -/
def GameState_IsRunning (gameState : GameState) : Bool := gameState.running != 0

/-- The statements the macro `DEFINE_GAMESTATE_INTERNAL` generates from the entries
of the table, `if (gameStateInitFunc == typeName##_Init) return
&gGameStateOverlayTable[enumName];`, the first of them for the enumerator `i`. The
result is the index of the entry returned. -/
def Graph_GetNextGameState_scan (gameStateInitFunc : Nat) : List Nat → Nat → Option Nat
  | [], _ => none
  | init :: rest, i =>
    if gameStateInitFunc = init then some i
    else Graph_GetNextGameState_scan gameStateInitFunc rest (i + 1)

/-- The result is the index in `gGameStateOverlayTable` of the entry returned
(`none` is `NULL`) and the state. -/
def Graph_GetNextGameState (env : Env) (s0 : Sys) : Option Nat × Sys :=
  let s := s0.emit (.call "Graph_GetNextGameState")
  let gameStateInitFunc := GameState_GetInit s.gameState
  match Graph_GetNextGameState_scan gameStateInitFunc env.gamestate_table 0 with
  | some ovl => (some ovl, s)
  | none => (none, s.emit (.LOG_ADDRESS "game_init_func" gameStateInitFunc "../graph.c" 696))

/-- The macro `SYSTEM_ARENA_MALLOC`. -/
def SYSTEM_ARENA_MALLOC (env : Env) (size : Nat) (file : String) (line : Nat) : M Nat := fun s =>
  .ok (env.SYSTEM_ARENA_MALLOC size s.world).1
    ((s.emit (.SYSTEM_ARENA_MALLOC size file line)).setWorld
      (env.SYSTEM_ARENA_MALLOC size s.world).2)

/-- The text `sprintf(faultMsg, "CLASS SIZE= %d bytes", size)` writes; `%d` prints
the `u32` as an `int`. -/
def faultMsg (size : Nat) : String :=
  "CLASS SIZE= " ++ toString (wrapS32 size) ++ " bytes"

/-- The line of the call of `Fault_AddHungupAndCrash` when the allocation fails. -/
def mallocFaultLine (env : Env) : Nat :=
  if env.OOT_VERSION < env.NTSC_1_1 then 1067
  else if env.OOT_VERSION < env.PAL_1_0 then 1070
  else if env.OOT_VERSION < env.GC_JP then 1081
  else 1200

/-- An iteration of the host loop up to the call of `GameState_Init`; the value is
the pointer `gameState`. -/
def Graph_ThreadEntry_enter (env : Env) (ovl : Nat) : M Nat := do
  run fun s => (s.emit (.Overlay_LoadGameState ovl)).external (env.Overlay_LoadGameState ovl)
  let size := env.instanceSize ovl
  PRINTF "Class size = %d bytes\n"
  let gameState ← SYSTEM_ARENA_MALLOC env size "../graph.c" 1196
  if gameState = 0 then
    if env.DEBUG_FEATURES then do
      PRINTF "Failure to secure\n"
      Fault_AddHungupAndCrashImpl "GAME CLASS MALLOC FAILED" (faultMsg size)
    else
      Fault_AddHungupAndCrash "../graph.c" (mallocFaultLine env)
  run fun s => (s.emit (.GameState_Init gameState (env.ovlInit ovl))).external
    (env.GameState_Init gameState (env.ovlInit ovl))
  pure gameState

/-- The loop `while (GameState_IsRunning(gameState)) { Graph_Update(&gfxCtx,
gameState); }`, run for at most `fuel` frames: `none` when the state still runs
after them. -/
def Graph_ThreadEntry_frames (env : Env) : Nat → Sys → Option (Res Unit)
  | 0, s => if GameState_IsRunning s.gameState then none else some (.ok () s)
  | fuel + 1, s =>
    if GameState_IsRunning s.gameState then
      match Graph_Update env s with
      | .ok _ s1 => Graph_ThreadEntry_frames env fuel s1
      | .stop w s1 => some (.stop w s1)
    else some (.ok () s)

/-- An iteration of the host loop after the frame loop; the value is `nextOvl`. -/
def Graph_ThreadEntry_leave (env : Env) (ovl gameState : Nat) (s : Sys) : Option Nat × Sys :=
  let r := Graph_GetNextGameState env s
  let s := (r.2.emit (.GameState_Destroy gameState)).external (env.GameState_Destroy gameState)
  let s := (s.emit (.SYSTEM_ARENA_FREE gameState "../graph.c" 1227)).external
    (env.SYSTEM_ARENA_FREE gameState)
  let s := (s.emit (.Overlay_FreeGameState ovl)).external (env.Overlay_FreeGameState ovl)
  (r.1, s)

/-- The loop `while (nextOvl != NULL)`, an overlay being its index in
`gGameStateOverlayTable`, run for at most `fuel` iterations of at most `fuel` frames:
`none` when the loop goes on after them. -/
def Graph_ThreadEntry_loop (env : Env) : Nat → Option Nat → Sys → Option (Res Unit)
  | _, none, s => some (.ok () s)
  | 0, some _, _ => none
  | fuel + 1, some ovl, s =>
    match Graph_ThreadEntry_enter env ovl s with
    | .stop w s1 => some (.stop w s1)
    | .ok gameState s1 =>
      match Graph_ThreadEntry_frames env fuel s1 with
      | none => none
      | some (.stop w s2) => some (.stop w s2)
      | some (.ok _ s2) =>
        Graph_ThreadEntry_loop env fuel (Graph_ThreadEntry_leave env ovl gameState s2).1
          (Graph_ThreadEntry_leave env ovl gameState s2).2

def Graph_ThreadEntry (env : Env) (fuel : Nat) (s0 : Sys) : Option (Res Unit) :=
  let s := s0.emit (.printf "Start graphic thread execution\n")
  let s := Graph_Init env s
  match Graph_ThreadEntry_loop env fuel (some env.GAMESTATE_SETUP) s with
  | none => none
  | some (.stop w s1) => some (.stop w s1)
  | some (.ok _ s1) =>
    some (.ok () ((Graph_Destroy env s1).emit (.printf "End of graphic thread execution\n")))

/-! ## Allocation in an arena -/

/-- Modelled from the spec: the macro `ALIGN16`, whose header is not among the
sources: "round size up to a fixed alignment (16 bytes)". The value has the
type of its argument, `size_t` (32 bits): `((x + 0xF) & ~0xF)`. -/
def ALIGN16 (x : Nat) : Nat := wrapU32 (x + 0xF) / 16 * 16

/-- Modelled from the spec: `THGA_AllocTail` of `thga.c`, which is not among
the sources. "`allocate_from_tail(size)` [...] round[s] size up to a fixed
alignment (16 bytes) and return[s] a pointer into the region, advancing the
respective cursor toward the other. If the cursors would cross, the allocation
still returns a pointer". The result is the pointer and the arena. -/
def THGA_AllocTail (thga : TwoHeadGfxArena) (size : Nat) : Nat × TwoHeadGfxArena :=
  let d := sub32 thga.d (ALIGN16 size)
  (d, { thga with d := d })

/-- The result is the pointer returned and the state. -/
def Graph_Alloc (env : Env) (size : Nat) (s : Sys) : Nat × Sys :=
  let thga := s.gfxCtx.polyOpa
  let s :=
    if s.reg env.HREG_59 = 1 then
      s.emit (.printf "graph_alloc siz=%d thga size=%08x bufp=%08x head=%08x tail=%08x\n")
    else s
  let r := THGA_AllocTail thga (ALIGN16 size)
  (r.1, { s with gfxCtx := { s.gfxCtx with polyOpa := r.2 } })

/-- The macro `GRAPH_ALLOC(gfxCtx, size)` of `gfx.h`: the call of `Graph_Alloc` in
debug builds, the tail cursor of the arena of opaque polygons lowered in place in
the others. The result is the value of the expression and the state. -/
def GRAPH_ALLOC (env : Env) (size : Nat) (s : Sys) : Nat × Sys :=
  if env.DEBUG_FEATURES then
    Graph_Alloc env size s
  else
    let d := sub32 s.gfxCtx.polyOpa.d (ALIGN16 size)
    (d, { s with gfxCtx := { s.gfxCtx with polyOpa := { s.gfxCtx.polyOpa with d := d } } })

/-- What code does with an arena between two `Graph_InitTHGA`: it appends a
command at the head cursor (`*p++ = g`, one `Gfx`), or it allocates `size`
bytes at the tail. -/
inductive ArenaOp where
  | append
  | allocTail (size : Nat)
  deriving DecidableEq, Repr

/-- The bytes an operation consumes: a command, or the requested size rounded
up to a multiple of 16. -/
def ArenaOp.bytes : ArenaOp → Nat
  | .append => sizeofGfx
  | .allocTail size => (size + 15) / 16 * 16

/-- The bytes an operation consumes at the tail. -/
def ArenaOp.tailBytes : ArenaOp → Nat
  | .append => 0
  | .allocTail size => (size + 15) / 16 * 16

/-- One operation on an arena: the block it returns (address and length) and
the arena it leaves. -/
def TwoHeadGfxArena.step (a : TwoHeadGfxArena) : ArenaOp → (Nat × Nat) × TwoHeadGfxArena
  | .append => ((a.p, sizeofGfx), { a with p := a.p + sizeofGfx })
  | .allocTail size => (((THGA_AllocTail a size).1, ALIGN16 size), (THGA_AllocTail a size).2)

/-- The arena a sequence of operations leaves. -/
def TwoHeadGfxArena.run (a : TwoHeadGfxArena) : List ArenaOp → TwoHeadGfxArena
  | [] => a
  | op :: ops => (a.step op).2.run ops

/-- The blocks a sequence of operations returns, in their order. -/
def TwoHeadGfxArena.blocks (a : TwoHeadGfxArena) : List ArenaOp → List (Nat × Nat)
  | [] => []
  | op :: ops => (a.step op).1 :: (a.step op).2.blocks ops

/-- The bytes a sequence of operations consumes. -/
def ArenaOp.total (ops : List ArenaOp) : Nat := (ops.map ArenaOp.bytes).sum

/-- Two blocks (address and length) that share no byte. -/
def disjointBlocks (x y : Nat × Nat) : Prop := x.1 + x.2 ≤ y.1 ∨ y.1 + y.2 ≤ x.1

/-! ## Reading a display list -/

/-- What a command makes the reader of a display list do next. -/
inductive Flow where
  | next
  | jump (dl : Nat)
  | stop
  deriving DecidableEq, Repr

/-- Modelled from the spec: what the graphics processor does with the commands
`graph.c` stores; the microcode that reads display lists is not among the
sources. "Chain the four regions into one traversable display list:
work→opaque, opaque→translucent, translucent→overlay, terminated by a
synchronization command and an end marker"; "a single hardware task execute[s]
all regions as one linear program". A branch continues the reading at its
target, the end marker ends it, and after every other command the next word is
read. -/
def Gfx.flow : Gfx → Flow
  | .gSPBranchList dl => .jump dl
  | .gSPEndDisplayList => .stop
  | _ => .next

/-- Modelled from the spec: the traversal of a display list from the address
`pc`, as the list of the addresses of the commands read, the last of them the
end marker. The result is `none` when the reading meets a word that is not a
command, or has not met the end marker after `fuel` commands. -/
def traverse (mem : Mem) : Nat → Nat → Option (List Nat)
  | 0, _ => none
  | fuel + 1, pc =>
    match mem pc with
    | .half _ => none
    | .gfx g =>
      match g.flow with
      | .stop => some [pc]
      | .jump dl => (traverse mem fuel dl).map fun l => pc :: l
      | .next => (traverse mem fuel (pc + sizeofGfx)).map fun l => pc :: l

/-- Modelled from the spec: the reading of a display list from the address `pc`
up to its first arrival at the address `target`, as the list of the addresses
of the commands read before. The result is `none` when the reading meets a word
that is not a command or an end marker first, or has not arrived after `fuel`
commands. -/
def walk (mem : Mem) (target : Nat) : Nat → Nat → Option (List Nat)
  | 0, pc => if pc = target then some [] else none
  | fuel + 1, pc =>
    if pc = target then some []
    else
      match mem pc with
      | .half _ => none
      | .gfx g =>
        match g.flow with
        | .stop => none
        | .jump dl => (walk mem target fuel dl).map fun l => pc :: l
        | .next => (walk mem target fuel (pc + sizeofGfx)).map fun l => pc :: l

/-- Whether the display blocks of this build write their open and close
markers in the state `s` (`Graph_OpenDisps` and `Graph_CloseDisps` act). -/
def Sys.marking (env : Env) (s : Sys) : Bool := env.DEBUG_FEATURES && dispsMarked env s

/-- The size of the open marker a display block writes in front of its commands
in the state `s`: one command, or nothing. -/
def Sys.markSize (env : Env) (s : Sys) : Nat := if s.marking env then sizeofGfx else 0

/-- The stores of the chaining step of `Graph_Update` that starts in `c`, in
their order: address and command. -/
def chainStores (env : Env) (c : Sys) : List (Nat × Gfx) :=
  if c.marking env then
    [(c.gfxCtx.polyOpa.p, .gDPNoOpOpenDisp "../graph.c" 999),
     (c.gfxCtx.polyXlu.p, .gDPNoOpOpenDisp "../graph.c" 999),
     (c.gfxCtx.overlay.p, .gDPNoOpOpenDisp "../graph.c" 999),
     (c.gfxCtx.work.p, .gSPBranchList c.gfxCtx.polyOpaBuffer),
     (c.gfxCtx.polyOpa.p + sizeofGfx, .gSPBranchList c.gfxCtx.polyXluBuffer),
     (c.gfxCtx.polyXlu.p + sizeofGfx, .gSPBranchList c.gfxCtx.overlayBuffer),
     (c.gfxCtx.overlay.p + sizeofGfx, .gDPPipeSync),
     (c.gfxCtx.overlay.p + sizeofGfx + sizeofGfx, .gDPFullSync),
     (c.gfxCtx.overlay.p + sizeofGfx + sizeofGfx + sizeofGfx, .gSPEndDisplayList),
     (c.gfxCtx.polyOpa.p + sizeofGfx + sizeofGfx, .gDPNoOpCloseDisp "../graph.c" 1028),
     (c.gfxCtx.polyXlu.p + sizeofGfx + sizeofGfx, .gDPNoOpCloseDisp "../graph.c" 1028),
     (c.gfxCtx.overlay.p + sizeofGfx + sizeofGfx + sizeofGfx + sizeofGfx,
       .gDPNoOpCloseDisp "../graph.c" 1028)]
  else
    [(c.gfxCtx.work.p, .gSPBranchList c.gfxCtx.polyOpaBuffer),
     (c.gfxCtx.polyOpa.p, .gSPBranchList c.gfxCtx.polyXluBuffer),
     (c.gfxCtx.polyXlu.p, .gSPBranchList c.gfxCtx.overlayBuffer),
     (c.gfxCtx.overlay.p, .gDPPipeSync),
     (c.gfxCtx.overlay.p + sizeofGfx, .gDPFullSync),
     (c.gfxCtx.overlay.p + sizeofGfx + sizeofGfx, .gSPEndDisplayList)]

/-- The addresses of the commands a reader passes after the chaining step that
starts in `c`, when `lw`, `lo`, `lx` and `lv` are the addresses it passes in
the four regions before their head cursors: the work region with its branch,
the region of opaque polygons with its branch (after the open marker, if the
block writes one), the region of translucent polygons likewise, and the overlay
region with the two synchronisation commands and the end marker. -/
def chainPath (env : Env) (c : Sys) (lw lo lx lv : List Nat) : List Nat :=
  if c.marking env then
    lw ++ [c.gfxCtx.work.p]
      ++ lo ++ [c.gfxCtx.polyOpa.p, c.gfxCtx.polyOpa.p + sizeofGfx]
      ++ lx ++ [c.gfxCtx.polyXlu.p, c.gfxCtx.polyXlu.p + sizeofGfx]
      ++ lv ++ [c.gfxCtx.overlay.p, c.gfxCtx.overlay.p + sizeofGfx,
          c.gfxCtx.overlay.p + sizeofGfx + sizeofGfx,
          c.gfxCtx.overlay.p + sizeofGfx + sizeofGfx + sizeofGfx]
  else
    lw ++ [c.gfxCtx.work.p]
      ++ lo ++ [c.gfxCtx.polyOpa.p]
      ++ lx ++ [c.gfxCtx.polyXlu.p]
      ++ lv ++ [c.gfxCtx.overlay.p, c.gfxCtx.overlay.p + sizeofGfx,
          c.gfxCtx.overlay.p + sizeofGfx + sizeofGfx]

/-- Memory after a list of stores of commands. -/
def Mem.stores (m : Mem) (l : List (Nat × Gfx)) : Mem :=
  l.foldl (fun m w => m.store w.1 (.gfx w.2)) m

/-- The state in which the frame that starts in `s` begins the chaining step:
the game state's update has run. -/
def Sys.atChain (env : Env) (s : Sys) : Sys :=
  Graph_Update_game env (Graph_Update_begin env (s.emit (.call "Graph_Update")))

/-! ## Program points of a frame -/

/-- The address of the pool of the current frame, `&gGfxPools[gfxCtx->gfxPoolIdx & 1]`. -/
def Sys.pool (env : Env) (s : Sys) : Nat := gGfxPoolsAt env (s.gfxCtx.gfxPoolIdx &&& 1)

/-- The head sentinel of the pool of the current frame. -/
def Sys.headMagic (env : Env) (s : Sys) : Option Nat :=
  s.mem.half (s.pool env + GfxPool.headMagic)

/-- The tail sentinel of the pool of the current frame. -/
def Sys.tailMagic (env : Env) (s : Sys) : Option Nat :=
  s.mem.half (s.pool env + GfxPool.tailMagic)

/-- One of the three arenas the validation inspects is crashed. -/
def Sys.crashed (s : Sys) : Bool :=
  THGA_IsCrash s.gfxCtx.polyOpa || THGA_IsCrash s.gfxCtx.polyXlu || THGA_IsCrash s.gfxCtx.overlay

/-- The state the end-of-frame validation inspects in the frame that starts in `s`. -/
def Sys.atValidation (env : Env) (s : Sys) : Sys :=
  Graph_Update_build env (s.emit (.call "Graph_Update"))

/-- The state in which the frame that starts in `s` tests the swap-suppression
flag in `Graph_TaskSet00`; `none` when the frame does not get there (the
validation finds a problem, or the thread stops before). -/
def Sys.atFlagCheck (env : Env) (s : Sys) : Option Sys :=
  match Graph_Update_validate env (s.atValidation env) with
  | .ok _ v =>
    if v.problem then none
    else
      match Graph_TaskSet00_head env v with
      | .ok _ c => some c
      | .stop _ _ => none
  | .stop _ _ => none

/-- The message the blocking receive of a `Graph_TaskSet00` that starts in `s`
returns; `none` when no message ever arrives. -/
def Sys.handshakeMsg (env : Env) (s : Sys) : Option Nat := (s.arrived env).front

/-- Whether the frame that starts in `s` finds the swap-suppression bit (bit 0
of `R_GRAPH_TASKSET00_FLAGS`) set when `Graph_TaskSet00` tests it; `none` when
the frame does not get there. -/
def Sys.swapSuppressed (env : Env) (s : Sys) : Option Bool :=
  (s.atFlagCheck env).map fun c => decide (c.reg env.R_GRAPH_TASKSET00_FLAGS &&& 1 ≠ 0)

/-- A frame from `s` to `s1` that is submitted with its swap-buffer request:
`Graph_Update` returns, its validation found no problem, and the
swap-suppression bit was clear when `Graph_TaskSet00` tested it. -/
def StraightFrame (env : Env) (s s1 : Sys) : Prop :=
  Graph_Update env s = .ok () s1 ∧ s.swapSuppressed env = some false

/-- The relation `Frames env n s s1`: `n` consecutive calls of `Graph_Update`
lead from `s` to `s1`, each of them a `StraightFrame`. -/
inductive Frames (env : Env) : Nat → Sys → Sys → Prop where
  | zero (s : Sys) : Frames env 0 s s
  | succ {n : Nat} {s s1 s2 : Sys} :
      Frames env n s s1 → StraightFrame env s1 s2 → Frames env (n + 1) s s2

/-- A frame from `s` to `s1` that is submitted without its swap-buffer request:
`Graph_Update` returns, its validation found no problem, and the
swap-suppression bit was set when `Graph_TaskSet00` tested it. -/
def SuppressedFrame (env : Env) (s s1 : Sys) : Prop :=
  Graph_Update env s = .ok () s1 ∧ s.swapSuppressed env = some true

/-- A frame from `s` to `s1` that is not submitted: `Graph_Update` returns
without having got to the flag test of `Graph_TaskSet00`. -/
def SkippedFrame (env : Env) (s s1 : Sys) : Prop :=
  Graph_Update env s = .ok () s1 ∧ s.atFlagCheck env = none

/-- The relation `Run env n k s s1`: consecutive calls of `Graph_Update` that
all return lead from `s` to `s1`; `n` of them submitted their task, and `k` of
these consumed the swap-suppression bit. -/
inductive Run (env : Env) : Nat → Nat → Sys → Sys → Prop where
  | zero (s : Sys) : Run env 0 0 s s
  | straight {n k : Nat} {s s1 s2 : Sys} :
      Run env n k s s1 → StraightFrame env s1 s2 → Run env (n + 1) k s s2
  | suppressed {n k : Nat} {s s1 s2 : Sys} :
      Run env n k s s1 → SuppressedFrame env s1 s2 → Run env (n + 1) (k + 1) s s2
  | skipped {n k : Nat} {s s1 s2 : Sys} :
      Run env n k s s1 → SkippedFrame env s1 s2 → Run env n k s s2

/-! ## What a frame leaves in place -/

/-- The base pointers of the context: the four buffer pointers and the current
frame buffer. `Graph_InitTHGA` writes them; game code does not. -/
def Sys.bufs (s : Sys) : Nat × Nat × Nat × Nat × Nat :=
  (s.gfxCtx.polyOpaBuffer, s.gfxCtx.polyXluBuffer, s.gfxCtx.overlayBuffer, s.gfxCtx.workBuffer,
    s.gfxCtx.curFrameBuffer)

/-- The display configuration of the context and the statics of
`Graph_TaskSet00`: only `Graph_Init` writes the former, only the frame-buffer
block of `Graph_TaskSet00` the latter. -/
def Sys.cfg (s : Sys) : Nat × Nat × Nat × Nat × Int × (Nat → CfbInfo) :=
  (s.gfxCtx.viMode, s.gfxCtx.viFeatures, s.gfxCtx.xScale, s.gfxCtx.yScale, s.sGraphCfbInfoIdx,
    s.sGraphCfbInfos)

/-- A step from `s` to `s1` that leaves the base pointers, the display
configuration and the statics of `Graph_TaskSet00` alone. -/
def Sys.Steady (s s1 : Sys) : Prop := s1.bufs = s.bufs ∧ s1.cfg = s.cfg

/-- The state in which the `Graph_TaskSet00` that starts in `s` fills the task
record: the handshake has returned, the callback and the time bookkeeping have
run. -/
def Sys.atTaskBuild (env : Env) (s : Sys) : Sys :=
  Graph_TaskSet00_time_ok env (Graph_TaskSet00_callback_ok env
    (Graph_TaskSet00_handshake_ok env (Graph_TaskSet00_enter env s)))

/-! ## Reading traces -/

/-- Calls of the fault facility. -/
def Event.isFault : Event → Bool
  | .Fault_AddHungupAndCrashImpl _ _ => true
  | .Fault_AddHungupAndCrash _ _ => true
  | _ => false

/-- Events of a task submission: the entry into `Graph_TaskSet00`, its
handshake on the context queue, its callback, and its send to the scheduler. -/
def Event.isTask : Event → Bool
  | .call fn => fn == "Graph_TaskSet00"
  | .osSetTimer _ _ _ _ => true
  | .osStopTimer => true
  | .osRecvMesg _ _ _ => true
  | .osSendMesg _ _ _ => true
  | .Sched_Notify => true
  | .callback _ _ => true
  | _ => false

/-- Sends of a task to the scheduler. -/
def Event.isSend : Event → Bool
  | .osSendMesg _ _ _ => true
  | _ => false

/-- Calls of the per-frame callback. -/
def Event.isCallback : Event → Bool
  | .callback _ _ => true
  | _ => false

/-- Every other event. -/
def Event.quiet (e : Event) : Bool := !e.isFault && !e.isTask

/-- The two indices of the context: pool index and frame-buffer index. -/
def Sys.idx (s : Sys) : Nat × Int := (s.gfxCtx.gfxPoolIdx, s.gfxCtx.fbIdx)

/-- The context queue: its record, its buffer, and the number of receives so far. -/
def Sys.inbox (s : Sys) : OSMesgQueue × (Nat → Nat) × Nat :=
  (s.gfxCtx.queue, s.gfxCtx.msgBuff, s.nRecv)

/-- The trace of `s1` is the trace of `s` followed by events that satisfy `P`. -/
def Sys.Adds (P : Event → Bool) (s s1 : Sys) : Prop :=
  ∃ evs, s1.trace = s.trace ++ evs ∧ ∀ e ∈ evs, P e = true

/-- A step from `s` to `s1` that leaves the indices and the context queue alone
and adds only quiet events to the trace. -/
def Sys.Calm (s s1 : Sys) : Prop :=
  s1.idx = s.idx ∧ s1.inbox = s.inbox ∧ s.Adds Event.quiet s1

/-- Events other than those of a task submission. -/
def Event.notTask (e : Event) : Bool := !e.isTask

/-- Events other than calls of the fault facility. -/
def Event.notFault (e : Event) : Bool := !e.isFault

/-! ## A concrete machine -/

/-- A retail build with the constants of the original headers, a clock that
advances by 1000 per reading, game code that writes nothing, and a scheduler
that answers every blocking receive with the completion message `NULL`. -/
def demoEnv : Env :=
  { DEBUG_FEATURES := false, OOT_VERSION := 6, NTSC_1_1 := 2, PAL_1_0 := 4, GC_JP := 6,
    gGfxPools := 0x80200000, gfxCtx := 0x80120000, osThreadTail := 0x80100000,
    gScheduler_cmdQueue := 0x80110000,
    gGfxSPTaskYieldBuffer := 0x80130000, sizeof_gGfxSPTaskYieldBuffer := 0xC00,
    gGfxSPTaskStack := 0x80131000, sizeof_gGfxSPTaskStack := 0x400,
    gGfxSPTaskOutputBuffer := 0x80140000, sizeof_gGfxSPTaskOutputBuffer := 0x18000,
    SysUcode_GetUCodeBoot := 0x80001000, SysUcode_GetUCodeBootSize := 0xD0,
    SysUcode_GetUCode := 0x80002000, SysUcode_GetUCodeData := 0x80003000,
    SysCfb_GetFbPtr := fun i => if i = 0 then 0x80300000 else 0x80330000,
    gViConfigFeatures := 0x42, gViConfigXScale := 0x3F800000, gViConfigYScale := 0x3F800000,
    M_GFXTASK := 1, OS_SC_DRAM_DLIST := 0x4, OS_SC_NEEDS_RDP := 0x1, OS_SC_NEEDS_RSP := 0x2,
    OS_SC_LAST_TASK := 0x20, OS_SC_SWAPBUFFER := 0x40,
    SP_UCODE_SIZE := 0x1000, SP_UCODE_DATA_SIZE := 0x800,
    OS_USEC_TO_CYCLES := fun n => n * 46875 / 1000,
    R_HREG_MODE := 80, R_UCODE_DISAS_TOGGLE := 81, R_UCODE_DISAS_LOG_MODE := 82,
    R_UCODE_DISAS_LOG_LEVEL := 83, R_UCODE_DISAS_DL_COUNT := 84,
    R_UCODE_DISAS_TOTAL_COUNT := 85, R_UCODE_DISAS_VTX_COUNT := 86,
    R_UCODE_DISAS_SPVTX_COUNT := 87, R_UCODE_DISAS_TRI1_COUNT := 88,
    R_UCODE_DISAS_TRI2_COUNT := 89, R_UCODE_DISAS_QUAD_COUNT := 90,
    R_UCODE_DISAS_LINE_COUNT := 91, R_UCODE_DISAS_SYNC_ERROR_COUNT := 92,
    R_UCODE_DISAS_LOAD_COUNT := 93, R_PLAY_ENABLE_UCODE_DISAS := 93,
    R_PLAY_UCODE_DISAS_LOG_LEVEL := 92, R_GRAPH_TASKSET00_FLAGS := 233, R_UPDATE_RATE := 230,
    SREG_6 := 206, HREG_59 := 59, HREG_MODE_UCODE_DISAS := 7, HREG_MODE_PLAY := 10,
    BTN_Z := 0x2000, BTN_L := 0x20, BTN_R := 0x10, GAMEMODE_NORMAL := 0,
    MapSelect_Init := 0x80801000, sizeof_MapSelectState := 0x240,
    PreNMI_Init := 0x80802000, sizeof_PreNMIState := 0xA8,
    osGetTime := fun k => 1000 * (k + 1),
    arrivals := fun k => if k % 2 = 0 then [0] else [],
    GameState_ReqPadData := fun w => w,
    GameState_Update := fun w => w,
    callback := fun _ _ w => w,
    Audio_Update := fun w => w,
    UCodeDisas_Disassemble := fun _ _ _ =>
      { dlCnt := 0, tri2Cnt := 0, tri1Cnt := 0, quadCnt := 0, lineCnt := 0, vtxCnt := 0,
        spvtxCnt := 0, syncErr := 0, loaducodeCnt := 0, dlDepth := 0 },
    dispRefsGarbage := fun _ => 0,
    GAMESTATE_SETUP := 0,
    gamestate_table := [0x80803000, 0x80801000, 0x80804000],
    instanceSize := fun i => if i = 0 then 0xA4 else if i = 1 then 0x240 else 0x1E8,
    ovlInit := fun i => if i = 0 then 0x80803000 else if i = 1 then 0x80801000 else 0x80804000,
    SYSTEM_ARENA_MALLOC := fun _ w => (0x80400000, w),
    SYSTEM_ARENA_FREE := fun _ w => w,
    Overlay_LoadGameState := fun _ w => w,
    Overlay_FreeGameState := fun _ w => w,
    GameState_Init := fun _ init w =>
      { w with gameState := { w.gameState with init := init, running := 1 } },
    GameState_Destroy := fun _ w => w }

/-- The machine before `Graph_ThreadEntry` runs: zeroed globals, a running
game state, pool memory filled with the command word 0. -/
def demoSys : Sys :=
  { gfxCtx := GraphicsContext.zero,
    gameState := { main := 0x80800000, destroy := 0x80800100, init := 0x80800200, size := 0xA4,
                   input0_cur_button := 0, input0_press_button := 0, running := 1, frames := 0,
                   inPreNMIState := 0 },
    mem := fun _ => .gfx (.raw 0 0),
    regs := fun _ => 0,
    sGraphPrevUpdateEndTime := 0, sGraphPrevTaskTimeStart := 0, sPrevTaskWorkBuffer := 0,
    sGraphCfbInfos := fun _ =>
      { framebuffer := 0, swapBuffer := 0, viMode := 0, viFeatures := 0, xScale := 0,
        yScale := 0, unk_10 := 0, updateRate := 0 },
    sGraphCfbInfoIdx := 0,
    gGfxTaskSentToNextReadyMinusAudioThreadUpdateTime := 0,
    gAudioThreadUpdateTimeStart := 0, gAudioThreadUpdateTimeAcc := 0,
    gAudioThreadUpdateTimeTotalPerGfxTask := 0,
    gRSPGfxTimeAcc := 0, gRSPAudioTimeAcc := 0, gRDPTimeAcc := 0,
    gRSPGfxTimeTotal := 0, gRSPAudioTimeTotal := 0, gRDPTimeTotal := 0,
    gGraphUpdatePeriod := 0, gIsCtrlr2Valid := 0, preNmiResetting := 0,
    gSaveContext_gameMode := 0, problem := false, nTime := 0, nRecv := 0, trace := [] }

/-- The machine `demoEnv` with a game state whose update hook leaves the head
cursor of the region of opaque polygons behind its tail cursor: it appended
more commands than the region holds. -/
def overflowEnv : Env :=
  { demoEnv with
    GameState_Update := fun w => { w with polyOpa := { w.polyOpa with p := w.polyOpa.d + 8 } } }

/-- The machine `demoEnv` with game code that overwrites the first word of pool
0, the word of the head sentinel, with a command word. -/
def stompHeadEnv : Env :=
  { demoEnv with
    GameState_Update := fun w => { w with mem := w.mem.store 0x80200000 (.gfx (.raw 0 0)) } }

/-- The machine `demoEnv` with game code that overwrites the last word of pool
0, the word of the tail sentinel, with a command word. -/
def stompTailEnv : Env :=
  { demoEnv with
    GameState_Update := fun w => { w with mem := w.mem.store 0x80212408 (.gfx (.raw 0 0)) } }

/-- The machine `demoEnv` after `Graph_Init` and one frame. -/
def demoFrame1 : Sys := (Graph_Update demoEnv (Graph_Init demoEnv demoSys)).state

/-- The machine `demoEnv` after `Graph_Init` and two frames. -/
def demoFrame2 : Sys := (Graph_Update demoEnv demoFrame1).state

/-- The task record a `Graph_TaskSet00` sends to the scheduler when it tests the
swap-suppression flag in the state `c`. -/
def Sys.submitted (env : Env) (c : Sys) : OSScTask :=
  (Graph_TaskSet00_cfb env (Graph_TaskSet00_scTask env c)).gfxCtx.task

/-- The machine `demoEnv` after `Graph_Init`, with bit 0 of
`R_GRAPH_TASKSET00_FLAGS` set (the register holds 0x0003). -/
def demoSuppressed : Sys :=
  (Graph_Init demoEnv demoSys).setReg demoEnv.R_GRAPH_TASKSET00_FLAGS 3

/-- The state in which the `Graph_TaskSet00` that starts in `demoSuppressed`
tests the swap-suppression flag. -/
def demoFlagCheck : Sys := Graph_TaskSet00_head_ok demoEnv demoSuppressed

/-- The machine `demoEnv` after `Graph_Init`, with a per-frame callback
registered (a function at 0x80050000, with the parameter 7). -/
def demoCallback : Sys :=
  { (Graph_Init demoEnv demoSys) with
    gfxCtx := { (Graph_Init demoEnv demoSys).gfxCtx with
      callback := 0x80050000, callbackParam := 7 } }

/-- The machine `demoEnv` with a game state whose update hook fills the overlay
region to its last word: it leaves the head cursor at the tail cursor, which is
the end of the region. The arena is full, not crashed. -/
def fullOverlayEnv : Env :=
  { demoEnv with
    GameState_Update := fun w => { w with overlay := { w.overlay with p := w.overlay.d } } }

/-- The first frame of `fullOverlayEnv` at its chaining step. -/
def demoFull : Sys := (Graph_Init fullOverlayEnv demoSys).atChain fullOverlayEnv

/-- The machine `demoEnv` with a game state whose update hook appends an end
marker to the region of opaque polygons. -/
def endMarkEnv : Env :=
  { demoEnv with
    GameState_Update := fun w =>
      { w with
        mem := w.mem.store w.polyOpa.p (.gfx .gSPEndDisplayList),
        polyOpa := { w.polyOpa with p := w.polyOpa.p + sizeofGfx } } }

/-- The first frame of `endMarkEnv` at its chaining step. -/
def demoEnded : Sys := (Graph_Init endMarkEnv demoSys).atChain endMarkEnv

/-- The machine `demoEnv` with a game state whose update hook appends two
drawing commands to the region of opaque polygons and one to the overlay
region. -/
def drawEnv : Env :=
  { demoEnv with
    GameState_Update := fun w =>
      { w with
        mem := ((w.mem.store w.polyOpa.p (.gfx (.raw 1 0))).store
          (w.polyOpa.p + sizeofGfx) (.gfx (.raw 2 0))).store w.overlay.p (.gfx (.raw 3 0)),
        polyOpa := { w.polyOpa with p := w.polyOpa.p + sizeofGfx + sizeofGfx },
        overlay := { w.overlay with p := w.overlay.p + sizeofGfx } } }

/-- The first frame of `drawEnv` at its chaining step. -/
def demoDrawn : Sys := (Graph_Init drawEnv demoSys).atChain drawEnv

/-- The first frame of `demoEnv` at its call of `Graph_TaskSet00`: the work
region holds one command, the branch of the chaining step. -/
def demoAtSubmit : Sys :=
  Graph_Update_validate_ok ((Graph_Init demoEnv demoSys).atValidation demoEnv)

/-- The state in which the second frame of `demoEnv` tests the swap-suppression
flag. -/
def demoFlagCheck2 : Sys :=
  Graph_TaskSet00_head_ok demoEnv (Graph_Update_validate_ok (demoFrame1.atValidation demoEnv))

/-- The machine `demoEnv` with a game state whose update hook sets the
swap-suppression bit in its first frame (it counts its frames in register
200). -/
def suppressEnv : Env :=
  { demoEnv with
    GameState_Update := fun w =>
      { w with
        regs := fun i =>
          if i = 233 then (if w.regs 200 = 0 then 1 else w.regs 233)
          else if i = 200 then w.regs 200 + 1
          else w.regs i } }

/-- The machine `suppressEnv` after `Graph_Init` and one frame. -/
def suppressFrame1 : Sys := (Graph_Update suppressEnv (Graph_Init suppressEnv demoSys)).state

/-- The machine `suppressEnv` after `Graph_Init` and two frames. -/
def suppressFrame2 : Sys := (Graph_Update suppressEnv suppressFrame1).state

/-! ## Reading the trace of the host loop -/

/-- Events of the host loop: the entries into the functions of `graph.c` it calls,
and its calls of the overlay loader, of the system arena and of `game.c`. -/
def Event.isHost : Event → Bool
  | .call fn =>
    fn == "Graph_Init" || fn == "Graph_Destroy" || fn == "Graph_Update"
      || fn == "Graph_GetNextGameState"
  | .Overlay_LoadGameState _ => true
  | .SYSTEM_ARENA_MALLOC _ _ _ => true
  | .GameState_Init _ _ => true
  | .GameState_Destroy _ => true
  | .SYSTEM_ARENA_FREE _ _ _ => true
  | .Overlay_FreeGameState _ => true
  | _ => false

/-- Every other event. -/
def Event.notHost (e : Event) : Bool := !e.isHost

/-- One iteration of the host loop: the overlay entered, the pointer to its instance,
the number of frames, the successor resolved, and the states before the iteration,
after `GameState_Init`, after the last frame, and after the iteration. -/
structure Visit where
  ovl : Nat
  gameState : Nat
  frames : Nat
  next : Option Nat
  before : Sys
  start : Sys
  last : Sys
  after : Sys

/-- The calls of an iteration, in the order of the claim: load the overlay, allocate
the instance, `GameState_Init`, the frames, resolve the successor, `GameState_Destroy`,
free the instance, unload the overlay. -/
def Visit.events (env : Env) (v : Visit) : List Event :=
  [.Overlay_LoadGameState v.ovl, .SYSTEM_ARENA_MALLOC (env.instanceSize v.ovl) "../graph.c" 1196,
    .GameState_Init v.gameState (env.ovlInit v.ovl)]
  ++ List.replicate v.frames (.call "Graph_Update")
  ++ [.call "Graph_GetNextGameState", .GameState_Destroy v.gameState,
    .SYSTEM_ARENA_FREE v.gameState "../graph.c" 1227, .Overlay_FreeGameState v.ovl]

/-- The frame loop ran `n` frames from `s` to `s1`: before each of them the running
flag was set, and each of them returned. -/
inductive Updates (env : Env) : Nat → Sys → Sys → Prop where
  | zero (s : Sys) : Updates env 0 s s
  | succ {n : Nat} {s s1 s2 : Sys} : GameState_IsRunning s.gameState = true →
      Graph_Update env s = .ok () s1 → Updates env n s1 s2 → Updates env (n + 1) s s2

/-- The iteration is one of the code: from `before`, the part up to `GameState_Init`
returns the pointer and leaves `start`; the frame loop runs `frames` frames to `last`,
where the running flag is clear; the rest resolves `next` and leaves `after`. -/
def Visit.sound (env : Env) (v : Visit) : Prop :=
  Graph_ThreadEntry_enter env v.ovl v.before = .ok v.gameState v.start
  ∧ Updates env v.frames v.start v.last
  ∧ GameState_IsRunning v.last.gameState = false
  ∧ Graph_ThreadEntry_leave env v.ovl v.gameState v.last = (v.next, v.after)

/-- The iterations follow one another from the overlay and state `a` to the successor
and state `b`: each one enters the successor the one before it resolved, in the state
that one left. -/
def Visit.linked : Option Nat × Sys → List Visit → Option Nat × Sys → Prop
  | a, [], b => a = b
  | a, v :: vs, b => a = (some v.ovl, v.before) ∧ Visit.linked (v.next, v.after) vs b

/-- A machine whose Setup state ends in its init hook, naming the state of entry 2 of
the table as its successor, and whose other states end in their first frame, naming
no successor. -/
def hostEnv : Env :=
  { demoEnv with
    GameState_Init := fun _ init w =>
      if init = 0x80803000 then
        { w with gameState := { w.gameState with init := 0x80804000, running := 0 } }
      else
        { w with gameState := { w.gameState with init := init, running := 1 } },
    GameState_Update := fun w =>
      { w with gameState := { w.gameState with init := 0, running := 0 } } }

/-- The state `Graph_ThreadEntry` leaves on that machine. -/
def hostFinal : Sys :=
  match Graph_ThreadEntry hostEnv 3 demoSys with
  | some r => r.state
  | none => demoSys

/-- The statics of the timing bookkeeping: the end time of the previous update and
the update period. -/
def Sys.clock (s : Sys) : Nat × Nat := (s.sGraphPrevUpdateEndTime, s.gGraphUpdatePeriod)

/-- The step from `s` to `s1` leaves the statics of the timing bookkeeping alone. -/
def Sys.SameClock (s s1 : Sys) : Prop := s1.clock = s.clock

/-- The state of a frame just before its timing bookkeeping, `y` being the state
before the call of `Audio_Update`. -/
def Sys.atBookkeeping (env : Env) (y : Sys) : Sys :=
  (y.emit .Audio_Update).external env.Audio_Update

/-- The machine `demoEnv` with game code that moves the head cursor of the work arena
past its tail cursor. -/
def workCrashEnv : Env :=
  { demoEnv with
    GameState_Update := fun w => { w with work := { w.work with p := w.work.d + 8 } } }

/-- The machine `demoEnv` with a coprocessor that never answers: the only message that
reaches the context queue is the timer message 666. -/
def hungEnv : Env :=
  { demoEnv with arrivals := fun _ => [666] }

/-- A machine whose audio update leaves 5, 7 and 9 in the three accumulators. -/
def clockEnv : Env :=
  { demoEnv with
    Audio_Update := fun w =>
      { w with gRSPGfxTimeAcc := 5, gRSPAudioTimeAcc := 7, gRDPTimeAcc := 9 } }

/-- The machine `clockEnv` after `Graph_Init` and one frame. -/
def clockFrame1 : Sys := (Graph_Update clockEnv (Graph_Init clockEnv demoSys)).state

/-- The machine `clockEnv` after `Graph_Init` and two frames. -/
def clockFrame2 : Sys := (Graph_Update clockEnv clockFrame1).state

/-- The head cursors of the opaque, the translucent and the overlay arena. -/
def Sys.heads (s : Sys) : Nat × Nat × Nat :=
  (s.gfxCtx.polyOpa.p, s.gfxCtx.polyXlu.p, s.gfxCtx.overlay.p)

/-- The other cursors: the work arena, and the tail cursors of the three others. -/
def Sys.otherCursors (s : Sys) : TwoHeadGfxArena × Nat × Nat × Nat :=
  (s.gfxCtx.work, s.gfxCtx.polyOpa.d, s.gfxCtx.polyXlu.d, s.gfxCtx.overlay.d)

/-- The demo machine in a debug build. -/
def debugEnv : Env :=
  { demoEnv with DEBUG_FEATURES := true }

/-- A context with fresh arenas and the marking of display lists on: `R_HREG_MODE` is
`HREG_MODE_UCODE_DISAS` and `R_UCODE_DISAS_LOG_MODE` is 0. -/
def markedSys : Sys := (Graph_InitTHGA debugEnv demoSys).setReg 80 7

/-- A retail machine on which the system arena has no room: every allocation
returns `NULL`. -/
def noHeapEnv : Env :=
  { demoEnv with SYSTEM_ARENA_MALLOC := fun _ w => (0, w) }

/-- The same machine in a debug build. -/
def debugNoHeapEnv : Env :=
  { noHeapEnv with DEBUG_FEATURES := true }

/-! ## Theorems -/

/-! ### Running code of the graph thread -/

@[simp] theorem M.pure_apply {α : Type} (a : α) (s : Sys) : M.pure a s = .ok a s := rfl

@[simp] theorem M.bind_apply {α β : Type} (m : M α) (f : α → M β) (s : Sys) :
    M.bind m f s = match m s with
      | .ok a s1 => f a s1
      | .stop w s1 => .stop w s1 := rfl

@[simp] theorem M.pure_eq {α : Type} (a : α) : (Pure.pure a : M α) = M.pure a := rfl

@[simp] theorem M.bind_eq {α β : Type} (m : M α) (f : α → M β) :
    (Bind.bind m f : M β) = M.bind m f := rfl

@[simp] theorem run_apply (f : Sys → Sys) (s : Sys) : run f s = .ok () (f s) := rfl
@[simp] theorem emit_apply (e : Event) (s : Sys) : emit e s = .ok () (s.emit e) := rfl
@[simp] theorem getS_apply (s : Sys) : getS s = .ok s s := rfl
@[simp] theorem halt_apply {α : Type} (w : Stop) (s : Sys) : (halt w : M α) s = .stop w s := rfl
@[simp] theorem PRINTF_apply (f : String) (s : Sys) : PRINTF f s = .ok () (s.emit (.printf f)) := rfl

@[simp] theorem Fault_AddHungupAndCrash_apply {α : Type} (f : String) (l : Nat) (s : Sys) :
    (Fault_AddHungupAndCrash f l : M α) s
      = .stop .hungup (s.emit (.Fault_AddHungupAndCrash f l)) := rfl

@[simp] theorem Fault_AddHungupAndCrashImpl_apply {α : Type} (a b : String) (s : Sys) :
    (Fault_AddHungupAndCrashImpl a b : M α) s
      = .stop .hungup (s.emit (.Fault_AddHungupAndCrashImpl a b)) := rfl

@[simp] theorem osGetTime_apply (env : Env) (s : Sys) :
    osGetTime env s = .ok (env.osGetTime s.nTime % 2 ^ 64)
      { (s.emit (.osGetTime (env.osGetTime s.nTime % 2 ^ 64))) with nTime := s.nTime + 1 } := rfl
/-! ### Steps that leave the indices and the queue alone -/

theorem Sys.Adds.adds_refl (P : Event → Bool) (s : Sys) : s.Adds P s :=
  ⟨[], by simp, by simp⟩

theorem Sys.Adds.adds_trans {P : Event → Bool} {s s1 s2 : Sys} (h1 : s.Adds P s1) (h2 : s1.Adds P s2) :
    s.Adds P s2 := by
  obtain ⟨e1, t1, q1⟩ := h1
  obtain ⟨e2, t2, q2⟩ := h2
  refine ⟨e1 ++ e2, by rw [t2, t1, List.append_assoc], ?_⟩
  intro e he
  rcases List.mem_append.mp he with h | h
  · exact q1 e h
  · exact q2 e h

theorem Sys.Adds.adds_mono {P Q : Event → Bool} {s s1 : Sys} (h : s.Adds P s1)
    (hPQ : ∀ e, P e = true → Q e = true) : s.Adds Q s1 := by
  obtain ⟨evs, t, q⟩ := h
  exact ⟨evs, t, fun e he => hPQ e (q e he)⟩

theorem Sys.Calm.refl (s : Sys) : s.Calm s := ⟨rfl, rfl, Sys.Adds.adds_refl _ s⟩

theorem Sys.Calm.trans {s s1 s2 : Sys} (h1 : s.Calm s1) (h2 : s1.Calm s2) : s.Calm s2 :=
  ⟨h2.1.trans h1.1, h2.2.1.trans h1.2.1, h1.2.2.adds_trans h2.2.2⟩

theorem Sys.Calm.calm_of_eq {s s1 : Sys} (h1 : s1.idx = s.idx) (h2 : s1.inbox = s.inbox)
    (h3 : s1.trace = s.trace) : s.Calm s1 :=
  ⟨h1, h2, [], by simp [h3], by simp⟩

theorem Sys.Calm.calm_emit (s : Sys) {e : Event} (h : e.quiet = true) : s.Calm (s.emit e) :=
  ⟨rfl, rfl, [e], rfl, by simpa using h⟩

theorem Sys.Calm.calm_setReg (s : Sys) (r v : Nat) : s.Calm (s.setReg r v) := .calm_of_eq rfl rfl rfl

theorem Sys.Calm.calm_external (s : Sys) (f : World → World) : s.Calm (s.external f) :=
  .calm_of_eq rfl rfl rfl

theorem put_WORK_DISP_calm (g : Gfx) (s : Sys) : s.Calm (put_WORK_DISP g s) := .calm_of_eq rfl rfl rfl
theorem put_POLY_OPA_DISP_calm (g : Gfx) (s : Sys) : s.Calm (put_POLY_OPA_DISP g s) :=
  .calm_of_eq rfl rfl rfl
theorem put_POLY_XLU_DISP_calm (g : Gfx) (s : Sys) : s.Calm (put_POLY_XLU_DISP g s) :=
  .calm_of_eq rfl rfl rfl
theorem put_OVERLAY_DISP_calm (g : Gfx) (s : Sys) : s.Calm (put_OVERLAY_DISP g s) :=
  .calm_of_eq rfl rfl rfl

theorem Graph_OpenDisps_calm (env : Env) (d : Nat → Nat) (file : String) (line : Nat) (s : Sys) :
    s.Calm (Graph_OpenDisps env d file line s).2 := by
  unfold Graph_OpenDisps
  split_ifs <;> exact .calm_of_eq rfl rfl rfl

theorem Graph_CloseDisps_calm (env : Env) (d : Nat → Nat) (file : String) (line : Nat) (s : Sys) :
    s.Calm (Graph_CloseDisps env d file line s) := by
  unfold Graph_CloseDisps
  dsimp only
  split_ifs <;> exact .calm_of_eq rfl rfl rfl

theorem OPEN_DISPS_calm (env : Env) (file : String) (line : Nat) (s : Sys) :
    s.Calm (OPEN_DISPS env file line s).2 := by
  unfold OPEN_DISPS
  split_ifs
  · exact Graph_OpenDisps_calm ..
  · exact .refl s

theorem CLOSE_DISPS_calm (env : Env) (d : Nat → Nat) (file : String) (line : Nat) (s : Sys) :
    s.Calm (CLOSE_DISPS env d file line s) := by
  unfold CLOSE_DISPS
  split_ifs
  · exact Graph_CloseDisps_calm ..
  · exact .refl s

theorem Graph_DisassembleUCode_calm (env : Env) (workBuf : Nat) (s : Sys) :
    s.Calm (Graph_DisassembleUCode env workBuf s) := by
  unfold Graph_DisassembleUCode
  dsimp only
  split_ifs <;>
    simp [Sys.Calm, Sys.Adds, Sys.idx, Sys.inbox, Sys.emit, Sys.setReg, Event.quiet,
      Event.isFault, Event.isTask]

theorem Graph_InitTHGA_calm (env : Env) (s : Sys) : s.Calm (Graph_InitTHGA env s) :=
  ⟨rfl, rfl, [.call "Graph_InitTHGA"], rfl, by simp [Event.quiet, Event.isFault, Event.isTask]⟩

/-- A conditional step is calm when the step is. -/
theorem Sys.Calm.calm_ite {s x y : Sys} {c : Prop} [Decidable c] (h : s.Calm x) (hf : x.Calm y) :
    s.Calm (if c then y else x) := by
  split_ifs
  · exact h.trans hf
  · exact h

theorem debugMarks_calm (env : Env) (l1 l2 : Nat) (a b c d : String) (s : Sys) :
    s.Calm (CLOSE_DISPS env (OPEN_DISPS env "../graph.c" l1 s).1 "../graph.c" l2
      (put_OVERLAY_DISP (.gDPNoOpString d 0) (put_POLY_XLU_DISP (.gDPNoOpString c 0)
        (put_POLY_OPA_DISP (.gDPNoOpString b 0) (put_WORK_DISP (.gDPNoOpString a 0)
          (OPEN_DISPS env "../graph.c" l1 s).2))))) :=
  (OPEN_DISPS_calm ..).trans ((put_WORK_DISP_calm ..).trans ((put_POLY_OPA_DISP_calm ..).trans
    ((put_POLY_XLU_DISP_calm ..).trans ((put_OVERLAY_DISP_calm ..).trans (CLOSE_DISPS_calm ..)))))

theorem Graph_Update_begin_calm (env : Env) (s : Sys) : s.Calm (Graph_Update_begin env s) := by
  have h0 : s.Calm (Graph_InitTHGA env { s with gameState := { s.gameState with inPreNMIState := 0 } }) :=
    @Sys.Calm.trans s { s with gameState := { s.gameState with inPreNMIState := 0 } } _
      (.calm_of_eq rfl rfl rfl) (Graph_InitTHGA_calm ..)
  unfold Graph_Update_begin
  dsimp only
  split_ifs
  · exact h0.trans (debugMarks_calm ..)
  · exact h0

theorem Graph_Update_game_calm (env : Env) (s : Sys) : s.Calm (Graph_Update_game env s) := by
  have h0 : s.Calm (((s.emit .GameState_ReqPadData).external env.GameState_ReqPadData).emit
      .GameState_Update |>.external env.GameState_Update) :=
    (Sys.Calm.calm_emit s (by rfl)).trans ((Sys.Calm.calm_external ..).trans
      ((Sys.Calm.calm_emit _ (by rfl)).trans (Sys.Calm.calm_external ..)))
  unfold Graph_Update_game
  dsimp only
  split_ifs
  · exact h0.trans (debugMarks_calm ..)
  · exact h0

theorem Graph_Update_chain_calm (env : Env) (s : Sys) : s.Calm (Graph_Update_chain env s) := by
  unfold Graph_Update_chain
  dsimp only
  exact (OPEN_DISPS_calm ..).trans ((put_WORK_DISP_calm ..).trans ((put_POLY_OPA_DISP_calm ..).trans
    ((put_POLY_XLU_DISP_calm ..).trans ((put_OVERLAY_DISP_calm ..).trans
      ((put_OVERLAY_DISP_calm ..).trans ((put_OVERLAY_DISP_calm ..).trans
        (CLOSE_DISPS_calm ..)))))))

theorem Graph_Update_disas_mode_calm (env : Env) (s : Sys) :
    s.Calm (Graph_Update_disas_mode env s) := by
  unfold Graph_Update_disas_mode
  split_ifs <;> exact .calm_of_eq rfl rfl rfl

theorem Graph_Update_disas_pre_calm (env : Env) (s : Sys) :
    s.Calm (Graph_Update_disas_pre env s) := by
  unfold Graph_Update_disas_pre
  split_ifs
  · exact .calm_emit s (by rfl)
  · exact .refl s

theorem Graph_Update_disas_post_calm (env : Env) (s : Sys) :
    s.Calm (Graph_Update_disas_post env s) := by
  unfold Graph_Update_disas_post
  dsimp only
  split_ifs <;>
    simp [Sys.Calm, Sys.Adds, Sys.idx, Sys.inbox, Sys.emit, Sys.setReg, Event.quiet,
      Event.isFault, Event.isTask]

theorem Graph_Update_disas_calm (env : Env) (s : Sys) : s.Calm (Graph_Update_disas env s) := by
  unfold Graph_Update_disas
  dsimp only
  split_ifs
  · exact (Graph_Update_disas_mode_calm ..).trans ((Graph_Update_disas_pre_calm ..).trans
      ((Graph_DisassembleUCode_calm ..).trans (Graph_Update_disas_post_calm ..)))
  · exact Graph_Update_disas_mode_calm ..
  · exact .refl s

theorem Graph_Update_build_calm (env : Env) (s : Sys) : s.Calm (Graph_Update_build env s) :=
  (Graph_Update_begin_calm env s).trans ((Graph_Update_game_calm env _).trans
    ((Graph_Update_chain_calm env _).trans (Graph_Update_disas_calm env _)))

theorem Graph_Update_transitions_calm (env : Env) (s : Sys) :
    s.Calm (Graph_Update_transitions env s) := by
  unfold Graph_Update_transitions
  dsimp only
  split_ifs <;>
    simp [Sys.Calm, Sys.Adds, Sys.idx, Sys.inbox, Sys.emit, SET_NEXT_GAMESTATE, Event.quiet,
      Event.isFault, Event.isTask]

/-! ### The context queue -/

theorem Sys.handshakeMsg_congr (env : Env) {s s1 : Sys} (h : s1.inbox = s.inbox) :
    s1.handshakeMsg env = s.handshakeMsg env := by
  simp only [Sys.inbox, Prod.mk.injEq] at h
  obtain ⟨h1, h2, h3⟩ := h
  simp [Sys.handshakeMsg, Sys.arrived, Sys.deliver, Sys.front, h1, h2, h3]

theorem osRecvMesg_some (env : Env) (block : Bool) (s : Sys) {m : Nat}
    (h : s.handshakeMsg env = some m) :
    osRecvMesg env block s = .ok (some m) (s.recv env block) := by
  unfold Sys.handshakeMsg at h
  simp [osRecvMesg, h]

theorem osRecvMesg_block_none (env : Env) (s : Sys) (h : s.handshakeMsg env = none) :
    osRecvMesg env OS_MESG_BLOCK s = .stop .blocked (s.recv env OS_MESG_BLOCK) := by
  unfold Sys.handshakeMsg at h
  simp [osRecvMesg, h, OS_MESG_BLOCK]

theorem osRecvMesg_noblock (env : Env) (s : Sys) :
    osRecvMesg env OS_MESG_NOBLOCK s = .ok (s.handshakeMsg env) (s.recv env OS_MESG_NOBLOCK) := by
  unfold Sys.handshakeMsg osRecvMesg
  cases (s.arrived env).front <;> simp [OS_MESG_NOBLOCK]

/-! ### The blocks of `Graph_TaskSet00` -/

theorem Graph_TaskSet00_handshake_of_none (env : Env) (s : Sys)
    (h : s.handshakeMsg env = none) :
    Graph_TaskSet00_handshake env s
      = .stop .blocked ((s.emit (timerEvent env)).recv env OS_MESG_BLOCK) := by
  have h1 : (s.emit (timerEvent env)).handshakeMsg env = none :=
    (Sys.handshakeMsg_congr env rfl).trans h
  unfold Graph_TaskSet00_handshake
  simp [osRecvMesg_block_none env _ h1]

theorem Graph_TaskSet00_handshake_of_666 (env : Env) (s : Sys)
    (h : s.handshakeMsg env = some 666) :
    Graph_TaskSet00_handshake env s = .stop .hungup (Graph_TaskSet00_handshake_hung env s) := by
  have h1 : (s.emit (timerEvent env)).handshakeMsg env = some 666 :=
    (Sys.handshakeMsg_congr env rfl).trans h
  unfold Graph_TaskSet00_handshake Graph_TaskSet00_handshake_hung
  cases hd : env.DEBUG_FEATURES <;> simp [osRecvMesg_some env _ _ h1, hd]

theorem Graph_TaskSet00_handshake_of_some (env : Env) (s : Sys) {m : Nat}
    (h : s.handshakeMsg env = some m) (hm : m ≠ 666) :
    Graph_TaskSet00_handshake env s = .ok () (Graph_TaskSet00_handshake_ok env s) := by
  have h1 : (s.emit (timerEvent env)).handshakeMsg env = some m :=
    (Sys.handshakeMsg_congr env rfl).trans h
  unfold Graph_TaskSet00_handshake Graph_TaskSet00_handshake_ok
  cases hd : env.DEBUG_FEATURES <;>
    simp [osRecvMesg_some env _ _ h1, osRecvMesg_noblock, hd, hm]

theorem Graph_TaskSet00_callback_apply (env : Env) (s : Sys) :
    Graph_TaskSet00_callback env s = .ok () (Graph_TaskSet00_callback_ok env s) := by
  unfold Graph_TaskSet00_callback Graph_TaskSet00_callback_ok
  by_cases h : s.gfxCtx.callback = 0 <;> simp [h]

theorem Graph_TaskSet00_time_apply (env : Env) (s : Sys) :
    Graph_TaskSet00_time env s = .ok () (Graph_TaskSet00_time_ok env s) := by
  unfold Graph_TaskSet00_time Graph_TaskSet00_time_ok
  by_cases h : s.gAudioThreadUpdateTimeStart = 0 <;> simp [h, Sys.emit]

theorem Graph_TaskSet00_send_apply (env : Env) (s : Sys) :
    Graph_TaskSet00_send env s = .ok () (Graph_TaskSet00_send_ok env s) := by
  unfold Graph_TaskSet00_send Graph_TaskSet00_send_ok
  simp

theorem Graph_TaskSet00_enter_handshakeMsg (env : Env) (s : Sys) :
    (Graph_TaskSet00_enter env s).handshakeMsg env = s.handshakeMsg env :=
  Sys.handshakeMsg_congr env rfl

theorem Graph_TaskSet00_head_eq (env : Env) (s : Sys) :
    Graph_TaskSet00_head env s
      = (do Graph_TaskSet00_handshake env
            Graph_TaskSet00_callback env
            Graph_TaskSet00_time env
            run (Graph_TaskSet00_task env) : M Unit) (Graph_TaskSet00_enter env s) := rfl

theorem Graph_TaskSet00_head_of_none (env : Env) (s : Sys) (h : s.handshakeMsg env = none) :
    Graph_TaskSet00_head env s = .stop .blocked
      (((Graph_TaskSet00_enter env s).emit (timerEvent env)).recv env OS_MESG_BLOCK) := by
  have h1 := (Graph_TaskSet00_enter_handshakeMsg env s).trans h
  rw [Graph_TaskSet00_head_eq]
  simp [Graph_TaskSet00_handshake_of_none env _ h1]

theorem Graph_TaskSet00_head_of_666 (env : Env) (s : Sys) (h : s.handshakeMsg env = some 666) :
    Graph_TaskSet00_head env s = .stop .hungup
      (Graph_TaskSet00_handshake_hung env (Graph_TaskSet00_enter env s)) := by
  have h1 := (Graph_TaskSet00_enter_handshakeMsg env s).trans h
  rw [Graph_TaskSet00_head_eq]
  simp [Graph_TaskSet00_handshake_of_666 env _ h1]

theorem Graph_TaskSet00_head_of_some (env : Env) (s : Sys) {m : Nat}
    (h : s.handshakeMsg env = some m) (hm : m ≠ 666) :
    Graph_TaskSet00_head env s = .ok () (Graph_TaskSet00_head_ok env s) := by
  have h1 := (Graph_TaskSet00_enter_handshakeMsg env s).trans h
  rw [Graph_TaskSet00_head_eq]
  simp [Graph_TaskSet00_handshake_of_some env _ h1 hm, Graph_TaskSet00_callback_apply,
    Graph_TaskSet00_time_apply, Graph_TaskSet00_head_ok]

theorem Graph_TaskSet00_of_head_ok (env : Env) (s c : Sys)
    (h : Graph_TaskSet00_head env s = .ok () c) :
    Graph_TaskSet00 env s = .ok () (Graph_TaskSet00_tail_ok env c) := by
  unfold Graph_TaskSet00
  simp [h, Graph_TaskSet00_send_apply, Graph_TaskSet00_tail_ok]

theorem Graph_TaskSet00_of_head_stop (env : Env) (s c : Sys) (w : Stop)
    (h : Graph_TaskSet00_head env s = .stop w c) :
    Graph_TaskSet00 env s = .stop w c := by
  unfold Graph_TaskSet00
  simp [h]

/-! ### The blocks of `Graph_Update` -/

theorem Graph_Update_validate_of_head (env : Env) (s : Sys)
    (h : s.headMagic env ≠ some GFXPOOL_HEAD_MAGIC) :
    Graph_Update_validate env s = .stop .hungup (Graph_Update_validate_head env s) := by
  unfold Sys.headMagic Sys.pool at h
  unfold Graph_Update_validate Graph_Update_validate_head
  simp at h
  simp [h]

theorem Graph_Update_validate_of_tail (env : Env) (s : Sys)
    (hh : s.headMagic env = some GFXPOOL_HEAD_MAGIC)
    (h : s.tailMagic env ≠ some GFXPOOL_TAIL_MAGIC) :
    Graph_Update_validate env s = .stop .hungup (Graph_Update_validate_tail env s) := by
  unfold Sys.headMagic Sys.pool at hh
  unfold Sys.tailMagic Sys.pool at h
  unfold Graph_Update_validate Graph_Update_validate_tail
  simp at h hh
  simp [h, hh]

theorem Graph_Update_validate_of_intact (env : Env) (s : Sys)
    (hh : s.headMagic env = some GFXPOOL_HEAD_MAGIC)
    (ht : s.tailMagic env = some GFXPOOL_TAIL_MAGIC) :
    Graph_Update_validate env s = .ok () (Graph_Update_validate_ok s) := by
  unfold Sys.headMagic Sys.pool at hh
  unfold Sys.tailMagic Sys.pool at ht
  unfold Graph_Update_validate Graph_Update_validate_ok
  simp at hh ht
  cases h1 : THGA_IsCrash s.gfxCtx.polyOpa <;> cases h2 : THGA_IsCrash s.gfxCtx.polyXlu <;>
    cases h3 : THGA_IsCrash s.gfxCtx.overlay <;> simp [hh, ht, h1, h2, h3, Sys.emit]

theorem Graph_Update_validate_ok_problem (s : Sys) :
    (Graph_Update_validate_ok s).problem = s.crashed := by
  unfold Graph_Update_validate_ok Sys.crashed
  cases h1 : THGA_IsCrash s.gfxCtx.polyOpa <;> cases h2 : THGA_IsCrash s.gfxCtx.polyXlu <;>
    cases h3 : THGA_IsCrash s.gfxCtx.overlay <;> simp [h1, h2, h3, Sys.emit]

theorem Graph_Update_validate_ok_calm (s : Sys) : s.Calm (Graph_Update_validate_ok s) := by
  unfold Graph_Update_validate_ok
  cases h1 : THGA_IsCrash s.gfxCtx.polyOpa <;> cases h2 : THGA_IsCrash s.gfxCtx.polyXlu <;>
    cases h3 : THGA_IsCrash s.gfxCtx.overlay <;>
    simp [h1, h2, h3, Sys.Calm, Sys.Adds, Sys.idx, Sys.inbox, Sys.emit, Event.quiet,
      Event.isFault, Event.isTask]

theorem Graph_Update_time_apply (env : Env) (s : Sys) :
    Graph_Update_time env s = .ok () (Graph_Update_time_ok env s) := by
  unfold Graph_Update_time Graph_Update_time_ok
  by_cases h : s.sGraphPrevUpdateEndTime = 0 <;> simp [Sys.emit, h]

theorem Graph_Update_time_ok_calm (env : Env) (s : Sys) : s.Calm (Graph_Update_time_ok env s) :=
  ⟨rfl, rfl, [_], rfl, by simp [Event.quiet, Event.isFault, Event.isTask]⟩

theorem Graph_Update_finish_calm (env : Env) (s : Sys) : s.Calm (Graph_Update_finish env s) :=
  (Sys.Calm.calm_emit s (by rfl)).trans ((Sys.Calm.calm_external ..).trans
    ((Graph_Update_time_ok_calm ..).trans (Graph_Update_transitions_calm ..)))

theorem Graph_Update_eq (env : Env) (s : Sys) :
    Graph_Update env s
      = (do Graph_Update_validate env
            Graph_Update_submit env
            run fun s => (s.emit .Audio_Update).external env.Audio_Update
            Graph_Update_time env
            run (Graph_Update_transitions env) : M Unit) (s.atValidation env) := rfl

theorem Graph_Update_of_head (env : Env) (s : Sys)
    (h : (s.atValidation env).headMagic env ≠ some GFXPOOL_HEAD_MAGIC) :
    Graph_Update env s = .stop .hungup (Graph_Update_validate_head env (s.atValidation env)) := by
  rw [Graph_Update_eq]
  simp [Graph_Update_validate_of_head env _ h]

theorem Graph_Update_of_tail (env : Env) (s : Sys)
    (hh : (s.atValidation env).headMagic env = some GFXPOOL_HEAD_MAGIC)
    (h : (s.atValidation env).tailMagic env ≠ some GFXPOOL_TAIL_MAGIC) :
    Graph_Update env s = .stop .hungup (Graph_Update_validate_tail env (s.atValidation env)) := by
  rw [Graph_Update_eq]
  simp [Graph_Update_validate_of_tail env _ hh h]

theorem Graph_Update_of_crashed (env : Env) (s : Sys)
    (hh : (s.atValidation env).headMagic env = some GFXPOOL_HEAD_MAGIC)
    (ht : (s.atValidation env).tailMagic env = some GFXPOOL_TAIL_MAGIC)
    (hc : (s.atValidation env).crashed = true) :
    Graph_Update env s
      = .ok () (Graph_Update_finish env (Graph_Update_validate_ok (s.atValidation env))) := by
  rw [Graph_Update_eq]
  simp [Graph_Update_validate_of_intact env _ hh ht, Graph_Update_submit,
    Graph_Update_validate_ok_problem, hc, Graph_Update_time_apply, Graph_Update_finish]

theorem Graph_Update_of_sound (env : Env) (s : Sys)
    (hh : (s.atValidation env).headMagic env = some GFXPOOL_HEAD_MAGIC)
    (ht : (s.atValidation env).tailMagic env = some GFXPOOL_TAIL_MAGIC)
    (hc : (s.atValidation env).crashed = false) :
    Graph_Update env s
      = match Graph_TaskSet00 env (Graph_Update_validate_ok (s.atValidation env)) with
        | .ok _ t => .ok () (Graph_Update_finish env (Graph_Update_advance t))
        | .stop w t => .stop w t := by
  rw [Graph_Update_eq]
  simp only [M.bind_eq, M.bind_apply, Graph_Update_validate_of_intact env _ hh ht,
    Graph_Update_submit, getS_apply, Graph_Update_validate_ok_problem, hc]
  cases h : Graph_TaskSet00 env (Graph_Update_validate_ok (s.atValidation env)) <;>
    simp [h, Graph_Update_time_apply, Graph_Update_finish, Graph_Update_advance]

/-! ### Frames that do not submit -/

theorem Event.notTask_of_quiet (e : Event) (h : e.quiet = true) : e.notTask = true := by
  simp [Event.quiet] at h
  simp [Event.notTask, h.2]

theorem Event.notFault_of_quiet (e : Event) (h : e.quiet = true) : e.notFault = true := by
  simp [Event.quiet] at h
  simp [Event.notFault, h.1]

theorem Sys.atValidation_calm (env : Env) (s : Sys) : s.Calm (s.atValidation env) :=
  (Sys.Calm.calm_emit s (by rfl)).trans (Graph_Update_build_calm env _)

theorem Sys.Calm.calm_gfxPoolIdx {s s1 : Sys} (h : s.Calm s1) :
    s1.gfxCtx.gfxPoolIdx = s.gfxCtx.gfxPoolIdx := congrArg Prod.fst h.1

theorem Sys.Calm.calm_fbIdx {s s1 : Sys} (h : s.Calm s1) : s1.gfxCtx.fbIdx = s.gfxCtx.fbIdx :=
  congrArg Prod.snd h.1

theorem Graph_Update_validate_head_adds (env : Env) (s : Sys) :
    s.Adds Event.notTask (Graph_Update_validate_head env s) :=
  ⟨[.printf "%c", .printf "Dynamic area head is destroyed\n",
      .Fault_AddHungupAndCrash "../graph.c" (headFaultLine env)],
    by simp [Graph_Update_validate_head, Sys.emit], by simp [Event.notTask, Event.isTask]⟩

theorem Graph_Update_validate_tail_adds (env : Env) (s : Sys) :
    s.Adds Event.notTask (Graph_Update_validate_tail env s) :=
  ⟨[.printf "%c", .printf "Dynamic region tail is destroyed\n",
      .Fault_AddHungupAndCrash "../graph.c" (tailFaultLine env)],
    by simp [Graph_Update_validate_tail, Sys.emit], by simp [Event.notTask, Event.isTask]⟩

theorem Graph_Update_validate_head_idx (env : Env) (s : Sys) :
    (Graph_Update_validate_head env s).idx = s.idx := rfl

theorem Graph_Update_validate_tail_idx (env : Env) (s : Sys) :
    (Graph_Update_validate_tail env s).idx = s.idx := rfl

/-! ### Pool memory -/

theorem Mem.store_same (m : Mem) (a : Nat) (c : Cell) : (m.store a c) a = c := by
  simp [Mem.store]

theorem Mem.store_other (m : Mem) (a b : Nat) (c : Cell) (h : b ≠ a) : (m.store a c) b = m b := by
  simp [Mem.store, h]

theorem THGA_Init_not_crashed (a n : Nat) : THGA_IsCrash (THGA_Init a n) = false := by
  simp [THGA_IsCrash, THGA_Init]

theorem Graph_InitTHGA_polyOpa (env : Env) (s : Sys) :
    (Graph_InitTHGA env s).gfxCtx.polyOpa = THGA_Init (s.pool env + 0x8) (0x17E0 * 8) := rfl

theorem Graph_InitTHGA_polyXlu (env : Env) (s : Sys) :
    (Graph_InitTHGA env s).gfxCtx.polyXlu = THGA_Init (s.pool env + 0xBF08) (0x800 * 8) := rfl

theorem Graph_InitTHGA_overlay (env : Env) (s : Sys) :
    (Graph_InitTHGA env s).gfxCtx.overlay = THGA_Init (s.pool env + 0xFF08) (0x400 * 8) := rfl

theorem Graph_InitTHGA_work (env : Env) (s : Sys) :
    (Graph_InitTHGA env s).gfxCtx.work = THGA_Init (s.pool env + 0x11F08) (0x80 * 8) := rfl

theorem Graph_InitTHGA_buffers (env : Env) (s : Sys) :
    (Graph_InitTHGA env s).gfxCtx.polyOpaBuffer = s.pool env + 0x8
    ∧ (Graph_InitTHGA env s).gfxCtx.polyXluBuffer = s.pool env + 0xBF08
    ∧ (Graph_InitTHGA env s).gfxCtx.overlayBuffer = s.pool env + 0xFF08
    ∧ (Graph_InitTHGA env s).gfxCtx.workBuffer = s.pool env + 0x11F08 := ⟨rfl, rfl, rfl, rfl⟩

theorem Graph_InitTHGA_mem (env : Env) (s : Sys) :
    (Graph_InitTHGA env s).mem
      = (s.mem.store (s.pool env + 0x0) (.half 0x1234)).store (s.pool env + 0x12408)
          (.half 0x5678) := rfl

theorem Graph_InitTHGA_headMagic (env : Env) (s : Sys) :
    (Graph_InitTHGA env s).mem.half (s.pool env + 0x0) = some 0x1234 := by
  have h : s.pool env + 0x0 ≠ s.pool env + 0x12408 := by omega
  rw [Graph_InitTHGA_mem]
  unfold Mem.half
  rw [Mem.store_other _ _ _ _ h, Mem.store_same]

theorem Mem.half_store_same (m : Mem) (a v : Nat) : (m.store a (.half v)).half a = some v := by
  unfold Mem.half
  rw [Mem.store_same]

theorem Graph_InitTHGA_tailMagic (env : Env) (s : Sys) :
    (Graph_InitTHGA env s).mem.half (s.pool env + 0x12408) = some 0x5678 := by
  rw [Graph_InitTHGA_mem]
  exact Mem.half_store_same _ _ _

/-- C1. After `Graph_InitTHGA` the pool selected by `gfxPoolIdx & 1` has both
sentinels at their magic values, each of the four arenas is bound to its own
sub-region of that pool with its full size and is empty (head cursor at the
start, tail cursor at the end, not crashed), and the four buffer-base pointers
of the context are the starts of the sub-regions. -/
theorem C1_InitTHGA_resets_pool (env : Env) (s : Sys) :
    let pool := gGfxPoolsAt env (s.gfxCtx.gfxPoolIdx &&& 1)
    let s1 := Graph_InitTHGA env s
    s1.mem.half (pool + 0x0) = some 0x1234 ∧
    s1.mem.half (pool + 0x12408) = some 0x5678 ∧
    s1.gfxCtx.polyOpa
      = { size := 0x17E0 * 8, start := pool + 0x8, p := pool + 0x8, d := pool + 0x8 + 0x17E0 * 8 } ∧
    s1.gfxCtx.polyXlu
      = { size := 0x800 * 8, start := pool + 0xBF08, p := pool + 0xBF08,
          d := pool + 0xBF08 + 0x800 * 8 } ∧
    s1.gfxCtx.overlay
      = { size := 0x400 * 8, start := pool + 0xFF08, p := pool + 0xFF08,
          d := pool + 0xFF08 + 0x400 * 8 } ∧
    s1.gfxCtx.work
      = { size := 0x80 * 8, start := pool + 0x11F08, p := pool + 0x11F08,
          d := pool + 0x11F08 + 0x80 * 8 } ∧
    THGA_IsCrash s1.gfxCtx.polyOpa = false ∧ THGA_IsCrash s1.gfxCtx.polyXlu = false ∧
    THGA_IsCrash s1.gfxCtx.overlay = false ∧ THGA_IsCrash s1.gfxCtx.work = false ∧
    s1.gfxCtx.polyOpaBuffer = pool + 0x8 ∧ s1.gfxCtx.polyXluBuffer = pool + 0xBF08 ∧
    s1.gfxCtx.overlayBuffer = pool + 0xFF08 ∧ s1.gfxCtx.workBuffer = pool + 0x11F08 := by
  intro pool s1
  have hb := Graph_InitTHGA_buffers env s
  refine ⟨Graph_InitTHGA_headMagic env s, Graph_InitTHGA_tailMagic env s,
    Graph_InitTHGA_polyOpa env s, Graph_InitTHGA_polyXlu env s,
    Graph_InitTHGA_overlay env s, Graph_InitTHGA_work env s, ?_, ?_, ?_, ?_, hb.1, hb.2.1,
    hb.2.2.1, hb.2.2.2⟩
  · show THGA_IsCrash (Graph_InitTHGA env s).gfxCtx.polyOpa = false
    rw [Graph_InitTHGA_polyOpa, THGA_Init_not_crashed]
  · show THGA_IsCrash (Graph_InitTHGA env s).gfxCtx.polyXlu = false
    rw [Graph_InitTHGA_polyXlu, THGA_Init_not_crashed]
  · show THGA_IsCrash (Graph_InitTHGA env s).gfxCtx.overlay = false
    rw [Graph_InitTHGA_overlay, THGA_Init_not_crashed]
  · show THGA_IsCrash (Graph_InitTHGA env s).gfxCtx.work = false
    rw [Graph_InitTHGA_work, THGA_Init_not_crashed]

/-- C2. In a frame whose end-of-frame validation finds the arena of opaque
polygons, of translucent polygons or the overlay arena crashed, the frame adds
no event of a task submission to the trace (`Graph_TaskSet00` is not entered,
nothing is sent to the scheduler), and the pool index and the frame-buffer
index at the end of `Graph_Update` are those at its entry. -/
theorem C2_crashed_frame_is_not_submitted (env : Env) (s : Sys)
    (h : THGA_IsCrash (s.atValidation env).gfxCtx.polyOpa = true
      ∨ THGA_IsCrash (s.atValidation env).gfxCtx.polyXlu = true
      ∨ THGA_IsCrash (s.atValidation env).gfxCtx.overlay = true) :
    (∃ evs, (Graph_Update env s).state.trace = s.trace ++ evs
      ∧ Event.call "Graph_TaskSet00" ∉ evs ∧ ∀ e ∈ evs, e.isTask = false) ∧
    (Graph_Update env s).state.gfxCtx.gfxPoolIdx = s.gfxCtx.gfxPoolIdx ∧
    (Graph_Update env s).state.gfxCtx.fbIdx = s.gfxCtx.fbIdx := by
  have hc : (s.atValidation env).crashed = true := by
    simpa [Sys.crashed, or_assoc] using h
  have hv := Sys.atValidation_calm env s
  have key : s.Adds Event.notTask (Graph_Update env s).state
      ∧ (Graph_Update env s).state.idx = s.idx := by
    by_cases hh : (s.atValidation env).headMagic env = some GFXPOOL_HEAD_MAGIC
    · by_cases ht : (s.atValidation env).tailMagic env = some GFXPOOL_TAIL_MAGIC
      · rw [Graph_Update_of_crashed env s hh ht hc]
        have h2 := hv.trans ((Graph_Update_validate_ok_calm _).trans (Graph_Update_finish_calm env _))
        exact ⟨h2.2.2.adds_mono Event.notTask_of_quiet, h2.1⟩
      · rw [Graph_Update_of_tail env s hh ht]
        exact ⟨(hv.2.2.adds_mono Event.notTask_of_quiet).adds_trans (Graph_Update_validate_tail_adds ..),
          (Graph_Update_validate_tail_idx ..).trans hv.1⟩
    · rw [Graph_Update_of_head env s hh]
      exact ⟨(hv.2.2.adds_mono Event.notTask_of_quiet).adds_trans (Graph_Update_validate_head_adds ..),
        (Graph_Update_validate_head_idx ..).trans hv.1⟩
  obtain ⟨⟨evs, ht, hq⟩, hi⟩ := key
  refine ⟨⟨evs, ht, ?_, fun e he => by simpa [Event.notTask] using hq e he⟩,
    congrArg Prod.fst hi, congrArg Prod.snd hi⟩
  intro hmem
  have := hq _ hmem
  simp [Event.notTask, Event.isTask] at this

/-- C2, at a concrete frame: the update hook overflows the region of opaque
polygons. -/
theorem C2_crashed_frame_is_not_submitted_witness :
    THGA_IsCrash ((Graph_Init overflowEnv demoSys).atValidation overflowEnv).gfxCtx.polyOpa = true ∧
    ((∃ evs, (Graph_Update overflowEnv (Graph_Init overflowEnv demoSys)).state.trace
        = (Graph_Init overflowEnv demoSys).trace ++ evs
      ∧ Event.call "Graph_TaskSet00" ∉ evs ∧ ∀ e ∈ evs, e.isTask = false) ∧
    (Graph_Update overflowEnv (Graph_Init overflowEnv demoSys)).state.gfxCtx.gfxPoolIdx
      = (Graph_Init overflowEnv demoSys).gfxCtx.gfxPoolIdx ∧
    (Graph_Update overflowEnv (Graph_Init overflowEnv demoSys)).state.gfxCtx.fbIdx
      = (Graph_Init overflowEnv demoSys).gfxCtx.fbIdx) :=
  ⟨by rfl, C2_crashed_frame_is_not_submitted overflowEnv _ (Or.inl (by rfl))⟩

theorem Graph_Update_validate_ok_trace (s : Sys) :
    (Graph_Update_validate_ok s).trace = s.trace
      ++ (if THGA_IsCrash s.gfxCtx.polyOpa then
            [.printf "%c", .printf "Zelda 0 is dead (graph_alloc is empty)\n"] else [])
      ++ (if THGA_IsCrash s.gfxCtx.polyXlu then
            [.printf "%c", .printf "Zelda 1 is dead (graph_alloc is empty)\n"] else [])
      ++ (if THGA_IsCrash s.gfxCtx.overlay then
            [.printf "%c", .printf "Zelda 4 is dead (graph_alloc is empty)\n"] else []) := by
  unfold Graph_Update_validate_ok
  cases h1 : THGA_IsCrash s.gfxCtx.polyOpa <;> cases h2 : THGA_IsCrash s.gfxCtx.polyXlu <;>
    cases h3 : THGA_IsCrash s.gfxCtx.overlay <;> simp [h1, h2, h3, Sys.emit]

theorem Graph_Update_finish_problem (env : Env) (s : Sys) :
    (Graph_Update_finish env s).problem = s.problem := by
  unfold Graph_Update_finish Graph_Update_transitions
  dsimp only
  split_ifs <;> rfl

/-- C3, the code at a frame whose head sentinel was overwritten: the validation
stops in the fault handler with the problem flag still clear, while for an
overwritten tail sentinel it stops there with the flag set. -/
theorem C3_head_sentinel_does_not_set_problem :
    ((Graph_Init stompHeadEnv demoSys).atValidation stompHeadEnv).headMagic stompHeadEnv
      ≠ some GFXPOOL_HEAD_MAGIC ∧
    (Graph_Update stompHeadEnv (Graph_Init stompHeadEnv demoSys)).stopped = some .hungup ∧
    (Graph_Update stompHeadEnv (Graph_Init stompHeadEnv demoSys)).state.problem = false ∧
    ((Graph_Init stompTailEnv demoSys).atValidation stompTailEnv).tailMagic stompTailEnv
      ≠ some GFXPOOL_TAIL_MAGIC ∧
    (Graph_Update stompTailEnv (Graph_Init stompTailEnv demoSys)).stopped = some .hungup ∧
    (Graph_Update stompTailEnv (Graph_Init stompTailEnv demoSys)).state.problem = true := by
  refine ⟨by decide, by rfl, by rfl, by decide, by rfl, by rfl⟩

/-- C3, for every frame: a corrupted head sentinel leads to the fault handler
with the problem flag clear, a corrupted tail sentinel (under an intact head
sentinel) with the flag set. -/
theorem Graph_Update_sentinel_asymmetry (env : Env) (s : Sys) :
    ((s.atValidation env).headMagic env ≠ some GFXPOOL_HEAD_MAGIC →
      (Graph_Update env s).stopped = some .hungup ∧ (Graph_Update env s).state.problem = false) ∧
    ((s.atValidation env).headMagic env = some GFXPOOL_HEAD_MAGIC →
      (s.atValidation env).tailMagic env ≠ some GFXPOOL_TAIL_MAGIC →
      (Graph_Update env s).stopped = some .hungup ∧ (Graph_Update env s).state.problem = true) := by
  constructor
  · intro hh
    rw [Graph_Update_of_head env s hh]
    exact ⟨rfl, rfl⟩
  · intro hh ht
    rw [Graph_Update_of_tail env s hh ht]
    exact ⟨rfl, rfl⟩

/-- C4, refuted at a concrete frame: the update hook overflows the region of
opaque polygons, the validation finds the arena crashed, and `Graph_Update`
returns to the frame loop with the game state still running and without any
call of the fault facility in the whole run. -/
theorem C4_crash_is_not_fatal_counterexample :
    THGA_IsCrash ((Graph_Init overflowEnv demoSys).atValidation overflowEnv).gfxCtx.polyOpa = true ∧
    (Graph_Update overflowEnv (Graph_Init overflowEnv demoSys)).returned = true ∧
    (Graph_Update overflowEnv (Graph_Init overflowEnv demoSys)).state.gameState.running = 1 ∧
    (Graph_Update overflowEnv (Graph_Init overflowEnv demoSys)).state.trace.filter Event.isFault
      = [] := by
  refine ⟨by rfl, by rfl, by rfl, by rfl⟩

/-- C4, amended. In a frame whose end-of-frame validation finds the arena of
opaque polygons, of translucent polygons or the overlay arena crashed while
both sentinels are intact, `Graph_Update` sets the problem flag, prints the
"graph_alloc is empty" diagnostic of each crashed arena, calls neither the
fault facility nor `Graph_TaskSet00`, and returns to the frame loop. -/
theorem C4_crash_is_logged_and_skipped (env : Env) (s : Sys)
    (hh : (s.atValidation env).headMagic env = some GFXPOOL_HEAD_MAGIC)
    (ht : (s.atValidation env).tailMagic env = some GFXPOOL_TAIL_MAGIC)
    (h : THGA_IsCrash (s.atValidation env).gfxCtx.polyOpa = true
      ∨ THGA_IsCrash (s.atValidation env).gfxCtx.polyXlu = true
      ∨ THGA_IsCrash (s.atValidation env).gfxCtx.overlay = true) :
    (Graph_Update env s).returned = true ∧
    (Graph_Update env s).state.problem = true ∧
    ∃ evs, (Graph_Update env s).state.trace = s.trace ++ evs
      ∧ (∀ e ∈ evs, e.isFault = false ∧ e.isTask = false)
      ∧ (THGA_IsCrash (s.atValidation env).gfxCtx.polyOpa = true →
          Event.printf "Zelda 0 is dead (graph_alloc is empty)\n" ∈ evs)
      ∧ (THGA_IsCrash (s.atValidation env).gfxCtx.polyXlu = true →
          Event.printf "Zelda 1 is dead (graph_alloc is empty)\n" ∈ evs)
      ∧ (THGA_IsCrash (s.atValidation env).gfxCtx.overlay = true →
          Event.printf "Zelda 4 is dead (graph_alloc is empty)\n" ∈ evs) := by
  have hc : (s.atValidation env).crashed = true := by
    simpa [Sys.crashed, or_assoc] using h
  rw [Graph_Update_of_crashed env s hh ht hc]
  obtain ⟨-, -, e1, t1, q1⟩ := Sys.atValidation_calm env s
  obtain ⟨-, -, e3, t3, q3⟩ :=
    Graph_Update_finish_calm env (Graph_Update_validate_ok (s.atValidation env))
  refine ⟨rfl, ?_,
    e1 ++ ((if THGA_IsCrash (s.atValidation env).gfxCtx.polyOpa then
        [.printf "%c", .printf "Zelda 0 is dead (graph_alloc is empty)\n"] else [])
      ++ ((if THGA_IsCrash (s.atValidation env).gfxCtx.polyXlu then
        [.printf "%c", .printf "Zelda 1 is dead (graph_alloc is empty)\n"] else [])
      ++ ((if THGA_IsCrash (s.atValidation env).gfxCtx.overlay then
        [.printf "%c", .printf "Zelda 4 is dead (graph_alloc is empty)\n"] else []) ++ e3))),
    ?_, ?_, ?_, ?_, ?_⟩
  · show (Graph_Update_finish env _).problem = true
    rw [Graph_Update_finish_problem, Graph_Update_validate_ok_problem, hc]
  · show (Graph_Update_finish env _).trace = _
    rw [t3, Graph_Update_validate_ok_trace, t1]
    simp only [List.append_assoc]
  · intro e he
    have hq : e.quiet = true := by
      simp only [List.mem_append] at he
      rcases he with he | he | he | he | he
      · exact q1 e he
      · split_ifs at he <;> simp at he
        rcases he with rfl | rfl <;> rfl
      · split_ifs at he <;> simp at he
        rcases he with rfl | rfl <;> rfl
      · split_ifs at he <;> simp at he
        rcases he with rfl | rfl <;> rfl
      · exact q3 e he
    simp [Event.quiet] at hq
    exact hq
  · intro h1
    simp [h1]
  · intro h1
    simp [h1]
  · intro h1
    simp [h1]

/-- C4, amended, at a concrete frame: the update hook overflows the region of
opaque polygons. -/
theorem C4_crash_is_logged_and_skipped_witness :
    (Graph_Update overflowEnv (Graph_Init overflowEnv demoSys)).returned = true ∧
    (Graph_Update overflowEnv (Graph_Init overflowEnv demoSys)).state.problem = true ∧
    ∃ evs, (Graph_Update overflowEnv (Graph_Init overflowEnv demoSys)).state.trace
        = (Graph_Init overflowEnv demoSys).trace ++ evs
      ∧ (∀ e ∈ evs, e.isFault = false ∧ e.isTask = false)
      ∧ (THGA_IsCrash ((Graph_Init overflowEnv demoSys).atValidation overflowEnv).gfxCtx.polyOpa
            = true → Event.printf "Zelda 0 is dead (graph_alloc is empty)\n" ∈ evs)
      ∧ (THGA_IsCrash ((Graph_Init overflowEnv demoSys).atValidation overflowEnv).gfxCtx.polyXlu
            = true → Event.printf "Zelda 1 is dead (graph_alloc is empty)\n" ∈ evs)
      ∧ (THGA_IsCrash ((Graph_Init overflowEnv demoSys).atValidation overflowEnv).gfxCtx.overlay
            = true → Event.printf "Zelda 4 is dead (graph_alloc is empty)\n" ∈ evs) :=
  C4_crash_is_logged_and_skipped overflowEnv (Graph_Init overflowEnv demoSys) (by rfl) (by rfl)
    (Or.inl (by rfl))

/-! ### What a task submission leaves -/

theorem Sys.recv_trace (env : Env) (b : Bool) (s : Sys) :
    (s.recv env b).trace = s.trace ++ [.osRecvMesg (queueAddr env) b (s.handshakeMsg env)] := rfl

theorem Sys.emit_trace (s : Sys) (e : Event) : (s.emit e).trace = s.trace ++ [e] := rfl

theorem Sys.recv_idx (env : Env) (b : Bool) (s : Sys) : (s.recv env b).idx = s.idx := rfl

theorem Sys.recv_callback (env : Env) (b : Bool) (s : Sys) :
    (s.recv env b).gfxCtx.callback = s.gfxCtx.callback
      ∧ (s.recv env b).gfxCtx.callbackParam = s.gfxCtx.callbackParam := ⟨rfl, rfl⟩

theorem Graph_TaskSet00_enter_trace (env : Env) (s : Sys) :
    (Graph_TaskSet00_enter env s).trace
      = s.trace ++ [.call "Graph_TaskSet00", .osGetTime (env.osGetTime s.nTime % 2 ^ 64)] := by
  simp [Graph_TaskSet00_enter, Sys.emit]

theorem Graph_TaskSet00_enter_idx (env : Env) (s : Sys) :
    (Graph_TaskSet00_enter env s).idx = s.idx := rfl

theorem Graph_TaskSet00_enter_callback (env : Env) (s : Sys) :
    (Graph_TaskSet00_enter env s).gfxCtx.callback = s.gfxCtx.callback
      ∧ (Graph_TaskSet00_enter env s).gfxCtx.callbackParam = s.gfxCtx.callbackParam := ⟨rfl, rfl⟩

theorem Graph_TaskSet00_handshake_ok_trace (env : Env) (s : Sys) :
    ∃ r, (Graph_TaskSet00_handshake_ok env s).trace
      = s.trace ++ [timerEvent env, .osRecvMesg (queueAddr env) true (s.handshakeMsg env),
          .osStopTimer, .osRecvMesg (queueAddr env) false r] := by
  refine ⟨(((s.emit (timerEvent env)).recv env OS_MESG_BLOCK).emit .osStopTimer).handshakeMsg env,
    ?_⟩
  have h : (s.emit (timerEvent env)).handshakeMsg env = s.handshakeMsg env :=
    Sys.handshakeMsg_congr env rfl
  unfold Graph_TaskSet00_handshake_ok
  dsimp only
  split_ifs <;>
    simp only [Sys.recv_trace, Sys.emit_trace, h, OS_MESG_BLOCK, OS_MESG_NOBLOCK,
      List.append_assoc, List.singleton_append, List.cons_append, List.nil_append]

theorem Graph_TaskSet00_handshake_ok_idx (env : Env) (s : Sys) :
    (Graph_TaskSet00_handshake_ok env s).idx = s.idx := by
  unfold Graph_TaskSet00_handshake_ok
  dsimp only
  split_ifs <;> rfl

theorem Graph_TaskSet00_handshake_ok_callback (env : Env) (s : Sys) :
    (Graph_TaskSet00_handshake_ok env s).gfxCtx.callback = s.gfxCtx.callback
      ∧ (Graph_TaskSet00_handshake_ok env s).gfxCtx.callbackParam = s.gfxCtx.callbackParam := by
  unfold Graph_TaskSet00_handshake_ok
  dsimp only
  split_ifs <;> exact ⟨rfl, rfl⟩

theorem Graph_TaskSet00_hangLog_calm (env : Env) (s : Sys) :
    s.Calm (Graph_TaskSet00_hangLog env s) := by
  unfold Graph_TaskSet00_hangLog
  dsimp only
  have h0 : s.Calm ((((((((s.emit (.printf "VT_FGCOL(RED)")).emit (.printf "RCP did not return.")).emit
      (.printf "VT_RST")).emit (.LogUtils_LogHexDump "PHYS_TO_K1(SP_BASE_REG)")).emit
      (.LogUtils_LogHexDump "PHYS_TO_K1(DPC_BASE_REG)")).emit
      (.LogUtils_LogHexDump "gGfxSPTaskYieldBuffer")).setReg env.SREG_6 0xFFFF)) :=
    (Sys.Calm.calm_emit _ (by rfl)).trans ((Sys.Calm.calm_emit _ (by rfl)).trans
      ((Sys.Calm.calm_emit _ (by rfl)).trans ((Sys.Calm.calm_emit _ (by rfl)).trans
        ((Sys.Calm.calm_emit _ (by rfl)).trans ((Sys.Calm.calm_emit _ (by rfl)).trans
          (Sys.Calm.calm_setReg ..))))))
  split_ifs
  · exact h0.trans ((Sys.Calm.calm_setReg ..).trans ((Sys.Calm.calm_setReg ..).trans
      ((Sys.Calm.calm_setReg ..).trans (Graph_DisassembleUCode_calm ..))))
  · exact h0

theorem Graph_TaskSet00_handshake_hung_trace (env : Env) (s : Sys) :
    ∃ dbg, (Graph_TaskSet00_handshake_hung env s).trace
      = s.trace ++ ([timerEvent env, .osRecvMesg (queueAddr env) true (s.handshakeMsg env),
          .osStopTimer] ++ dbg
          ++ [.Fault_AddHungupAndCrashImpl "RCP is HUNG UP!!" "Oh! MY GOD!!"])
      ∧ ∀ e ∈ dbg, e.quiet = true := by
  have h : (s.emit (timerEvent env)).handshakeMsg env = s.handshakeMsg env :=
    Sys.handshakeMsg_congr env rfl
  unfold Graph_TaskSet00_handshake_hung
  dsimp only
  split_ifs
  · obtain ⟨-, -, dbg, t, q⟩ := Graph_TaskSet00_hangLog_calm env
      (((s.emit (timerEvent env)).recv env OS_MESG_BLOCK).emit .osStopTimer)
    refine ⟨dbg, ?_, q⟩
    simp only [OS_MESG_BLOCK] at t
    simp only [Sys.emit_trace, t, Sys.recv_trace, h, OS_MESG_BLOCK,
      List.append_assoc, List.singleton_append, List.cons_append, List.nil_append]
  · exact ⟨[], by simp only [Sys.emit_trace, Sys.recv_trace, h, OS_MESG_BLOCK,
      List.append_assoc, List.singleton_append, List.cons_append, List.nil_append,
      List.append_nil], by simp⟩

theorem Graph_TaskSet00_callback_ok_trace (env : Env) (s : Sys) :
    (Graph_TaskSet00_callback_ok env s).trace
      = s.trace ++ (if s.gfxCtx.callback ≠ 0 then
          [.callback s.gfxCtx.callback s.gfxCtx.callbackParam] else []) := by
  unfold Graph_TaskSet00_callback_ok
  split_ifs <;> simp [Sys.emit, Sys.external, Sys.setWorld]

theorem Graph_TaskSet00_callback_ok_idx (env : Env) (s : Sys) :
    (Graph_TaskSet00_callback_ok env s).idx = s.idx := by
  unfold Graph_TaskSet00_callback_ok
  split_ifs <;> rfl

theorem Graph_TaskSet00_time_ok_trace (env : Env) (s : Sys) :
    (Graph_TaskSet00_time_ok env s).trace
      = s.trace ++ [.osGetTime (env.osGetTime s.nTime % 2 ^ 64),
          .osGetTime (env.osGetTime (s.nTime + 1) % 2 ^ 64)] := rfl

theorem Graph_TaskSet00_time_ok_idx (env : Env) (s : Sys) :
    (Graph_TaskSet00_time_ok env s).idx = s.idx := rfl

theorem OPEN_DISPS_trace (env : Env) (file : String) (line : Nat) (s : Sys) :
    (OPEN_DISPS env file line s).2.trace = s.trace := by
  unfold OPEN_DISPS Graph_OpenDisps
  split_ifs <;> rfl

theorem CLOSE_DISPS_trace (env : Env) (d : Nat → Nat) (file : String) (line : Nat) (s : Sys) :
    (CLOSE_DISPS env d file line s).trace = s.trace := by
  unfold CLOSE_DISPS Graph_CloseDisps
  dsimp only
  split_ifs <;> rfl

theorem Graph_TaskSet00_task_trace (env : Env) (s : Sys) :
    (Graph_TaskSet00_task env s).trace = s.trace := by
  unfold Graph_TaskSet00_task
  dsimp only
  rw [CLOSE_DISPS_trace]
  exact OPEN_DISPS_trace ..

theorem Graph_TaskSet00_task_idx (env : Env) (s : Sys) :
    (Graph_TaskSet00_task env s).idx = s.idx := by
  unfold Graph_TaskSet00_task
  dsimp only
  exact ((CLOSE_DISPS_calm ..).1).trans (OPEN_DISPS_calm ..).1

theorem Graph_TaskSet00_head_ok_idx (env : Env) (s : Sys) :
    (Graph_TaskSet00_head_ok env s).idx = s.idx := by
  unfold Graph_TaskSet00_head_ok
  rw [Graph_TaskSet00_task_idx, Graph_TaskSet00_time_ok_idx, Graph_TaskSet00_callback_ok_idx,
    Graph_TaskSet00_handshake_ok_idx, Graph_TaskSet00_enter_idx]

theorem Graph_TaskSet00_head_ok_trace (env : Env) (s : Sys) :
    ∃ t0 r t1 t2, (Graph_TaskSet00_head_ok env s).trace
      = s.trace ++ ([.call "Graph_TaskSet00", .osGetTime t0, timerEvent env,
          .osRecvMesg (queueAddr env) true (s.handshakeMsg env), .osStopTimer,
          .osRecvMesg (queueAddr env) false r]
        ++ (if s.gfxCtx.callback ≠ 0 then
              [.callback s.gfxCtx.callback s.gfxCtx.callbackParam] else [])
        ++ [.osGetTime t1, .osGetTime t2]) := by
  obtain ⟨r, hr⟩ := Graph_TaskSet00_handshake_ok_trace env (Graph_TaskSet00_enter env s)
  have hc := Graph_TaskSet00_handshake_ok_callback env (Graph_TaskSet00_enter env s)
  have he := Graph_TaskSet00_enter_callback env s
  refine ⟨env.osGetTime s.nTime % 2 ^ 64, r,
    env.osGetTime (Graph_TaskSet00_callback_ok env (Graph_TaskSet00_handshake_ok env
      (Graph_TaskSet00_enter env s))).nTime % 2 ^ 64,
    env.osGetTime ((Graph_TaskSet00_callback_ok env (Graph_TaskSet00_handshake_ok env
      (Graph_TaskSet00_enter env s))).nTime + 1) % 2 ^ 64, ?_⟩
  unfold Graph_TaskSet00_head_ok
  rw [Graph_TaskSet00_task_trace, Graph_TaskSet00_time_ok_trace, Graph_TaskSet00_callback_ok_trace,
    hr, Graph_TaskSet00_enter_trace, Graph_TaskSet00_enter_handshakeMsg, hc.1, hc.2, he.1, he.2]
  simp only [List.append_assoc, List.cons_append, List.nil_append]

theorem Graph_TaskSet00_scTask_eq (env : Env) (s : Sys) :
    Graph_TaskSet00_scTask env s
      = if s.reg env.R_GRAPH_TASKSET00_FLAGS &&& 1 ≠ 0 then
          { s with
            regs := fun i =>
              if i = env.R_GRAPH_TASKSET00_FLAGS then
                wrapU16 (s.reg env.R_GRAPH_TASKSET00_FLAGS &&& 0xFFFE)
              else s.regs i,
            gfxCtx := { s.gfxCtx with
              fbIdx := wrapS32 (s.gfxCtx.fbIdx - 1),
              task := { s.gfxCtx.task with
                next := 0,
                flags := clearBits32 (env.OS_SC_NEEDS_RSP ||| env.OS_SC_NEEDS_RDP
                  ||| env.OS_SC_SWAPBUFFER ||| env.OS_SC_LAST_TASK) env.OS_SC_SWAPBUFFER,
                msgQueue := queueAddr env,
                msg := 0 } } }
        else
          { s with gfxCtx := { s.gfxCtx with
              task := { s.gfxCtx.task with
                next := 0,
                flags := env.OS_SC_NEEDS_RSP ||| env.OS_SC_NEEDS_RDP ||| env.OS_SC_SWAPBUFFER
                  ||| env.OS_SC_LAST_TASK,
                msgQueue := queueAddr env,
                msg := 0 } } } := by
  unfold Graph_TaskSet00_scTask
  by_cases h : s.reg env.R_GRAPH_TASKSET00_FLAGS &&& 1 = 0
  · simp only [Sys.reg] at h ⊢
    simp only [h, ne_eq, not_true_eq_false, if_false]
  · simp only [Sys.reg] at h ⊢
    simp only [h, ne_eq, not_false_eq_true, if_true]
    rfl

theorem Graph_TaskSet00_scTask_trace (env : Env) (s : Sys) :
    (Graph_TaskSet00_scTask env s).trace = s.trace := by
  rw [Graph_TaskSet00_scTask_eq]
  split_ifs <;> rfl

theorem Graph_TaskSet00_cfb_trace (env : Env) (s : Sys) :
    (Graph_TaskSet00_cfb env s).trace = s.trace := by
  unfold Graph_TaskSet00_cfb
  dsimp only
  split_ifs <;> rfl

theorem Graph_TaskSet00_cfb_idx (env : Env) (s : Sys) :
    (Graph_TaskSet00_cfb env s).idx = s.idx := by
  unfold Graph_TaskSet00_cfb
  dsimp only
  split_ifs <;> rfl

theorem Graph_TaskSet00_scTask_idx (env : Env) (s : Sys) :
    (Graph_TaskSet00_scTask env s).idx
      = (s.gfxCtx.gfxPoolIdx,
          if s.reg env.R_GRAPH_TASKSET00_FLAGS &&& 1 ≠ 0 then wrapS32 (s.gfxCtx.fbIdx - 1)
          else s.gfxCtx.fbIdx) := by
  rw [Graph_TaskSet00_scTask_eq]
  split_ifs <;> rfl

theorem Graph_TaskSet00_tail_ok_idx (env : Env) (s : Sys) :
    (Graph_TaskSet00_tail_ok env s).idx
      = (s.gfxCtx.gfxPoolIdx,
          if s.reg env.R_GRAPH_TASKSET00_FLAGS &&& 1 ≠ 0 then wrapS32 (s.gfxCtx.fbIdx - 1)
          else s.gfxCtx.fbIdx) := by
  have h : (Graph_TaskSet00_tail_ok env s).idx
      = (Graph_TaskSet00_cfb env (Graph_TaskSet00_scTask env s)).idx := rfl
  rw [h, Graph_TaskSet00_cfb_idx, Graph_TaskSet00_scTask_idx]

theorem Graph_TaskSet00_tail_ok_trace (env : Env) (s : Sys) :
    (Graph_TaskSet00_tail_ok env s).trace
      = s.trace ++ [.osSendMesg env.gScheduler_cmdQueue
          (Graph_TaskSet00_cfb env (Graph_TaskSet00_scTask env s)).gfxCtx.task true,
          .Sched_Notify] := by
  unfold Graph_TaskSet00_tail_ok Graph_TaskSet00_send_ok
  simp [Sys.emit, Graph_TaskSet00_cfb_trace, Graph_TaskSet00_scTask_trace, OS_MESG_BLOCK]

/-! ### Frames that submit -/

theorem Graph_TaskSet00_head_ok_inv (env : Env) (s c : Sys)
    (h : Graph_TaskSet00_head env s = .ok () c) :
    ∃ m, s.handshakeMsg env = some m ∧ m ≠ 666 ∧ c = Graph_TaskSet00_head_ok env s := by
  cases hm : s.handshakeMsg env with
  | none =>
    rw [Graph_TaskSet00_head_of_none env s hm] at h
    cases h
  | some m =>
    by_cases h6 : m = 666
    · subst h6
      rw [Graph_TaskSet00_head_of_666 env s hm] at h
      cases h
    · rw [Graph_TaskSet00_head_of_some env s hm h6] at h
      injection h with _ h2
      exact ⟨m, rfl, h6, h2.symm⟩

theorem Graph_Update_validate_ok_inv (env : Env) (s v : Sys)
    (h : Graph_Update_validate env s = .ok () v) :
    s.headMagic env = some GFXPOOL_HEAD_MAGIC ∧ s.tailMagic env = some GFXPOOL_TAIL_MAGIC
      ∧ v = Graph_Update_validate_ok s := by
  by_cases hh : s.headMagic env = some GFXPOOL_HEAD_MAGIC
  · by_cases ht : s.tailMagic env = some GFXPOOL_TAIL_MAGIC
    · rw [Graph_Update_validate_of_intact env s hh ht] at h
      injection h with _ h2
      exact ⟨hh, ht, h2.symm⟩
    · rw [Graph_Update_validate_of_tail env s hh ht] at h
      cases h
  · rw [Graph_Update_validate_of_head env s hh] at h
    cases h

/-- A frame that reaches the test of the swap-suppression flag returns. -/
theorem Graph_Update_of_atFlagCheck (env : Env) (s c : Sys) (h : s.atFlagCheck env = some c) :
    Graph_Update env s
        = .ok () (Graph_Update_finish env (Graph_Update_advance (Graph_TaskSet00_tail_ok env c)))
      ∧ c.idx = s.idx := by
  unfold Sys.atFlagCheck at h
  cases hv : Graph_Update_validate env (s.atValidation env) with
  | stop w v => simp [hv] at h
  | ok u v =>
    simp only [hv] at h
    obtain ⟨hh, ht, rfl⟩ := Graph_Update_validate_ok_inv env _ _ hv
    by_cases hp : (Graph_Update_validate_ok (s.atValidation env)).problem = true
    · simp [hp] at h
    · simp only [hp] at h
      cases hd : Graph_TaskSet00_head env (Graph_Update_validate_ok (s.atValidation env)) with
      | stop w x => simp [hd] at h
      | ok u2 x =>
        simp only [hd] at h
        have hx : x = c := by simpa using h
        subst hx
        have hc : (s.atValidation env).crashed = false := by
          rw [Graph_Update_validate_ok_problem] at hp
          simpa using hp
        obtain ⟨m, -, -, hx⟩ := Graph_TaskSet00_head_ok_inv env _ _ hd
        refine ⟨?_, ?_⟩
        · rw [Graph_Update_of_sound env s hh ht hc, Graph_TaskSet00_of_head_ok env _ _ hd]
        · rw [hx, Graph_TaskSet00_head_ok_idx]
          exact (Graph_Update_validate_ok_calm _).1.trans (Sys.atValidation_calm env s).1

theorem StraightFrame.idx {env : Env} {s s1 : Sys} (h : StraightFrame env s s1) :
    s1.gfxCtx.gfxPoolIdx = wrapU32 (s.gfxCtx.gfxPoolIdx + 1)
      ∧ s1.gfxCtx.fbIdx = wrapS32 (s.gfxCtx.fbIdx + 1) := by
  obtain ⟨hu, hs⟩ := h
  unfold Sys.swapSuppressed at hs
  cases hc : s.atFlagCheck env with
  | none => simp [hc] at hs
  | some c =>
    simp only [hc, Option.map_some', Option.some.injEq, decide_eq_false_iff_not, ne_eq,
      not_not] at hs
    obtain ⟨hg, hi⟩ := Graph_Update_of_atFlagCheck env s c hc
    rw [hg] at hu
    injection hu with _ hu
    subst hu
    have h1 := (Graph_Update_finish_calm env
      (Graph_Update_advance (Graph_TaskSet00_tail_ok env c))).1
    have h2 := Graph_TaskSet00_tail_ok_idx env c
    simp only [hs, ne_eq, not_true_eq_false, if_false] at h2
    have h3 : (Graph_Update_advance (Graph_TaskSet00_tail_ok env c)).idx
        = (wrapU32 ((Graph_TaskSet00_tail_ok env c).idx.1 + 1),
            wrapS32 ((Graph_TaskSet00_tail_ok env c).idx.2 + 1)) := rfl
    rw [h2] at h3
    rw [h3] at h1
    have hi1 : c.gfxCtx.gfxPoolIdx = s.gfxCtx.gfxPoolIdx := congrArg Prod.fst hi
    have hi2 : c.gfxCtx.fbIdx = s.gfxCtx.fbIdx := congrArg Prod.snd hi
    exact ⟨(congrArg Prod.fst h1).trans (by rw [hi1]), (congrArg Prod.snd h1).trans (by rw [hi2])⟩

theorem wrapS32_succ (x : Int) : wrapS32 (wrapS32 x + 1) = wrapS32 (x + 1) := by
  unfold wrapS32
  omega

theorem wrapU32_succ (x : Nat) : wrapU32 (wrapU32 x + 1) = wrapU32 (x + 1) := by
  unfold wrapU32
  omega

theorem Graph_Init_idx (env : Env) (s0 : Sys) : (Graph_Init env s0).idx = (0, 0) := by
  unfold Graph_Init Sys.idx
  by_cases h1 : env.OOT_VERSION < env.PAL_1_0 <;> cases h2 : env.DEBUG_FEATURES <;>
    simp [h1, h2, Sys.emit]

theorem Frames.idx_of_zero {env : Env} {n : Nat} {s s1 : Sys} (h : Frames env n s s1)
    (hz : s.idx = (0, 0)) :
    s1.gfxCtx.gfxPoolIdx = wrapU32 n ∧ s1.gfxCtx.fbIdx = wrapS32 n := by
  induction h with
  | zero s =>
    have h1 : s.gfxCtx.gfxPoolIdx = 0 := congrArg Prod.fst hz
    have h2 : s.gfxCtx.fbIdx = 0 := congrArg Prod.snd hz
    rw [h1, h2]
    exact ⟨rfl, rfl⟩
  | succ hf hs ih =>
    obtain ⟨i1, i2⟩ := ih hz
    obtain ⟨j1, j2⟩ := hs.idx
    rw [j1, j2, i1, i2, wrapU32_succ, wrapS32_succ]
    exact ⟨rfl, by push_cast; rfl⟩

/-- C5. From the context `Graph_Init` produces, after `N` consecutive
`Graph_Update` calls in each of which the validation finds no problem and the
swap-suppression bit is clear, `gfxPoolIdx` is `N` as a `u32` and `fbIdx` is
`N` as an `s32`; both have the parity of `N`, so `fbIdx mod 2 = N mod 2`; and
as long as `N` fits the signed 32-bit index both indices are the number `N`. -/
theorem C5_indices_count_the_frames (env : Env) (s0 s : Sys) (N : Nat)
    (h : Frames env N (Graph_Init env s0) s) :
    s.gfxCtx.gfxPoolIdx = wrapU32 N ∧ s.gfxCtx.fbIdx = wrapS32 N ∧
    s.gfxCtx.gfxPoolIdx % 2 = N % 2 ∧ s.gfxCtx.fbIdx % 2 = (N : Int) % 2 ∧
    (N < 2 ^ 31 → s.gfxCtx.gfxPoolIdx = N ∧ s.gfxCtx.fbIdx = N) := by
  obtain ⟨h1, h2⟩ := h.idx_of_zero (Graph_Init_idx env s0)
  rw [h1, h2]
  unfold wrapU32 wrapS32
  refine ⟨rfl, rfl, by omega, by omega, fun hN => ⟨by omega, by omega⟩⟩

/-- C5, at two frames of the machine `demoEnv`. -/
theorem C5_indices_count_the_frames_witness :
    Frames demoEnv 2 (Graph_Init demoEnv demoSys) demoFrame2 ∧
    (demoFrame2.gfxCtx.gfxPoolIdx = wrapU32 2 ∧ demoFrame2.gfxCtx.fbIdx = wrapS32 (2 : Nat) ∧
    demoFrame2.gfxCtx.gfxPoolIdx % 2 = 2 % 2 ∧ demoFrame2.gfxCtx.fbIdx % 2 = ((2 : Nat) : Int) % 2 ∧
    (2 < 2 ^ 31 → demoFrame2.gfxCtx.gfxPoolIdx = (2 : Nat) ∧ demoFrame2.gfxCtx.fbIdx = (2 : Nat))) :=
  ⟨.succ (.succ (.zero _) ⟨by rfl, by rfl⟩) ⟨by rfl, by rfl⟩,
    C5_indices_count_the_frames demoEnv demoSys demoFrame2 2
      (.succ (.succ (.zero _) ⟨by rfl, by rfl⟩) ⟨by rfl, by rfl⟩)⟩

/-! ### The swap-suppression flag -/

theorem clearBits32_and_self (f c : Nat) : clearBits32 f c &&& c = 0 := by
  apply Nat.eq_of_testBit_eq
  intro i
  have h1 : (0xFFFFFFFF : Nat) = 2 ^ 32 - 1 := by norm_num
  unfold clearBits32 wrapU32
  rw [h1]
  simp only [Nat.testBit_and, Nat.testBit_xor, Nat.testBit_two_pow_sub_one,
    Nat.testBit_mod_two_pow, Nat.zero_testBit]
  by_cases h : i < 32 <;> cases f.testBit i <;> cases c.testBit i <;> simp [h]

theorem or4_and_third (a b c d : Nat) : (a ||| b ||| c ||| d) &&& c = c := by
  apply Nat.eq_of_testBit_eq
  intro i
  simp only [Nat.testBit_and, Nat.testBit_or]
  cases a.testBit i <;> cases b.testBit i <;> cases c.testBit i <;> cases d.testBit i <;> rfl

theorem wrapU16_clear_bit0 (x i : Nat) :
    (wrapU16 (wrapU16 x &&& 0xFFFE)).testBit i = (decide (i ≠ 0) && (wrapU16 x).testBit i) := by
  unfold wrapU16
  simp only [Nat.testBit_and, Nat.testBit_mod_two_pow]
  by_cases h : i < 16
  · interval_cases i <;> simp [Nat.testBit]
  · simp [h]

theorem Sys.submitted_flags (env : Env) (c : Sys) :
    (c.submitted env).flags
      = if c.reg env.R_GRAPH_TASKSET00_FLAGS &&& 1 ≠ 0 then
          clearBits32 (env.OS_SC_NEEDS_RSP ||| env.OS_SC_NEEDS_RDP
            ||| env.OS_SC_SWAPBUFFER ||| env.OS_SC_LAST_TASK) env.OS_SC_SWAPBUFFER
        else env.OS_SC_NEEDS_RSP ||| env.OS_SC_NEEDS_RDP ||| env.OS_SC_SWAPBUFFER
          ||| env.OS_SC_LAST_TASK := by
  unfold Sys.submitted
  have h : (Graph_TaskSet00_cfb env (Graph_TaskSet00_scTask env c)).gfxCtx.task.flags
      = (Graph_TaskSet00_scTask env c).gfxCtx.task.flags := by
    unfold Graph_TaskSet00_cfb
    dsimp only
    split_ifs <;> rfl
  rw [h, Graph_TaskSet00_scTask_eq]
  split_ifs <;> rfl

theorem Graph_TaskSet00_cfb_regs (env : Env) (s : Sys) :
    (Graph_TaskSet00_cfb env s).regs = s.regs := by
  unfold Graph_TaskSet00_cfb
  dsimp only
  split_ifs <;> rfl

theorem Graph_TaskSet00_tail_ok_regs (env : Env) (c : Sys) :
    (Graph_TaskSet00_tail_ok env c).regs
      = if c.reg env.R_GRAPH_TASKSET00_FLAGS &&& 1 ≠ 0 then
          fun i => if i = env.R_GRAPH_TASKSET00_FLAGS then
            wrapU16 (c.reg env.R_GRAPH_TASKSET00_FLAGS &&& 0xFFFE) else c.regs i
        else c.regs := by
  have h : (Graph_TaskSet00_tail_ok env c).regs = (Graph_TaskSet00_scTask env c).regs :=
    Graph_TaskSet00_cfb_regs env _
  rw [h, Graph_TaskSet00_scTask_eq]
  split_ifs <;> rfl

/-- C6. In a `Graph_TaskSet00` that gets past its handshake (`c` is the state in
which it tests the flag), the task it sends omits `OS_SC_SWAPBUFFER` exactly
when bit 0 of `R_GRAPH_TASKSET00_FLAGS` is set at that point. Then `fbIdx` is
decremented by one (as an `s32`), bit 0 of the register is cleared, its other
bits and all other registers are unchanged, and a later submission that finds
the register as it was left carries the full flags again. Otherwise the flags
are exactly `NEEDS_RSP | NEEDS_RDP | SWAPBUFFER | LAST_TASK` and `fbIdx` and
the registers are unchanged. -/
theorem C6_swap_suppression_is_one_shot (env : Env) (s c : Sys)
    (hsw : env.OS_SC_SWAPBUFFER ≠ 0) (h : Graph_TaskSet00_head env s = .ok () c) :
    Graph_TaskSet00 env s = .ok () (Graph_TaskSet00_tail_ok env c) ∧
    (Graph_TaskSet00_tail_ok env c).trace
      = c.trace ++ [.osSendMesg env.gScheduler_cmdQueue (c.submitted env) OS_MESG_BLOCK,
          .Sched_Notify] ∧
    ((c.submitted env).flags &&& env.OS_SC_SWAPBUFFER = 0
      ↔ c.reg env.R_GRAPH_TASKSET00_FLAGS &&& 1 ≠ 0) ∧
    (c.reg env.R_GRAPH_TASKSET00_FLAGS &&& 1 ≠ 0 →
      (Graph_TaskSet00_tail_ok env c).gfxCtx.fbIdx = wrapS32 (c.gfxCtx.fbIdx - 1) ∧
      (∀ i, ((Graph_TaskSet00_tail_ok env c).reg env.R_GRAPH_TASKSET00_FLAGS).testBit i
        = (decide (i ≠ 0) && (c.reg env.R_GRAPH_TASKSET00_FLAGS).testBit i)) ∧
      (∀ r, r ≠ env.R_GRAPH_TASKSET00_FLAGS →
        (Graph_TaskSet00_tail_ok env c).regs r = c.regs r) ∧
      (∀ c2 : Sys, c2.reg env.R_GRAPH_TASKSET00_FLAGS
          = (Graph_TaskSet00_tail_ok env c).reg env.R_GRAPH_TASKSET00_FLAGS →
        (c2.submitted env).flags = env.OS_SC_NEEDS_RSP ||| env.OS_SC_NEEDS_RDP
          ||| env.OS_SC_SWAPBUFFER ||| env.OS_SC_LAST_TASK)) ∧
    (c.reg env.R_GRAPH_TASKSET00_FLAGS &&& 1 = 0 →
      (c.submitted env).flags = env.OS_SC_NEEDS_RSP ||| env.OS_SC_NEEDS_RDP
          ||| env.OS_SC_SWAPBUFFER ||| env.OS_SC_LAST_TASK ∧
      (Graph_TaskSet00_tail_ok env c).gfxCtx.fbIdx = c.gfxCtx.fbIdx ∧
      (Graph_TaskSet00_tail_ok env c).regs = c.regs) := by
  have hidx := Graph_TaskSet00_tail_ok_idx env c
  have hregs := Graph_TaskSet00_tail_ok_regs env c
  have hflags := Sys.submitted_flags env c
  refine ⟨Graph_TaskSet00_of_head_ok env s c h, Graph_TaskSet00_tail_ok_trace env c, ?_, ?_, ?_⟩
  · by_cases hb : c.reg env.R_GRAPH_TASKSET00_FLAGS &&& 1 = 0
    · simp only [hb, ne_eq, not_true_eq_false, if_false] at hflags
      rw [hflags, or4_and_third]
      exact ⟨fun h0 => absurd h0 hsw, fun h1 => absurd hb h1⟩
    · simp only [hb, ne_eq, not_false_eq_true, if_true] at hflags
      rw [hflags, clearBits32_and_self]
      exact ⟨fun _ => hb, fun _ => rfl⟩
  · intro hb
    simp only [hb, ne_eq, not_false_eq_true, if_true] at hidx hregs
    have hreg : (Graph_TaskSet00_tail_ok env c).reg env.R_GRAPH_TASKSET00_FLAGS
        = wrapU16 (wrapU16 (c.regs env.R_GRAPH_TASKSET00_FLAGS) &&& 0xFFFE) := by
      unfold Sys.reg at hregs ⊢
      rw [hregs]
      simp only [if_true]
      unfold wrapU16
      omega
    refine ⟨congrArg Prod.snd hidx, ?_, ?_, ?_⟩
    · intro i
      rw [hreg]
      exact wrapU16_clear_bit0 _ i
    · intro r hr
      rw [hregs]
      simp only [hr, if_false]
    · intro c2 h2
      have h0 : c2.reg env.R_GRAPH_TASKSET00_FLAGS &&& 1 = 0 := by
        apply Nat.eq_of_testBit_eq
        intro i
        rw [h2, hreg, Nat.testBit_and, wrapU16_clear_bit0]
        by_cases hi : i = 0
        · simp [hi]
        · have h1 : (1 : Nat).testBit i = false := by
            cases hb1 : (1 : Nat).testBit i
            · rfl
            · exact absurd (Nat.testBit_one_eq_true_iff_self_eq_zero.mp hb1) hi
          simp [h1]
      rw [Sys.submitted_flags]
      simp only [h0, ne_eq, not_true_eq_false, if_false]
  · intro hb
    simp only [hb, ne_eq, not_true_eq_false, if_false] at hidx hregs hflags
    exact ⟨hflags, congrArg Prod.snd hidx, hregs⟩

/-- C6, at a submission of the machine `demoEnv` that finds the register at
0x0003: the task is sent with the flags 0x23, `fbIdx` goes from 0 to -1 and the
register is left at 0x0002. -/
theorem C6_swap_suppression_is_one_shot_witness :
    demoEnv.OS_SC_SWAPBUFFER ≠ 0 ∧
    Graph_TaskSet00_head demoEnv demoSuppressed = .ok () demoFlagCheck ∧
    (demoFlagCheck.submitted demoEnv).flags = 0x23 ∧
    (Graph_TaskSet00_tail_ok demoEnv demoFlagCheck).gfxCtx.fbIdx = -1 ∧
    (Graph_TaskSet00_tail_ok demoEnv demoFlagCheck).reg demoEnv.R_GRAPH_TASKSET00_FLAGS = 2 ∧
    (Graph_TaskSet00 demoEnv demoSuppressed = .ok () (Graph_TaskSet00_tail_ok demoEnv demoFlagCheck) ∧
    (Graph_TaskSet00_tail_ok demoEnv demoFlagCheck).trace
      = demoFlagCheck.trace ++ [.osSendMesg demoEnv.gScheduler_cmdQueue
          (demoFlagCheck.submitted demoEnv) OS_MESG_BLOCK, .Sched_Notify] ∧
    ((demoFlagCheck.submitted demoEnv).flags &&& demoEnv.OS_SC_SWAPBUFFER = 0
      ↔ demoFlagCheck.reg demoEnv.R_GRAPH_TASKSET00_FLAGS &&& 1 ≠ 0) ∧
    (demoFlagCheck.reg demoEnv.R_GRAPH_TASKSET00_FLAGS &&& 1 ≠ 0 →
      (Graph_TaskSet00_tail_ok demoEnv demoFlagCheck).gfxCtx.fbIdx
        = wrapS32 (demoFlagCheck.gfxCtx.fbIdx - 1) ∧
      (∀ i, ((Graph_TaskSet00_tail_ok demoEnv demoFlagCheck).reg
            demoEnv.R_GRAPH_TASKSET00_FLAGS).testBit i
        = (decide (i ≠ 0) && (demoFlagCheck.reg demoEnv.R_GRAPH_TASKSET00_FLAGS).testBit i)) ∧
      (∀ r, r ≠ demoEnv.R_GRAPH_TASKSET00_FLAGS →
        (Graph_TaskSet00_tail_ok demoEnv demoFlagCheck).regs r = demoFlagCheck.regs r) ∧
      (∀ c2 : Sys, c2.reg demoEnv.R_GRAPH_TASKSET00_FLAGS
          = (Graph_TaskSet00_tail_ok demoEnv demoFlagCheck).reg demoEnv.R_GRAPH_TASKSET00_FLAGS →
        (c2.submitted demoEnv).flags = demoEnv.OS_SC_NEEDS_RSP ||| demoEnv.OS_SC_NEEDS_RDP
          ||| demoEnv.OS_SC_SWAPBUFFER ||| demoEnv.OS_SC_LAST_TASK)) ∧
    (demoFlagCheck.reg demoEnv.R_GRAPH_TASKSET00_FLAGS &&& 1 = 0 →
      (demoFlagCheck.submitted demoEnv).flags = demoEnv.OS_SC_NEEDS_RSP
          ||| demoEnv.OS_SC_NEEDS_RDP ||| demoEnv.OS_SC_SWAPBUFFER ||| demoEnv.OS_SC_LAST_TASK ∧
      (Graph_TaskSet00_tail_ok demoEnv demoFlagCheck).gfxCtx.fbIdx = demoFlagCheck.gfxCtx.fbIdx ∧
      (Graph_TaskSet00_tail_ok demoEnv demoFlagCheck).regs = demoFlagCheck.regs)) :=
  ⟨by decide, by rfl, by rfl, by rfl, by rfl,
    C6_swap_suppression_is_one_shot demoEnv demoSuppressed demoFlagCheck (by decide) (by rfl)⟩

/-! ### The three courses of `Graph_TaskSet00` -/

/-- No message ever arrives: the thread stays in the blocking receive. -/
theorem Graph_TaskSet00_blocked (env : Env) (s : Sys) (h : s.handshakeMsg env = none) :
    ∃ x, Graph_TaskSet00 env s = .stop .blocked x ∧
      x.trace = s.trace ++ [.call "Graph_TaskSet00", .osGetTime (env.osGetTime s.nTime % 2 ^ 64),
        timerEvent env, .osRecvMesg (queueAddr env) true none] := by
  refine ⟨_, Graph_TaskSet00_of_head_stop env s _ _ (Graph_TaskSet00_head_of_none env s h), ?_⟩
  have h1 : ((Graph_TaskSet00_enter env s).emit (timerEvent env)).handshakeMsg env = none :=
    (Sys.handshakeMsg_congr env rfl).trans
      ((Graph_TaskSet00_enter_handshakeMsg env s).trans h)
  simp only [Sys.recv_trace, Sys.emit_trace, Graph_TaskSet00_enter_trace, h1, OS_MESG_BLOCK,
    List.append_assoc, List.singleton_append, List.cons_append, List.nil_append]

/-- The timer message arrives: the thread ends in the fault handler. -/
theorem Graph_TaskSet00_hung (env : Env) (s : Sys) (h : s.handshakeMsg env = some 666) :
    ∃ x dbg, Graph_TaskSet00 env s = .stop .hungup x ∧
      x.trace = s.trace ++ ([.call "Graph_TaskSet00",
          .osGetTime (env.osGetTime s.nTime % 2 ^ 64),
          timerEvent env, .osRecvMesg (queueAddr env) true (some 666), .osStopTimer] ++ dbg
        ++ [.Fault_AddHungupAndCrashImpl "RCP is HUNG UP!!" "Oh! MY GOD!!"]) ∧
      ∀ e ∈ dbg, e.quiet = true := by
  obtain ⟨dbg, t, q⟩ := Graph_TaskSet00_handshake_hung_trace env (Graph_TaskSet00_enter env s)
  refine ⟨_, dbg, Graph_TaskSet00_of_head_stop env s _ _ (Graph_TaskSet00_head_of_666 env s h),
    ?_, q⟩
  rw [t, Graph_TaskSet00_enter_trace, Graph_TaskSet00_enter_handshakeMsg, h]
  simp only [List.append_assoc, List.singleton_append, List.cons_append, List.nil_append]

/-- Another message arrives: the function sends the task and returns. -/
theorem Graph_TaskSet00_sent (env : Env) (s : Sys) {m : Nat}
    (h : s.handshakeMsg env = some m) (hm : m ≠ 666) :
    ∃ x t0 r t1 t2, Graph_TaskSet00 env s = .ok () x ∧
      x.trace = s.trace ++ ([.call "Graph_TaskSet00", .osGetTime t0, timerEvent env,
          .osRecvMesg (queueAddr env) true (some m), .osStopTimer,
          .osRecvMesg (queueAddr env) false r]
        ++ (if s.gfxCtx.callback ≠ 0 then
              [.callback s.gfxCtx.callback s.gfxCtx.callbackParam] else [])
        ++ [.osGetTime t1, .osGetTime t2,
            .osSendMesg env.gScheduler_cmdQueue
              ((Graph_TaskSet00_head_ok env s).submitted env) true,
            .Sched_Notify]) := by
  obtain ⟨t0, r, t1, t2, t⟩ := Graph_TaskSet00_head_ok_trace env s
  refine ⟨_, t0, r, t1, t2,
    Graph_TaskSet00_of_head_ok env s _ (Graph_TaskSet00_head_of_some env s h hm), ?_⟩
  rw [Graph_TaskSet00_tail_ok_trace, t, h]
  simp only [Sys.submitted, List.append_assoc, List.singleton_append, List.cons_append,
    List.nil_append]

theorem Event.filter_isFault_of_quiet (l : List Event) (h : ∀ e ∈ l, e.quiet = true) :
    l.filter Event.isFault = [] := by
  rw [List.filter_eq_nil_iff]
  intro e he
  have h1 := Event.notFault_of_quiet e (h e he)
  simpa [Event.notFault] using h1

theorem Event.filter_isFault_of_none (l : List Event) (h : ∀ e ∈ l, e.isFault = false) :
    l.filter Event.isFault = [] := by
  rw [List.filter_eq_nil_iff]
  intro e he
  simp [h e he]

theorem Sys.submitted_msg (env : Env) (c : Sys) : (c.submitted env).msg = 0 := by
  unfold Sys.submitted
  have h : (Graph_TaskSet00_cfb env (Graph_TaskSet00_scTask env c)).gfxCtx.task.msg
      = (Graph_TaskSet00_scTask env c).gfxCtx.task.msg := by
    unfold Graph_TaskSet00_cfb
    dsimp only
    split_ifs <;> rfl
  rw [h, Graph_TaskSet00_scTask_eq]
  split_ifs <;> rfl

/-- C7. In every call of `Graph_TaskSet00` the events it adds contain the call
`Fault_AddHungupAndCrashImpl("RCP is HUNG UP!!", "Oh! MY GOD!!")` if and only if
the blocking receive on the context queue returns the timer message 666; the
call then stops the thread, and the events of one call contain at most one call
of the fault facility. A task this function builds has the completion message
`NULL`, and a receive that returns that message leads to no fault call: the
function returns. -/
theorem C7_fatal_path_iff_timer_message (env : Env) (s : Sys) :
    ∃ evs, (Graph_TaskSet00 env s).state.trace = s.trace ++ evs ∧
      (Event.Fault_AddHungupAndCrashImpl "RCP is HUNG UP!!" "Oh! MY GOD!!" ∈ evs
        ↔ s.handshakeMsg env = some 666) ∧
      (s.handshakeMsg env = some 666 → (Graph_TaskSet00 env s).stopped = some .hungup) ∧
      (evs.filter Event.isFault).length ≤ 1 ∧
      ∀ c : Sys, (c.submitted env).msg = 0 ∧
        (s.handshakeMsg env = some (c.submitted env).msg →
          (Graph_TaskSet00 env s).returned = true ∧ ∀ e ∈ evs, e.isFault = false) := by
  cases hm : s.handshakeMsg env with
  | none =>
    obtain ⟨x, hx, t⟩ := Graph_TaskSet00_blocked env s hm
    refine ⟨_, by rw [hx]; exact t, ?_, ?_, ?_, ?_⟩
    · simp [timerEvent]
    · intro h
      cases h
    · simp [timerEvent, Event.isFault]
    · intro c
      exact ⟨Sys.submitted_msg env c, fun h => by cases h⟩
  | some m =>
    by_cases h6 : m = 666
    · subst h6
      obtain ⟨x, dbg, hx, t, q⟩ := Graph_TaskSet00_hung env s hm
      refine ⟨_, by rw [hx]; exact t, ?_, ?_, ?_, ?_⟩
      · simp
      · intro _
        rw [hx]
        rfl
      · simp [timerEvent, Event.isFault, List.filter_append,
          Event.filter_isFault_of_quiet dbg q]
      · intro c
        refine ⟨Sys.submitted_msg env c, fun h => ?_⟩
        rw [Sys.submitted_msg] at h
        cases h
    · obtain ⟨x, t0, r, t1, t2, hx, t⟩ := Graph_TaskSet00_sent env s hm h6
      have hnf : ∀ e ∈ ([.call "Graph_TaskSet00", .osGetTime t0, timerEvent env,
          .osRecvMesg (queueAddr env) true (some m), .osStopTimer,
          .osRecvMesg (queueAddr env) false r]
        ++ (if s.gfxCtx.callback ≠ 0 then
              [.callback s.gfxCtx.callback s.gfxCtx.callbackParam] else [])
        ++ [.osGetTime t1, .osGetTime t2,
            .osSendMesg env.gScheduler_cmdQueue
              ((Graph_TaskSet00_head_ok env s).submitted env) true,
            .Sched_Notify] : List Event), e.isFault = false := by
        intro e he
        by_cases hc : s.gfxCtx.callback = 0
        · simp [hc, timerEvent] at he
          rcases he with h | h | h | h | h | h | h | h | h | h <;> subst h <;> rfl
        · simp [hc, timerEvent] at he
          rcases he with h | h | h | h | h | h | h | h | h | h | h <;> subst h <;> rfl
      refine ⟨_, by rw [hx]; exact t, ?_, ?_, ?_, ?_⟩
      · constructor
        · intro h
          have := hnf _ h
          cases this
        · intro h
          injection h with h
          exact absurd h h6
      · intro h
        injection h with h
        exact absurd h h6
      · rw [Event.filter_isFault_of_none _ hnf]
        exact Nat.zero_le 1
      · intro c
        refine ⟨Sys.submitted_msg env c, fun _ => ⟨?_, hnf⟩⟩
        rw [hx]
        rfl

/-! ### Order of the events of `Graph_TaskSet00` -/

/-- In a list `l ++ tl` split at an element that does not occur in `l`, the
part before the split holds all of `l`. -/
theorem List.mem_before_split {α : Type} {l tl pre post : List α} {x r : α}
    (hr : r ∈ l) (hx : x ∉ l) (h : pre ++ x :: post = l ++ tl) : r ∈ pre := by
  rcases List.append_eq_append_iff.mp h with ⟨a, h1, h2⟩ | ⟨c, h1, h2⟩
  · cases a with
    | nil =>
      rw [h1] at hr
      simpa using hr
    | cons y a =>
      exfalso
      injection h2 with h3 h4
      apply hx
      rw [h1, ← h3]
      simp
  · rw [h1]
    exact List.mem_append_left _ hr

theorem Event.isSend_of_quiet (e : Event) (h : e.quiet = true) : e.isSend = false := by
  cases e <;> simp [Event.quiet, Event.isTask, Event.isSend] at h ⊢

/-- C8. In every call of `Graph_TaskSet00`, a send of a task to the scheduler
is preceded by the blocking receive on the context queue, which has returned a
message (a completion message, as the timer message 666 leads to the fault
handler and to no send); one call sends at most one task; and when no message
ever arrives (the queue is empty and no timer message comes) the thread stays
in the blocking receive and the call sends nothing. -/
theorem C8_receive_completes_before_send (env : Env) (s : Sys) :
    ∃ evs, (Graph_TaskSet00 env s).state.trace = s.trace ++ evs ∧
      (∀ pre e post, evs = pre ++ e :: post → e.isSend = true →
        ∃ m, s.handshakeMsg env = some m ∧ m ≠ 666 ∧
          Event.osRecvMesg (queueAddr env) OS_MESG_BLOCK (some m) ∈ pre) ∧
      (evs.filter Event.isSend).length ≤ 1 ∧
      (s.handshakeMsg env = none →
        (Graph_TaskSet00 env s).stopped = some .blocked ∧ ∀ e ∈ evs, e.isSend = false) ∧
      (s.handshakeMsg env = some 666 →
        (Graph_TaskSet00 env s).stopped = some .hungup ∧ ∀ e ∈ evs, e.isSend = false) := by
  cases hm : s.handshakeMsg env with
  | none =>
    obtain ⟨x, hx, t⟩ := Graph_TaskSet00_blocked env s hm
    have hn : ∀ e ∈ ([.call "Graph_TaskSet00", .osGetTime (env.osGetTime s.nTime % 2 ^ 64),
        timerEvent env, .osRecvMesg (queueAddr env) true none] : List Event),
        e.isSend = false := by
      intro e he
      simp [timerEvent] at he
      rcases he with h | h | h | h <;> subst h <;> rfl
    refine ⟨_, by rw [hx]; exact t, ?_, ?_, ?_, ?_⟩
    · intro pre e post h he
      have h1 := hn e (by rw [h]; simp)
      rw [h1] at he
      cases he
    · rw [List.filter_eq_nil_iff.mpr (fun e he => by simp [hn e he])]
      exact Nat.zero_le 1
    · intro _
      exact ⟨by rw [hx]; rfl, hn⟩
    · intro h
      cases h
  | some m =>
    by_cases h6 : m = 666
    · subst h6
      obtain ⟨x, dbg, hx, t, q⟩ := Graph_TaskSet00_hung env s hm
      have hn : ∀ e ∈ ([.call "Graph_TaskSet00",
          .osGetTime (env.osGetTime s.nTime % 2 ^ 64),
          timerEvent env, .osRecvMesg (queueAddr env) true (some 666), .osStopTimer] ++ dbg
        ++ [.Fault_AddHungupAndCrashImpl "RCP is HUNG UP!!" "Oh! MY GOD!!"] : List Event),
          e.isSend = false := by
        intro e he
        simp [timerEvent] at he
        rcases he with h | h | h | h | h | h | h
        · subst h; rfl
        · subst h; rfl
        · subst h; rfl
        · subst h; rfl
        · subst h; rfl
        · exact Event.isSend_of_quiet e (q e h)
        · subst h; rfl
      refine ⟨_, by rw [hx]; exact t, ?_, ?_, ?_, ?_⟩
      · intro pre e post h he
        have h1 := hn e (by rw [h]; simp)
        rw [h1] at he
        cases he
      · rw [List.filter_eq_nil_iff.mpr (fun e he => by simp [hn e he])]
        exact Nat.zero_le 1
      · intro h
        cases h
      · intro _
        exact ⟨by rw [hx]; rfl, hn⟩
    · obtain ⟨x, t0, r, t1, t2, hx, t⟩ := Graph_TaskSet00_sent env s hm h6
      refine ⟨_, by rw [hx]; exact t, ?_, ?_, ?_, ?_⟩
      · intro pre e post h he
        refine ⟨m, rfl, h6, ?_⟩
        have h2 : pre ++ e :: post
            = [.call "Graph_TaskSet00", .osGetTime t0, timerEvent env,
                .osRecvMesg (queueAddr env) true (some m)]
              ++ ([.osStopTimer, .osRecvMesg (queueAddr env) false r]
                ++ (if s.gfxCtx.callback ≠ 0 then
                  [.callback s.gfxCtx.callback s.gfxCtx.callbackParam] else [])
                ++ [.osGetTime t1, .osGetTime t2,
                  .osSendMesg env.gScheduler_cmdQueue
                    ((Graph_TaskSet00_head_ok env s).submitted env) true,
                  .Sched_Notify]) := by
          rw [← h]
          simp only [List.append_assoc, List.singleton_append, List.cons_append,
            List.nil_append]
        refine List.mem_before_split (by simp [OS_MESG_BLOCK]) ?_ h2
        intro hmem
        simp [timerEvent] at hmem
        rcases hmem with h | h | h | h <;> rw [h] at he <;> cases he
      · by_cases hc : s.gfxCtx.callback = 0 <;>
          simp [hc, timerEvent, Event.isSend, List.filter_cons]
      · intro h
        cases h
      · intro h
        injection h with h
        exact absurd h h6

/-! ### The per-frame callback -/

/-- C9. In a `Graph_TaskSet00` whose handshake receive returns a message other
than the timer message, the events of the call contain exactly one call of the
callback when `gfxCtx->callback` is not `NULL`, and none when it is `NULL`. The
call has the arguments `gfxCtx->callback` points to and `gfxCtx->callbackParam`;
both receives of the handshake come before it, and the send of the task to the
scheduler comes after it and nowhere before it. -/
theorem C9_callback_once_after_handshake_before_send (env : Env) (s : Sys) (m : Nat)
    (h : s.handshakeMsg env = some m) (hm : m ≠ 666) :
    ∃ x evs, Graph_TaskSet00 env s = .ok () x ∧ x.trace = s.trace ++ evs ∧
      (s.gfxCtx.callback = 0 → ∀ e ∈ evs, e.isCallback = false) ∧
      (s.gfxCtx.callback ≠ 0 → ∃ pre post r t,
        evs = pre ++ .callback s.gfxCtx.callback s.gfxCtx.callbackParam :: post ∧
        (∀ e ∈ pre ++ post, e.isCallback = false) ∧
        Event.osRecvMesg (queueAddr env) OS_MESG_BLOCK (some m) ∈ pre ∧
        Event.osRecvMesg (queueAddr env) OS_MESG_NOBLOCK r ∈ pre ∧
        (∀ e ∈ pre, e.isSend = false) ∧
        Event.osSendMesg env.gScheduler_cmdQueue t OS_MESG_BLOCK ∈ post) := by
  obtain ⟨x, t0, r, t1, t2, hx, t⟩ := Graph_TaskSet00_sent env s h hm
  refine ⟨x, _, hx, t, ?_, ?_⟩
  · intro hc e he
    simp [hc, timerEvent] at he
    rcases he with h | h | h | h | h | h | h | h | h | h <;> subst h <;> rfl
  · intro hc
    refine ⟨[.call "Graph_TaskSet00", .osGetTime t0, timerEvent env,
        .osRecvMesg (queueAddr env) true (some m), .osStopTimer,
        .osRecvMesg (queueAddr env) false r],
      [.osGetTime t1, .osGetTime t2,
        .osSendMesg env.gScheduler_cmdQueue
          ((Graph_TaskSet00_head_ok env s).submitted env) true, .Sched_Notify],
      r, (Graph_TaskSet00_head_ok env s).submitted env, ?_, ?_, ?_, ?_, ?_, ?_⟩
    · simp [hc]
    · intro e he
      simp [timerEvent] at he
      rcases he with h | h | h | h | h | h | h | h | h | h <;> subst h <;> rfl
    · simp [OS_MESG_BLOCK]
    · simp [OS_MESG_NOBLOCK]
    · intro e he
      simp [timerEvent] at he
      rcases he with h | h | h | h | h | h <;> subst h <;> rfl
    · simp [OS_MESG_BLOCK]

/-- C9, at a submission of the machine `demoEnv` with a callback registered. -/
theorem C9_callback_once_after_handshake_before_send_witness :
    demoCallback.handshakeMsg demoEnv = some 0 ∧ (0 : Nat) ≠ 666 ∧
    demoCallback.gfxCtx.callback ≠ 0 ∧
    ∃ x evs, Graph_TaskSet00 demoEnv demoCallback = .ok () x ∧
      x.trace = demoCallback.trace ++ evs ∧
      (demoCallback.gfxCtx.callback = 0 → ∀ e ∈ evs, e.isCallback = false) ∧
      (demoCallback.gfxCtx.callback ≠ 0 → ∃ pre post r t,
        evs = pre ++ .callback demoCallback.gfxCtx.callback demoCallback.gfxCtx.callbackParam
          :: post ∧
        (∀ e ∈ pre ++ post, e.isCallback = false) ∧
        Event.osRecvMesg (queueAddr demoEnv) OS_MESG_BLOCK (some 0) ∈ pre ∧
        Event.osRecvMesg (queueAddr demoEnv) OS_MESG_NOBLOCK r ∈ pre ∧
        (∀ e ∈ pre, e.isSend = false) ∧
        Event.osSendMesg demoEnv.gScheduler_cmdQueue t OS_MESG_BLOCK ∈ post) :=
  ⟨by rfl, by decide, by decide,
    C9_callback_once_after_handshake_before_send demoEnv demoCallback 0 (by rfl) (by decide)⟩

/-! ### The chaining step -/

theorem Mem.stores_other (l : List (Nat × Gfx)) (m : Mem) (a : Nat)
    (h : a ∉ l.map Prod.fst) : (m.stores l) a = m a := by
  induction l generalizing m with
  | nil => rfl
  | cons w ws ih =>
    simp only [List.map_cons, List.mem_cons, not_or] at h
    show (Mem.stores (m.store w.1 (.gfx w.2)) ws) a = m a
    rw [ih _ h.2, Mem.store_other _ _ _ _ h.1]

theorem Mem.stores_mem (l : List (Nat × Gfx)) (m : Mem) (h : (l.map Prod.fst).Nodup)
    (w : Nat × Gfx) (hw : w ∈ l) : (m.stores l) w.1 = .gfx w.2 := by
  induction l generalizing m with
  | nil => cases hw
  | cons v vs ih =>
    simp only [List.map_cons, List.nodup_cons] at h
    show (Mem.stores (m.store v.1 (.gfx v.2)) vs) w.1 = .gfx w.2
    rcases List.mem_cons.mp hw with hv | hv
    · subst hv
      rw [Mem.stores_other _ _ _ h.1, Mem.store_same]
    · exact ih _ h.2 hv

theorem dispsMarked_put_WORK_DISP (env : Env) (g : Gfx) (s : Sys) :
    dispsMarked env (put_WORK_DISP g s) = dispsMarked env s := rfl

theorem dispsMarked_put_POLY_OPA_DISP (env : Env) (g : Gfx) (s : Sys) :
    dispsMarked env (put_POLY_OPA_DISP g s) = dispsMarked env s := rfl

theorem dispsMarked_put_POLY_XLU_DISP (env : Env) (g : Gfx) (s : Sys) :
    dispsMarked env (put_POLY_XLU_DISP g s) = dispsMarked env s := rfl

theorem dispsMarked_put_OVERLAY_DISP (env : Env) (g : Gfx) (s : Sys) :
    dispsMarked env (put_OVERLAY_DISP g s) = dispsMarked env s := rfl

theorem Graph_Update_chain_mem (env : Env) (c : Sys) :
    (Graph_Update_chain env c).mem = c.mem.stores (chainStores env c) := by
  unfold Graph_Update_chain chainStores Sys.marking OPEN_DISPS CLOSE_DISPS
  cases hd : env.DEBUG_FEATURES
  · rfl
  · unfold Graph_OpenDisps Graph_CloseDisps
    cases hk : dispsMarked env c
    · simp only [Bool.true_and, Bool.false_eq_true, if_false, if_true,
        dispsMarked_put_WORK_DISP, dispsMarked_put_POLY_OPA_DISP,
        dispsMarked_put_POLY_XLU_DISP, dispsMarked_put_OVERLAY_DISP, hk]
      rfl
    · simp only [Bool.true_and, if_true,
        dispsMarked_put_WORK_DISP, dispsMarked_put_POLY_OPA_DISP,
        dispsMarked_put_POLY_XLU_DISP, dispsMarked_put_OVERLAY_DISP, hk]
      simp [put_WORK_DISP, put_POLY_OPA_DISP, put_POLY_XLU_DISP, put_OVERLAY_DISP, sizeofGfx,
        Mem.stores]
theorem traverse_stop (mem : Mem) (fuel pc : Nat) (h : mem pc = .gfx .gSPEndDisplayList) :
    traverse mem (fuel + 1) pc = some [pc] := by
  simp [traverse, h, Gfx.flow]

theorem traverse_jump (mem : Mem) (fuel pc dl : Nat) (g : Gfx) (h : mem pc = .gfx g)
    (hg : g.flow = .jump dl) :
    traverse mem (fuel + 1) pc = (traverse mem fuel dl).map fun l => pc :: l := by
  simp [traverse, h, hg]

theorem traverse_next (mem : Mem) (fuel pc : Nat) (g : Gfx) (h : mem pc = .gfx g)
    (hg : g.flow = .next) :
    traverse mem (fuel + 1) pc
      = (traverse mem fuel (pc + sizeofGfx)).map fun l => pc :: l := by
  simp [traverse, h, hg]

/-- A reading that arrives at `target` in `mem` is the start of every traversal
of a memory that agrees with `mem` on the words read. -/
theorem traverse_of_walk (mem mem1 : Mem) (target : Nat) (f : Nat) :
    ∀ (pc : Nat) (l : List Nat), walk mem target f pc = some l →
      (∀ a ∈ l, mem1 a = mem a) →
      ∀ e, traverse mem1 (e + l.length) pc
        = (traverse mem1 e target).map fun r => l ++ r := by
  induction f with
  | zero =>
    intro pc l h _ e
    unfold walk at h
    split_ifs at h with hp
    cases h
    subst hp
    simp
  | succ f ih =>
    intro pc l h hl e
    unfold walk at h
    split_ifs at h with hp
    · cases h
      subst hp
      simp
    · cases hc : mem pc with
      | half v => simp [hc] at h
      | gfx g =>
        simp only [hc] at h
        cases hg : g.flow with
        | stop => simp [hg] at h
        | jump dl =>
          simp only [hg, Option.map_eq_some'] at h
          obtain ⟨l1, h1, rfl⟩ := h
          have h2 : mem1 pc = .gfx g := (hl pc (by simp)).trans hc
          have h3 := ih dl l1 h1 (fun a ha => hl a (by simp [ha])) e
          show traverse mem1 (e + l1.length + 1) pc = _
          rw [traverse_jump mem1 _ pc dl g h2 hg, h3, Option.map_map]
          rfl
        | next =>
          simp only [hg, Option.map_eq_some'] at h
          obtain ⟨l1, h1, rfl⟩ := h
          have h2 : mem1 pc = .gfx g := (hl pc (by simp)).trans hc
          have h3 := ih (pc + sizeofGfx) l1 h1 (fun a ha => hl a (by simp [ha])) e
          show traverse mem1 (e + l1.length + 1) pc = _
          rw [traverse_next mem1 _ pc g h2 hg, h3, Option.map_map]
          rfl
theorem Graph_Update_chain_cell (env : Env) (c : Sys)
    (hnd : ((chainStores env c).map Prod.fst).Nodup) (a : Nat) (g : Gfx)
    (h : (a, g) ∈ chainStores env c) : (Graph_Update_chain env c).mem a = .gfx g := by
  rw [Graph_Update_chain_mem]
  exact Mem.stores_mem _ _ hnd (a, g) h

theorem Graph_Update_chain_other (env : Env) (c : Sys) (a : Nat)
    (h : a ∉ (chainStores env c).map Prod.fst) : (Graph_Update_chain env c).mem a = c.mem a := by
  rw [Graph_Update_chain_mem]
  exact Mem.stores_other _ _ _ h

/-- A region whose content leads to its head cursor, where a branch is stored. -/
theorem traverse_region (mem mem1 : Mem) (start p dl f : Nat) (l : List Nat)
    (hw : walk mem p f start = some l) (hl : ∀ a ∈ l, mem1 a = mem a)
    (hp : mem1 p = .gfx (.gSPBranchList dl)) (e : Nat) :
    traverse mem1 (e + 1 + l.length) start
      = (traverse mem1 e dl).map fun r => l ++ p :: r := by
  rw [traverse_of_walk mem mem1 p f start l hw hl (e + 1),
    traverse_jump mem1 e p dl _ hp rfl, Option.map_map]
  rfl

/-- A region whose content leads to its head cursor, where an open marker and
then a branch are stored. -/
theorem traverse_region_marked (mem mem1 : Mem) (start p dl f : Nat) (l : List Nat)
    (file : String) (line : Nat)
    (hw : walk mem p f start = some l) (hl : ∀ a ∈ l, mem1 a = mem a)
    (hp : mem1 p = .gfx (.gDPNoOpOpenDisp file line))
    (hq : mem1 (p + sizeofGfx) = .gfx (.gSPBranchList dl)) (e : Nat) :
    traverse mem1 (e + 1 + 1 + l.length) start
      = (traverse mem1 e dl).map fun r => l ++ p :: (p + sizeofGfx) :: r := by
  rw [traverse_of_walk mem mem1 p f start l hw hl (e + 1 + 1),
    traverse_next mem1 (e + 1) p _ hp rfl,
    traverse_jump mem1 e (p + sizeofGfx) dl _ hq rfl, Option.map_map, Option.map_map]
  rfl
/-- The two conditions of the chaining step hold when each head cursor lies in
its region of the pool at `pool` with room for the words the step stores there,
and the words read before lie in the regions below the head cursors. -/
theorem chainStores_apart_of_room (env : Env) (c : Sys) (pool : Nat) (lw lo lx lv : List Nat)
    (ho : pool + GfxPool.polyOpaBuffer ≤ c.gfxCtx.polyOpa.p
      ∧ c.gfxCtx.polyOpa.p + 3 * sizeofGfx ≤ pool + GfxPool.polyXluBuffer)
    (hx : pool + GfxPool.polyXluBuffer ≤ c.gfxCtx.polyXlu.p
      ∧ c.gfxCtx.polyXlu.p + 3 * sizeofGfx ≤ pool + GfxPool.overlayBuffer)
    (hv : pool + GfxPool.overlayBuffer ≤ c.gfxCtx.overlay.p
      ∧ c.gfxCtx.overlay.p + 5 * sizeofGfx ≤ pool + GfxPool.workBuffer)
    (hw : pool + GfxPool.workBuffer ≤ c.gfxCtx.work.p
      ∧ c.gfxCtx.work.p + 1 * sizeofGfx ≤ pool + GfxPool.unusedBuffer)
    (hlw : ∀ a ∈ lw, pool + GfxPool.workBuffer ≤ a ∧ a < c.gfxCtx.work.p)
    (hlo : ∀ a ∈ lo, pool + GfxPool.polyOpaBuffer ≤ a ∧ a < c.gfxCtx.polyOpa.p)
    (hlx : ∀ a ∈ lx, pool + GfxPool.polyXluBuffer ≤ a ∧ a < c.gfxCtx.polyXlu.p)
    (hlv : ∀ a ∈ lv, pool + GfxPool.overlayBuffer ≤ a ∧ a < c.gfxCtx.overlay.p) :
    ((chainStores env c).map Prod.fst).Nodup
      ∧ ∀ a ∈ lw ++ lo ++ lx ++ lv, a ∉ (chainStores env c).map Prod.fst := by
  simp only [GfxPool.polyOpaBuffer, GfxPool.polyXluBuffer, GfxPool.overlayBuffer,
    GfxPool.workBuffer, GfxPool.unusedBuffer, sizeofGfx] at ho hx hv hw hlw hlo hlx hlv
  constructor
  · unfold chainStores
    split_ifs <;>
      simp only [List.map_cons, List.map_nil, List.nodup_cons, List.mem_cons, List.mem_singleton,
        List.not_mem_nil, List.nodup_nil, sizeofGfx, not_or, or_false, and_true,
        not_false_eq_true] <;>
      (repeat' apply And.intro) <;> omega
  · intro a ha
    simp only [List.mem_append] at ha
    unfold chainStores
    rcases ha with ((ha | ha) | ha) | ha
    · have := hlw a ha
      split_ifs <;>
        simp only [List.map_cons, List.map_nil, List.mem_cons, List.mem_singleton,
          List.not_mem_nil, sizeofGfx, not_or, or_false] <;>
        (repeat' apply And.intro) <;> omega
    · have := hlo a ha
      split_ifs <;>
        simp only [List.map_cons, List.map_nil, List.mem_cons, List.mem_singleton,
          List.not_mem_nil, sizeofGfx, not_or, or_false] <;>
        (repeat' apply And.intro) <;> omega
    · have := hlx a ha
      split_ifs <;>
        simp only [List.map_cons, List.map_nil, List.mem_cons, List.mem_singleton,
          List.not_mem_nil, sizeofGfx, not_or, or_false] <;>
        (repeat' apply And.intro) <;> omega
    · have := hlv a ha
      split_ifs <;>
        simp only [List.map_cons, List.map_nil, List.mem_cons, List.mem_singleton,
          List.not_mem_nil, sizeofGfx, not_or, or_false] <;>
        (repeat' apply And.intro) <;> omega
/-- The traversal after the chaining step, in a block that writes no markers. -/
theorem traverse_chain_plain (env : Env) (c : Sys) (fw fo fx fv : Nat) (lw lo lx lv : List Nat)
    (hm : c.marking env = false)
    (hw : walk c.mem c.gfxCtx.work.p fw c.gfxCtx.workBuffer = some lw)
    (ho : walk c.mem c.gfxCtx.polyOpa.p fo c.gfxCtx.polyOpaBuffer = some lo)
    (hx : walk c.mem c.gfxCtx.polyXlu.p fx c.gfxCtx.polyXluBuffer = some lx)
    (hv : walk c.mem c.gfxCtx.overlay.p fv c.gfxCtx.overlayBuffer = some lv)
    (hnd : ((chainStores env c).map Prod.fst).Nodup)
    (hd : ∀ a ∈ lw ++ lo ++ lx ++ lv, a ∉ (chainStores env c).map Prod.fst) (e : Nat) :
    traverse (Graph_Update_chain env c).mem
        (e + 1 + 1 + 1 + lv.length + (0 + 1 + lx.length) + (0 + 1 + lo.length)
          + (0 + 1 + lw.length)) c.gfxCtx.workBuffer
      = some (chainPath env c lw lo lx lv) := by
  have hcs : chainStores env c
      = [(c.gfxCtx.work.p, .gSPBranchList c.gfxCtx.polyOpaBuffer),
         (c.gfxCtx.polyOpa.p, .gSPBranchList c.gfxCtx.polyXluBuffer),
         (c.gfxCtx.polyXlu.p, .gSPBranchList c.gfxCtx.overlayBuffer),
         (c.gfxCtx.overlay.p, .gDPPipeSync),
         (c.gfxCtx.overlay.p + sizeofGfx, .gDPFullSync),
         (c.gfxCtx.overlay.p + sizeofGfx + sizeofGfx, .gSPEndDisplayList)] := by
    unfold chainStores
    rw [hm]
    rfl
  have cell := Graph_Update_chain_cell env c hnd
  have keep : ∀ a ∈ lw ++ lo ++ lx ++ lv, (Graph_Update_chain env c).mem a = c.mem a :=
    fun a ha => Graph_Update_chain_other env c a (hd a ha)
  rw [hcs] at cell
  have cw : (Graph_Update_chain env c).mem c.gfxCtx.work.p
      = .gfx (.gSPBranchList c.gfxCtx.polyOpaBuffer) := cell _ _ (by simp)
  have co : (Graph_Update_chain env c).mem c.gfxCtx.polyOpa.p
      = .gfx (.gSPBranchList c.gfxCtx.polyXluBuffer) := cell _ _ (by simp)
  have cx : (Graph_Update_chain env c).mem c.gfxCtx.polyXlu.p
      = .gfx (.gSPBranchList c.gfxCtx.overlayBuffer) := cell _ _ (by simp)
  have c1 : (Graph_Update_chain env c).mem c.gfxCtx.overlay.p = .gfx .gDPPipeSync :=
    cell _ _ (by simp)
  have c2 : (Graph_Update_chain env c).mem (c.gfxCtx.overlay.p + sizeofGfx)
      = .gfx .gDPFullSync := cell _ _ (by simp)
  have c3 : (Graph_Update_chain env c).mem (c.gfxCtx.overlay.p + sizeofGfx + sizeofGfx)
      = .gfx .gSPEndDisplayList := cell _ _ (by simp)
  have t3 := traverse_stop (Graph_Update_chain env c).mem e _ c3
  have t2 := traverse_next (Graph_Update_chain env c).mem (e + 1) _ _ c2 rfl
  have t1 := traverse_next (Graph_Update_chain env c).mem (e + 1 + 1) _ _ c1 rfl
  have tv := traverse_of_walk c.mem (Graph_Update_chain env c).mem _ fv _ lv hv
    (fun a ha => keep a (by simp [ha])) (e + 1 + 1 + 1)
  have tx := traverse_region c.mem (Graph_Update_chain env c).mem _ _ c.gfxCtx.overlayBuffer
    fx lx hx (fun a ha => keep a (by simp [ha])) cx (e + 1 + 1 + 1 + lv.length)
  have tp := traverse_region c.mem (Graph_Update_chain env c).mem _ _ c.gfxCtx.polyXluBuffer
    fo lo ho (fun a ha => keep a (by simp [ha])) co
    (e + 1 + 1 + 1 + lv.length + (0 + 1 + lx.length))
  have tw := traverse_region c.mem (Graph_Update_chain env c).mem _ _ c.gfxCtx.polyOpaBuffer
    fw lw hw (fun a ha => keep a (by simp [ha])) cw
    (e + 1 + 1 + 1 + lv.length + (0 + 1 + lx.length) + (0 + 1 + lo.length))
  simp only [Nat.zero_add, ← Nat.add_assoc] at tx tp tw ⊢
  rw [tw, tp, tx, tv, t1, t2, t3]
  unfold chainPath
  rw [hm]
  simp
/-- The traversal after the chaining step, in a block that writes its markers. -/
theorem traverse_chain_marked (env : Env) (c : Sys) (fw fo fx fv : Nat)
    (lw lo lx lv : List Nat) (hm : c.marking env = true)
    (hw : walk c.mem c.gfxCtx.work.p fw c.gfxCtx.workBuffer = some lw)
    (ho : walk c.mem c.gfxCtx.polyOpa.p fo c.gfxCtx.polyOpaBuffer = some lo)
    (hx : walk c.mem c.gfxCtx.polyXlu.p fx c.gfxCtx.polyXluBuffer = some lx)
    (hv : walk c.mem c.gfxCtx.overlay.p fv c.gfxCtx.overlayBuffer = some lv)
    (hnd : ((chainStores env c).map Prod.fst).Nodup)
    (hd : ∀ a ∈ lw ++ lo ++ lx ++ lv, a ∉ (chainStores env c).map Prod.fst) (e : Nat) :
    traverse (Graph_Update_chain env c).mem
        (e + 1 + 1 + 1 + 1 + lv.length + (0 + 1 + 1 + lx.length) + (0 + 1 + 1 + lo.length)
          + (0 + 1 + lw.length)) c.gfxCtx.workBuffer
      = some (chainPath env c lw lo lx lv) := by
  have hcs : chainStores env c
      = [(c.gfxCtx.polyOpa.p, .gDPNoOpOpenDisp "../graph.c" 999),
         (c.gfxCtx.polyXlu.p, .gDPNoOpOpenDisp "../graph.c" 999),
         (c.gfxCtx.overlay.p, .gDPNoOpOpenDisp "../graph.c" 999),
         (c.gfxCtx.work.p, .gSPBranchList c.gfxCtx.polyOpaBuffer),
         (c.gfxCtx.polyOpa.p + sizeofGfx, .gSPBranchList c.gfxCtx.polyXluBuffer),
         (c.gfxCtx.polyXlu.p + sizeofGfx, .gSPBranchList c.gfxCtx.overlayBuffer),
         (c.gfxCtx.overlay.p + sizeofGfx, .gDPPipeSync),
         (c.gfxCtx.overlay.p + sizeofGfx + sizeofGfx, .gDPFullSync),
         (c.gfxCtx.overlay.p + sizeofGfx + sizeofGfx + sizeofGfx, .gSPEndDisplayList),
         (c.gfxCtx.polyOpa.p + sizeofGfx + sizeofGfx, .gDPNoOpCloseDisp "../graph.c" 1028),
         (c.gfxCtx.polyXlu.p + sizeofGfx + sizeofGfx, .gDPNoOpCloseDisp "../graph.c" 1028),
         (c.gfxCtx.overlay.p + sizeofGfx + sizeofGfx + sizeofGfx + sizeofGfx,
           .gDPNoOpCloseDisp "../graph.c" 1028)] := by
    unfold chainStores
    rw [hm]
    rfl
  have cell := Graph_Update_chain_cell env c hnd
  have keep : ∀ a ∈ lw ++ lo ++ lx ++ lv, (Graph_Update_chain env c).mem a = c.mem a :=
    fun a ha => Graph_Update_chain_other env c a (hd a ha)
  rw [hcs] at cell
  have cw : (Graph_Update_chain env c).mem c.gfxCtx.work.p
      = .gfx (.gSPBranchList c.gfxCtx.polyOpaBuffer) := cell _ _ (by simp)
  have co0 : (Graph_Update_chain env c).mem c.gfxCtx.polyOpa.p
      = .gfx (.gDPNoOpOpenDisp "../graph.c" 999) := cell _ _ (by simp)
  have co : (Graph_Update_chain env c).mem (c.gfxCtx.polyOpa.p + sizeofGfx)
      = .gfx (.gSPBranchList c.gfxCtx.polyXluBuffer) := cell _ _ (by simp)
  have cx0 : (Graph_Update_chain env c).mem c.gfxCtx.polyXlu.p
      = .gfx (.gDPNoOpOpenDisp "../graph.c" 999) := cell _ _ (by simp)
  have cx : (Graph_Update_chain env c).mem (c.gfxCtx.polyXlu.p + sizeofGfx)
      = .gfx (.gSPBranchList c.gfxCtx.overlayBuffer) := cell _ _ (by simp)
  have c0 : (Graph_Update_chain env c).mem c.gfxCtx.overlay.p
      = .gfx (.gDPNoOpOpenDisp "../graph.c" 999) := cell _ _ (by simp)
  have c1 : (Graph_Update_chain env c).mem (c.gfxCtx.overlay.p + sizeofGfx)
      = .gfx .gDPPipeSync := cell _ _ (by simp)
  have c2 : (Graph_Update_chain env c).mem (c.gfxCtx.overlay.p + sizeofGfx + sizeofGfx)
      = .gfx .gDPFullSync := cell _ _ (by simp)
  have c3 : (Graph_Update_chain env c).mem
      (c.gfxCtx.overlay.p + sizeofGfx + sizeofGfx + sizeofGfx)
      = .gfx .gSPEndDisplayList := cell _ _ (by simp)
  have t3 := traverse_stop (Graph_Update_chain env c).mem e _ c3
  have t2 := traverse_next (Graph_Update_chain env c).mem (e + 1) _ _ c2 rfl
  have t1 := traverse_next (Graph_Update_chain env c).mem (e + 1 + 1) _ _ c1 rfl
  have t0 := traverse_next (Graph_Update_chain env c).mem (e + 1 + 1 + 1) _ _ c0 rfl
  have tv := traverse_of_walk c.mem (Graph_Update_chain env c).mem _ fv _ lv hv
    (fun a ha => keep a (by simp [ha])) (e + 1 + 1 + 1 + 1)
  have tx := traverse_region_marked c.mem (Graph_Update_chain env c).mem _ _
    c.gfxCtx.overlayBuffer fx lx _ _ hx (fun a ha => keep a (by simp [ha])) cx0 cx
    (e + 1 + 1 + 1 + 1 + lv.length)
  have tp := traverse_region_marked c.mem (Graph_Update_chain env c).mem _ _
    c.gfxCtx.polyXluBuffer fo lo _ _ ho (fun a ha => keep a (by simp [ha])) co0 co
    (e + 1 + 1 + 1 + 1 + lv.length + (0 + 1 + 1 + lx.length))
  have tw := traverse_region c.mem (Graph_Update_chain env c).mem _ _ c.gfxCtx.polyOpaBuffer
    fw lw hw (fun a ha => keep a (by simp [ha])) cw
    (e + 1 + 1 + 1 + 1 + lv.length + (0 + 1 + 1 + lx.length) + (0 + 1 + 1 + lo.length))
  simp only [Nat.zero_add, ← Nat.add_assoc] at tx tp tw ⊢
  rw [tw, tp, tx, tv, t0, t1, t2, t3]
  unfold chainPath
  rw [hm]
  simp

theorem chainPath_length (env : Env) (c : Sys) (lw lo lx lv : List Nat) :
    (chainPath env c lw lo lx lv).length
      = if c.marking env then lw.length + lo.length + lx.length + lv.length + 9
        else lw.length + lo.length + lx.length + lv.length + 6 := by
  unfold chainPath
  split_ifs <;> simp <;> omega
/-- C10, on two frames. When the update hook fills the overlay region to its
last word (the arena is full, not crashed), the chaining step stores the two
synchronisation commands and the end marker behind the region, over the first
words of the work buffer, the branch of the work region among them: the
traversal from the start of the work buffer reads these three words and stops,
and visits no other region. When the update hook appends an end marker to the
region of opaque polygons, the traversal stops there and visits neither the
translucent nor the overlay region. -/
theorem C10_chaining_depends_on_content_counterexample :
    (THGA_IsCrash demoFull.gfxCtx.overlay = false ∧
      demoFull.gfxCtx.overlay.p = demoFull.gfxCtx.workBuffer ∧
      demoFull.gfxCtx.work.p = demoFull.gfxCtx.workBuffer ∧
      (Graph_Update_chain fullOverlayEnv demoFull).mem demoFull.gfxCtx.work.p
        ≠ .gfx (.gSPBranchList demoFull.gfxCtx.polyOpaBuffer) ∧
      traverse (Graph_Update_chain fullOverlayEnv demoFull).mem 64 demoFull.gfxCtx.workBuffer
        = some [0x80211F08, 0x80211F10, 0x80211F18] ∧
      demoFull.gfxCtx.polyOpaBuffer ∉ [0x80211F08, 0x80211F10, 0x80211F18]) ∧
    (demoEnded.gfxCtx.polyOpa.p = demoEnded.gfxCtx.polyOpaBuffer + sizeofGfx ∧
      traverse (Graph_Update_chain endMarkEnv demoEnded).mem 64 demoEnded.gfxCtx.workBuffer
        = some [0x80211F08, 0x80200008] ∧
      demoEnded.gfxCtx.polyXluBuffer ∉ [0x80211F08, 0x80200008] ∧
      demoEnded.gfxCtx.overlayBuffer ∉ [0x80211F08, 0x80200008]) :=
  ⟨⟨by rfl, by rfl, by rfl, by decide, by rfl, by decide⟩, by rfl, by rfl, by decide, by decide⟩
/-- C10, as amended. Let the reading of the memory the update hook left lead
from the start of each region to its head cursor (over the words `lw`, `lo`,
`lx`, `lv`), and let the words the chaining step stores be pairwise distinct
and none of them one of the words so read. Then after the chaining step the
word at the head cursor of the work region is a branch to the start of the
opaque buffer, the word at the head cursor of the opaque region (behind the
open marker, if the block writes one) is a branch to the start of the
translucent buffer, the word at the head cursor of the translucent region
(likewise) is a branch to the start of the overlay buffer, and the words at the
head cursor of the overlay region (likewise) are a pipe sync, a full sync and
the end marker; every other word the reading passes is unchanged; and the
traversal from the start of the work buffer, with any fuel that covers its
length, reads the work region, the opaque region, the translucent region and
the overlay region in this order and stops at the end marker. -/
theorem C10_chaining_links_the_regions (env : Env) (c : Sys) (fw fo fx fv : Nat)
    (lw lo lx lv : List Nat)
    (hw : walk c.mem c.gfxCtx.work.p fw c.gfxCtx.workBuffer = some lw)
    (ho : walk c.mem c.gfxCtx.polyOpa.p fo c.gfxCtx.polyOpaBuffer = some lo)
    (hx : walk c.mem c.gfxCtx.polyXlu.p fx c.gfxCtx.polyXluBuffer = some lx)
    (hv : walk c.mem c.gfxCtx.overlay.p fv c.gfxCtx.overlayBuffer = some lv)
    (hnd : ((chainStores env c).map Prod.fst).Nodup)
    (hd : ∀ a ∈ lw ++ lo ++ lx ++ lv, a ∉ (chainStores env c).map Prod.fst) :
    (Graph_Update_chain env c).mem c.gfxCtx.work.p
      = .gfx (.gSPBranchList c.gfxCtx.polyOpaBuffer) ∧
    (Graph_Update_chain env c).mem (c.gfxCtx.polyOpa.p + c.markSize env)
      = .gfx (.gSPBranchList c.gfxCtx.polyXluBuffer) ∧
    (Graph_Update_chain env c).mem (c.gfxCtx.polyXlu.p + c.markSize env)
      = .gfx (.gSPBranchList c.gfxCtx.overlayBuffer) ∧
    (Graph_Update_chain env c).mem (c.gfxCtx.overlay.p + c.markSize env)
      = .gfx .gDPPipeSync ∧
    (Graph_Update_chain env c).mem (c.gfxCtx.overlay.p + c.markSize env + sizeofGfx)
      = .gfx .gDPFullSync ∧
    (Graph_Update_chain env c).mem (c.gfxCtx.overlay.p + c.markSize env + sizeofGfx + sizeofGfx)
      = .gfx .gSPEndDisplayList ∧
    (∀ a ∈ lw ++ lo ++ lx ++ lv, (Graph_Update_chain env c).mem a = c.mem a) ∧
    (∀ fuel, (chainPath env c lw lo lx lv).length ≤ fuel →
      traverse (Graph_Update_chain env c).mem fuel c.gfxCtx.workBuffer
        = some (chainPath env c lw lo lx lv)) ∧
    (∃ l, chainPath env c lw lo lx lv
      = l ++ [c.gfxCtx.overlay.p + c.markSize env + sizeofGfx + sizeofGfx]) := by
  have cell := Graph_Update_chain_cell env c hnd
  have keep : ∀ a ∈ lw ++ lo ++ lx ++ lv, (Graph_Update_chain env c).mem a = c.mem a :=
    fun a ha => Graph_Update_chain_other env c a (hd a ha)
  have hlen := chainPath_length env c lw lo lx lv
  cases hm : c.marking env with
  | false =>
    have hk : c.markSize env = 0 := by
      unfold Sys.markSize
      rw [hm]
      rfl
    have hcs : chainStores env c
        = [(c.gfxCtx.work.p, .gSPBranchList c.gfxCtx.polyOpaBuffer),
           (c.gfxCtx.polyOpa.p, .gSPBranchList c.gfxCtx.polyXluBuffer),
           (c.gfxCtx.polyXlu.p, .gSPBranchList c.gfxCtx.overlayBuffer),
           (c.gfxCtx.overlay.p, .gDPPipeSync),
           (c.gfxCtx.overlay.p + sizeofGfx, .gDPFullSync),
           (c.gfxCtx.overlay.p + sizeofGfx + sizeofGfx, .gSPEndDisplayList)] := by
      unfold chainStores
      rw [hm]
      rfl
    rw [hcs] at cell
    rw [hk]
    simp only [Nat.add_zero]
    refine ⟨cell _ _ (by simp), cell _ _ (by simp), cell _ _ (by simp), cell _ _ (by simp),
      cell _ _ (by simp), cell _ _ (by simp), keep, ?_, ?_⟩
    · intro fuel hf
      rw [hlen, hm] at hf
      simp only [Bool.false_eq_true, if_false] at hf
      have h := traverse_chain_plain env c fw fo fx fv lw lo lx lv hm hw ho hx hv hnd hd
        (fuel - (lw.length + lo.length + lx.length + lv.length + 6))
      have e : fuel - (lw.length + lo.length + lx.length + lv.length + 6) + 1 + 1 + 1
          + lv.length + (0 + 1 + lx.length) + (0 + 1 + lo.length) + (0 + 1 + lw.length)
          = fuel := by omega
      rw [e] at h
      exact h
    · refine ⟨lw ++ [c.gfxCtx.work.p] ++ lo ++ [c.gfxCtx.polyOpa.p] ++ lx
        ++ [c.gfxCtx.polyXlu.p] ++ lv ++ [c.gfxCtx.overlay.p, c.gfxCtx.overlay.p + sizeofGfx], ?_⟩
      unfold chainPath
      rw [hm]
      simp
  | true =>
    have hk : c.markSize env = sizeofGfx := by
      unfold Sys.markSize
      rw [hm]
      rfl
    have hcs : chainStores env c
        = [(c.gfxCtx.polyOpa.p, .gDPNoOpOpenDisp "../graph.c" 999),
           (c.gfxCtx.polyXlu.p, .gDPNoOpOpenDisp "../graph.c" 999),
           (c.gfxCtx.overlay.p, .gDPNoOpOpenDisp "../graph.c" 999),
           (c.gfxCtx.work.p, .gSPBranchList c.gfxCtx.polyOpaBuffer),
           (c.gfxCtx.polyOpa.p + sizeofGfx, .gSPBranchList c.gfxCtx.polyXluBuffer),
           (c.gfxCtx.polyXlu.p + sizeofGfx, .gSPBranchList c.gfxCtx.overlayBuffer),
           (c.gfxCtx.overlay.p + sizeofGfx, .gDPPipeSync),
           (c.gfxCtx.overlay.p + sizeofGfx + sizeofGfx, .gDPFullSync),
           (c.gfxCtx.overlay.p + sizeofGfx + sizeofGfx + sizeofGfx, .gSPEndDisplayList),
           (c.gfxCtx.polyOpa.p + sizeofGfx + sizeofGfx, .gDPNoOpCloseDisp "../graph.c" 1028),
           (c.gfxCtx.polyXlu.p + sizeofGfx + sizeofGfx, .gDPNoOpCloseDisp "../graph.c" 1028),
           (c.gfxCtx.overlay.p + sizeofGfx + sizeofGfx + sizeofGfx + sizeofGfx,
             .gDPNoOpCloseDisp "../graph.c" 1028)] := by
      unfold chainStores
      rw [hm]
      rfl
    rw [hcs] at cell
    rw [hk]
    refine ⟨cell _ _ (by simp), cell _ _ (by simp), cell _ _ (by simp), cell _ _ (by simp),
      cell _ _ (by simp), cell _ _ (by simp), keep, ?_, ?_⟩
    · intro fuel hf
      rw [hlen, hm] at hf
      simp only [if_true] at hf
      have h := traverse_chain_marked env c fw fo fx fv lw lo lx lv hm hw ho hx hv hnd hd
        (fuel - (lw.length + lo.length + lx.length + lv.length + 9))
      have e : fuel - (lw.length + lo.length + lx.length + lv.length + 9) + 1 + 1 + 1 + 1
          + lv.length + (0 + 1 + 1 + lx.length) + (0 + 1 + 1 + lo.length) + (0 + 1 + lw.length)
          = fuel := by omega
      rw [e] at h
      exact h
    · refine ⟨lw ++ [c.gfxCtx.work.p] ++ lo
        ++ [c.gfxCtx.polyOpa.p, c.gfxCtx.polyOpa.p + sizeofGfx] ++ lx
        ++ [c.gfxCtx.polyXlu.p, c.gfxCtx.polyXlu.p + sizeofGfx] ++ lv
        ++ [c.gfxCtx.overlay.p, c.gfxCtx.overlay.p + sizeofGfx,
          c.gfxCtx.overlay.p + sizeofGfx + sizeofGfx], ?_⟩
      unfold chainPath
      rw [hm]
      simp
/-- C10, as amended, at the first frame of the machine `drawEnv`: the traversal
reads the branch of the empty work region, the two drawing commands and the
branch of the opaque region, the branch of the empty translucent region, and
the drawing command, the two synchronisation commands and the end marker of the
overlay region. -/
theorem C10_chaining_links_the_regions_witness :
    walk demoDrawn.mem demoDrawn.gfxCtx.work.p 0 demoDrawn.gfxCtx.workBuffer = some [] ∧
    walk demoDrawn.mem demoDrawn.gfxCtx.polyOpa.p 2 demoDrawn.gfxCtx.polyOpaBuffer
      = some [0x80200008, 0x80200010] ∧
    walk demoDrawn.mem demoDrawn.gfxCtx.polyXlu.p 0 demoDrawn.gfxCtx.polyXluBuffer = some [] ∧
    walk demoDrawn.mem demoDrawn.gfxCtx.overlay.p 1 demoDrawn.gfxCtx.overlayBuffer
      = some [0x8020FF08] ∧
    ((chainStores drawEnv demoDrawn).map Prod.fst).Nodup ∧
    (∀ a ∈ [] ++ [0x80200008, 0x80200010] ++ [] ++ [0x8020FF08],
      a ∉ (chainStores drawEnv demoDrawn).map Prod.fst) ∧
    chainPath drawEnv demoDrawn [] [0x80200008, 0x80200010] [] [0x8020FF08]
      = [0x80211F08, 0x80200008, 0x80200010, 0x80200018, 0x8020BF08, 0x8020FF08, 0x8020FF10,
          0x8020FF18, 0x8020FF20] ∧
    ((Graph_Update_chain drawEnv demoDrawn).mem demoDrawn.gfxCtx.work.p
      = .gfx (.gSPBranchList demoDrawn.gfxCtx.polyOpaBuffer) ∧
    (Graph_Update_chain drawEnv demoDrawn).mem
        (demoDrawn.gfxCtx.polyOpa.p + demoDrawn.markSize drawEnv)
      = .gfx (.gSPBranchList demoDrawn.gfxCtx.polyXluBuffer) ∧
    (Graph_Update_chain drawEnv demoDrawn).mem
        (demoDrawn.gfxCtx.polyXlu.p + demoDrawn.markSize drawEnv)
      = .gfx (.gSPBranchList demoDrawn.gfxCtx.overlayBuffer) ∧
    (Graph_Update_chain drawEnv demoDrawn).mem
        (demoDrawn.gfxCtx.overlay.p + demoDrawn.markSize drawEnv)
      = .gfx .gDPPipeSync ∧
    (Graph_Update_chain drawEnv demoDrawn).mem
        (demoDrawn.gfxCtx.overlay.p + demoDrawn.markSize drawEnv + sizeofGfx)
      = .gfx .gDPFullSync ∧
    (Graph_Update_chain drawEnv demoDrawn).mem
        (demoDrawn.gfxCtx.overlay.p + demoDrawn.markSize drawEnv + sizeofGfx + sizeofGfx)
      = .gfx .gSPEndDisplayList ∧
    (∀ a ∈ [] ++ [0x80200008, 0x80200010] ++ [] ++ [0x8020FF08],
      (Graph_Update_chain drawEnv demoDrawn).mem a = demoDrawn.mem a) ∧
    (∀ fuel, (chainPath drawEnv demoDrawn [] [0x80200008, 0x80200010] [] [0x8020FF08]).length
        ≤ fuel →
      traverse (Graph_Update_chain drawEnv demoDrawn).mem fuel demoDrawn.gfxCtx.workBuffer
        = some (chainPath drawEnv demoDrawn [] [0x80200008, 0x80200010] [] [0x8020FF08])) ∧
    (∃ l, chainPath drawEnv demoDrawn [] [0x80200008, 0x80200010] [] [0x8020FF08]
      = l ++ [demoDrawn.gfxCtx.overlay.p + demoDrawn.markSize drawEnv + sizeofGfx
          + sizeofGfx])) :=
  have e : (chainStores drawEnv demoDrawn).map Prod.fst
      = [0x80211F08, 0x80200018, 0x8020BF08, 0x8020FF10, 0x8020FF18, 0x8020FF20] := by rfl
  ⟨by rfl, by rfl, by rfl, by rfl, by rw [e]; decide, by rw [e]; decide, by rfl,
    C10_chaining_links_the_regions drawEnv demoDrawn 0 2 0 1 [] [0x80200008, 0x80200010] []
      [0x8020FF08] (by rfl) (by rfl) (by rfl) (by rfl) (by rw [e]; decide) (by rw [e]; decide)⟩

/-! ### Steps that leave the base pointers and the configuration alone -/

theorem Sys.Steady.steady_refl (s : Sys) : s.Steady s := ⟨rfl, rfl⟩

theorem Sys.Steady.steady_trans {s s1 s2 : Sys} (h1 : s.Steady s1) (h2 : s1.Steady s2) :
    s.Steady s2 :=
  ⟨h2.1.trans h1.1, h2.2.trans h1.2⟩

theorem Sys.Steady.steady_ite {s x y : Sys} {c : Prop} [Decidable c] (h : s.Steady x)
    (hf : x.Steady y) : s.Steady (if c then y else x) := by
  split_ifs
  · exact h.steady_trans hf
  · exact h

theorem Sys.Steady.steady_emit (s : Sys) (e : Event) : s.Steady (s.emit e) := ⟨rfl, rfl⟩

theorem Sys.Steady.steady_setReg (s : Sys) (r v : Nat) : s.Steady (s.setReg r v) := ⟨rfl, rfl⟩

theorem Sys.Steady.steady_external (s : Sys) (f : World → World) : s.Steady (s.external f) :=
  ⟨rfl, rfl⟩

theorem put_WORK_DISP_steady (g : Gfx) (s : Sys) : s.Steady (put_WORK_DISP g s) := ⟨rfl, rfl⟩

theorem put_POLY_OPA_DISP_steady (g : Gfx) (s : Sys) : s.Steady (put_POLY_OPA_DISP g s) :=
  ⟨rfl, rfl⟩

theorem put_POLY_XLU_DISP_steady (g : Gfx) (s : Sys) : s.Steady (put_POLY_XLU_DISP g s) :=
  ⟨rfl, rfl⟩

theorem put_OVERLAY_DISP_steady (g : Gfx) (s : Sys) : s.Steady (put_OVERLAY_DISP g s) :=
  ⟨rfl, rfl⟩

theorem Graph_OpenDisps_steady (env : Env) (d : Nat → Nat) (file : String) (line : Nat)
    (s : Sys) : s.Steady (Graph_OpenDisps env d file line s).2 := by
  unfold Graph_OpenDisps
  split_ifs <;> exact ⟨rfl, rfl⟩

theorem Graph_CloseDisps_steady (env : Env) (d : Nat → Nat) (file : String) (line : Nat)
    (s : Sys) : s.Steady (Graph_CloseDisps env d file line s) := by
  unfold Graph_CloseDisps
  dsimp only
  split_ifs <;> exact ⟨rfl, rfl⟩

theorem OPEN_DISPS_steady (env : Env) (file : String) (line : Nat) (s : Sys) :
    s.Steady (OPEN_DISPS env file line s).2 := by
  unfold OPEN_DISPS
  split_ifs
  · exact Graph_OpenDisps_steady ..
  · exact .steady_refl s

theorem CLOSE_DISPS_steady (env : Env) (d : Nat → Nat) (file : String) (line : Nat) (s : Sys) :
    s.Steady (CLOSE_DISPS env d file line s) := by
  unfold CLOSE_DISPS
  split_ifs
  · exact Graph_CloseDisps_steady ..
  · exact .steady_refl s

theorem Graph_DisassembleUCode_steady (env : Env) (workBuf : Nat) (s : Sys) :
    s.Steady (Graph_DisassembleUCode env workBuf s) := by
  unfold Graph_DisassembleUCode
  dsimp only
  split_ifs <;> simp [Sys.Steady, Sys.bufs, Sys.cfg, Sys.emit, Sys.setReg]

theorem debugMarks_steady (env : Env) (l1 l2 : Nat) (a b c d : String) (s : Sys) :
    s.Steady (CLOSE_DISPS env (OPEN_DISPS env "../graph.c" l1 s).1 "../graph.c" l2
      (put_OVERLAY_DISP (.gDPNoOpString d 0) (put_POLY_XLU_DISP (.gDPNoOpString c 0)
        (put_POLY_OPA_DISP (.gDPNoOpString b 0) (put_WORK_DISP (.gDPNoOpString a 0)
          (OPEN_DISPS env "../graph.c" l1 s).2))))) :=
  (OPEN_DISPS_steady ..).steady_trans ((put_WORK_DISP_steady ..).steady_trans
    ((put_POLY_OPA_DISP_steady ..).steady_trans ((put_POLY_XLU_DISP_steady ..).steady_trans
      ((put_OVERLAY_DISP_steady ..).steady_trans (CLOSE_DISPS_steady ..)))))

theorem Graph_Update_game_steady (env : Env) (s : Sys) : s.Steady (Graph_Update_game env s) := by
  have h0 : s.Steady (((s.emit .GameState_ReqPadData).external env.GameState_ReqPadData).emit
      .GameState_Update |>.external env.GameState_Update) := ⟨rfl, rfl⟩
  unfold Graph_Update_game
  dsimp only
  split_ifs
  · exact h0.steady_trans (debugMarks_steady ..)
  · exact h0

theorem Graph_Update_chain_steady (env : Env) (s : Sys) :
    s.Steady (Graph_Update_chain env s) := by
  unfold Graph_Update_chain
  dsimp only
  exact (OPEN_DISPS_steady ..).steady_trans ((put_WORK_DISP_steady ..).steady_trans
    ((put_POLY_OPA_DISP_steady ..).steady_trans ((put_POLY_XLU_DISP_steady ..).steady_trans
      ((put_OVERLAY_DISP_steady ..).steady_trans ((put_OVERLAY_DISP_steady ..).steady_trans
        ((put_OVERLAY_DISP_steady ..).steady_trans (CLOSE_DISPS_steady ..)))))))

theorem Graph_Update_disas_mode_steady (env : Env) (s : Sys) :
    s.Steady (Graph_Update_disas_mode env s) := by
  unfold Graph_Update_disas_mode
  split_ifs <;> exact ⟨rfl, rfl⟩

theorem Graph_Update_disas_pre_steady (env : Env) (s : Sys) :
    s.Steady (Graph_Update_disas_pre env s) := by
  unfold Graph_Update_disas_pre
  split_ifs <;> exact ⟨rfl, rfl⟩

theorem Graph_Update_disas_post_steady (env : Env) (s : Sys) :
    s.Steady (Graph_Update_disas_post env s) := by
  unfold Graph_Update_disas_post
  dsimp only
  split_ifs <;> exact ⟨rfl, rfl⟩

theorem Graph_Update_disas_steady (env : Env) (s : Sys) :
    s.Steady (Graph_Update_disas env s) := by
  unfold Graph_Update_disas
  dsimp only
  split_ifs
  · exact (Graph_Update_disas_mode_steady ..).steady_trans
      ((Graph_Update_disas_pre_steady ..).steady_trans
        ((Graph_DisassembleUCode_steady ..).steady_trans (Graph_Update_disas_post_steady ..)))
  · exact Graph_Update_disas_mode_steady ..
  · exact .steady_refl s

theorem Graph_Update_transitions_steady (env : Env) (s : Sys) :
    s.Steady (Graph_Update_transitions env s) := by
  unfold Graph_Update_transitions
  dsimp only
  split_ifs <;> exact ⟨rfl, rfl⟩

theorem Graph_Update_finish_steady (env : Env) (s : Sys) :
    s.Steady (Graph_Update_finish env s) := by
  unfold Graph_Update_finish
  exact @Sys.Steady.steady_trans s
    (Graph_Update_time_ok env ((s.emit .Audio_Update).external env.Audio_Update)) _
    ⟨rfl, rfl⟩ (Graph_Update_transitions_steady ..)

theorem Graph_Update_validate_ok_steady (s : Sys) : s.Steady (Graph_Update_validate_ok s) := by
  unfold Graph_Update_validate_ok
  dsimp only
  split_ifs <;> simp [Sys.Steady, Sys.bufs, Sys.cfg, Sys.emit]

theorem Graph_Update_advance_steady (s : Sys) : s.Steady (Graph_Update_advance s) := ⟨rfl, rfl⟩

theorem Sys.recv_steady (env : Env) (b : Bool) (s : Sys) : s.Steady (s.recv env b) := by
  unfold Sys.recv Sys.arrived Sys.dequeue Sys.deliver
  exact ⟨rfl, rfl⟩

theorem Graph_TaskSet00_enter_steady (env : Env) (s : Sys) :
    s.Steady (Graph_TaskSet00_enter env s) := ⟨rfl, rfl⟩

theorem Graph_TaskSet00_handshake_ok_steady (env : Env) (s : Sys) :
    s.Steady (Graph_TaskSet00_handshake_ok env s) := by
  have h : s.Steady ((((s.emit (timerEvent env)).recv env OS_MESG_BLOCK).emit .osStopTimer).recv
      env OS_MESG_NOBLOCK) :=
    (Sys.Steady.steady_emit s _).steady_trans ((Sys.recv_steady ..).steady_trans
      ((Sys.Steady.steady_emit _ _).steady_trans (Sys.recv_steady ..)))
  unfold Graph_TaskSet00_handshake_ok
  dsimp only
  split_ifs
  · exact h.steady_trans ⟨rfl, rfl⟩
  · exact h

theorem Graph_TaskSet00_callback_ok_steady (env : Env) (s : Sys) :
    s.Steady (Graph_TaskSet00_callback_ok env s) := by
  unfold Graph_TaskSet00_callback_ok
  split_ifs <;> exact ⟨rfl, rfl⟩

theorem Graph_TaskSet00_time_ok_steady (env : Env) (s : Sys) :
    s.Steady (Graph_TaskSet00_time_ok env s) := ⟨rfl, rfl⟩

theorem Sys.atTaskBuild_steady (env : Env) (s : Sys) : s.Steady (s.atTaskBuild env) :=
  (Graph_TaskSet00_enter_steady env s).steady_trans
    ((Graph_TaskSet00_handshake_ok_steady env _).steady_trans
      ((Graph_TaskSet00_callback_ok_steady env _).steady_trans
        (Graph_TaskSet00_time_ok_steady env _)))

theorem Graph_TaskSet00_task_steady (env : Env) (s : Sys) :
    s.Steady (Graph_TaskSet00_task env s) := by
  unfold Graph_TaskSet00_task
  dsimp only
  refine Sys.Steady.steady_trans ?_ (@Sys.Steady.steady_trans _ _ _ (CLOSE_DISPS_steady ..) ⟨rfl, rfl⟩)
  refine Sys.Steady.steady_trans ?_ (@Sys.Steady.steady_trans _ _ _ (OPEN_DISPS_steady ..) ⟨rfl, rfl⟩)
  exact ⟨rfl, rfl⟩

theorem Graph_TaskSet00_head_ok_steady (env : Env) (s : Sys) :
    s.Steady (Graph_TaskSet00_head_ok env s) :=
  (Sys.atTaskBuild_steady env s).steady_trans (Graph_TaskSet00_task_steady env _)

theorem Graph_TaskSet00_scTask_steady (env : Env) (s : Sys) :
    s.Steady (Graph_TaskSet00_scTask env s) := by
  rw [Graph_TaskSet00_scTask_eq]
  split_ifs <;> exact ⟨rfl, rfl⟩

theorem Graph_TaskSet00_send_ok_steady (env : Env) (s : Sys) :
    s.Steady (Graph_TaskSet00_send_ok env s) := ⟨rfl, rfl⟩

theorem Graph_TaskSet00_cfb_bufs (env : Env) (s : Sys) :
    (Graph_TaskSet00_cfb env s).bufs = s.bufs := by
  unfold Graph_TaskSet00_cfb
  dsimp only
  split_ifs <;> rfl

/-! ### The task record -/

theorem Sys.submitted_eq (env : Env) (c : Sys) :
    c.submitted env
      = { c.gfxCtx.task with
          next := 0,
          flags := (c.submitted env).flags,
          framebuffer := some c.sGraphCfbInfoIdx.toNat,
          msgQueue := queueAddr env,
          msg := 0 } := by
  have h1 : (Graph_TaskSet00_cfb env (Graph_TaskSet00_scTask env c)).gfxCtx.task
      = { (Graph_TaskSet00_scTask env c).gfxCtx.task with
          framebuffer := some (Graph_TaskSet00_scTask env c).sGraphCfbInfoIdx.toNat } := by
    unfold Graph_TaskSet00_cfb
    dsimp only
    split_ifs <;> rfl
  have h2 : (c.submitted env).flags = (Graph_TaskSet00_scTask env c).gfxCtx.task.flags := by
    unfold Sys.submitted
    rw [h1]
  rw [h2]
  unfold Sys.submitted
  rw [h1, Graph_TaskSet00_scTask_eq]
  split_ifs <;> rfl

theorem OPEN_DISPS_work (env : Env) (file : String) (line : Nat) (s : Sys) :
    (OPEN_DISPS env file line s).2.gfxCtx.work = s.gfxCtx.work := by
  unfold OPEN_DISPS Graph_OpenDisps
  split_ifs <;> rfl

theorem OPEN_DISPS_task (env : Env) (file : String) (line : Nat) (s : Sys) :
    (OPEN_DISPS env file line s).2.gfxCtx.task = s.gfxCtx.task := by
  unfold OPEN_DISPS Graph_OpenDisps
  split_ifs <;> rfl

theorem CLOSE_DISPS_task (env : Env) (d : Nat → Nat) (file : String) (line : Nat) (s : Sys) :
    (CLOSE_DISPS env d file line s).gfxCtx.task = s.gfxCtx.task := by
  unfold CLOSE_DISPS Graph_CloseDisps
  dsimp only
  split_ifs <;> rfl

theorem OPEN_DISPS_workBuffer (env : Env) (file : String) (line : Nat) (s : Sys) :
    (OPEN_DISPS env file line s).2.gfxCtx.workBuffer = s.gfxCtx.workBuffer := by
  unfold OPEN_DISPS Graph_OpenDisps
  split_ifs <;> rfl

theorem Graph_TaskSet00_task_list (env : Env) (b : Sys) :
    (Graph_TaskSet00_task env b).gfxCtx.task.list
      = { type := env.M_GFXTASK,
          flags := env.OS_SC_DRAM_DLIST,
          ucode_boot := env.SysUcode_GetUCodeBoot,
          ucode_boot_size := env.SysUcode_GetUCodeBootSize,
          ucode := env.SysUcode_GetUCode,
          ucode_size := env.SP_UCODE_SIZE,
          ucode_data := env.SysUcode_GetUCodeData,
          ucode_data_size := env.SP_UCODE_DATA_SIZE,
          dram_stack := env.gGfxSPTaskStack,
          dram_stack_size := env.sizeof_gGfxSPTaskStack,
          output_buff := env.gGfxSPTaskOutputBuffer,
          output_buff_size := env.gGfxSPTaskOutputBuffer + env.sizeof_gGfxSPTaskOutputBuffer,
          data_ptr := b.gfxCtx.workBuffer,
          data_size := sub32 b.gfxCtx.work.p b.gfxCtx.workBuffer,
          yield_data_ptr := env.gGfxSPTaskYieldBuffer,
          yield_data_size := env.sizeof_gGfxSPTaskYieldBuffer } := by
  unfold Graph_TaskSet00_task
  dsimp only
  rw [CLOSE_DISPS_task]
  dsimp only
  rw [OPEN_DISPS_task, OPEN_DISPS_work, OPEN_DISPS_workBuffer]

theorem dispsMarked_congr (env : Env) {s x : Sys} (h : x.regs = s.regs) :
    dispsMarked env x = dispsMarked env s := by
  unfold dispsMarked Sys.reg
  rw [h]

/-- A display block that appends nothing leaves the four arenas as they were:
`Graph_CloseDisps` takes back the open markers. -/
theorem CLOSE_DISPS_restores (env : Env) (f1 f2 : String) (l1 l2 : Nat) (s x : Sys)
    (hr : x.regs = (OPEN_DISPS env f1 l1 s).2.regs)
    (hw : x.gfxCtx.work = (OPEN_DISPS env f1 l1 s).2.gfxCtx.work)
    (ho : x.gfxCtx.polyOpa = (OPEN_DISPS env f1 l1 s).2.gfxCtx.polyOpa)
    (hx : x.gfxCtx.polyXlu = (OPEN_DISPS env f1 l1 s).2.gfxCtx.polyXlu)
    (hv : x.gfxCtx.overlay = (OPEN_DISPS env f1 l1 s).2.gfxCtx.overlay) :
    (CLOSE_DISPS env (OPEN_DISPS env f1 l1 s).1 f2 l2 x).gfxCtx.work = s.gfxCtx.work ∧
    (CLOSE_DISPS env (OPEN_DISPS env f1 l1 s).1 f2 l2 x).gfxCtx.polyOpa = s.gfxCtx.polyOpa ∧
    (CLOSE_DISPS env (OPEN_DISPS env f1 l1 s).1 f2 l2 x).gfxCtx.polyXlu = s.gfxCtx.polyXlu ∧
    (CLOSE_DISPS env (OPEN_DISPS env f1 l1 s).1 f2 l2 x).gfxCtx.overlay = s.gfxCtx.overlay := by
  unfold CLOSE_DISPS
  unfold OPEN_DISPS at hr hw ho hx hv ⊢
  cases hd : env.DEBUG_FEATURES
  · simp only [hd, Bool.false_eq_true, if_false] at hr hw ho hx hv ⊢
    exact ⟨hw, ho, hx, hv⟩
  · simp only [hd, if_true] at hr hw ho hx hv ⊢
    unfold Graph_CloseDisps
    unfold Graph_OpenDisps at hr hw ho hx hv ⊢
    cases hk : dispsMarked env s
    · simp only [hk, Bool.false_eq_true, if_false] at hr hw ho hx hv ⊢
      rw [dispsMarked_congr env hr, hk]
      simp only [Bool.false_eq_true, if_false]
      exact ⟨hw, ho, hx, hv⟩
    · simp only [hk, if_true] at hr hw ho hx hv ⊢
      have hr2 : x.regs = s.regs := hr
      rw [dispsMarked_congr env hr2, hk]
      have hw2 : x.gfxCtx.work = s.gfxCtx.work := hw
      have ho2 : x.gfxCtx.polyOpa = { s.gfxCtx.polyOpa with p := s.gfxCtx.polyOpa.p + sizeofGfx } :=
        ho
      have hx2 : x.gfxCtx.polyXlu = { s.gfxCtx.polyXlu with p := s.gfxCtx.polyXlu.p + sizeofGfx } :=
        hx
      have hv2 : x.gfxCtx.overlay = { s.gfxCtx.overlay with p := s.gfxCtx.overlay.p + sizeofGfx } :=
        hv
      simp [ho2, hx2, hv2, hw2]

theorem Graph_TaskSet00_task_arenas (env : Env) (b : Sys) :
    (Graph_TaskSet00_task env b).gfxCtx.work = b.gfxCtx.work ∧
    (Graph_TaskSet00_task env b).gfxCtx.polyOpa = b.gfxCtx.polyOpa ∧
    (Graph_TaskSet00_task env b).gfxCtx.polyXlu = b.gfxCtx.polyXlu ∧
    (Graph_TaskSet00_task env b).gfxCtx.overlay = b.gfxCtx.overlay := by
  unfold Graph_TaskSet00_task
  dsimp only
  exact CLOSE_DISPS_restores env "../graph.c" "../graph.c" 828 830 _ _ rfl rfl rfl rfl rfl

theorem sub32_add (a n : Nat) (h : n < 2 ^ 32) : sub32 (a + n) a = n := by
  unfold sub32
  omega

/-- C17. In a `Graph_TaskSet00` whose handshake receive returns a message other
than the timer message, the task sent to the scheduler has type `M_GFXTASK`,
`data_ptr` equal to the work-buffer base of the context, and `data_size` equal
to the distance from that base to the head cursor of the work arena at the time
the record is filled (as a 32-bit difference: 8 times the number of commands,
when the cursor is that many commands behind the base). The display block
around the computation leaves the four arenas as they were. The completion
queue of the task is the queue of the context, its completion message and its
next link are `NULL`. -/
theorem C17_task_descriptor (env : Env) (s : Sys) (m : Nat)
    (h : s.handshakeMsg env = some m) (hm : m ≠ 666) :
    ∃ x t pre, Graph_TaskSet00 env s = .ok () x ∧
      x.trace = pre ++ [.osSendMesg env.gScheduler_cmdQueue t OS_MESG_BLOCK, .Sched_Notify] ∧
      t.list.type = env.M_GFXTASK ∧
      t.list.data_ptr = s.gfxCtx.workBuffer ∧
      (s.atTaskBuild env).gfxCtx.workBuffer = s.gfxCtx.workBuffer ∧
      x.gfxCtx.workBuffer = s.gfxCtx.workBuffer ∧
      t.list.data_size = sub32 (s.atTaskBuild env).gfxCtx.work.p s.gfxCtx.workBuffer ∧
      (∀ n, (s.atTaskBuild env).gfxCtx.work.p = s.gfxCtx.workBuffer + 8 * n → 8 * n < 2 ^ 32 →
        t.list.data_size = 8 * n) ∧
      (Graph_TaskSet00_task env (s.atTaskBuild env)).gfxCtx.work = (s.atTaskBuild env).gfxCtx.work ∧
      (Graph_TaskSet00_task env (s.atTaskBuild env)).gfxCtx.polyOpa
        = (s.atTaskBuild env).gfxCtx.polyOpa ∧
      (Graph_TaskSet00_task env (s.atTaskBuild env)).gfxCtx.polyXlu
        = (s.atTaskBuild env).gfxCtx.polyXlu ∧
      (Graph_TaskSet00_task env (s.atTaskBuild env)).gfxCtx.overlay
        = (s.atTaskBuild env).gfxCtx.overlay ∧
      x.gfxCtx.work.p = (s.atTaskBuild env).gfxCtx.work.p ∧
      t.msgQueue = queueAddr env ∧ t.msg = 0 ∧ t.next = 0 := by
  have hx := Graph_TaskSet00_of_head_ok env s _ (Graph_TaskSet00_head_of_some env s h hm)
  have ht := Graph_TaskSet00_tail_ok_trace env (Graph_TaskSet00_head_ok env s)
  have hb : (s.atTaskBuild env).gfxCtx.workBuffer = s.gfxCtx.workBuffer :=
    congrArg (fun b => b.2.2.2.1) (Sys.atTaskBuild_steady env s).1
  have hl : ((Graph_TaskSet00_head_ok env s).submitted env).list
      = (Graph_TaskSet00_task env (s.atTaskBuild env)).gfxCtx.task.list := by
    rw [Sys.submitted_eq]
    rfl
  have ha := Graph_TaskSet00_task_arenas env (s.atTaskBuild env)
  have hw : (Graph_TaskSet00_tail_ok env (Graph_TaskSet00_head_ok env s)).gfxCtx.workBuffer
      = s.gfxCtx.workBuffer := by
    have h1 : (Graph_TaskSet00_tail_ok env (Graph_TaskSet00_head_ok env s)).bufs
        = s.bufs :=
      ((Graph_TaskSet00_send_ok_steady env _).1.trans
        ((Graph_TaskSet00_cfb_bufs env _).trans
          ((Graph_TaskSet00_scTask_steady env _).1.trans (Graph_TaskSet00_head_ok_steady env s).1)))
    exact congrArg (fun b => b.2.2.2.1) h1
  have hp : (Graph_TaskSet00_tail_ok env (Graph_TaskSet00_head_ok env s)).gfxCtx.work
      = (Graph_TaskSet00_head_ok env s).gfxCtx.work := by
    unfold Graph_TaskSet00_tail_ok Graph_TaskSet00_send_ok
    have h1 : ∀ y, (Graph_TaskSet00_cfb env y).gfxCtx.work = y.gfxCtx.work := by
      intro y
      unfold Graph_TaskSet00_cfb
      dsimp only
      split_ifs <;> rfl
    have h2 : ∀ y, (Graph_TaskSet00_scTask env y).gfxCtx.work = y.gfxCtx.work := by
      intro y
      rw [Graph_TaskSet00_scTask_eq]
      split_ifs <;> rfl
    exact (h1 _).trans (h2 _)
  refine ⟨_, (Graph_TaskSet00_head_ok env s).submitted env, _, hx, ht, ?_, ?_, hb, hw, ?_, ?_,
    ha.1, ha.2.1, ha.2.2.1, ha.2.2.2, ?_, ?_, ?_, ?_⟩
  · rw [hl, Graph_TaskSet00_task_list]
  · rw [hl, Graph_TaskSet00_task_list]
    exact hb
  · rw [hl, Graph_TaskSet00_task_list, hb]
  · intro n hn h8
    rw [hl, Graph_TaskSet00_task_list, hb]
    show sub32 (s.atTaskBuild env).gfxCtx.work.p s.gfxCtx.workBuffer = 8 * n
    rw [hn]
    exact sub32_add _ _ h8
  · rw [hp]
    exact congrArg TwoHeadGfxArena.p ha.1
  · rw [Sys.submitted_eq]
  · rw [Sys.submitted_eq]
  · rw [Sys.submitted_eq]

/-- C17, at the first submission of the machine `demoEnv`: one command in the
work region, `data_size` 8. -/
theorem C17_task_descriptor_witness :
    demoAtSubmit.handshakeMsg demoEnv = some 0 ∧ (0 : Nat) ≠ 666 ∧
    (demoAtSubmit.atTaskBuild demoEnv).gfxCtx.work.p = demoAtSubmit.gfxCtx.workBuffer + 8 * 1 ∧
    ∃ x t pre, Graph_TaskSet00 demoEnv demoAtSubmit = .ok () x ∧
      x.trace = pre ++ [.osSendMesg demoEnv.gScheduler_cmdQueue t OS_MESG_BLOCK, .Sched_Notify] ∧
      t.list.type = demoEnv.M_GFXTASK ∧
      t.list.data_ptr = demoAtSubmit.gfxCtx.workBuffer ∧
      (demoAtSubmit.atTaskBuild demoEnv).gfxCtx.workBuffer = demoAtSubmit.gfxCtx.workBuffer ∧
      x.gfxCtx.workBuffer = demoAtSubmit.gfxCtx.workBuffer ∧
      t.list.data_size = sub32 (demoAtSubmit.atTaskBuild demoEnv).gfxCtx.work.p demoAtSubmit.gfxCtx.workBuffer ∧
      (∀ n, (demoAtSubmit.atTaskBuild demoEnv).gfxCtx.work.p = demoAtSubmit.gfxCtx.workBuffer + 8 * n → 8 * n < 2 ^ 32 →
        t.list.data_size = 8 * n) ∧
      (Graph_TaskSet00_task demoEnv (demoAtSubmit.atTaskBuild demoEnv)).gfxCtx.work = (demoAtSubmit.atTaskBuild demoEnv).gfxCtx.work ∧
      (Graph_TaskSet00_task demoEnv (demoAtSubmit.atTaskBuild demoEnv)).gfxCtx.polyOpa
        = (demoAtSubmit.atTaskBuild demoEnv).gfxCtx.polyOpa ∧
      (Graph_TaskSet00_task demoEnv (demoAtSubmit.atTaskBuild demoEnv)).gfxCtx.polyXlu
        = (demoAtSubmit.atTaskBuild demoEnv).gfxCtx.polyXlu ∧
      (Graph_TaskSet00_task demoEnv (demoAtSubmit.atTaskBuild demoEnv)).gfxCtx.overlay
        = (demoAtSubmit.atTaskBuild demoEnv).gfxCtx.overlay ∧
      x.gfxCtx.work.p = (demoAtSubmit.atTaskBuild demoEnv).gfxCtx.work.p ∧
      t.msgQueue = queueAddr demoEnv ∧ t.msg = 0 ∧ t.next = 0 :=
  ⟨by rfl, by decide, by rfl, C17_task_descriptor demoEnv demoAtSubmit 0 (by rfl) (by decide)⟩

/-! ### The three kinds of frame that return -/

theorem Sys.atFlagCheck_some (env : Env) (s c : Sys) (h : s.atFlagCheck env = some c) :
    c = Graph_TaskSet00_head_ok env (Graph_Update_validate_ok (s.atValidation env)) ∧
    (s.atValidation env).headMagic env = some GFXPOOL_HEAD_MAGIC ∧
    (s.atValidation env).tailMagic env = some GFXPOOL_TAIL_MAGIC ∧
    (s.atValidation env).crashed = false ∧
    ∃ m, (Graph_Update_validate_ok (s.atValidation env)).handshakeMsg env = some m ∧ m ≠ 666 := by
  unfold Sys.atFlagCheck at h
  cases hv : Graph_Update_validate env (s.atValidation env) with
  | stop w v => simp [hv] at h
  | ok u v =>
    simp only [hv] at h
    obtain ⟨hh, ht, rfl⟩ := Graph_Update_validate_ok_inv env _ _ hv
    by_cases hp : (Graph_Update_validate_ok (s.atValidation env)).problem = true
    · simp [hp] at h
    · simp only [hp] at h
      cases hd : Graph_TaskSet00_head env (Graph_Update_validate_ok (s.atValidation env)) with
      | stop w x => simp [hd] at h
      | ok u2 x =>
        simp only [hd] at h
        have hx : x = c := by simpa using h
        subst hx
        have hc : (s.atValidation env).crashed = false := by
          rw [Graph_Update_validate_ok_problem] at hp
          simpa using hp
        obtain ⟨m, h1, h2, h3⟩ := Graph_TaskSet00_head_ok_inv env _ _ hd
        exact ⟨h3, hh, ht, hc, m, h1, h2⟩

/-- A frame that returns without getting to the flag test skipped its
submission: the validation found an arena crashed. -/
theorem Graph_Update_of_skipped (env : Env) (s s1 : Sys) (h : SkippedFrame env s s1) :
    s1 = Graph_Update_finish env (Graph_Update_validate_ok (s.atValidation env)) ∧
    (s.atValidation env).crashed = true := by
  obtain ⟨hu, hn⟩ := h
  by_cases hh : (s.atValidation env).headMagic env = some GFXPOOL_HEAD_MAGIC
  · by_cases ht : (s.atValidation env).tailMagic env = some GFXPOOL_TAIL_MAGIC
    · cases hc : (s.atValidation env).crashed with
      | true =>
        rw [Graph_Update_of_crashed env s hh ht hc] at hu
        injection hu with _ hu
        exact ⟨hu.symm, rfl⟩
      | false =>
        exfalso
        rw [Graph_Update_of_sound env s hh ht hc] at hu
        unfold Sys.atFlagCheck at hn
        rw [Graph_Update_validate_of_intact env _ hh ht] at hn
        have hp : (Graph_Update_validate_ok (s.atValidation env)).problem = false := by
          rw [Graph_Update_validate_ok_problem, hc]
        simp only [hp, Bool.false_eq_true, if_false] at hn
        cases hd : Graph_TaskSet00_head env (Graph_Update_validate_ok (s.atValidation env)) with
        | ok u x => simp [hd] at hn
        | stop w x =>
          rw [Graph_TaskSet00_of_head_stop env _ _ _ hd] at hu
          cases hu
    · rw [Graph_Update_of_tail env s hh ht] at hu
      cases hu
  · rw [Graph_Update_of_head env s hh] at hu
    cases hu

theorem Graph_Update_of_submitted (env : Env) (s s1 c : Sys) (hu : Graph_Update env s = .ok () s1)
    (hc : s.atFlagCheck env = some c) :
    s1 = Graph_Update_finish env (Graph_Update_advance (Graph_TaskSet00_tail_ok env c)) := by
  rw [(Graph_Update_of_atFlagCheck env s c hc).1] at hu
  injection hu with _ hu
  exact hu.symm

theorem StraightFrame.straight_flagCheck {env : Env} {s s1 : Sys} (h : StraightFrame env s s1) :
    ∃ c, s.atFlagCheck env = some c ∧ c.reg env.R_GRAPH_TASKSET00_FLAGS &&& 1 = 0 := by
  obtain ⟨-, hs⟩ := h
  unfold Sys.swapSuppressed at hs
  cases hc : s.atFlagCheck env with
  | none => simp [hc] at hs
  | some c =>
    simp only [hc, Option.map_some', Option.some.injEq, decide_eq_false_iff_not, ne_eq,
      not_not] at hs
    exact ⟨c, rfl, hs⟩

theorem SuppressedFrame.suppressed_flagCheck {env : Env} {s s1 : Sys} (h : SuppressedFrame env s s1) :
    ∃ c, s.atFlagCheck env = some c ∧ c.reg env.R_GRAPH_TASKSET00_FLAGS &&& 1 ≠ 0 := by
  obtain ⟨-, hs⟩ := h
  unfold Sys.swapSuppressed at hs
  cases hc : s.atFlagCheck env with
  | none => simp [hc] at hs
  | some c =>
    simp only [hc, Option.map_some', Option.some.injEq, decide_eq_true_eq, ne_eq] at hs
    exact ⟨c, rfl, hs⟩

/-! ### What a frame leaves of the configuration and the base pointers -/

theorem Graph_InitTHGA_cfg (env : Env) (s : Sys) : (Graph_InitTHGA env s).cfg = s.cfg := rfl

theorem Graph_InitTHGA_bufs (env : Env) (s : Sys) :
    (Graph_InitTHGA env s).bufs
      = (s.pool env + GfxPool.polyOpaBuffer, s.pool env + GfxPool.polyXluBuffer,
          s.pool env + GfxPool.overlayBuffer, s.pool env + GfxPool.workBuffer,
          env.SysCfb_GetFbPtr (Int.tmod s.gfxCtx.fbIdx 2)) := rfl

theorem Graph_Update_begin_after (env : Env) (s : Sys) :
    (Graph_InitTHGA env { s with gameState := { s.gameState with inPreNMIState := 0 } }).Steady
      (Graph_Update_begin env s) := by
  unfold Graph_Update_begin
  dsimp only
  split_ifs
  · exact debugMarks_steady ..
  · exact .steady_refl _

theorem Graph_Update_begin_cfg (env : Env) (s : Sys) : (Graph_Update_begin env s).cfg = s.cfg :=
  (Graph_Update_begin_after env s).2.trans (Graph_InitTHGA_cfg env _)

theorem Graph_Update_begin_bufs (env : Env) (s : Sys) :
    (Graph_Update_begin env s).bufs
      = (s.pool env + GfxPool.polyOpaBuffer, s.pool env + GfxPool.polyXluBuffer,
          s.pool env + GfxPool.overlayBuffer, s.pool env + GfxPool.workBuffer,
          env.SysCfb_GetFbPtr (Int.tmod s.gfxCtx.fbIdx 2)) :=
  (Graph_Update_begin_after env s).1.trans (Graph_InitTHGA_bufs env _)

theorem Graph_Update_build_after (env : Env) (s : Sys) :
    (Graph_Update_begin env s).Steady (Graph_Update_build env s) :=
  (Graph_Update_game_steady env _).steady_trans
    ((Graph_Update_chain_steady env _).steady_trans (Graph_Update_disas_steady env _))

theorem Sys.atValidation_cfg (env : Env) (s : Sys) : (s.atValidation env).cfg = s.cfg :=
  (Graph_Update_build_after env _).2.trans (Graph_Update_begin_cfg env _)

theorem Sys.atValidation_bufs (env : Env) (s : Sys) :
    (s.atValidation env).bufs
      = (s.pool env + GfxPool.polyOpaBuffer, s.pool env + GfxPool.polyXluBuffer,
          s.pool env + GfxPool.overlayBuffer, s.pool env + GfxPool.workBuffer,
          env.SysCfb_GetFbPtr (Int.tmod s.gfxCtx.fbIdx 2)) :=
  (Graph_Update_build_after env _).1.trans (Graph_Update_begin_bufs env _)

/-- The state in which a frame tests the swap-suppression flag has the
configuration of the frame's entry and the base pointers `Graph_InitTHGA` set. -/
theorem Sys.atFlagCheck_kept (env : Env) (s c : Sys) (h : s.atFlagCheck env = some c) :
    c.cfg = s.cfg ∧
    c.bufs = (s.pool env + GfxPool.polyOpaBuffer, s.pool env + GfxPool.polyXluBuffer,
          s.pool env + GfxPool.overlayBuffer, s.pool env + GfxPool.workBuffer,
          env.SysCfb_GetFbPtr (Int.tmod s.gfxCtx.fbIdx 2)) := by
  obtain ⟨rfl, -⟩ := Sys.atFlagCheck_some env s c h
  have h1 := (Graph_Update_validate_ok_steady (s.atValidation env)).steady_trans
    (Graph_TaskSet00_head_ok_steady env _)
  exact ⟨h1.2.trans (Sys.atValidation_cfg env s), h1.1.trans (Sys.atValidation_bufs env s)⟩

theorem SkippedFrame.kept {env : Env} {s s1 : Sys} (h : SkippedFrame env s s1) :
    s1.cfg = s.cfg ∧ s1.idx = s.idx := by
  obtain ⟨rfl, -⟩ := Graph_Update_of_skipped env s s1 h
  have h1 := (Graph_Update_validate_ok_steady (s.atValidation env)).steady_trans
    (Graph_Update_finish_steady env _)
  have h2 := (Graph_Update_validate_ok_calm (s.atValidation env)).trans
    (Graph_Update_finish_calm env _)
  exact ⟨h1.2.trans (Sys.atValidation_cfg env s), h2.1.trans (Sys.atValidation_calm env s).1⟩

/-! ### The frame-buffer records -/

theorem Graph_TaskSet00_cfb_infos (env : Env) (y : Sys) :
    (Graph_TaskSet00_cfb env y).sGraphCfbInfos
      = fun i =>
          if i = y.sGraphCfbInfoIdx.toNat then
            { framebuffer := y.gfxCtx.curFrameBuffer,
              swapBuffer := y.gfxCtx.curFrameBuffer,
              viMode := y.gfxCtx.viMode,
              viFeatures := y.gfxCtx.viFeatures,
              xScale := if env.OOT_VERSION ≥ env.PAL_1_0 then y.gfxCtx.xScale
                else (y.sGraphCfbInfos i).xScale,
              yScale := if env.OOT_VERSION ≥ env.PAL_1_0 then y.gfxCtx.yScale
                else (y.sGraphCfbInfos i).yScale,
              unk_10 := 0,
              updateRate := y.reg env.R_UPDATE_RATE }
          else y.sGraphCfbInfos i := by
  unfold Graph_TaskSet00_cfb
  dsimp only
  funext i
  by_cases hv : env.OOT_VERSION ≥ env.PAL_1_0 <;> by_cases hi : i = y.sGraphCfbInfoIdx.toNat <;>
    simp [hv, hi, Sys.reg]

theorem Graph_TaskSet00_cfb_next (env : Env) (y : Sys) :
    (Graph_TaskSet00_cfb env y).sGraphCfbInfoIdx
      = Int.tmod (wrapS32 (y.sGraphCfbInfoIdx + 1)) 3 := by
  unfold Graph_TaskSet00_cfb
  dsimp only
  split_ifs <;> rfl

theorem Graph_TaskSet00_cfb_vi (env : Env) (y : Sys) :
    (Graph_TaskSet00_cfb env y).gfxCtx.viMode = y.gfxCtx.viMode ∧
    (Graph_TaskSet00_cfb env y).gfxCtx.viFeatures = y.gfxCtx.viFeatures ∧
    (Graph_TaskSet00_cfb env y).gfxCtx.xScale = y.gfxCtx.xScale ∧
    (Graph_TaskSet00_cfb env y).gfxCtx.yScale = y.gfxCtx.yScale := by
  unfold Graph_TaskSet00_cfb
  dsimp only
  split_ifs <;> exact ⟨rfl, rfl, rfl, rfl⟩

theorem cfbIdx_step (x : Int) (h0 : 0 ≤ x) (h3 : x < 3) :
    Int.tmod (wrapS32 (x + 1)) 3 = (x + 1) % 3 := by
  unfold wrapS32
  have h : (x + 1 + 2 ^ 31) % 2 ^ 32 - 2 ^ 31 = x + 1 := by omega
  rw [h]
  rcases (by omega : x = 0 ∨ x = 1 ∨ x = 2) with h | h | h <;> subst h <;> rfl

/-- What a submission leaves of the statics: the slot it used holds the frame
buffer and the display configuration of the context, the other slots are as
they were, and the slot index has moved on. -/
theorem Graph_TaskSet00_tail_ok_cfb (env : Env) (c : Sys) :
    (c.submitted env).framebuffer = some c.sGraphCfbInfoIdx.toNat ∧
    (Graph_TaskSet00_tail_ok env c).sGraphCfbInfoIdx
      = Int.tmod (wrapS32 (c.sGraphCfbInfoIdx + 1)) 3 ∧
    (Graph_TaskSet00_tail_ok env c).sGraphCfbInfos
      = fun i =>
          if i = c.sGraphCfbInfoIdx.toNat then
            { framebuffer := c.gfxCtx.curFrameBuffer,
              swapBuffer := c.gfxCtx.curFrameBuffer,
              viMode := c.gfxCtx.viMode,
              viFeatures := c.gfxCtx.viFeatures,
              xScale := if env.OOT_VERSION ≥ env.PAL_1_0 then c.gfxCtx.xScale
                else (c.sGraphCfbInfos i).xScale,
              yScale := if env.OOT_VERSION ≥ env.PAL_1_0 then c.gfxCtx.yScale
                else (c.sGraphCfbInfos i).yScale,
              unk_10 := 0,
              updateRate := (Graph_TaskSet00_scTask env c).reg env.R_UPDATE_RATE }
          else c.sGraphCfbInfos i := by
  have hs := Graph_TaskSet00_scTask_steady env c
  have h1 : (Graph_TaskSet00_scTask env c).sGraphCfbInfoIdx = c.sGraphCfbInfoIdx :=
    congrArg (fun b => b.2.2.2.2.1) hs.2
  have h2 : (Graph_TaskSet00_scTask env c).sGraphCfbInfos = c.sGraphCfbInfos :=
    congrArg (fun b => b.2.2.2.2.2) hs.2
  have h3 : (Graph_TaskSet00_scTask env c).gfxCtx.curFrameBuffer = c.gfxCtx.curFrameBuffer :=
    congrArg (fun b => b.2.2.2.2) hs.1
  have h4 : (Graph_TaskSet00_scTask env c).gfxCtx.viMode = c.gfxCtx.viMode :=
    congrArg (fun b => b.1) hs.2
  have h5 : (Graph_TaskSet00_scTask env c).gfxCtx.viFeatures = c.gfxCtx.viFeatures :=
    congrArg (fun b => b.2.1) hs.2
  have h6 : (Graph_TaskSet00_scTask env c).gfxCtx.xScale = c.gfxCtx.xScale :=
    congrArg (fun b => b.2.2.1) hs.2
  have h7 : (Graph_TaskSet00_scTask env c).gfxCtx.yScale = c.gfxCtx.yScale :=
    congrArg (fun b => b.2.2.2.1) hs.2
  refine ⟨by rw [Sys.submitted_eq], ?_, ?_⟩
  · show (Graph_TaskSet00_cfb env (Graph_TaskSet00_scTask env c)).sGraphCfbInfoIdx = _
    rw [Graph_TaskSet00_cfb_next, h1]
  · show (Graph_TaskSet00_cfb env (Graph_TaskSet00_scTask env c)).sGraphCfbInfos = _
    rw [Graph_TaskSet00_cfb_infos, h1, h2, h3, h4, h5, h6, h7]

theorem Graph_Update_submitted_cfb (env : Env) (s s1 c : Sys)
    (hu : Graph_Update env s = .ok () s1) (hc : s.atFlagCheck env = some c) :
    s1.sGraphCfbInfoIdx = (Graph_TaskSet00_tail_ok env c).sGraphCfbInfoIdx ∧
    s1.sGraphCfbInfos = (Graph_TaskSet00_tail_ok env c).sGraphCfbInfos ∧
    c.sGraphCfbInfoIdx = s.sGraphCfbInfoIdx ∧ c.sGraphCfbInfos = s.sGraphCfbInfos := by
  have h1 := Graph_Update_of_submitted env s s1 c hu hc
  subst h1
  have h2 := (Graph_Update_advance_steady (Graph_TaskSet00_tail_ok env c)).steady_trans
    (Graph_Update_finish_steady env _)
  have h3 := (Sys.atFlagCheck_kept env s c hc).1
  exact ⟨congrArg (fun b => b.2.2.2.2.1) h2.2, congrArg (fun b => b.2.2.2.2.2) h2.2,
    congrArg (fun b => b.2.2.2.2.1) h3, congrArg (fun b => b.2.2.2.2.2) h3⟩

theorem Run.cfbIdx {env : Env} {n k : Nat} {s s1 : Sys} (h : Run env n k s s1)
    (h0 : s.sGraphCfbInfoIdx = 0) : s1.sGraphCfbInfoIdx = ((n % 3 : Nat) : Int) := by
  have step : ∀ (j : Nat) (a b c : Sys), a.sGraphCfbInfoIdx = ((j % 3 : Nat) : Int) →
      Graph_Update env a = .ok () b → a.atFlagCheck env = some c →
      b.sGraphCfbInfoIdx = (((j + 1) % 3 : Nat) : Int) := by
    intro j a b c ha hu hc
    obtain ⟨e1, -, e2, -⟩ := Graph_Update_submitted_cfb env a b c hu hc
    rw [e1, (Graph_TaskSet00_tail_ok_cfb env c).2.1, e2, ha, cfbIdx_step _ (by omega) (by omega)]
    omega
  induction h with
  | zero s => simpa using h0
  | straight _ hf ih =>
    obtain ⟨c, hc, -⟩ := hf.straight_flagCheck
    exact step _ _ _ c (ih h0) hf.1 hc
  | suppressed _ hf ih =>
    obtain ⟨c, hc, -⟩ := hf.suppressed_flagCheck
    exact step _ _ _ c (ih h0) hf.1 hc
  | skipped _ hf ih =>
    have h1 : _ = _ := congrArg (fun b => b.2.2.2.2.1) hf.kept.1
    exact h1.trans (ih h0)

/-- C18. The submission that follows `n` earlier submissions (the statics of
`Graph_TaskSet00` start at slot 0) uses the slot `n mod 3` of the three
frame-buffer records, and leaves the slot index at `(n + 1) mod 3`. It writes
into that slot the current frame buffer of the context as frame buffer and as
swap target, and the display mode and features of the context, and from
`PAL_1_0` on, where the context has them, its x and y scale; the other two
slots are as they were. The current frame buffer is the one `Graph_InitTHGA`
chose at the start of the frame. -/
theorem C18_frame_buffer_slots (env : Env) (s0 s s1 c : Sys) (n k : Nat)
    (h0 : s0.sGraphCfbInfoIdx = 0) (hr : Run env n k s0 s)
    (hu : Graph_Update env s = .ok () s1) (hc : s.atFlagCheck env = some c) :
    n % 3 < 3 ∧
    (c.submitted env).framebuffer = some (n % 3) ∧
    s1.sGraphCfbInfoIdx = (((n + 1) % 3 : Nat) : Int) ∧
    (s1.sGraphCfbInfos (n % 3)).framebuffer = c.gfxCtx.curFrameBuffer ∧
    (s1.sGraphCfbInfos (n % 3)).swapBuffer = c.gfxCtx.curFrameBuffer ∧
    (s1.sGraphCfbInfos (n % 3)).viMode = c.gfxCtx.viMode ∧
    (s1.sGraphCfbInfos (n % 3)).viFeatures = c.gfxCtx.viFeatures ∧
    (env.OOT_VERSION ≥ env.PAL_1_0 →
      (s1.sGraphCfbInfos (n % 3)).xScale = c.gfxCtx.xScale ∧
      (s1.sGraphCfbInfos (n % 3)).yScale = c.gfxCtx.yScale) ∧
    (∀ i, i ≠ n % 3 → s1.sGraphCfbInfos i = s.sGraphCfbInfos i) ∧
    c.gfxCtx.curFrameBuffer = env.SysCfb_GetFbPtr (Int.tmod s.gfxCtx.fbIdx 2) ∧
    c.gfxCtx.viMode = s.gfxCtx.viMode ∧ c.gfxCtx.viFeatures = s.gfxCtx.viFeatures ∧
    c.gfxCtx.xScale = s.gfxCtx.xScale ∧ c.gfxCtx.yScale = s.gfxCtx.yScale := by
  have hi := hr.cfbIdx h0
  obtain ⟨e1, e2, e3, e4⟩ := Graph_Update_submitted_cfb env s s1 c hu hc
  obtain ⟨f1, f2, f3⟩ := Graph_TaskSet00_tail_ok_cfb env c
  obtain ⟨k1, k2⟩ := Sys.atFlagCheck_kept env s c hc
  have hslot : c.sGraphCfbInfoIdx.toNat = n % 3 := by
    rw [e3, hi]
    rfl
  rw [hslot] at f1 f3
  refine ⟨Nat.mod_lt _ (by decide), f1, ?_, ?_, ?_, ?_, ?_, ?_, ?_,
    congrArg (fun b => b.2.2.2.2) k2, congrArg (fun b => b.1) k1, congrArg (fun b => b.2.1) k1,
    congrArg (fun b => b.2.2.1) k1, congrArg (fun b => b.2.2.2.1) k1⟩
  · rw [e1, f2, e3, hi, cfbIdx_step _ (by omega) (by omega)]
    omega
  · rw [e2, f3]
    simp
  · rw [e2, f3]
    simp
  · rw [e2, f3]
    simp
  · rw [e2, f3]
    simp
  · intro hv
    rw [e2, f3]
    simp [hv]
  · intro i hne
    rw [e2, f3, ← e4]
    simp [hne]

theorem demoFrame1_run : Run demoEnv 1 0 (Graph_Init demoEnv demoSys) demoFrame1 :=
  .straight (.zero _) ⟨by rfl, by rfl⟩

theorem demoFrame1_update : Graph_Update demoEnv demoFrame1 = .ok () demoFrame2 := by rfl

theorem demoFrame1_flagCheck : demoFrame1.atFlagCheck demoEnv = some demoFlagCheck2 := by
  have hp : (Graph_Update_validate_ok (demoFrame1.atValidation demoEnv)).problem = false := by
    rfl
  have hm : (Graph_Update_validate_ok (demoFrame1.atValidation demoEnv)).handshakeMsg demoEnv
      = some 0 := by rfl
  unfold Sys.atFlagCheck demoFlagCheck2
  rw [Graph_Update_validate_of_intact demoEnv _ (by rfl) (by rfl)]
  simp only [hp, Bool.false_eq_true, if_false]
  rw [Graph_TaskSet00_head_of_some demoEnv _ hm (by decide)]

theorem demoFrame2_slot : (demoFrame2.sGraphCfbInfos 1).framebuffer = 0x80330000 := by rfl

/-- C18, at the second submission of the machine `demoEnv`: slot 1. -/
theorem C18_frame_buffer_slots_witness :
    (Graph_Init demoEnv demoSys).sGraphCfbInfoIdx = 0 ∧
    Run demoEnv 1 0 (Graph_Init demoEnv demoSys) demoFrame1 ∧
    Graph_Update demoEnv demoFrame1 = .ok () demoFrame2 ∧
    demoFrame1.atFlagCheck demoEnv = some demoFlagCheck2 ∧
    (demoFrame2.sGraphCfbInfos 1).framebuffer = 0x80330000 ∧
    (1 % 3 < 3 ∧
    (demoFlagCheck2.submitted demoEnv).framebuffer = some (1 % 3) ∧
    demoFrame2.sGraphCfbInfoIdx = (((1 + 1) % 3 : Nat) : Int) ∧
    (demoFrame2.sGraphCfbInfos (1 % 3)).framebuffer = demoFlagCheck2.gfxCtx.curFrameBuffer ∧
    (demoFrame2.sGraphCfbInfos (1 % 3)).swapBuffer = demoFlagCheck2.gfxCtx.curFrameBuffer ∧
    (demoFrame2.sGraphCfbInfos (1 % 3)).viMode = demoFlagCheck2.gfxCtx.viMode ∧
    (demoFrame2.sGraphCfbInfos (1 % 3)).viFeatures = demoFlagCheck2.gfxCtx.viFeatures ∧
    (demoEnv.OOT_VERSION ≥ demoEnv.PAL_1_0 →
      (demoFrame2.sGraphCfbInfos (1 % 3)).xScale = demoFlagCheck2.gfxCtx.xScale ∧
      (demoFrame2.sGraphCfbInfos (1 % 3)).yScale = demoFlagCheck2.gfxCtx.yScale) ∧
    (∀ i, i ≠ 1 % 3 → demoFrame2.sGraphCfbInfos i = demoFrame1.sGraphCfbInfos i) ∧
    demoFlagCheck2.gfxCtx.curFrameBuffer = demoEnv.SysCfb_GetFbPtr (Int.tmod demoFrame1.gfxCtx.fbIdx 2) ∧
    demoFlagCheck2.gfxCtx.viMode = demoFrame1.gfxCtx.viMode ∧ demoFlagCheck2.gfxCtx.viFeatures = demoFrame1.gfxCtx.viFeatures ∧
    demoFlagCheck2.gfxCtx.xScale = demoFrame1.gfxCtx.xScale ∧ demoFlagCheck2.gfxCtx.yScale = demoFrame1.gfxCtx.yScale) :=
  ⟨by rfl, demoFrame1_run, demoFrame1_update, demoFrame1_flagCheck, demoFrame2_slot,
    C18_frame_buffer_slots demoEnv (Graph_Init demoEnv demoSys) demoFrame1 demoFrame2
      demoFlagCheck2 1 0 (by rfl) demoFrame1_run demoFrame1_update demoFrame1_flagCheck⟩

/-! ### The indices over a run of frames -/

theorem SuppressedFrame.suppressed_idx {env : Env} {s s1 : Sys} (h : SuppressedFrame env s s1) :
    s1.gfxCtx.gfxPoolIdx = wrapU32 (s.gfxCtx.gfxPoolIdx + 1)
      ∧ s1.gfxCtx.fbIdx = wrapS32 (wrapS32 (s.gfxCtx.fbIdx - 1) + 1) := by
  obtain ⟨c, hc, hb⟩ := h.suppressed_flagCheck
  have hu := Graph_Update_of_submitted env s s1 c h.1 hc
  have hi := (Graph_Update_of_atFlagCheck env s c hc).2
  subst hu
  have h1 := (Graph_Update_finish_calm env
    (Graph_Update_advance (Graph_TaskSet00_tail_ok env c))).1
  have h2 := Graph_TaskSet00_tail_ok_idx env c
  simp only [hb, ne_eq, not_false_eq_true, if_true] at h2
  have h3 : (Graph_Update_advance (Graph_TaskSet00_tail_ok env c)).idx
      = (wrapU32 ((Graph_TaskSet00_tail_ok env c).idx.1 + 1),
          wrapS32 ((Graph_TaskSet00_tail_ok env c).idx.2 + 1)) := rfl
  rw [h2] at h3
  rw [h3] at h1
  have hi1 : c.gfxCtx.gfxPoolIdx = s.gfxCtx.gfxPoolIdx := congrArg Prod.fst hi
  have hi2 : c.gfxCtx.fbIdx = s.gfxCtx.fbIdx := congrArg Prod.snd hi
  exact ⟨(congrArg Prod.fst h1).trans (by rw [hi1]), (congrArg Prod.snd h1).trans (by rw [hi2])⟩

theorem wrapS32_pred_succ (x : Int) : wrapS32 (wrapS32 (wrapS32 x - 1) + 1) = wrapS32 x := by
  unfold wrapS32
  omega

theorem Run.run_idx {env : Env} {n k : Nat} {s s1 : Sys} (h : Run env n k s s1)
    (hz : s.idx = (0, 0)) :
    k ≤ n ∧ s1.gfxCtx.gfxPoolIdx = wrapU32 n ∧ s1.gfxCtx.fbIdx = wrapS32 ((n : Int) - k) := by
  induction h with
  | zero s =>
    have h1 : s.gfxCtx.gfxPoolIdx = 0 := congrArg Prod.fst hz
    have h2 : s.gfxCtx.fbIdx = 0 := congrArg Prod.snd hz
    rw [h1, h2]
    exact ⟨Nat.le_refl 0, rfl, rfl⟩
  | straight _ hf ih =>
    obtain ⟨i0, i1, i2⟩ := ih hz
    obtain ⟨j1, j2⟩ := hf.idx
    rw [j1, j2, i1, i2, wrapU32_succ, wrapS32_succ]
    refine ⟨by omega, rfl, ?_⟩
    push_cast
    congr 1
    omega
  | suppressed _ hf ih =>
    obtain ⟨i0, i1, i2⟩ := ih hz
    obtain ⟨j1, j2⟩ := hf.suppressed_idx
    rw [j1, j2, i1, i2, wrapU32_succ, wrapS32_pred_succ]
    refine ⟨by omega, rfl, ?_⟩
    push_cast
    congr 1
    omega
  | skipped _ hf ih =>
    obtain ⟨i0, i1, i2⟩ := ih hz
    have h1 : _ = _ := congrArg Prod.fst hf.kept.2
    have h2 : _ = _ := congrArg Prod.snd hf.kept.2
    exact ⟨i0, h1.trans i1, h2.trans i2⟩

/-- C19. In the frames that follow `Graph_Init`, a frame that submits its task
leaves `gfxPoolIdx` one higher (as a `u32`); it leaves `fbIdx` one higher (as
an `s32`) when the swap-suppression bit was clear, and at its value at frame
entry when the bit was consumed. After `N` submitted frames of which `k`
consumed the bit, with any number of frames that did not submit among them,
`gfxPoolIdx` is `N` as a `u32` and `fbIdx` is `N - k` as an `s32`; as long as
`N` fits the signed 32-bit index these are the numbers `N` and `N - k`, `fbIdx`
is not negative at the start of the next frame, and `fbIdx % 2`, which selects
the frame buffer in `Graph_InitTHGA`, is 0 or 1. -/
theorem C19_indices_of_submitted_frames (env : Env) (s0 s : Sys) (N k : Nat)
    (h : Run env N k (Graph_Init env s0) s) :
    k ≤ N ∧ s.gfxCtx.gfxPoolIdx = wrapU32 N ∧ s.gfxCtx.fbIdx = wrapS32 ((N : Int) - k) ∧
    (N < 2 ^ 31 → s.gfxCtx.gfxPoolIdx = N ∧ s.gfxCtx.fbIdx = (N : Int) - k ∧
      0 ≤ s.gfxCtx.fbIdx ∧ (Int.tmod s.gfxCtx.fbIdx 2 = 0 ∨ Int.tmod s.gfxCtx.fbIdx 2 = 1)) ∧
    (∀ s1, StraightFrame env s s1 →
      s1.gfxCtx.gfxPoolIdx = wrapU32 (s.gfxCtx.gfxPoolIdx + 1) ∧
      s1.gfxCtx.fbIdx = wrapS32 (s.gfxCtx.fbIdx + 1)) ∧
    (∀ s1, SuppressedFrame env s s1 →
      s1.gfxCtx.gfxPoolIdx = wrapU32 (s.gfxCtx.gfxPoolIdx + 1) ∧
      s1.gfxCtx.fbIdx = s.gfxCtx.fbIdx) ∧
    (∀ s1, SkippedFrame env s s1 →
      s1.gfxCtx.gfxPoolIdx = s.gfxCtx.gfxPoolIdx ∧ s1.gfxCtx.fbIdx = s.gfxCtx.fbIdx) := by
  obtain ⟨h0, h1, h2⟩ := h.run_idx (Graph_Init_idx env s0)
  refine ⟨h0, h1, h2, ?_, fun s1 hf => hf.idx, ?_, ?_⟩
  · intro hN
    rw [h1, h2]
    unfold wrapU32 wrapS32
    have e : ((N : Int) - k + 2 ^ 31) % 2 ^ 32 - 2 ^ 31 = (N : Int) - k := by omega
    rw [e]
    refine ⟨by omega, rfl, by omega, ?_⟩
    have e2 : (N : Int) - k = ((N - k : Nat) : Int) := by omega
    rw [e2]
    have e3 : Int.tmod ((N - k : Nat) : Int) 2 = (((N - k) % 2 : Nat) : Int) := by
      rw [Int.tmod_eq_emod (by omega) (by omega)]
      omega
    rw [e3]
    omega
  · intro s1 hf
    obtain ⟨j1, j2⟩ := hf.suppressed_idx
    refine ⟨j1, ?_⟩
    rw [j2, h2, wrapS32_pred_succ]
  · intro s1 hf
    exact ⟨congrArg Prod.fst hf.kept.2, congrArg Prod.snd hf.kept.2⟩

theorem suppressFrame2_run :
    Run suppressEnv 2 1 (Graph_Init suppressEnv demoSys) suppressFrame2 :=
  .straight (.suppressed (.zero _) ⟨by rfl, by rfl⟩) ⟨by rfl, by rfl⟩

/-- C19, at two frames of the machine `suppressEnv`, the first of which consumes
the swap-suppression bit: `gfxPoolIdx` is 2 and `fbIdx` is 1. -/
theorem C19_indices_of_submitted_frames_witness :
    Run suppressEnv 2 1 (Graph_Init suppressEnv demoSys) suppressFrame2 ∧
    suppressFrame2.gfxCtx.gfxPoolIdx = 2 ∧ suppressFrame2.gfxCtx.fbIdx = 1 ∧
    (1 ≤ 2 ∧ suppressFrame2.gfxCtx.gfxPoolIdx = wrapU32 2 ∧ suppressFrame2.gfxCtx.fbIdx = wrapS32 (((2 : Nat) : Int) - (1 : Nat)) ∧
    (2 < 2 ^ 31 → suppressFrame2.gfxCtx.gfxPoolIdx = 2 ∧ suppressFrame2.gfxCtx.fbIdx = ((2 : Nat) : Int) - (1 : Nat) ∧
      0 ≤ suppressFrame2.gfxCtx.fbIdx ∧ (Int.tmod suppressFrame2.gfxCtx.fbIdx 2 = 0 ∨ Int.tmod suppressFrame2.gfxCtx.fbIdx 2 = 1)) ∧
    (∀ s1, StraightFrame suppressEnv suppressFrame2 s1 →
      s1.gfxCtx.gfxPoolIdx = wrapU32 (suppressFrame2.gfxCtx.gfxPoolIdx + 1) ∧
      s1.gfxCtx.fbIdx = wrapS32 (suppressFrame2.gfxCtx.fbIdx + 1)) ∧
    (∀ s1, SuppressedFrame suppressEnv suppressFrame2 s1 →
      s1.gfxCtx.gfxPoolIdx = wrapU32 (suppressFrame2.gfxCtx.gfxPoolIdx + 1) ∧
      s1.gfxCtx.fbIdx = suppressFrame2.gfxCtx.fbIdx) ∧
    (∀ s1, SkippedFrame suppressEnv suppressFrame2 s1 →
      s1.gfxCtx.gfxPoolIdx = suppressFrame2.gfxCtx.gfxPoolIdx ∧ s1.gfxCtx.fbIdx = suppressFrame2.gfxCtx.fbIdx)) :=
  ⟨suppressFrame2_run, by rfl, by rfl,
    C19_indices_of_submitted_frames suppressEnv demoSys suppressFrame2 2 1 suppressFrame2_run⟩

/-! ### The pool of the next frame -/

theorem Graph_Update_submitted_trace (env : Env) (s s1 c : Sys)
    (hu : Graph_Update env s = .ok () s1) (hc : s.atFlagCheck env = some c) :
    Event.osSendMesg env.gScheduler_cmdQueue (c.submitted env) OS_MESG_BLOCK ∈ s1.trace := by
  have h1 := Graph_Update_of_submitted env s s1 c hu hc
  subst h1
  obtain ⟨-, -, evs, t, -⟩ := Graph_Update_finish_calm env
    (Graph_Update_advance (Graph_TaskSet00_tail_ok env c))
  have t2 : (Graph_Update_advance (Graph_TaskSet00_tail_ok env c)).trace
      = (Graph_TaskSet00_tail_ok env c).trace := rfl
  rw [t, t2, Graph_TaskSet00_tail_ok_trace]
  simp [Sys.submitted, OS_MESG_BLOCK]

theorem Sys.atFlagCheck_data_ptr (env : Env) (s c : Sys) (hc : s.atFlagCheck env = some c) :
    (c.submitted env).list.data_ptr = s.pool env + GfxPool.workBuffer := by
  obtain ⟨hk, -⟩ := Sys.atFlagCheck_some env s c hc
  have hb := (Sys.atFlagCheck_kept env s c hc).2
  have h1 : (c.submitted env).list = c.gfxCtx.task.list := by
    rw [Sys.submitted_eq]
  have h2 : c.gfxCtx.task.list.data_ptr
      = ((Graph_Update_validate_ok (s.atValidation env)).atTaskBuild env).gfxCtx.workBuffer := by
    rw [hk]
    show (Graph_TaskSet00_task env _).gfxCtx.task.list.data_ptr = _
    rw [Graph_TaskSet00_task_list]
    rfl
  have h3 : ((Graph_Update_validate_ok (s.atValidation env)).atTaskBuild env).gfxCtx.workBuffer
      = c.gfxCtx.workBuffer := by
    rw [hk]
    exact (congrArg (fun b => b.2.2.2.1) (Graph_TaskSet00_task_steady env _).1).symm
  rw [h1, h2, h3]
  exact congrArg (fun b => b.2.2.2.1) hb

theorem gGfxPoolsAt_ne (env : Env) (i j : Nat) (h : i ≠ j) :
    gGfxPoolsAt env i ≠ gGfxPoolsAt env j := by
  unfold gGfxPoolsAt GfxPool.sizeof
  omega

/-- C16. A `Graph_Update` that submits its task sends the work buffer of the
pool it bound at its start, and leaves the pool index one higher as a `u32`, so
that the next `Graph_Update` binds the other pool, also when the index wraps
from `2^32 - 1` to 0. A `Graph_Update` that returns without submitting leaves
the pool index, and so the pool, as it was. The buffers of the frame that
follows are those of the pool its index selects. -/
theorem C16_pool_alternates (env : Env) (s s1 : Sys) (hu : Graph_Update env s = .ok () s1) :
    (∀ c, s.atFlagCheck env = some c →
      Event.osSendMesg env.gScheduler_cmdQueue (c.submitted env) OS_MESG_BLOCK ∈ s1.trace ∧
      (c.submitted env).list.data_ptr = s.pool env + GfxPool.workBuffer ∧
      s1.gfxCtx.gfxPoolIdx = wrapU32 (s.gfxCtx.gfxPoolIdx + 1) ∧
      s1.gfxCtx.gfxPoolIdx &&& 1 = 1 - (s.gfxCtx.gfxPoolIdx &&& 1) ∧
      s1.pool env ≠ s.pool env ∧
      (s.gfxCtx.gfxPoolIdx = 2 ^ 32 - 1 →
        s1.gfxCtx.gfxPoolIdx = 0 ∧ s.pool env = gGfxPoolsAt env 1
          ∧ s1.pool env = gGfxPoolsAt env 0)) ∧
    (s.atFlagCheck env = none →
      s1.gfxCtx.gfxPoolIdx = s.gfxCtx.gfxPoolIdx ∧ s1.pool env = s.pool env) ∧
    (s1.atValidation env).bufs
      = (s1.pool env + GfxPool.polyOpaBuffer, s1.pool env + GfxPool.polyXluBuffer,
          s1.pool env + GfxPool.overlayBuffer, s1.pool env + GfxPool.workBuffer,
          env.SysCfb_GetFbPtr (Int.tmod s1.gfxCtx.fbIdx 2)) := by
  refine ⟨?_, ?_, Sys.atValidation_bufs env s1⟩
  · intro c hc
    have hidx : s1.gfxCtx.gfxPoolIdx = wrapU32 (s.gfxCtx.gfxPoolIdx + 1) := by
      have h1 := Graph_Update_of_submitted env s s1 c hu hc
      have hi := (Graph_Update_of_atFlagCheck env s c hc).2
      subst h1
      have h2 := (Graph_Update_finish_calm env
        (Graph_Update_advance (Graph_TaskSet00_tail_ok env c))).calm_gfxPoolIdx
      have h3 : (Graph_Update_advance (Graph_TaskSet00_tail_ok env c)).gfxCtx.gfxPoolIdx
          = wrapU32 ((Graph_TaskSet00_tail_ok env c).idx.1 + 1) := rfl
      rw [h2, h3, Graph_TaskSet00_tail_ok_idx]
      exact congrArg (fun x => wrapU32 (x + 1)) (congrArg Prod.fst hi)
    have hpar : s1.gfxCtx.gfxPoolIdx &&& 1 = 1 - (s.gfxCtx.gfxPoolIdx &&& 1) := by
      rw [hidx, Nat.and_one_is_mod, Nat.and_one_is_mod]
      unfold wrapU32
      omega
    refine ⟨Graph_Update_submitted_trace env s s1 c hu hc, Sys.atFlagCheck_data_ptr env s c hc,
      hidx, hpar, ?_, ?_⟩
    · unfold Sys.pool
      apply gGfxPoolsAt_ne
      rw [hpar, Nat.and_one_is_mod]
      omega
    · intro hmax
      have h0 : s1.gfxCtx.gfxPoolIdx = 0 := by
        rw [hidx, hmax]
        rfl
      refine ⟨h0, ?_, ?_⟩
      · unfold Sys.pool
        rw [hmax]
        rfl
      · unfold Sys.pool
        rw [h0]
        rfl
  · intro hn
    have hk := (SkippedFrame.kept ⟨hu, hn⟩).2
    have h1 : s1.gfxCtx.gfxPoolIdx = s.gfxCtx.gfxPoolIdx := congrArg Prod.fst hk
    refine ⟨h1, ?_⟩
    unfold Sys.pool
    rw [h1]

/-- C16, at the first frame of the machine `demoEnv`: it works in pool 0, the
second frame in pool 1. -/
theorem C16_pool_alternates_witness :
    Graph_Update demoEnv (Graph_Init demoEnv demoSys) = .ok () demoFrame1 ∧
    (Graph_Init demoEnv demoSys).pool demoEnv = 0x80200000 ∧
    demoFrame1.pool demoEnv = 0x80212410 ∧
    ((∀ c, (Graph_Init demoEnv demoSys).atFlagCheck demoEnv = some c →
      Event.osSendMesg demoEnv.gScheduler_cmdQueue (c.submitted demoEnv) OS_MESG_BLOCK ∈ demoFrame1.trace ∧
      (c.submitted demoEnv).list.data_ptr = (Graph_Init demoEnv demoSys).pool demoEnv + GfxPool.workBuffer ∧
      demoFrame1.gfxCtx.gfxPoolIdx = wrapU32 ((Graph_Init demoEnv demoSys).gfxCtx.gfxPoolIdx + 1) ∧
      demoFrame1.gfxCtx.gfxPoolIdx &&& 1 = 1 - ((Graph_Init demoEnv demoSys).gfxCtx.gfxPoolIdx &&& 1) ∧
      demoFrame1.pool demoEnv ≠ (Graph_Init demoEnv demoSys).pool demoEnv ∧
      ((Graph_Init demoEnv demoSys).gfxCtx.gfxPoolIdx = 2 ^ 32 - 1 →
        demoFrame1.gfxCtx.gfxPoolIdx = 0 ∧ (Graph_Init demoEnv demoSys).pool demoEnv = gGfxPoolsAt demoEnv 1
          ∧ demoFrame1.pool demoEnv = gGfxPoolsAt demoEnv 0)) ∧
    ((Graph_Init demoEnv demoSys).atFlagCheck demoEnv = none →
      demoFrame1.gfxCtx.gfxPoolIdx = (Graph_Init demoEnv demoSys).gfxCtx.gfxPoolIdx ∧ demoFrame1.pool demoEnv = (Graph_Init demoEnv demoSys).pool demoEnv) ∧
    (demoFrame1.atValidation demoEnv).bufs
      = (demoFrame1.pool demoEnv + GfxPool.polyOpaBuffer, demoFrame1.pool demoEnv + GfxPool.polyXluBuffer,
          demoFrame1.pool demoEnv + GfxPool.overlayBuffer, demoFrame1.pool demoEnv + GfxPool.workBuffer,
          demoEnv.SysCfb_GetFbPtr (Int.tmod demoFrame1.gfxCtx.fbIdx 2))) :=
  ⟨by rfl, by rfl, by rfl,
    C16_pool_alternates demoEnv (Graph_Init demoEnv demoSys) demoFrame1 (by rfl)⟩

/-! ### The context queue after `Graph_Init` -/

theorem OSMesgQueue.put_foldl (ms : List Nat) (qb : OSMesgQueue × (Nat → Nat))
    (h : qb.1.validCount ≤ qb.1.msgCount) :
    (ms.foldl OSMesgQueue.put qb).1.msgCount = qb.1.msgCount ∧
    (ms.foldl OSMesgQueue.put qb).1.validCount
      = min (qb.1.validCount + ms.length) qb.1.msgCount := by
  induction ms generalizing qb with
  | nil =>
    refine ⟨rfl, ?_⟩
    simp only [List.foldl_nil, List.length_nil, Nat.cast_zero, add_zero]
    omega
  | cons m ms ih =>
    simp only [List.foldl_cons, List.length_cons, Nat.cast_add, Nat.cast_one]
    by_cases hv : qb.1.validCount < qb.1.msgCount
    · have hp : (OSMesgQueue.put qb m).1.validCount = qb.1.validCount + 1
          ∧ (OSMesgQueue.put qb m).1.msgCount = qb.1.msgCount := by
        unfold OSMesgQueue.put
        simp [hv]
      obtain ⟨i1, i2⟩ := ih (OSMesgQueue.put qb m) (by rw [hp.1, hp.2]; omega)
      rw [i1, i2, hp.1, hp.2]
      refine ⟨rfl, ?_⟩
      omega
    · have hp : OSMesgQueue.put qb m = qb := by
        unfold OSMesgQueue.put
        simp [hv]
      obtain ⟨i1, i2⟩ := ih qb h
      rw [hp, i1, i2]
      refine ⟨rfl, ?_⟩
      omega

theorem Graph_Init_queue (env : Env) (s0 : Sys) :
    (Graph_Init env s0).gfxCtx.queue = osCreateMesgQueue env (msgBuffAddr env) 8 := by
  unfold Graph_Init
  by_cases h1 : env.OOT_VERSION < env.PAL_1_0 <;> cases h2 : env.DEBUG_FEATURES <;>
    simp [h1, h2, Sys.emit]

/-- C20. For every buffer and count, `osCreateMesgQueue` leaves the queue
record empty and bound: no valid message, first index 0, capacity `count`, the
buffer supplied, and both lists of waiting threads at the empty-list sentinel
`__osThreadTail`. The context queue `Graph_Init` creates is this record for
`gfxCtx->msgBuff` and the count 8: it is empty, and of the messages sent to it
before a receive it holds the first 8. -/
theorem C20_osCreateMesgQueue_empty_and_bound (env : Env) (msg : Nat) (count : Int)
    (s0 : Sys) :
    (osCreateMesgQueue env msg count).validCount = 0 ∧
    (osCreateMesgQueue env msg count).first = 0 ∧
    (osCreateMesgQueue env msg count).msgCount = count ∧
    (osCreateMesgQueue env msg count).msg = msg ∧
    (osCreateMesgQueue env msg count).mtqueue = env.osThreadTail ∧
    (osCreateMesgQueue env msg count).fullqueue = env.osThreadTail ∧
    (Graph_Init env s0).gfxCtx.queue = osCreateMesgQueue env (msgBuffAddr env) 8 ∧
    (Graph_Init env s0).gfxCtx.queue.validCount = 0 ∧
    (Graph_Init env s0).gfxCtx.queue.msgCount = 8 ∧
    (Graph_Init env s0).front = none ∧
    ∀ ms : List Nat,
      ((Graph_Init env s0).deliver ms).gfxCtx.queue.validCount = min (ms.length : Int) 8 := by
  have hq := Graph_Init_queue env s0
  refine ⟨rfl, rfl, rfl, rfl, rfl, rfl, hq, by rw [hq]; rfl, by rw [hq]; rfl, ?_, ?_⟩
  · unfold Sys.front
    rw [hq]
    rfl
  · intro ms
    have h := (OSMesgQueue.put_foldl ms
      ((Graph_Init env s0).gfxCtx.queue, (Graph_Init env s0).gfxCtx.msgBuff)
      (by rw [hq]; show (0 : Int) ≤ 8; decide)).2
    unfold Sys.deliver
    dsimp only
    rw [h, hq]
    show min ((0 : Int) + ms.length) 8 = min (ms.length : Int) 8
    rw [Int.zero_add]

/-! ## Allocation in an arena -/

theorem ALIGN16_eq (x : Nat) (h : (x + 15) / 16 * 16 < 2 ^ 32) :
    ALIGN16 x = (x + 15) / 16 * 16 := by
  have h1 : x + 15 < 2 ^ 32 := by norm_num at h ⊢; omega
  unfold ALIGN16 wrapU32
  rw [Nat.mod_eq_of_lt h1]

theorem ALIGN16_idem (x : Nat) : ALIGN16 (ALIGN16 x) = ALIGN16 x := by
  unfold ALIGN16 wrapU32
  norm_num
  omega

theorem ALIGN16_lt (x : Nat) : ALIGN16 x < 2 ^ 32 := by
  unfold ALIGN16 wrapU32
  norm_num
  omega

theorem sub32_of_le (a b : Nat) (ha : a < 2 ^ 32) (hb : b ≤ a) : sub32 a b = a - b := by
  unfold sub32
  norm_num at ha ⊢
  omega

/-- The macro `GRAPH_ALLOC` is a tail allocation on the arena of opaque polygons, in
every build. -/
theorem GRAPH_ALLOC_step (env : Env) (size : Nat) (s : Sys) :
    (GRAPH_ALLOC env size s).2.gfxCtx.polyOpa = (s.gfxCtx.polyOpa.step (.allocTail size)).2
    ∧ (GRAPH_ALLOC env size s).1 = (s.gfxCtx.polyOpa.step (.allocTail size)).1.1 := by
  unfold GRAPH_ALLOC Graph_Alloc
  by_cases h : env.DEBUG_FEATURES = true
  · simp [h, THGA_AllocTail, TwoHeadGfxArena.step, ALIGN16_idem]
  · simp [h, THGA_AllocTail, TwoHeadGfxArena.step]

theorem Graph_Alloc_step (env : Env) (size : Nat) (s : Sys) :
    (Graph_Alloc env size s).2.gfxCtx.polyOpa = (s.gfxCtx.polyOpa.step (.allocTail size)).2
    ∧ (Graph_Alloc env size s).1 = (s.gfxCtx.polyOpa.step (.allocTail size)).1.1 := by
  unfold Graph_Alloc
  simp [THGA_AllocTail, TwoHeadGfxArena.step, ALIGN16_idem]

/-- The statement `*POLY_OPA_DISP++ = g` is a head append on the arena of opaque
polygons: the command is stored in the block the append returns. -/
theorem put_POLY_OPA_DISP_step (g : Gfx) (s : Sys) :
    (put_POLY_OPA_DISP g s).gfxCtx.polyOpa = (s.gfxCtx.polyOpa.step .append).2
    ∧ (put_POLY_OPA_DISP g s).mem (s.gfxCtx.polyOpa.step .append).1.1 = .gfx g := by
  simp [put_POLY_OPA_DISP, TwoHeadGfxArena.step, Mem.store]

theorem TwoHeadGfxArena.step_cursors (a : TwoHeadGfxArena) (op : ArenaOp)
    (hd : a.d < 2 ^ 32) (ht : op.tailBytes ≤ a.d) :
    (a.step op).2.p + op.tailBytes = a.p + op.bytes
    ∧ (a.step op).2.d + op.tailBytes = a.d
    ∧ (a.step op).1.1 = (if op = .append then a.p else a.d - op.bytes)
    ∧ (a.step op).1.2 = op.bytes := by
  cases op with
  | append => simp [TwoHeadGfxArena.step, ArenaOp.tailBytes, ArenaOp.bytes]
  | allocTail size =>
    simp only [ArenaOp.tailBytes] at ht
    have h1 : (size + 15) / 16 * 16 < 2 ^ 32 := lt_of_le_of_lt ht hd
    simp only [TwoHeadGfxArena.step, THGA_AllocTail, ArenaOp.tailBytes, ArenaOp.bytes,
      ALIGN16_eq size h1, sub32_of_le a.d _ hd ht]
    simp
    omega

theorem TwoHeadGfxArena.run_cursors (ops : List ArenaOp) :
    ∀ a : TwoHeadGfxArena, a.d < 2 ^ 32 → (ops.map ArenaOp.tailBytes).sum ≤ a.d →
      (a.run ops).p + (ops.map ArenaOp.tailBytes).sum = a.p + ArenaOp.total ops
      ∧ (a.run ops).d + (ops.map ArenaOp.tailBytes).sum = a.d := by
  induction ops with
  | nil => intro a _ _; simp [TwoHeadGfxArena.run, ArenaOp.total]
  | cons op ops ih =>
    intro a hd ht
    simp only [List.map_cons, List.sum_cons] at ht
    obtain ⟨h1, h2, -, -⟩ := a.step_cursors op hd (by omega)
    obtain ⟨h3, h4⟩ := ih (a.step op).2 (by omega) (by omega)
    simp only [TwoHeadGfxArena.run, ArenaOp.total, List.map_cons, List.sum_cons] at h3 ⊢
    constructor <;> omega

theorem ArenaOp.tailBytes_le (op : ArenaOp) : op.tailBytes ≤ op.bytes := by
  cases op <;> simp [ArenaOp.tailBytes, ArenaOp.bytes]

theorem ArenaOp.tail_le_total (ops : List ArenaOp) :
    (ops.map ArenaOp.tailBytes).sum ≤ ArenaOp.total ops := by
  induction ops with
  | nil => simp [ArenaOp.total]
  | cons op ops ih =>
    have := op.tailBytes_le
    simp only [ArenaOp.total, List.map_cons, List.sum_cons] at ih ⊢
    omega

theorem ArenaOp.tail_take_le (ops : List ArenaOp) (k : Nat) :
    ((ops.take k).map ArenaOp.tailBytes).sum ≤ (ops.map ArenaOp.tailBytes).sum := by
  conv_rhs => rw [← List.take_append_drop k ops]
  simp only [List.map_append, List.sum_append]
  omega

theorem ArenaOp.total_take_le (ops : List ArenaOp) (k : Nat) :
    ArenaOp.total (ops.take k) ≤ ArenaOp.total ops := by
  unfold ArenaOp.total
  conv_rhs => rw [← List.take_append_drop k ops]
  simp only [List.map_append, List.sum_append]
  omega

theorem ArenaOp.total_take_mono (ops : List ArenaOp) (j k : Nat) (h : j ≤ k) :
    ArenaOp.total (ops.take j) ≤ ArenaOp.total (ops.take k) := by
  have := ArenaOp.total_take_le (ops.take k) j
  rwa [List.take_take, Nat.min_eq_left h] at this

/-- While the tail cursor does not pass address 0, an arena reports a crash exactly
when more bytes were consumed than lay between its cursors. -/
theorem TwoHeadGfxArena.crash_iff (a : TwoHeadGfxArena) (ops : List ArenaOp)
    (hp : a.p ≤ a.d) (hd : a.d < 2 ^ 32) (ht : (ops.map ArenaOp.tailBytes).sum ≤ a.d) :
    THGA_IsCrash (a.run ops) = decide (a.d - a.p < ArenaOp.total ops) := by
  obtain ⟨h1, h2⟩ := TwoHeadGfxArena.run_cursors ops a hd ht
  unfold THGA_IsCrash
  apply decide_eq_decide.mpr
  omega

theorem TwoHeadGfxArena.blocks_length (ops : List ArenaOp) :
    ∀ a : TwoHeadGfxArena, (a.blocks ops).length = ops.length := by
  induction ops with
  | nil => intro a; rfl
  | cons op ops ih => intro a; simp [TwoHeadGfxArena.blocks, ih]

/-- Within the bytes that lie between the cursors, the blocks lie between the
cursors and no two of them share a byte. -/
theorem TwoHeadGfxArena.blocks_inside (ops : List ArenaOp) :
    ∀ a : TwoHeadGfxArena, a.p ≤ a.d → a.d < 2 ^ 32 → ArenaOp.total ops ≤ a.d - a.p →
      (∀ b ∈ a.blocks ops, a.p ≤ b.1 ∧ b.1 + b.2 ≤ a.d)
      ∧ (a.blocks ops).Pairwise disjointBlocks := by
  induction ops with
  | nil => intro a _ _ _; simp [TwoHeadGfxArena.blocks]
  | cons op ops ih =>
    intro a hp hd hc
    simp only [ArenaOp.total, List.map_cons, List.sum_cons] at hc
    have hop := op.tailBytes_le
    obtain ⟨h1, h2, h3, h4⟩ := a.step_cursors op hd (by omega)
    have hc2 : ArenaOp.total ops ≤ (a.step op).2.d - (a.step op).2.p := by
      unfold ArenaOp.total; omega
    obtain ⟨i1, i2⟩ := ih (a.step op).2 (by omega) (by omega) hc2
    have hb : a.p ≤ (a.step op).1.1 ∧ (a.step op).1.1 + (a.step op).1.2 ≤ a.d
        ∧ ((a.step op).1.1 + (a.step op).1.2 ≤ (a.step op).2.p
          ∨ (a.step op).2.d ≤ (a.step op).1.1) := by
      rw [h3, h4]
      cases op with
      | append =>
        simp only [ArenaOp.tailBytes, ArenaOp.bytes, if_true] at *
        omega
      | allocTail size =>
        simp only [ArenaOp.tailBytes, ArenaOp.bytes, if_false, reduceCtorEq] at *
        omega
    refine ⟨?_, ?_⟩
    · intro b hbm
      simp only [TwoHeadGfxArena.blocks, List.mem_cons] at hbm
      rcases hbm with rfl | hbm
      · exact ⟨hb.1, hb.2.1⟩
      · have := i1 b hbm
        omega
    · simp only [TwoHeadGfxArena.blocks, List.pairwise_cons]
      refine ⟨?_, i2⟩
      intro y hy
      have := i1 y hy
      unfold disjointBlocks
      omega

theorem Sys.pool_le (env : Env) (s : Sys) :
    s.pool env + GfxPool.sizeof ≤ env.gGfxPools + 2 * GfxPool.sizeof := by
  have h1 : s.gfxCtx.gfxPoolIdx &&& 1 ≤ 1 := Nat.and_le_right
  have h2 := Nat.mul_le_mul_right GfxPool.sizeof h1
  unfold Sys.pool gGfxPoolsAt
  omega

theorem THGA_Init_cursors (B C : Nat) (a : TwoHeadGfxArena) (h : a = THGA_Init B C) :
    a.p = a.start ∧ a.d = a.start + a.size ∧ a.start = B ∧ a.size = C := by
  subst h
  exact ⟨rfl, rfl, rfl, rfl⟩

theorem Graph_InitTHGA_arenas (env : Env) (s : Sys) (a : TwoHeadGfxArena)
    (ha : a ∈ [(Graph_InitTHGA env s).gfxCtx.polyOpa, (Graph_InitTHGA env s).gfxCtx.polyXlu,
      (Graph_InitTHGA env s).gfxCtx.overlay, (Graph_InitTHGA env s).gfxCtx.work])
    (hp : env.gGfxPools + 2 * GfxPool.sizeof ≤ 2 ^ 32) :
    a.p = a.start ∧ a.d = a.start + a.size ∧ a.start + a.size < 2 ^ 32 := by
  have h2 := Sys.pool_le env s
  have hs : GfxPool.sizeof = 74768 := rfl
  have e : (2 : Nat) ^ 32 = 4294967296 := by norm_num
  rw [hs] at h2 hp
  rw [e] at hp ⊢
  simp only [List.mem_cons, List.mem_singleton, List.not_mem_nil, or_false] at ha
  rcases ha with h | h | h | h
  · obtain ⟨c1, c2, c3, c4⟩ := THGA_Init_cursors _ _ a (h.trans (Graph_InitTHGA_polyOpa env s))
    refine ⟨c1, c2, ?_⟩
    omega
  · obtain ⟨c1, c2, c3, c4⟩ := THGA_Init_cursors _ _ a (h.trans (Graph_InitTHGA_polyXlu env s))
    refine ⟨c1, c2, ?_⟩
    omega
  · obtain ⟨c1, c2, c3, c4⟩ := THGA_Init_cursors _ _ a (h.trans (Graph_InitTHGA_overlay env s))
    refine ⟨c1, c2, ?_⟩
    omega
  · obtain ⟨c1, c2, c3, c4⟩ := THGA_Init_cursors _ _ a (h.trans (Graph_InitTHGA_work env s))
    refine ⟨c1, c2, ?_⟩
    omega

/-- C14: an arena that `Graph_InitTHGA` has just bound to a region of `a.size` bytes
(inside the 32-bit address space) and a sequence of head appends and tail
allocations that consumes at most `a.size` bytes: the arena reports no crash after
any step, every step returns a block, the blocks lie inside the region, and no two
of them share a byte. On the arena of opaque polygons the steps are those of the
code: `GRAPH_ALLOC` and `Graph_Alloc` are the tail allocation, a command written
through `POLY_OPA_DISP` is the head append. -/
theorem C14_arena_within_capacity (env : Env) (s : Sys) (a : TwoHeadGfxArena)
    (ops : List ArenaOp)
    (ha : a ∈ [(Graph_InitTHGA env s).gfxCtx.polyOpa, (Graph_InitTHGA env s).gfxCtx.polyXlu,
      (Graph_InitTHGA env s).gfxCtx.overlay, (Graph_InitTHGA env s).gfxCtx.work])
    (hp : env.gGfxPools + 2 * GfxPool.sizeof ≤ 2 ^ 32)
    (hc : ArenaOp.total ops ≤ a.size) :
    (∀ k, THGA_IsCrash (a.run (ops.take k)) = false)
    ∧ (a.blocks ops).length = ops.length
    ∧ (∀ b ∈ a.blocks ops, a.start ≤ b.1 ∧ b.1 + b.2 ≤ a.start + a.size)
    ∧ (a.blocks ops).Pairwise disjointBlocks
    ∧ (∀ size t,
        (GRAPH_ALLOC env size t).2.gfxCtx.polyOpa = (t.gfxCtx.polyOpa.step (.allocTail size)).2
        ∧ (GRAPH_ALLOC env size t).1 = (t.gfxCtx.polyOpa.step (.allocTail size)).1.1
        ∧ (Graph_Alloc env size t).2.gfxCtx.polyOpa
            = (t.gfxCtx.polyOpa.step (.allocTail size)).2
        ∧ (Graph_Alloc env size t).1 = (t.gfxCtx.polyOpa.step (.allocTail size)).1.1)
    ∧ (∀ g t,
        (put_POLY_OPA_DISP g t).gfxCtx.polyOpa = (t.gfxCtx.polyOpa.step .append).2
        ∧ (put_POLY_OPA_DISP g t).mem (t.gfxCtx.polyOpa.step .append).1.1 = .gfx g) := by
  obtain ⟨h1, h2, h3⟩ := Graph_InitTHGA_arenas env s a ha hp
  have hpd : a.p ≤ a.d := by omega
  have hd : a.d < 2 ^ 32 := by omega
  have hsz : a.d - a.p = a.size := by omega
  refine ⟨?_, TwoHeadGfxArena.blocks_length ops a, ?_, ?_, ?_, put_POLY_OPA_DISP_step⟩
  · intro k
    have hk := ArenaOp.total_take_le ops k
    have ht := ArenaOp.tail_le_total (ops.take k)
    rw [a.crash_iff (ops.take k) hpd hd (by omega), hsz]
    exact decide_eq_false (by omega)
  · have := (TwoHeadGfxArena.blocks_inside ops a hpd hd (by omega)).1
    rw [h1, h2] at this
    exact this
  · exact (TwoHeadGfxArena.blocks_inside ops a hpd hd (by omega)).2
  · intro size t
    exact ⟨(GRAPH_ALLOC_step env size t).1, (GRAPH_ALLOC_step env size t).2,
      (Graph_Alloc_step env size t).1, (Graph_Alloc_step env size t).2⟩

theorem C14_arena_within_capacity_witness :
    (Graph_InitTHGA demoEnv demoSys).gfxCtx.polyOpa ∈
      [(Graph_InitTHGA demoEnv demoSys).gfxCtx.polyOpa,
        (Graph_InitTHGA demoEnv demoSys).gfxCtx.polyXlu,
        (Graph_InitTHGA demoEnv demoSys).gfxCtx.overlay,
        (Graph_InitTHGA demoEnv demoSys).gfxCtx.work]
    ∧ demoEnv.gGfxPools + 2 * GfxPool.sizeof ≤ 2 ^ 32
    ∧ ArenaOp.total [.append, .allocTail 20, .append, .allocTail 0xBEB8]
        ≤ (Graph_InitTHGA demoEnv demoSys).gfxCtx.polyOpa.size
    ∧ (Graph_InitTHGA demoEnv demoSys).gfxCtx.polyOpa.blocks
        [.append, .allocTail 20, .append, .allocTail 0xBEB8]
        = [(0x80200008, 8), (0x8020BEE8, 32), (0x80200010, 8), (0x80200028, 0xBEC0)]
    ∧ (∀ k, THGA_IsCrash ((Graph_InitTHGA demoEnv demoSys).gfxCtx.polyOpa.run
        (([.append, .allocTail 20, .append, .allocTail 0xBEB8] : List ArenaOp).take k)) = false)
    ∧ ((Graph_InitTHGA demoEnv demoSys).gfxCtx.polyOpa.blocks
        [.append, .allocTail 20, .append, .allocTail 0xBEB8]).Pairwise disjointBlocks :=
  have h := C14_arena_within_capacity demoEnv demoSys
    (Graph_InitTHGA demoEnv demoSys).gfxCtx.polyOpa
    [.append, .allocTail 20, .append, .allocTail 0xBEB8]
    (List.mem_cons_self _ _) (by decide) (by decide)
  ⟨List.mem_cons_self _ _, by decide, by decide, by rfl, h.1, h.2.2.2.1⟩

/-- C15, as the code has it: one tail allocation of 0x90000000 bytes on the fresh arena
of opaque polygons (0xBF00 bytes at 0x80200008) consumes more than the capacity, yet
the tail cursor wraps around the address space to 0xF020BF08, above the head cursor,
and the arena reports no crash; one of 0xFFFFFFF8 bytes is rounded to 0 bytes and
leaves the tail cursor where it was. -/
theorem C15_counterexample :
    (Graph_InitTHGA demoEnv demoSys).gfxCtx.polyOpa.size < ArenaOp.total [.allocTail 0x90000000]
    ∧ (GRAPH_ALLOC demoEnv 0x90000000 (Graph_InitTHGA demoEnv demoSys)).1 = 0xF020BF08
    ∧ THGA_IsCrash (GRAPH_ALLOC demoEnv 0x90000000
        (Graph_InitTHGA demoEnv demoSys)).2.gfxCtx.polyOpa = false
    ∧ THGA_IsCrash ((Graph_InitTHGA demoEnv demoSys).gfxCtx.polyOpa.run
        [.allocTail 0x90000000]) = false
    ∧ (Graph_InitTHGA demoEnv demoSys).gfxCtx.polyOpa.size < ArenaOp.total [.allocTail 0xFFFFFFF8]
    ∧ (GRAPH_ALLOC demoEnv 0xFFFFFFF8 (Graph_InitTHGA demoEnv demoSys)).1 = 0x8020BF08
    ∧ THGA_IsCrash (GRAPH_ALLOC demoEnv 0xFFFFFFF8
        (Graph_InitTHGA demoEnv demoSys)).2.gfxCtx.polyOpa = false
    ∧ THGA_IsCrash ((Graph_InitTHGA demoEnv demoSys).gfxCtx.polyOpa.run
        [.allocTail 0xFFFFFFF8]) = false :=
  ⟨by decide, by rfl, by rfl, by rfl, by decide, by rfl, by rfl, by rfl⟩

/-- C15: an arena that `Graph_InitTHGA` has just bound to a region of `a.size` bytes
(inside the 32-bit address space) and a sequence of head appends and tail
allocations whose tail allocations, each rounded up to a multiple of 16, sum to at
most the address of the end of the region, so that the tail cursor does not pass
address 0: after any number of steps the arena reports crashed exactly when the
bytes consumed so far exceed `a.size`; once crashed it stays crashed after every
further step; every step, the one that crossed too, returns a block; and each of the
four arenas reports no crash again when `Graph_InitTHGA` has bound it anew. -/
theorem C15_arena_beyond_capacity (env : Env) (s : Sys) (a : TwoHeadGfxArena)
    (ops : List ArenaOp)
    (ha : a ∈ [(Graph_InitTHGA env s).gfxCtx.polyOpa, (Graph_InitTHGA env s).gfxCtx.polyXlu,
      (Graph_InitTHGA env s).gfxCtx.overlay, (Graph_InitTHGA env s).gfxCtx.work])
    (hp : env.gGfxPools + 2 * GfxPool.sizeof ≤ 2 ^ 32)
    (hw : (ops.map ArenaOp.tailBytes).sum ≤ a.start + a.size) :
    (∀ k, THGA_IsCrash (a.run (ops.take k)) = decide (a.size < ArenaOp.total (ops.take k)))
    ∧ (∀ j k, j ≤ k → THGA_IsCrash (a.run (ops.take j)) = true →
        THGA_IsCrash (a.run (ops.take k)) = true)
    ∧ (a.blocks ops).length = ops.length
    ∧ (∀ t, THGA_IsCrash (Graph_InitTHGA env t).gfxCtx.polyOpa = false
        ∧ THGA_IsCrash (Graph_InitTHGA env t).gfxCtx.polyXlu = false
        ∧ THGA_IsCrash (Graph_InitTHGA env t).gfxCtx.overlay = false
        ∧ THGA_IsCrash (Graph_InitTHGA env t).gfxCtx.work = false) := by
  obtain ⟨h1, h2, h3⟩ := Graph_InitTHGA_arenas env s a ha hp
  have hpd : a.p ≤ a.d := by omega
  have hd : a.d < 2 ^ 32 := by omega
  have hsz : a.d - a.p = a.size := by omega
  have hk : ∀ k, THGA_IsCrash (a.run (ops.take k))
      = decide (a.size < ArenaOp.total (ops.take k)) := by
    intro k
    have ht := ArenaOp.tail_take_le ops k
    rw [a.crash_iff (ops.take k) hpd hd (by omega), hsz]
  refine ⟨hk, ?_, TwoHeadGfxArena.blocks_length ops a, ?_⟩
  · intro j k hjk hj
    rw [hk] at hj ⊢
    have := ArenaOp.total_take_mono ops j k hjk
    simp only [decide_eq_true_eq] at hj ⊢
    omega
  · intro t
    exact ⟨THGA_Init_not_crashed _ _, THGA_Init_not_crashed _ _, THGA_Init_not_crashed _ _,
      THGA_Init_not_crashed _ _⟩

theorem C15_arena_beyond_capacity_witness :
    (Graph_InitTHGA demoEnv demoSys).gfxCtx.polyOpa ∈
      [(Graph_InitTHGA demoEnv demoSys).gfxCtx.polyOpa,
        (Graph_InitTHGA demoEnv demoSys).gfxCtx.polyXlu,
        (Graph_InitTHGA demoEnv demoSys).gfxCtx.overlay,
        (Graph_InitTHGA demoEnv demoSys).gfxCtx.work]
    ∧ demoEnv.gGfxPools + 2 * GfxPool.sizeof ≤ 2 ^ 32
    ∧ (([.allocTail 0xBF00, .append, .append] : List ArenaOp).map ArenaOp.tailBytes).sum
        ≤ (Graph_InitTHGA demoEnv demoSys).gfxCtx.polyOpa.start
          + (Graph_InitTHGA demoEnv demoSys).gfxCtx.polyOpa.size
    ∧ (List.range 4).map (fun k => THGA_IsCrash
        ((Graph_InitTHGA demoEnv demoSys).gfxCtx.polyOpa.run
          (([.allocTail 0xBF00, .append, .append] : List ArenaOp).take k)))
        = [false, false, true, true]
    ∧ (∀ k, THGA_IsCrash ((Graph_InitTHGA demoEnv demoSys).gfxCtx.polyOpa.run
          (([.allocTail 0xBF00, .append, .append] : List ArenaOp).take k))
        = decide ((Graph_InitTHGA demoEnv demoSys).gfxCtx.polyOpa.size
          < ArenaOp.total (([.allocTail 0xBF00, .append, .append] : List ArenaOp).take k))) :=
  ⟨List.mem_cons_self _ _, by decide, by decide, by rfl,
    (C15_arena_beyond_capacity demoEnv demoSys (Graph_InitTHGA demoEnv demoSys).gfxCtx.polyOpa
      [.allocTail 0xBF00, .append, .append] (List.mem_cons_self _ _) (by decide)
      (by decide)).1⟩

/-! ## The successor of a game state -/

theorem Graph_GetNextGameState_scan_iff (f : Nat) :
    ∀ (l : List Nat) (j : Nat), l.Nodup → ∀ i,
      Graph_GetNextGameState_scan f l j = some i ↔ (j ≤ i ∧ l[i - j]? = some f) := by
  intro l
  induction l with
  | nil => intro j _ i; simp [Graph_GetNextGameState_scan]
  | cons a l ih =>
    intro j hn i
    obtain ⟨ha, hl⟩ := List.nodup_cons.mp hn
    unfold Graph_GetNextGameState_scan
    by_cases hf : f = a
    · subst hf
      simp only [if_true, Option.some.injEq]
      constructor
      · rintro rfl
        simp
      · rintro ⟨hji, hg⟩
        rcases Nat.eq_zero_or_pos (i - j) with h0 | hpos
        · omega
        · obtain ⟨k, hk⟩ : ∃ k, i - j = k + 1 := ⟨i - j - 1, by omega⟩
          rw [hk, List.getElem?_cons_succ] at hg
          exact absurd (List.getElem?_mem hg) ha
    · simp only [if_neg hf]
      rw [ih (j + 1) hl i]
      constructor
      · rintro ⟨hji, hg⟩
        refine ⟨by omega, ?_⟩
        have : i - j = (i - (j + 1)) + 1 := by omega
        rw [this, List.getElem?_cons_succ]
        exact hg
      · rintro ⟨hji, hg⟩
        rcases Nat.eq_zero_or_pos (i - j) with h0 | hpos
        · rw [h0, List.getElem?_cons_zero] at hg
          exact absurd (Option.some.inj hg).symm hf
        · have : i - j = (i - (j + 1)) + 1 := by omega
          rw [this, List.getElem?_cons_succ] at hg
          exact ⟨by omega, hg⟩

theorem Graph_GetNextGameState_scan_none (f : Nat) :
    ∀ (l : List Nat) (j : Nat), Graph_GetNextGameState_scan f l j = none ↔ f ∉ l := by
  intro l
  induction l with
  | nil => intro j; simp [Graph_GetNextGameState_scan]
  | cons a l ih =>
    intro j
    unfold Graph_GetNextGameState_scan
    by_cases hf : f = a
    · simp [hf]
    · simp [hf, ih (j + 1)]

theorem Graph_GetNextGameState_value (env : Env) (s : Sys) :
    (Graph_GetNextGameState env s).1
      = Graph_GetNextGameState_scan (GameState_GetInit s.gameState) env.gamestate_table 0 := by
  unfold Graph_GetNextGameState
  dsimp only
  have : (s.emit (.call "Graph_GetNextGameState")).gameState = s.gameState := rfl
  rw [this]
  cases Graph_GetNextGameState_scan (GameState_GetInit s.gameState) env.gamestate_table 0 <;> rfl

theorem Graph_GetNextGameState_state (env : Env) (s : Sys) :
    (Graph_GetNextGameState env s).2
      = if (Graph_GetNextGameState env s).1 = none then
          (s.emit (.call "Graph_GetNextGameState")).emit
            (.LOG_ADDRESS "game_init_func" (GameState_GetInit s.gameState) "../graph.c" 696)
        else s.emit (.call "Graph_GetNextGameState") := by
  rw [Graph_GetNextGameState_value]
  unfold Graph_GetNextGameState
  dsimp only
  have : (s.emit (.call "Graph_GetNextGameState")).gameState = s.gameState := rfl
  rw [this]
  cases Graph_GetNextGameState_scan (GameState_GetInit s.gameState) env.gamestate_table 0 <;> rfl

/-- C11: for a table of pairwise distinct init hooks, `Graph_GetNextGameState` returns
the entry of index `i` of `gGameStateOverlayTable` exactly when the init hook of the
state is the hook of entry `i` of the table, and `NULL` exactly when the init hook is
the hook of no entry; in that case it logs the hook with `LOG_ADDRESS`, and it does
nothing else to the state in either case. -/
theorem C11_successor_by_init_hook (env : Env) (s : Sys) (h : env.gamestate_table.Nodup) :
    (∀ i, (Graph_GetNextGameState env s).1 = some i
      ↔ env.gamestate_table[i]? = some (GameState_GetInit s.gameState))
    ∧ ((Graph_GetNextGameState env s).1 = none
      ↔ GameState_GetInit s.gameState ∉ env.gamestate_table)
    ∧ (Graph_GetNextGameState env s).2
        = (if (Graph_GetNextGameState env s).1 = none then
            (s.emit (.call "Graph_GetNextGameState")).emit
              (.LOG_ADDRESS "game_init_func" (GameState_GetInit s.gameState) "../graph.c" 696)
          else s.emit (.call "Graph_GetNextGameState")) := by
  refine ⟨?_, ?_, Graph_GetNextGameState_state env s⟩
  · intro i
    rw [Graph_GetNextGameState_value, Graph_GetNextGameState_scan_iff _ _ 0 h i]
    simp
  · rw [Graph_GetNextGameState_value, Graph_GetNextGameState_scan_none]

theorem C11_successor_by_init_hook_witness :
    demoEnv.gamestate_table.Nodup
    ∧ demoEnv.gamestate_table[2]? = some 0x80804000
    ∧ (Graph_GetNextGameState demoEnv
        { demoSys with gameState := { demoSys.gameState with init := 0x80804000 } }).1 = some 2
    ∧ (Graph_GetNextGameState demoEnv
        { demoSys with gameState := { demoSys.gameState with init := 0x80805000 } }).1 = none :=
  ⟨by decide, by decide,
    ((C11_successor_by_init_hook demoEnv
      { demoSys with gameState := { demoSys.gameState with init := 0x80804000 } }
      (by decide)).1 2).mpr (by decide),
    by rfl⟩

/-! ## The host loop when the allocation fails -/

/-- The state in which the host loop tests the pointer the allocation returned. -/
theorem Graph_ThreadEntry_enter_eq (env : Env) (ovl : Nat) (s : Sys) :
    ∃ x : Sys,
      x.trace = s.trace ++ [.Overlay_LoadGameState ovl, .printf "Class size = %d bytes\n",
        .SYSTEM_ARENA_MALLOC (env.instanceSize ovl) "../graph.c" 1196]
      ∧ Graph_ThreadEntry_enter env ovl s
        = (if (env.SYSTEM_ARENA_MALLOC (env.instanceSize ovl)
              (env.Overlay_LoadGameState ovl s.world)).1 = 0 then
            if env.DEBUG_FEATURES then
              .stop .hungup ((x.emit (.printf "Failure to secure\n")).emit
                (.Fault_AddHungupAndCrashImpl "GAME CLASS MALLOC FAILED"
                  (faultMsg (env.instanceSize ovl))))
            else
              .stop .hungup (x.emit (.Fault_AddHungupAndCrash "../graph.c" (mallocFaultLine env)))
          else
            .ok (env.SYSTEM_ARENA_MALLOC (env.instanceSize ovl)
                (env.Overlay_LoadGameState ovl s.world)).1
              ((x.emit (.GameState_Init (env.SYSTEM_ARENA_MALLOC (env.instanceSize ovl)
                  (env.Overlay_LoadGameState ovl s.world)).1 (env.ovlInit ovl))).external
                (env.GameState_Init (env.SYSTEM_ARENA_MALLOC (env.instanceSize ovl)
                  (env.Overlay_LoadGameState ovl s.world)).1 (env.ovlInit ovl)))) := by
  have hw : (((s.emit (.Overlay_LoadGameState ovl)).external (env.Overlay_LoadGameState ovl)).emit
      (.printf "Class size = %d bytes\n")).world = env.Overlay_LoadGameState ovl s.world := rfl
  rw [← hw]
  refine ⟨(((((s.emit (.Overlay_LoadGameState ovl)).external (env.Overlay_LoadGameState ovl)).emit
      (.printf "Class size = %d bytes\n")).emit
      (.SYSTEM_ARENA_MALLOC (env.instanceSize ovl) "../graph.c" 1196)).setWorld
        (env.SYSTEM_ARENA_MALLOC (env.instanceSize ovl)
          (((s.emit (.Overlay_LoadGameState ovl)).external (env.Overlay_LoadGameState ovl)).emit
            (.printf "Class size = %d bytes\n")).world).2), ?_, ?_⟩
  · simp [Sys.emit, Sys.external, Sys.setWorld]
  · by_cases hp : (env.SYSTEM_ARENA_MALLOC (env.instanceSize ovl)
        (((s.emit (.Overlay_LoadGameState ovl)).external (env.Overlay_LoadGameState ovl)).emit
            (.printf "Class size = %d bytes\n")).world).1 = 0
    · by_cases hd : env.DEBUG_FEATURES = true
      · simp only [Graph_ThreadEntry_enter, M.bind_eq, M.bind_apply, run_apply, PRINTF,
          emit_apply, SYSTEM_ARENA_MALLOC, Fault_AddHungupAndCrashImpl, halt, hp, hd, if_true]
      · have hd2 : env.DEBUG_FEATURES = false := by simpa using hd
        simp only [Graph_ThreadEntry_enter, M.bind_eq, M.bind_apply, run_apply, PRINTF,
          emit_apply, SYSTEM_ARENA_MALLOC, Fault_AddHungupAndCrash, halt, hp, hd2, if_true,
          Bool.false_eq_true, if_false]
    · simp only [Graph_ThreadEntry_enter, M.bind_eq, M.bind_apply, run_apply, PRINTF,
        emit_apply, SYSTEM_ARENA_MALLOC, hp, if_false, M.pure_eq, M.pure_apply]

theorem Graph_ThreadEntry_leave_trace (env : Env) (ovl gameState : Nat) (s : Sys) :
    (Graph_ThreadEntry_leave env ovl gameState s).2.trace
      = s.trace ++ ([.call "Graph_GetNextGameState"]
        ++ (if (Graph_GetNextGameState env s).1 = none then
              [.LOG_ADDRESS "game_init_func" (GameState_GetInit s.gameState) "../graph.c" 696]
            else [])
        ++ [.GameState_Destroy gameState, .SYSTEM_ARENA_FREE gameState "../graph.c" 1227,
            .Overlay_FreeGameState ovl]) := by
  have h : (Graph_ThreadEntry_leave env ovl gameState s).2.trace
      = (Graph_GetNextGameState env s).2.trace ++ [.GameState_Destroy gameState,
          .SYSTEM_ARENA_FREE gameState "../graph.c" 1227, .Overlay_FreeGameState ovl] := by
    simp [Graph_ThreadEntry_leave, Sys.emit, Sys.external, Sys.setWorld]
  rw [h, Graph_GetNextGameState_state]
  split_ifs <;> simp [Sys.emit]

theorem Graph_ThreadEntry_leave_value (env : Env) (ovl gameState : Nat) (s : Sys) :
    (Graph_ThreadEntry_leave env ovl gameState s).1 = (Graph_GetNextGameState env s).1 := rfl

theorem faultMsg_of_lt (size : Nat) (h : size < 2 ^ 31) :
    faultMsg size = "CLASS SIZE= " ++ toString size ++ " bytes" := by
  have h1 : wrapS32 size = (size : Int) := by
    unfold wrapS32
    norm_num at h ⊢
    omega
  unfold faultMsg
  rw [h1]
  rfl

/-- C12, as the code has it: on a retail machine whose first allocation returns `NULL`
the host loop calls `Fault_AddHungupAndCrash("../graph.c", 1200)`: the call carries a
file and a line, no event of the thread carries the size, and the call with the message
"CLASS SIZE= 164 bytes" is not made. -/
theorem C12_counterexample :
    noHeapEnv.DEBUG_FEATURES = false
    ∧ (Graph_ThreadEntry noHeapEnv 1 demoSys).map Res.stopped = some (some .hungup)
    ∧ (Graph_ThreadEntry noHeapEnv 1 demoSys).map (fun r => r.state.trace)
        = some [.printf "Start graphic thread execution\n", .call "Graph_Init",
            .Overlay_LoadGameState 0, .printf "Class size = %d bytes\n",
            .SYSTEM_ARENA_MALLOC 0xA4 "../graph.c" 1196,
            .Fault_AddHungupAndCrash "../graph.c" 1200]
    ∧ (Graph_ThreadEntry noHeapEnv 1 demoSys).map (fun r => decide
        (Event.Fault_AddHungupAndCrashImpl "GAME CLASS MALLOC FAILED" (faultMsg 0xA4)
          ∈ r.state.trace)) = some false :=
  ⟨by rfl, by rfl, by rfl, by rfl⟩

/-- C12: in an iteration of the host loop the pointer the allocation returned is tested
after the events of loading and allocating. When it is `NULL` the thread stops in the
fault facility, before any call of `GameState_Init`: a debug build prints "Failure to
secure" and calls `Fault_AddHungupAndCrashImpl("GAME CLASS MALLOC FAILED", msg)` with
`msg` the text "CLASS SIZE= <size> bytes" (the size printed with `%d`), the other builds
call `Fault_AddHungupAndCrash("../graph.c", line)` with the line of their version and no
size. When it is not `NULL` the iteration goes on with `GameState_Init` and no call of
the fault facility, and the end of the iteration makes none either. -/
theorem C12_failed_allocation_stops_the_thread (env : Env) (ovl : Nat) (s : Sys) :
    ∃ x : Sys,
      x.trace = s.trace ++ [.Overlay_LoadGameState ovl, .printf "Class size = %d bytes\n",
        .SYSTEM_ARENA_MALLOC (env.instanceSize ovl) "../graph.c" 1196]
      ∧ ((env.SYSTEM_ARENA_MALLOC (env.instanceSize ovl)
            (env.Overlay_LoadGameState ovl s.world)).1 = 0 →
          ∃ y, Graph_ThreadEntry_enter env ovl s = .stop .hungup y
            ∧ y.trace = x.trace ++
              (if env.DEBUG_FEATURES then
                [.printf "Failure to secure\n",
                  .Fault_AddHungupAndCrashImpl "GAME CLASS MALLOC FAILED"
                    (faultMsg (env.instanceSize ovl))]
              else [.Fault_AddHungupAndCrash "../graph.c" (mallocFaultLine env)])
            ∧ ∀ fuel, Graph_ThreadEntry_loop env (fuel + 1) (some ovl) s
                = some (.stop .hungup y))
      ∧ ((env.SYSTEM_ARENA_MALLOC (env.instanceSize ovl)
            (env.Overlay_LoadGameState ovl s.world)).1 ≠ 0 →
          ∃ y, Graph_ThreadEntry_enter env ovl s
              = .ok (env.SYSTEM_ARENA_MALLOC (env.instanceSize ovl)
                  (env.Overlay_LoadGameState ovl s.world)).1 y
            ∧ y.trace = x.trace ++ [.GameState_Init (env.SYSTEM_ARENA_MALLOC
                (env.instanceSize ovl) (env.Overlay_LoadGameState ovl s.world)).1
                (env.ovlInit ovl)])
      ∧ (env.instanceSize ovl < 2 ^ 31 → faultMsg (env.instanceSize ovl)
          = "CLASS SIZE= " ++ toString (env.instanceSize ovl) ++ " bytes")
      ∧ ∀ g t, ∃ evs, (Graph_ThreadEntry_leave env ovl g t).2.trace = t.trace ++ evs
          ∧ ∀ e ∈ evs, e.isFault = false := by
  obtain ⟨x, hx, he⟩ := Graph_ThreadEntry_enter_eq env ovl s
  refine ⟨x, hx, ?_, ?_, faultMsg_of_lt _, ?_⟩
  · intro hp
    rw [if_pos hp] at he
    by_cases hd : env.DEBUG_FEATURES = true
    · rw [if_pos hd] at he
      refine ⟨_, he, by simp [hd, Sys.emit], ?_⟩
      intro fuel
      simp only [Graph_ThreadEntry_loop, he]
    · rw [if_neg hd] at he
      refine ⟨_, he, by simp [hd, Sys.emit], ?_⟩
      intro fuel
      simp only [Graph_ThreadEntry_loop, he]
  · intro hp
    rw [if_neg hp] at he
    exact ⟨_, he, by simp [Sys.emit, Sys.external, Sys.setWorld]⟩
  · intro g t
    refine ⟨_, Graph_ThreadEntry_leave_trace env ovl g t, ?_⟩
    intro e he
    simp only [List.mem_append, List.mem_cons, List.mem_singleton, List.not_mem_nil,
      or_false] at he
    rcases he with (rfl | he) | rfl | rfl | rfl
    · rfl
    · split_ifs at he
      · simp only [List.mem_singleton] at he
        subst he
        rfl
      · cases he
    · rfl
    · rfl
    · rfl

theorem C12_failed_allocation_stops_the_thread_witness :
    faultMsg 0xA4 = "CLASS SIZE= 164 bytes"
    ∧ (Graph_ThreadEntry debugNoHeapEnv 1 demoSys).map (fun r => r.state.trace)
        = some [.printf "Start graphic thread execution\n", .call "Graph_Init",
            .func_800D31F0, .Fault_AddClient "sGraphFaultClient",
            .Overlay_LoadGameState 0, .printf "Class size = %d bytes\n",
            .SYSTEM_ARENA_MALLOC 0xA4 "../graph.c" 1196, .printf "Failure to secure\n",
            .Fault_AddHungupAndCrashImpl "GAME CLASS MALLOC FAILED" "CLASS SIZE= 164 bytes"]
    ∧ ∃ x : Sys,
      x.trace = demoSys.trace ++ [.Overlay_LoadGameState 0, .printf "Class size = %d bytes\n",
        .SYSTEM_ARENA_MALLOC (debugNoHeapEnv.instanceSize 0) "../graph.c" 1196]
      ∧ ((debugNoHeapEnv.SYSTEM_ARENA_MALLOC (debugNoHeapEnv.instanceSize 0)
            (debugNoHeapEnv.Overlay_LoadGameState 0 demoSys.world)).1 = 0 →
          ∃ y, Graph_ThreadEntry_enter debugNoHeapEnv 0 demoSys = .stop .hungup y
            ∧ y.trace = x.trace ++
              (if debugNoHeapEnv.DEBUG_FEATURES then
                [.printf "Failure to secure\n",
                  .Fault_AddHungupAndCrashImpl "GAME CLASS MALLOC FAILED"
                    (faultMsg (debugNoHeapEnv.instanceSize 0))]
              else [.Fault_AddHungupAndCrash "../graph.c" (mallocFaultLine debugNoHeapEnv)])
            ∧ ∀ fuel, Graph_ThreadEntry_loop debugNoHeapEnv (fuel + 1) (some 0) demoSys
                = some (.stop .hungup y)) :=
  ⟨by rfl, by rfl,
    (C12_failed_allocation_stops_the_thread debugNoHeapEnv 0 demoSys).imp
      fun _ h => ⟨h.1, h.2.1⟩⟩

/-! ## The host loop -/

/-! ### Events of a frame -/

theorem Sys.Adds.adds_of_eq {P : Event → Bool} {s s1 : Sys} (h : s1.trace = s.trace) :
    s.Adds P s1 :=
  ⟨[], by simp [h], by simp⟩

theorem Sys.Adds.adds_emit {P : Event → Bool} (s : Sys) {e : Event} (h : P e = true) :
    s.Adds P (s.emit e) :=
  ⟨[e], rfl, by simpa using h⟩

theorem Sys.Adds.adds_external {P : Event → Bool} (s : Sys) (f : World → World) :
    s.Adds P (s.external f) := .adds_of_eq rfl

theorem put_WORK_DISP_notHost (g : Gfx) (s : Sys) :
    s.Adds Event.notHost (put_WORK_DISP g s) := .adds_of_eq rfl
theorem put_POLY_OPA_DISP_notHost (g : Gfx) (s : Sys) :
    s.Adds Event.notHost (put_POLY_OPA_DISP g s) := .adds_of_eq rfl
theorem put_POLY_XLU_DISP_notHost (g : Gfx) (s : Sys) :
    s.Adds Event.notHost (put_POLY_XLU_DISP g s) := .adds_of_eq rfl
theorem put_OVERLAY_DISP_notHost (g : Gfx) (s : Sys) :
    s.Adds Event.notHost (put_OVERLAY_DISP g s) := .adds_of_eq rfl

theorem Graph_OpenDisps_notHost (env : Env) (d : Nat → Nat) (file : String) (line : Nat)
    (s : Sys) : s.Adds Event.notHost (Graph_OpenDisps env d file line s).2 := by
  unfold Graph_OpenDisps
  split_ifs <;> exact .adds_of_eq rfl

theorem Graph_CloseDisps_notHost (env : Env) (d : Nat → Nat) (file : String) (line : Nat)
    (s : Sys) : s.Adds Event.notHost (Graph_CloseDisps env d file line s) := by
  unfold Graph_CloseDisps
  dsimp only
  split_ifs <;> exact .adds_of_eq rfl

theorem OPEN_DISPS_notHost (env : Env) (file : String) (line : Nat) (s : Sys) :
    s.Adds Event.notHost (OPEN_DISPS env file line s).2 := by
  unfold OPEN_DISPS
  split_ifs
  · exact Graph_OpenDisps_notHost ..
  · exact .adds_refl _ s

theorem CLOSE_DISPS_notHost (env : Env) (d : Nat → Nat) (file : String) (line : Nat) (s : Sys) :
    s.Adds Event.notHost (CLOSE_DISPS env d file line s) := by
  unfold CLOSE_DISPS
  split_ifs
  · exact Graph_CloseDisps_notHost ..
  · exact .adds_refl _ s

theorem Graph_DisassembleUCode_notHost (env : Env) (workBuf : Nat) (s : Sys) :
    s.Adds Event.notHost (Graph_DisassembleUCode env workBuf s) := by
  unfold Graph_DisassembleUCode
  dsimp only
  split_ifs <;>
    simp [Sys.Adds, Sys.emit, Sys.setReg, Event.notHost, Event.isHost]

theorem Graph_InitTHGA_notHost (env : Env) (s : Sys) :
    s.Adds Event.notHost (Graph_InitTHGA env s) :=
  ⟨[.call "Graph_InitTHGA"], rfl, by simp [Event.notHost, Event.isHost]⟩

theorem debugMarks_notHost (env : Env) (l1 l2 : Nat) (a b c d : String) (s : Sys) :
    s.Adds Event.notHost (CLOSE_DISPS env (OPEN_DISPS env "../graph.c" l1 s).1 "../graph.c" l2
      (put_OVERLAY_DISP (.gDPNoOpString d 0) (put_POLY_XLU_DISP (.gDPNoOpString c 0)
        (put_POLY_OPA_DISP (.gDPNoOpString b 0) (put_WORK_DISP (.gDPNoOpString a 0)
          (OPEN_DISPS env "../graph.c" l1 s).2))))) :=
  (OPEN_DISPS_notHost ..).adds_trans ((put_WORK_DISP_notHost ..).adds_trans
    ((put_POLY_OPA_DISP_notHost ..).adds_trans ((put_POLY_XLU_DISP_notHost ..).adds_trans
      ((put_OVERLAY_DISP_notHost ..).adds_trans (CLOSE_DISPS_notHost ..)))))

theorem Graph_Update_begin_notHost (env : Env) (s : Sys) :
    s.Adds Event.notHost (Graph_Update_begin env s) := by
  have h0 : s.Adds Event.notHost
      (Graph_InitTHGA env { s with gameState := { s.gameState with inPreNMIState := 0 } }) :=
    @Sys.Adds.adds_trans _ s { s with gameState := { s.gameState with inPreNMIState := 0 } } _
      (.adds_of_eq rfl) (Graph_InitTHGA_notHost ..)
  unfold Graph_Update_begin
  dsimp only
  split_ifs
  · exact h0.adds_trans (debugMarks_notHost ..)
  · exact h0

theorem Graph_Update_game_notHost (env : Env) (s : Sys) :
    s.Adds Event.notHost (Graph_Update_game env s) := by
  have h0 : s.Adds Event.notHost (((s.emit .GameState_ReqPadData).external
      env.GameState_ReqPadData).emit .GameState_Update |>.external env.GameState_Update) :=
    (Sys.Adds.adds_emit s (by rfl)).adds_trans ((Sys.Adds.adds_external ..).adds_trans
      ((Sys.Adds.adds_emit _ (by rfl)).adds_trans (Sys.Adds.adds_external ..)))
  unfold Graph_Update_game
  dsimp only
  split_ifs
  · exact h0.adds_trans (debugMarks_notHost ..)
  · exact h0

theorem Graph_Update_chain_notHost (env : Env) (s : Sys) :
    s.Adds Event.notHost (Graph_Update_chain env s) := by
  unfold Graph_Update_chain
  dsimp only
  exact (OPEN_DISPS_notHost ..).adds_trans ((put_WORK_DISP_notHost ..).adds_trans
    ((put_POLY_OPA_DISP_notHost ..).adds_trans ((put_POLY_XLU_DISP_notHost ..).adds_trans
      ((put_OVERLAY_DISP_notHost ..).adds_trans ((put_OVERLAY_DISP_notHost ..).adds_trans
        ((put_OVERLAY_DISP_notHost ..).adds_trans (CLOSE_DISPS_notHost ..)))))))

theorem Graph_Update_disas_mode_notHost (env : Env) (s : Sys) :
    s.Adds Event.notHost (Graph_Update_disas_mode env s) := by
  unfold Graph_Update_disas_mode
  split_ifs <;> exact .adds_of_eq rfl

theorem Graph_Update_disas_pre_notHost (env : Env) (s : Sys) :
    s.Adds Event.notHost (Graph_Update_disas_pre env s) := by
  unfold Graph_Update_disas_pre
  split_ifs
  · exact .adds_emit s (by rfl)
  · exact .adds_refl _ s

theorem Graph_Update_disas_post_notHost (env : Env) (s : Sys) :
    s.Adds Event.notHost (Graph_Update_disas_post env s) := by
  unfold Graph_Update_disas_post
  dsimp only
  split_ifs <;>
    simp [Sys.Adds, Sys.emit, Sys.setReg, Event.notHost, Event.isHost]

theorem Graph_Update_disas_notHost (env : Env) (s : Sys) :
    s.Adds Event.notHost (Graph_Update_disas env s) := by
  unfold Graph_Update_disas
  dsimp only
  split_ifs
  · exact (Graph_Update_disas_mode_notHost ..).adds_trans
      ((Graph_Update_disas_pre_notHost ..).adds_trans
        ((Graph_DisassembleUCode_notHost ..).adds_trans (Graph_Update_disas_post_notHost ..)))
  · exact Graph_Update_disas_mode_notHost ..
  · exact .adds_refl _ s

theorem Graph_Update_build_notHost (env : Env) (s : Sys) :
    s.Adds Event.notHost (Graph_Update_build env s) :=
  (Graph_Update_begin_notHost env s).adds_trans ((Graph_Update_game_notHost env _).adds_trans
    ((Graph_Update_chain_notHost env _).adds_trans (Graph_Update_disas_notHost env _)))

theorem Graph_Update_transitions_notHost (env : Env) (s : Sys) :
    s.Adds Event.notHost (Graph_Update_transitions env s) := by
  unfold Graph_Update_transitions
  dsimp only
  split_ifs <;>
    simp [Sys.Adds, Sys.emit, SET_NEXT_GAMESTATE, Event.notHost, Event.isHost]

theorem Graph_Update_validate_ok_notHost (s : Sys) :
    s.Adds Event.notHost (Graph_Update_validate_ok s) := by
  unfold Graph_Update_validate_ok
  cases h1 : THGA_IsCrash s.gfxCtx.polyOpa <;> cases h2 : THGA_IsCrash s.gfxCtx.polyXlu <;>
    cases h3 : THGA_IsCrash s.gfxCtx.overlay <;>
    simp [h1, h2, h3, Sys.Adds, Sys.emit, Event.notHost, Event.isHost]

theorem Graph_Update_time_ok_notHost (env : Env) (s : Sys) :
    s.Adds Event.notHost (Graph_Update_time_ok env s) :=
  ⟨[_], rfl, by simp [Event.notHost, Event.isHost]⟩

theorem Graph_Update_finish_notHost (env : Env) (s : Sys) :
    s.Adds Event.notHost (Graph_Update_finish env s) :=
  (Sys.Adds.adds_emit s (by rfl)).adds_trans ((Sys.Adds.adds_external ..).adds_trans
    ((Graph_Update_time_ok_notHost ..).adds_trans (Graph_Update_transitions_notHost ..)))

theorem Graph_TaskSet00_head_ok_notHost (env : Env) (s : Sys) :
    s.Adds Event.notHost (Graph_TaskSet00_head_ok env s) := by
  obtain ⟨t0, r, t1, t2, t⟩ := Graph_TaskSet00_head_ok_trace env s
  refine ⟨_, t, ?_⟩
  intro e he
  simp only [List.mem_append, List.mem_cons, List.mem_singleton, List.not_mem_nil,
    or_false] at he
  rcases he with ((rfl | rfl | rfl | rfl | rfl | rfl) | he) | rfl | rfl
  any_goals rfl
  split_ifs at he
  · simp only [List.mem_singleton] at he
    subst he
    rfl
  · cases he

theorem Graph_TaskSet00_tail_ok_notHost (env : Env) (s : Sys) :
    s.Adds Event.notHost (Graph_TaskSet00_tail_ok env s) :=
  ⟨_, Graph_TaskSet00_tail_ok_trace env s, by simp [Event.notHost, Event.isHost]⟩

/-- A frame that returns adds the entry into `Graph_Update` and, after it, no event of
the host loop. -/
theorem Graph_Update_notHost (env : Env) (s s1 : Sys) (hu : Graph_Update env s = .ok () s1) :
    ∃ evs, s1.trace = s.trace ++ .call "Graph_Update" :: evs
      ∧ ∀ e ∈ evs, e.notHost = true := by
  have hv : (s.emit (.call "Graph_Update")).Adds Event.notHost (s.atValidation env) :=
    Graph_Update_build_notHost env _
  have key : (s.emit (.call "Graph_Update")).Adds Event.notHost s1 := by
    cases hc : s.atFlagCheck env with
    | none =>
      obtain ⟨h1, -⟩ := Graph_Update_of_skipped env s s1 ⟨hu, hc⟩
      rw [h1]
      exact hv.adds_trans ((Graph_Update_validate_ok_notHost _).adds_trans
        (Graph_Update_finish_notHost ..))
    | some c =>
      have h1 := Graph_Update_of_submitted env s s1 c hu hc
      obtain ⟨h2, -⟩ := Sys.atFlagCheck_some env s c hc
      rw [h1, h2]
      exact hv.adds_trans ((Graph_Update_validate_ok_notHost _).adds_trans
        ((Graph_TaskSet00_head_ok_notHost ..).adds_trans
          ((Graph_TaskSet00_tail_ok_notHost ..).adds_trans
            ((@Sys.Adds.adds_of_eq Event.notHost _ (Graph_Update_advance _) rfl).adds_trans
              (Graph_Update_finish_notHost ..)))))
  obtain ⟨evs, t, q⟩ := key
  exact ⟨evs, by rw [t]; simp [Sys.emit], q⟩

/-! ### The frame loop -/

theorem Graph_ThreadEntry_frames_ok (env : Env) :
    ∀ (fuel : Nat) (s s1 : Sys), Graph_ThreadEntry_frames env fuel s = some (.ok () s1) →
      ∃ n, Updates env n s s1 ∧ GameState_IsRunning s1.gameState = false := by
  intro fuel
  induction fuel with
  | zero =>
    intro s s1 h
    unfold Graph_ThreadEntry_frames at h
    split_ifs at h with hr
    injection h with h
    injection h with _ h
    subst h
    exact ⟨0, .zero _, by simpa using hr⟩
  | succ fuel ih =>
    intro s s1 h
    unfold Graph_ThreadEntry_frames at h
    split_ifs at h with hr
    · cases hu : Graph_Update env s with
      | ok u x =>
        rw [hu] at h
        obtain ⟨n, h1, h2⟩ := ih x s1 h
        exact ⟨n + 1, .succ hr hu h1, h2⟩
      | stop w x =>
        rw [hu] at h
        cases h
    · injection h with h
      injection h with _ h
      subst h
      exact ⟨0, .zero _, by simpa using hr⟩

theorem Graph_ThreadEntry_frames_mono (env : Env) :
    ∀ (fuel : Nat) (s : Sys) (r : Res Unit), Graph_ThreadEntry_frames env fuel s = some r →
      Graph_ThreadEntry_frames env (fuel + 1) s = some r := by
  intro fuel
  induction fuel with
  | zero =>
    intro s r h
    unfold Graph_ThreadEntry_frames at h ⊢
    split_ifs at h with hr
    simp only [hr, if_false]
    exact h
  | succ fuel ih =>
    intro s r h
    unfold Graph_ThreadEntry_frames at h ⊢
    split_ifs at h with hr
    · simp only [hr, if_true]
      cases hu : Graph_Update env s with
      | ok u x =>
        rw [hu] at h
        exact ih x r h
      | stop w x =>
        rw [hu] at h
        exact h
    · simp only [hr, if_false]
      exact h

/-- The frames of a visit add one entry into `Graph_Update` each, and no other event
of the host loop. -/
theorem Updates.trace {env : Env} {n : Nat} {s s1 : Sys} (h : Updates env n s s1) :
    ∃ evs, s1.trace = s.trace ++ evs
      ∧ evs.filter Event.isHost = List.replicate n (.call "Graph_Update") := by
  induction h with
  | zero s => exact ⟨[], by simp, rfl⟩
  | succ hr hu _ ih =>
    obtain ⟨e1, t1, q1⟩ := Graph_Update_notHost env _ _ hu
    obtain ⟨e2, t2, q2⟩ := ih
    refine ⟨.call "Graph_Update" :: e1 ++ e2, by rw [t2, t1]; simp, ?_⟩
    have hq : e1.filter Event.isHost = [] := by
      rw [List.filter_eq_nil_iff]
      intro e he
      have := q1 e he
      simpa [Event.notHost] using this
    have hc : Event.isHost (.call "Graph_Update") = true := by rfl
    rw [List.cons_append, List.filter_cons, if_pos hc, List.filter_append, hq, q2]
    rfl

/-! ### An iteration -/

theorem Graph_ThreadEntry_enter_ok (env : Env) (ovl g : Nat) (s a : Sys)
    (h : Graph_ThreadEntry_enter env ovl s = .ok g a) :
    g ≠ 0
    ∧ g = (env.SYSTEM_ARENA_MALLOC (env.instanceSize ovl)
        (env.Overlay_LoadGameState ovl s.world)).1
    ∧ a.trace = s.trace ++ [.Overlay_LoadGameState ovl, .printf "Class size = %d bytes\n",
        .SYSTEM_ARENA_MALLOC (env.instanceSize ovl) "../graph.c" 1196,
        .GameState_Init g (env.ovlInit ovl)] := by
  obtain ⟨x, hx, he⟩ := Graph_ThreadEntry_enter_eq env ovl s
  rw [h] at he
  split_ifs at he with hp hd
  injection he with h1 h2
  subst h1 h2
  refine ⟨hp, rfl, ?_⟩
  simp [Sys.emit, Sys.external, Sys.setWorld, hx]

theorem Visit.sound_trace {env : Env} {v : Visit} (h : v.sound env) :
    ∃ evs, v.after.trace = v.before.trace ++ evs
      ∧ evs.filter Event.isHost = v.events env := by
  obtain ⟨h1, h2, h3, h4⟩ := h
  obtain ⟨-, -, t1⟩ := Graph_ThreadEntry_enter_ok env _ _ _ _ h1
  obtain ⟨e2, t2, q2⟩ := h2.trace
  have t3 := Graph_ThreadEntry_leave_trace env v.ovl v.gameState v.last
  rw [h4] at t3
  refine ⟨_, by rw [t3, t2, t1, List.append_assoc, List.append_assoc], ?_⟩
  simp only [List.filter_append, q2, Visit.events]
  split_ifs <;> rfl

/-! ### The loop over the overlays -/

theorem Graph_ThreadEntry_loop_ok (env : Env) :
    ∀ (fuel : Nat) (nxt : Option Nat) (s s1 : Sys),
      Graph_ThreadEntry_loop env fuel nxt s = some (.ok () s1) →
      ∃ vs : List Visit, Visit.linked (nxt, s) vs (none, s1) ∧ ∀ v ∈ vs, v.sound env := by
  intro fuel
  induction fuel with
  | zero =>
    intro nxt s s1 h
    cases nxt with
    | none =>
      simp only [Graph_ThreadEntry_loop] at h
      injection h with h
      injection h with _ h
      subst h
      exact ⟨[], rfl, by simp⟩
    | some ovl => simp [Graph_ThreadEntry_loop] at h
  | succ fuel ih =>
    intro nxt s s1 h
    cases nxt with
    | none =>
      simp only [Graph_ThreadEntry_loop] at h
      injection h with h
      injection h with _ h
      subst h
      exact ⟨[], rfl, by simp⟩
    | some ovl =>
      simp only [Graph_ThreadEntry_loop] at h
      cases he : Graph_ThreadEntry_enter env ovl s with
      | stop w x => simp [he] at h
      | ok g a =>
        simp only [he] at h
        cases hf : Graph_ThreadEntry_frames env fuel a with
        | none => simp [hf] at h
        | some r =>
          cases r with
          | stop w x => simp [hf] at h
          | ok u b =>
            simp only [hf] at h
            obtain ⟨vs, hl, hs⟩ := ih _ _ _ h
            obtain ⟨n, hn, hr⟩ := Graph_ThreadEntry_frames_ok env fuel a b hf
            refine ⟨{ ovl := ovl, gameState := g, frames := n,
                      next := (Graph_ThreadEntry_leave env ovl g b).1,
                      before := s, start := a, last := b,
                      after := (Graph_ThreadEntry_leave env ovl g b).2 } :: vs, ⟨rfl, hl⟩, ?_⟩
            intro v hv
            rcases List.mem_cons.mp hv with rfl | hv
            · exact ⟨he, hn, hr, rfl⟩
            · exact hs v hv

theorem Graph_ThreadEntry_loop_mono (env : Env) :
    ∀ (fuel : Nat) (nxt : Option Nat) (s : Sys) (r : Res Unit),
      Graph_ThreadEntry_loop env fuel nxt s = some r →
      Graph_ThreadEntry_loop env (fuel + 1) nxt s = some r := by
  intro fuel
  induction fuel with
  | zero =>
    intro nxt s r h
    cases nxt with
    | none => simpa only [Graph_ThreadEntry_loop] using h
    | some ovl => simp [Graph_ThreadEntry_loop] at h
  | succ fuel ih =>
    intro nxt s r h
    cases nxt with
    | none => simpa only [Graph_ThreadEntry_loop] using h
    | some ovl =>
      rw [Graph_ThreadEntry_loop] at h ⊢
      cases he : Graph_ThreadEntry_enter env ovl s with
      | stop w x =>
        simp only [he] at h ⊢
        exact h
      | ok g a =>
        simp only [he] at h ⊢
        cases hf : Graph_ThreadEntry_frames env fuel a with
        | none => simp [hf] at h
        | some q =>
          rw [Graph_ThreadEntry_frames_mono env fuel a q hf]
          cases q with
          | stop w x =>
            simp only [hf] at h ⊢
            exact h
          | ok u b =>
            simp only [hf] at h ⊢
            exact ih _ _ _ h

theorem Graph_ThreadEntry_mono (env : Env) (s : Sys) (r : Res Unit) :
    ∀ (fuel fuel1 : Nat), fuel ≤ fuel1 → Graph_ThreadEntry env fuel s = some r →
      Graph_ThreadEntry env fuel1 s = some r := by
  have step : ∀ fuel, Graph_ThreadEntry env fuel s = some r →
      Graph_ThreadEntry env (fuel + 1) s = some r := by
    intro fuel h
    unfold Graph_ThreadEntry at h ⊢
    dsimp only at h ⊢
    cases hl : Graph_ThreadEntry_loop env fuel (some env.GAMESTATE_SETUP)
        (Graph_Init env (s.emit (.printf "Start graphic thread execution\n"))) with
    | none => simp [hl] at h
    | some q =>
      rw [Graph_ThreadEntry_loop_mono env fuel _ _ q hl]
      rw [hl] at h
      exact h
  intro fuel fuel1 hle h
  induction hle with
  | refl => exact h
  | step _ ih => exact step _ ih

theorem Visit.linked_trace (env : Env) :
    ∀ (vs : List Visit) (a b : Option Nat) (s s1 : Sys), Visit.linked (a, s) vs (b, s1) →
      (∀ v ∈ vs, v.sound env) →
      ∃ evs, s1.trace = s.trace ++ evs
        ∧ evs.filter Event.isHost = vs.flatMap (Visit.events env) := by
  intro vs
  induction vs with
  | nil =>
    intro a b s s1 hl _
    simp only [Visit.linked, Prod.mk.injEq] at hl
    obtain ⟨-, rfl⟩ := hl
    exact ⟨[], by simp, rfl⟩
  | cons v vs ih =>
    intro a b s s1 hl hs
    simp only [Visit.linked, Prod.mk.injEq] at hl
    obtain ⟨⟨-, rfl⟩, hl⟩ := hl
    obtain ⟨e1, t1, q1⟩ := Visit.sound_trace (hs v (List.mem_cons_self _ _))
    obtain ⟨e2, t2, q2⟩ := ih _ _ _ _ hl (fun w hw => hs w (List.mem_cons_of_mem _ hw))
    exact ⟨e1 ++ e2, by rw [t2, t1, List.append_assoc],
      by rw [List.filter_append, q1, q2, List.flatMap_cons]⟩

theorem Graph_Init_hostEvents (env : Env) (s : Sys) :
    ∃ evs, (Graph_Init env s).trace = s.trace ++ evs
      ∧ evs.filter Event.isHost = [.call "Graph_Init"] := by
  unfold Graph_Init
  dsimp only
  split_ifs <;> exact ⟨_, by simp [Sys.emit]; rfl, by rfl⟩

theorem Graph_Destroy_hostEvents (env : Env) (s : Sys) :
    ∃ evs, (Graph_Destroy env s).trace = s.trace ++ evs
      ∧ evs.filter Event.isHost = [.call "Graph_Destroy"] := by
  unfold Graph_Destroy
  dsimp only
  split_ifs <;> exact ⟨_, by simp [Sys.emit]; rfl, by rfl⟩

/-! ### The thread -/

theorem Updates.zero_of_clear {env : Env} {n : Nat} {s s1 : Sys} (h : Updates env n s s1)
    (hr : GameState_IsRunning s.gameState = false) : n = 0 := by
  cases h with
  | zero => rfl
  | succ hr2 _ _ => rw [hr] at hr2; cases hr2

/-- A run of `Graph_ThreadEntry` that returns is `Graph_Init`, a chain of iterations
of the host loop whose last successor is `NULL`, and `Graph_Destroy`. -/
theorem Graph_ThreadEntry_returned (env : Env) (fuel : Nat) (s s1 : Sys)
    (h : Graph_ThreadEntry env fuel s = some (.ok () s1)) :
    ∃ (vs : List Visit) (x : Sys) (evs : List Event),
      Visit.linked (some env.GAMESTATE_SETUP,
        Graph_Init env (s.emit (.printf "Start graphic thread execution\n"))) vs (none, x)
      ∧ (∀ v ∈ vs, v.sound env)
      ∧ (∀ v ∈ vs, GameState_IsRunning v.start.gameState = false → v.frames = 0)
      ∧ vs.head?.map Visit.ovl = some env.GAMESTATE_SETUP
      ∧ s1 = (Graph_Destroy env x).emit (.printf "End of graphic thread execution\n")
      ∧ s1.trace = s.trace ++ evs
      ∧ evs.filter Event.isHost
          = .call "Graph_Init" :: (vs.flatMap (Visit.events env) ++ [.call "Graph_Destroy"])
      ∧ (evs.filter Event.isHost).count (.call "Graph_Init") = 1
      ∧ (evs.filter Event.isHost).count (.call "Graph_Destroy") = 1
      ∧ ∀ fuel1, fuel ≤ fuel1 → Graph_ThreadEntry env fuel1 s = some (.ok () s1) := by
  have hm := fun fuel1 hle => Graph_ThreadEntry_mono env s (.ok () s1) fuel fuel1 hle h
  unfold Graph_ThreadEntry at h
  dsimp only at h
  cases hl : Graph_ThreadEntry_loop env fuel (some env.GAMESTATE_SETUP)
      (Graph_Init env (s.emit (.printf "Start graphic thread execution\n"))) with
  | none => simp [hl] at h
  | some q =>
    cases q with
    | stop w x => simp [hl] at h
    | ok u x =>
      simp only [hl, Option.some.injEq, Res.ok.injEq, true_and] at h
      obtain ⟨vs, hk, hs⟩ := Graph_ThreadEntry_loop_ok env fuel _ _ _ hl
      obtain ⟨e1, t1, q1⟩ := Graph_Init_hostEvents env
        (s.emit (.printf "Start graphic thread execution\n"))
      obtain ⟨e2, t2, q2⟩ := Visit.linked_trace env vs _ _ _ _ hk hs
      obtain ⟨e3, t3, q3⟩ := Graph_Destroy_hostEvents env x
      have hf : ((Event.printf "Start graphic thread execution\n" :: e1) ++ e2 ++ e3
            ++ [Event.printf "End of graphic thread execution\n"]).filter Event.isHost
          = .call "Graph_Init" :: (vs.flatMap (Visit.events env) ++ [.call "Graph_Destroy"]) := by
        have hp1 : Event.isHost (.printf "Start graphic thread execution\n") = false := rfl
        have hp2 : [Event.printf "End of graphic thread execution\n"].filter Event.isHost
            = [] := rfl
        rw [List.filter_append, List.filter_append, List.filter_append, List.filter_cons,
          q1, q2, q3, hp2, hp1]
        simp
      have hcount : ∀ (l : List Visit) (e : Event), (∀ v ∈ l, e ∉ v.events env) →
          (l.flatMap (Visit.events env)).count e = 0 := by
        intro l e hl
        rw [List.count_eq_zero]
        intro hmem
        obtain ⟨v, hv, hev⟩ := List.mem_flatMap.mp hmem
        exact hl v hv hev
      refine ⟨vs, x, (Event.printf "Start graphic thread execution\n" :: e1) ++ e2 ++ e3
        ++ [Event.printf "End of graphic thread execution\n"], hk, hs, ?_, ?_, h.symm, ?_, hf,
        ?_, ?_, hm⟩
      · intro v hv hr
        exact (hs v hv).2.1.zero_of_clear hr
      · cases vs with
        | nil =>
          simp only [Visit.linked, Prod.mk.injEq] at hk
          exact absurd hk.1 (by simp)
        | cons v vs =>
          simp only [Visit.linked, Prod.mk.injEq] at hk
          simp [hk.1.1]
      · have e1 : s1.trace = (Graph_Destroy env x).trace
            ++ [Event.printf "End of graphic thread execution\n"] := by rw [← h]; rfl
        have e2 : (s.emit (.printf "Start graphic thread execution\n")).trace
            = s.trace ++ [Event.printf "Start graphic thread execution\n"] := rfl
        rw [e1, t3, t2, t1, e2]
        simp
      · rw [hf, List.count_cons_self, List.count_append, hcount]
        · rfl
        · intro v _
          simp [Visit.events, List.mem_replicate]
      · rw [hf, List.count_cons_of_ne (by simp), List.count_append, hcount]
        · rfl
        · intro v _
          simp [Visit.events, List.mem_replicate]

theorem Graph_ThreadEntry_frames_of_updates (env : Env) {n : Nat} {a b : Sys}
    (h : Updates env n a b) (hr : GameState_IsRunning b.gameState = false) :
    ∀ fuel, n ≤ fuel → Graph_ThreadEntry_frames env fuel a = some (.ok () b) := by
  induction h with
  | zero s =>
    intro fuel _
    cases fuel <;> simp [Graph_ThreadEntry_frames, hr]
  | succ h1 hu _ ih =>
    intro fuel hle
    obtain ⟨f, rfl⟩ : ∃ f, fuel = f + 1 := ⟨fuel - 1, by omega⟩
    rw [Graph_ThreadEntry_frames, if_pos h1, hu]
    exact ih hr f (by omega)

/-- The loop runs through every chain of iterations: with fuel for the frames of each
of them, it goes on from the chain's end as it would from there. -/
theorem Graph_ThreadEntry_loop_through (env : Env) :
    ∀ (vs : List Visit) (a b : Option Nat) (s x : Sys), Visit.linked (a, s) vs (b, x) →
      (∀ v ∈ vs, v.sound env) → ∀ fuel, (∀ v ∈ vs, v.frames ≤ fuel) →
      Graph_ThreadEntry_loop env (fuel + vs.length) a s = Graph_ThreadEntry_loop env fuel b x := by
  intro vs
  induction vs with
  | nil =>
    intro a b s x hl _ fuel _
    simp only [Visit.linked, Prod.mk.injEq] at hl
    obtain ⟨rfl, rfl⟩ := hl
    rfl
  | cons v vs ih =>
    intro a b s x hl hs fuel hf
    simp only [Visit.linked, Prod.mk.injEq] at hl
    obtain ⟨⟨rfl, rfl⟩, hl⟩ := hl
    obtain ⟨h1, h2, h3, h4⟩ := hs v (List.mem_cons_self _ _)
    have hfr := Graph_ThreadEntry_frames_of_updates env h2 h3 (fuel + vs.length)
      (le_trans (hf v (List.mem_cons_self _ _)) (Nat.le_add_right _ _))
    have e : fuel + (v :: vs).length = (fuel + vs.length) + 1 := by simp; omega
    rw [e, Graph_ThreadEntry_loop, h1]
    simp only [hfr, h4]
    exact ih _ _ _ _ hl (fun w hw => hs w (List.mem_cons_of_mem _ hw)) fuel
      (fun w hw => hf w (List.mem_cons_of_mem _ hw))

/-- C13: the host loop of `Graph_ThreadEntry` starts after `Graph_Init` with the Setup
overlay. An iteration is: load the overlay, allocate the instance, `GameState_Init`;
then the frames, each begun with the running flag set and the last one leaving it clear
(no frame if `GameState_Init` leaves it clear); then resolve the successor, `GameState_
Destroy`, free the instance, unload the overlay. For every chain of iterations from the
start, each entering the successor the one before it resolved, the loop runs through the
chain, and the events of the host loop in the trace are then the entry into `Graph_Init`
and the calls of the iterations in this order. A run of the thread that returns is such
a chain whose last successor is `NULL`, followed by `Graph_Destroy`: its events of the
host loop are the entry into `Graph_Init`, the calls of the iterations, and the entry
into `Graph_Destroy`, each of the two once; and more fuel gives the same run. -/
theorem C13_host_loop_order (env : Env) (s : Sys) :
    (∀ (vs : List Visit) (b : Option Nat) (x : Sys),
      Visit.linked (some env.GAMESTATE_SETUP,
        Graph_Init env (s.emit (.printf "Start graphic thread execution\n"))) vs (b, x) →
      (∀ v ∈ vs, v.sound env) →
      (∀ fuel, (∀ v ∈ vs, v.frames ≤ fuel) →
        Graph_ThreadEntry_loop env (fuel + vs.length) (some env.GAMESTATE_SETUP)
            (Graph_Init env (s.emit (.printf "Start graphic thread execution\n")))
          = Graph_ThreadEntry_loop env fuel b x)
      ∧ (∀ v ∈ vs, GameState_IsRunning v.start.gameState = false → v.frames = 0)
      ∧ ∃ evs, x.trace = s.trace ++ evs
          ∧ evs.filter Event.isHost = .call "Graph_Init" :: vs.flatMap (Visit.events env))
    ∧ ∀ (fuel : Nat) (s1 : Sys), Graph_ThreadEntry env fuel s = some (.ok () s1) →
      ∃ (vs : List Visit) (x : Sys) (evs : List Event),
        Visit.linked (some env.GAMESTATE_SETUP,
          Graph_Init env (s.emit (.printf "Start graphic thread execution\n"))) vs (none, x)
        ∧ (∀ v ∈ vs, v.sound env)
        ∧ vs.head?.map Visit.ovl = some env.GAMESTATE_SETUP
        ∧ s1 = (Graph_Destroy env x).emit (.printf "End of graphic thread execution\n")
        ∧ s1.trace = s.trace ++ evs
        ∧ evs.filter Event.isHost
            = .call "Graph_Init" :: (vs.flatMap (Visit.events env) ++ [.call "Graph_Destroy"])
        ∧ (evs.filter Event.isHost).count (.call "Graph_Init") = 1
        ∧ (evs.filter Event.isHost).count (.call "Graph_Destroy") = 1
        ∧ ∀ fuel1, fuel ≤ fuel1 → Graph_ThreadEntry env fuel1 s = some (.ok () s1) := by
  refine ⟨?_, ?_⟩
  · intro vs b x hk hs
    refine ⟨Graph_ThreadEntry_loop_through env vs _ _ _ _ hk hs,
      fun v hv hr => (hs v hv).2.1.zero_of_clear hr, ?_⟩
    obtain ⟨e1, t1, q1⟩ := Graph_Init_hostEvents env
      (s.emit (.printf "Start graphic thread execution\n"))
    obtain ⟨e2, t2, q2⟩ := Visit.linked_trace env vs _ _ _ _ hk hs
    have e0 : (s.emit (.printf "Start graphic thread execution\n")).trace
        = s.trace ++ [Event.printf "Start graphic thread execution\n"] := rfl
    refine ⟨(Event.printf "Start graphic thread execution\n" :: e1) ++ e2,
      by rw [t2, t1, e0]; simp, ?_⟩
    have hp1 : Event.isHost (.printf "Start graphic thread execution\n") = false := rfl
    rw [List.filter_append, List.filter_cons, q1, q2, hp1]
    simp
  · intro fuel s1 h
    obtain ⟨vs, x, evs, h1, h2, -, h4, h5, h6, h7, h8, h9, h10⟩ :=
      Graph_ThreadEntry_returned env fuel s s1 h
    exact ⟨vs, x, evs, h1, h2, h4, h5, h6, h7, h8, h9, h10⟩

theorem hostFinal_run : Graph_ThreadEntry hostEnv 3 demoSys = some (.ok () hostFinal) := by rfl

theorem hostFinal_hostEvents :
    hostFinal.trace.filter Event.isHost
      = [.call "Graph_Init",
          .Overlay_LoadGameState 0, .SYSTEM_ARENA_MALLOC 0xA4 "../graph.c" 1196,
          .GameState_Init 0x80400000 0x80803000, .call "Graph_GetNextGameState",
          .GameState_Destroy 0x80400000, .SYSTEM_ARENA_FREE 0x80400000 "../graph.c" 1227,
          .Overlay_FreeGameState 0,
          .Overlay_LoadGameState 2, .SYSTEM_ARENA_MALLOC 0x1E8 "../graph.c" 1196,
          .GameState_Init 0x80400000 0x80804000, .call "Graph_Update",
          .call "Graph_GetNextGameState",
          .GameState_Destroy 0x80400000, .SYSTEM_ARENA_FREE 0x80400000 "../graph.c" 1227,
          .Overlay_FreeGameState 2,
          .call "Graph_Destroy"] := by rfl

theorem C13_host_loop_order_witness :
    Graph_ThreadEntry hostEnv 3 demoSys = some (.ok () hostFinal)
    ∧ hostFinal.trace.filter Event.isHost
      = [.call "Graph_Init",
          .Overlay_LoadGameState 0, .SYSTEM_ARENA_MALLOC 0xA4 "../graph.c" 1196,
          .GameState_Init 0x80400000 0x80803000, .call "Graph_GetNextGameState",
          .GameState_Destroy 0x80400000, .SYSTEM_ARENA_FREE 0x80400000 "../graph.c" 1227,
          .Overlay_FreeGameState 0,
          .Overlay_LoadGameState 2, .SYSTEM_ARENA_MALLOC 0x1E8 "../graph.c" 1196,
          .GameState_Init 0x80400000 0x80804000, .call "Graph_Update",
          .call "Graph_GetNextGameState",
          .GameState_Destroy 0x80400000, .SYSTEM_ARENA_FREE 0x80400000 "../graph.c" 1227,
          .Overlay_FreeGameState 2,
          .call "Graph_Destroy"]
    ∧ ∃ (vs : List Visit) (evs : List Event),
      (∀ v ∈ vs, v.sound hostEnv)
      ∧ vs.head?.map Visit.ovl = some hostEnv.GAMESTATE_SETUP
      ∧ hostFinal.trace = demoSys.trace ++ evs
      ∧ evs.filter Event.isHost
          = .call "Graph_Init" :: (vs.flatMap (Visit.events hostEnv) ++ [.call "Graph_Destroy"])
      ∧ (evs.filter Event.isHost).count (.call "Graph_Init") = 1
      ∧ (evs.filter Event.isHost).count (.call "Graph_Destroy") = 1 :=
  ⟨hostFinal_run, hostFinal_hostEvents,
    match (C13_host_loop_order hostEnv demoSys).2 3 hostFinal hostFinal_run with
    | ⟨vs, _, evs, _, h2, h4, _, h6, h7, h8, h9, _⟩ => ⟨vs, evs, h2, h4, h6, h7, h8, h9⟩⟩

/-! ## What `Graph_InitTHGA` leaves alone -/

theorem Graph_InitTHGA_mem_other (env : Env) (s : Sys) (a : Nat)
    (hh : a ≠ s.pool env + GfxPool.headMagic) (ht : a ≠ s.pool env + GfxPool.tailMagic) :
    (Graph_InitTHGA env s).mem a = s.mem a := by
  have hh2 : a ≠ s.pool env + 0x0 := hh
  have ht2 : a ≠ s.pool env + 0x12408 := ht
  rw [Graph_InitTHGA_mem, Mem.store_other _ _ _ _ ht2, Mem.store_other _ _ _ _ hh2]

/-- An address of the pool that is not selected is none of the two sentinels of the
selected pool. -/
theorem Sys.pool_other_apart (env : Env) (s : Sys) (off : Nat) (h : off < GfxPool.sizeof) :
    gGfxPoolsAt env (1 - (s.gfxCtx.gfxPoolIdx &&& 1)) + off ≠ s.pool env + GfxPool.headMagic
    ∧ gGfxPoolsAt env (1 - (s.gfxCtx.gfxPoolIdx &&& 1)) + off
        ≠ s.pool env + GfxPool.tailMagic := by
  have h1 : s.gfxCtx.gfxPoolIdx &&& 1 ≤ 1 := Nat.and_le_right
  unfold Sys.pool gGfxPoolsAt
  have hs : GfxPool.sizeof = 74768 := rfl
  have hm : GfxPool.headMagic = 0 := rfl
  have ht : GfxPool.tailMagic = 74760 := rfl
  rw [hs] at h ⊢
  rw [hm, ht]
  rcases Nat.le_one_iff_eq_zero_or_eq_one.mp h1 with h0 | h0 <;> rw [h0] <;>
    constructor <;> omega

/-- C23: `Graph_InitTHGA` stores the two sentinels of the pool selected by
`gfxPoolIdx & 1` and writes no other address: every byte of the other pool, its
sentinels among them, is after the call what it was before, and the call changes
neither `gfxPoolIdx` nor `fbIdx` nor the callback and its parameter. -/
theorem C23_InitTHGA_writes_one_pool (env : Env) (s : Sys) :
    (∀ a, a ≠ s.pool env + GfxPool.headMagic → a ≠ s.pool env + GfxPool.tailMagic →
      (Graph_InitTHGA env s).mem a = s.mem a)
    ∧ (∀ off, off < GfxPool.sizeof →
        (Graph_InitTHGA env s).mem (gGfxPoolsAt env (1 - (s.gfxCtx.gfxPoolIdx &&& 1)) + off)
          = s.mem (gGfxPoolsAt env (1 - (s.gfxCtx.gfxPoolIdx &&& 1)) + off))
    ∧ (Graph_InitTHGA env s).mem.half
          (gGfxPoolsAt env (1 - (s.gfxCtx.gfxPoolIdx &&& 1)) + GfxPool.headMagic)
        = s.mem.half (gGfxPoolsAt env (1 - (s.gfxCtx.gfxPoolIdx &&& 1)) + GfxPool.headMagic)
    ∧ (Graph_InitTHGA env s).mem.half
          (gGfxPoolsAt env (1 - (s.gfxCtx.gfxPoolIdx &&& 1)) + GfxPool.tailMagic)
        = s.mem.half (gGfxPoolsAt env (1 - (s.gfxCtx.gfxPoolIdx &&& 1)) + GfxPool.tailMagic)
    ∧ gGfxPoolsAt env (1 - (s.gfxCtx.gfxPoolIdx &&& 1)) ≠ s.pool env
    ∧ (Graph_InitTHGA env s).gfxCtx.gfxPoolIdx = s.gfxCtx.gfxPoolIdx
    ∧ (Graph_InitTHGA env s).gfxCtx.fbIdx = s.gfxCtx.fbIdx
    ∧ (Graph_InitTHGA env s).gfxCtx.callback = s.gfxCtx.callback
    ∧ (Graph_InitTHGA env s).gfxCtx.callbackParam = s.gfxCtx.callbackParam := by
  have hoff : ∀ off, off < GfxPool.sizeof →
      (Graph_InitTHGA env s).mem (gGfxPoolsAt env (1 - (s.gfxCtx.gfxPoolIdx &&& 1)) + off)
        = s.mem (gGfxPoolsAt env (1 - (s.gfxCtx.gfxPoolIdx &&& 1)) + off) := fun off h =>
    Graph_InitTHGA_mem_other env s _ (s.pool_other_apart env off h).1
      (s.pool_other_apart env off h).2
  refine ⟨Graph_InitTHGA_mem_other env s, hoff, ?_, ?_, ?_, rfl, rfl, rfl, rfl⟩
  · unfold Mem.half
    rw [hoff _ (by decide)]
  · unfold Mem.half
    rw [hoff _ (by decide)]
  · have h1 : s.gfxCtx.gfxPoolIdx &&& 1 ≤ 1 := Nat.and_le_right
    unfold Sys.pool
    apply gGfxPoolsAt_ne
    omega

/-! ## Opening and closing display lists -/

theorem Graph_OpenDisps_unmarked (env : Env) (d : Nat → Nat) (file : String) (line : Nat)
    (s : Sys) (h : dispsMarked env s = false) : Graph_OpenDisps env d file line s = (d, s) := by
  unfold Graph_OpenDisps
  simp [h]

theorem Graph_CloseDisps_unmarked (env : Env) (d : Nat → Nat) (file : String) (line : Nat)
    (t : Sys) (h : dispsMarked env t = false) : Graph_CloseDisps env d file line t = t := by
  unfold Graph_CloseDisps
  simp [h]

theorem Graph_OpenDisps_marked (env : Env) (d : Nat → Nat) (file : String) (line : Nat)
    (s : Sys) (h : dispsMarked env s = true) :
    (Graph_OpenDisps env d file line s).1 0 = s.gfxCtx.polyOpa.p
    ∧ (Graph_OpenDisps env d file line s).1 1 = s.gfxCtx.polyXlu.p
    ∧ (Graph_OpenDisps env d file line s).1 2 = s.gfxCtx.overlay.p
    ∧ (Graph_OpenDisps env d file line s).2.heads
        = (s.gfxCtx.polyOpa.p + sizeofGfx, s.gfxCtx.polyXlu.p + sizeofGfx,
            s.gfxCtx.overlay.p + sizeofGfx) := by
  unfold Graph_OpenDisps
  rw [if_pos h]
  exact ⟨rfl, rfl, rfl, rfl⟩

theorem Graph_OpenDisps_otherCursors (env : Env) (d : Nat → Nat) (file : String) (line : Nat)
    (s : Sys) : (Graph_OpenDisps env d file line s).2.otherCursors = s.otherCursors := by
  unfold Graph_OpenDisps
  split_ifs <;> rfl

theorem Graph_CloseDisps_otherCursors (env : Env) (d : Nat → Nat) (file : String) (line : Nat)
    (t : Sys) : (Graph_CloseDisps env d file line t).otherCursors = t.otherCursors := by
  unfold Graph_CloseDisps
  dsimp only
  split_ifs <;> rfl

theorem Graph_CloseDisps_marked (env : Env) (r : Nat → Nat) (file : String) (line : Nat)
    (t : Sys) (h : dispsMarked env t = true) :
    (Graph_CloseDisps env r file line t).heads
      = (if r 0 + sizeofGfx = t.gfxCtx.polyOpa.p then r 0 else t.gfxCtx.polyOpa.p + sizeofGfx,
          if r 1 + sizeofGfx = t.gfxCtx.polyXlu.p then r 1 else t.gfxCtx.polyXlu.p + sizeofGfx,
          if r 2 + sizeofGfx = t.gfxCtx.overlay.p then r 2
          else t.gfxCtx.overlay.p + sizeofGfx) := by
  unfold Graph_CloseDisps
  simp only [h, if_true]
  split_ifs <;> simp_all [Sys.heads, put_POLY_OPA_DISP, put_POLY_XLU_DISP, put_OVERLAY_DISP]

theorem Graph_OpenDisps_dispsMarked (env : Env) (d : Nat → Nat) (file : String) (line : Nat)
    (s : Sys) : dispsMarked env (Graph_OpenDisps env d file line s).2 = dispsMarked env s := by
  apply dispsMarked_congr
  unfold Graph_OpenDisps
  split_ifs <;> rfl

/-- C24, as the code has it: in a debug build with the registers at 0 (`R_HREG_MODE` is
not `HREG_MODE_UCODE_DISAS`), one command is appended to the opaque region between
`OPEN_DISPS` and `CLOSE_DISPS`, and the close leaves the cursor of that region where it
was: it does not advance it by one. -/
theorem C24_counterexample :
    debugEnv.DEBUG_FEATURES = true
    ∧ dispsMarked debugEnv (Graph_InitTHGA debugEnv demoSys) = false
    ∧ (put_POLY_OPA_DISP (.raw 0 0)
        (OPEN_DISPS debugEnv "../graph.c" 966 (Graph_InitTHGA debugEnv demoSys)).2).gfxCtx.polyOpa.p
        = (OPEN_DISPS debugEnv "../graph.c" 966
            (Graph_InitTHGA debugEnv demoSys)).2.gfxCtx.polyOpa.p + sizeofGfx
    ∧ (CLOSE_DISPS debugEnv
        (OPEN_DISPS debugEnv "../graph.c" 966 (Graph_InitTHGA debugEnv demoSys)).1
        "../graph.c" 975
        (put_POLY_OPA_DISP (.raw 0 0)
          (OPEN_DISPS debugEnv "../graph.c" 966
            (Graph_InitTHGA debugEnv demoSys)).2)).gfxCtx.polyOpa.p
        = (put_POLY_OPA_DISP (.raw 0 0)
            (OPEN_DISPS debugEnv "../graph.c" 966
              (Graph_InitTHGA debugEnv demoSys)).2).gfxCtx.polyOpa.p :=
  ⟨by rfl, by rfl, by rfl, by rfl⟩

/-- C24: `Graph_OpenDisps` on `s`, then `Graph_CloseDisps` with the array the open filled
on a state `t` in which the marking of display lists is what it was in `s` (the
registers `R_HREG_MODE` and `R_UCODE_DISAS_LOG_MODE` were not changed in between).
Neither function changes the work arena or a tail cursor. A close right after the open
leaves the three head cursors at their values before the open. With the marking on,
and `ko`, `kx`, `kv` commands appended to the opaque, the translucent and the overlay
region in between, the close puts the cursor of a region with no command back to its
value before the open and advances the cursor of a region with at least one command by
one command. With the marking off, neither function changes anything. In a debug build
the macros `OPEN_DISPS` and `CLOSE_DISPS` are these two calls. -/
theorem C24_open_close_disps (env : Env) (d : Nat → Nat) (f1 f2 : String) (l1 l2 : Nat)
    (s t : Sys) (hm : dispsMarked env t = dispsMarked env s) :
    (Graph_OpenDisps env d f1 l1 s).2.otherCursors = s.otherCursors
    ∧ (Graph_CloseDisps env (Graph_OpenDisps env d f1 l1 s).1 f2 l2 t).otherCursors
        = t.otherCursors
    ∧ (Graph_CloseDisps env (Graph_OpenDisps env d f1 l1 s).1 f2 l2
        (Graph_OpenDisps env d f1 l1 s).2).heads = s.heads
    ∧ (dispsMarked env s = true → ∀ ko kx kv : Nat,
        t.heads = ((Graph_OpenDisps env d f1 l1 s).2.gfxCtx.polyOpa.p + ko * sizeofGfx,
          (Graph_OpenDisps env d f1 l1 s).2.gfxCtx.polyXlu.p + kx * sizeofGfx,
          (Graph_OpenDisps env d f1 l1 s).2.gfxCtx.overlay.p + kv * sizeofGfx) →
        (Graph_CloseDisps env (Graph_OpenDisps env d f1 l1 s).1 f2 l2 t).heads
          = (if ko = 0 then s.gfxCtx.polyOpa.p else t.gfxCtx.polyOpa.p + sizeofGfx,
              if kx = 0 then s.gfxCtx.polyXlu.p else t.gfxCtx.polyXlu.p + sizeofGfx,
              if kv = 0 then s.gfxCtx.overlay.p else t.gfxCtx.overlay.p + sizeofGfx))
    ∧ (dispsMarked env s = false →
        Graph_OpenDisps env d f1 l1 s = (d, s)
        ∧ Graph_CloseDisps env (Graph_OpenDisps env d f1 l1 s).1 f2 l2 t = t)
    ∧ (env.DEBUG_FEATURES = true →
        OPEN_DISPS env f1 l1 s = Graph_OpenDisps env env.dispRefsGarbage f1 l1 s
        ∧ ∀ r, CLOSE_DISPS env r f2 l2 t = Graph_CloseDisps env r f2 l2 t) := by
  have hs8 : sizeofGfx = 8 := rfl
  refine ⟨Graph_OpenDisps_otherCursors .., Graph_CloseDisps_otherCursors .., ?_, ?_, ?_, ?_⟩
  · cases hk : dispsMarked env s with
    | false =>
      rw [Graph_OpenDisps_unmarked env d f1 l1 s hk]
      rw [Graph_CloseDisps_unmarked env d f2 l2 s hk]
    | true =>
      have ho := Graph_OpenDisps_marked env d f1 l1 s hk
      have hk2 : dispsMarked env (Graph_OpenDisps env d f1 l1 s).2 = true := by
        rw [Graph_OpenDisps_dispsMarked, hk]
      rw [Graph_CloseDisps_marked env _ f2 l2 _ hk2]
      obtain ⟨h0, h1, h2, h3⟩ := ho
      simp only [Sys.heads, Prod.mk.injEq] at h3
      obtain ⟨a, b, c⟩ := h3
      rw [h0, h1, h2, a, b, c]
      simp [Sys.heads]
  · intro hk ko kx kv ht
    obtain ⟨h0, h1, h2, h3⟩ := Graph_OpenDisps_marked env d f1 l1 s hk
    simp only [Sys.heads, Prod.mk.injEq] at h3 ht
    obtain ⟨a, b, c⟩ := h3
    obtain ⟨ta, tb, tc⟩ := ht
    rw [Graph_CloseDisps_marked env _ f2 l2 t (hm.trans hk), h0, h1, h2]
    rw [a] at ta
    rw [b] at tb
    rw [c] at tc
    have e1 : (s.gfxCtx.polyOpa.p + sizeofGfx = t.gfxCtx.polyOpa.p) ↔ ko = 0 := by
      rw [ta, hs8]; omega
    have e2 : (s.gfxCtx.polyXlu.p + sizeofGfx = t.gfxCtx.polyXlu.p) ↔ kx = 0 := by
      rw [tb, hs8]; omega
    have e3 : (s.gfxCtx.overlay.p + sizeofGfx = t.gfxCtx.overlay.p) ↔ kv = 0 := by
      rw [tc, hs8]; omega
    simp only [e1, e2, e3]
  · intro hk
    refine ⟨Graph_OpenDisps_unmarked env d f1 l1 s hk, ?_⟩
    exact Graph_CloseDisps_unmarked env _ f2 l2 t (hm.trans hk)
  · intro hd
    refine ⟨by simp [OPEN_DISPS, hd], fun r => by simp [CLOSE_DISPS, hd]⟩

theorem C24_open_close_disps_witness :
    dispsMarked debugEnv markedSys = true
    ∧ markedSys.heads = (0x80200008, 0x8020BF08, 0x8020FF08)
    ∧ (put_POLY_OPA_DISP (.raw 0 0)
        (Graph_OpenDisps debugEnv debugEnv.dispRefsGarbage "../graph.c" 966 markedSys).2).heads
        = (0x80200018, 0x8020BF10, 0x8020FF10)
    ∧ (Graph_CloseDisps debugEnv
        (Graph_OpenDisps debugEnv debugEnv.dispRefsGarbage "../graph.c" 966 markedSys).1
        "../graph.c" 975
        (put_POLY_OPA_DISP (.raw 0 0)
          (Graph_OpenDisps debugEnv debugEnv.dispRefsGarbage "../graph.c" 966 markedSys).2)).heads
        = (0x80200020, 0x8020BF08, 0x8020FF08) := by
  have h := (C24_open_close_disps debugEnv debugEnv.dispRefsGarbage "../graph.c" "../graph.c"
    966 975 markedSys
    (put_POLY_OPA_DISP (.raw 0 0)
      (Graph_OpenDisps debugEnv debugEnv.dispRefsGarbage "../graph.c" 966 markedSys).2)
    (by rfl)).2.2.2.1 (by rfl) 1 0 0 (by rfl)
  exact ⟨by rfl, by rfl, by rfl, h.trans (by rfl)⟩

/-! ## The timing bookkeeping -/

/-! ### Steps that leave the statics of the bookkeeping alone -/

theorem Sys.SameClock.sameClock_refl (s : Sys) : s.SameClock s := rfl

theorem Sys.SameClock.sameClock_trans {s s1 s2 : Sys} (h1 : s.SameClock s1)
    (h2 : s1.SameClock s2) : s.SameClock s2 :=
  Eq.trans h2 h1

theorem Sys.SameClock.sameClock_emit (s : Sys) (e : Event) : s.SameClock (s.emit e) := rfl

theorem put_WORK_DISP_sameClock (g : Gfx) (s : Sys) : s.SameClock (put_WORK_DISP g s) := rfl

theorem put_POLY_OPA_DISP_sameClock (g : Gfx) (s : Sys) : s.SameClock (put_POLY_OPA_DISP g s) :=
  rfl

theorem put_POLY_XLU_DISP_sameClock (g : Gfx) (s : Sys) : s.SameClock (put_POLY_XLU_DISP g s) :=
  rfl

theorem put_OVERLAY_DISP_sameClock (g : Gfx) (s : Sys) : s.SameClock (put_OVERLAY_DISP g s) :=
  rfl

theorem Graph_OpenDisps_sameClock (env : Env) (d : Nat → Nat) (file : String) (line : Nat)
    (s : Sys) : s.SameClock (Graph_OpenDisps env d file line s).2 := by
  unfold Graph_OpenDisps
  split_ifs <;> exact rfl

theorem Graph_CloseDisps_sameClock (env : Env) (d : Nat → Nat) (file : String) (line : Nat)
    (s : Sys) : s.SameClock (Graph_CloseDisps env d file line s) := by
  unfold Graph_CloseDisps
  dsimp only
  split_ifs <;> exact rfl

theorem OPEN_DISPS_sameClock (env : Env) (file : String) (line : Nat) (s : Sys) :
    s.SameClock (OPEN_DISPS env file line s).2 := by
  unfold OPEN_DISPS
  split_ifs
  · exact Graph_OpenDisps_sameClock ..
  · exact .sameClock_refl s

theorem CLOSE_DISPS_sameClock (env : Env) (d : Nat → Nat) (file : String) (line : Nat) (s : Sys) :
    s.SameClock (CLOSE_DISPS env d file line s) := by
  unfold CLOSE_DISPS
  split_ifs
  · exact Graph_CloseDisps_sameClock ..
  · exact .sameClock_refl s

theorem Graph_DisassembleUCode_sameClock (env : Env) (workBuf : Nat) (s : Sys) :
    s.SameClock (Graph_DisassembleUCode env workBuf s) := by
  unfold Graph_DisassembleUCode
  dsimp only
  split_ifs <;> simp [Sys.SameClock, Sys.clock, Sys.emit, Sys.setReg]

theorem debugMarks_sameClock (env : Env) (l1 l2 : Nat) (a b c d : String) (s : Sys) :
    s.SameClock (CLOSE_DISPS env (OPEN_DISPS env "../graph.c" l1 s).1 "../graph.c" l2
      (put_OVERLAY_DISP (.gDPNoOpString d 0) (put_POLY_XLU_DISP (.gDPNoOpString c 0)
        (put_POLY_OPA_DISP (.gDPNoOpString b 0) (put_WORK_DISP (.gDPNoOpString a 0)
          (OPEN_DISPS env "../graph.c" l1 s).2))))) :=
  (OPEN_DISPS_sameClock ..).sameClock_trans ((put_WORK_DISP_sameClock ..).sameClock_trans
    ((put_POLY_OPA_DISP_sameClock ..).sameClock_trans ((put_POLY_XLU_DISP_sameClock ..).sameClock_trans
      ((put_OVERLAY_DISP_sameClock ..).sameClock_trans (CLOSE_DISPS_sameClock ..)))))

theorem Graph_Update_game_sameClock (env : Env) (s : Sys) : s.SameClock (Graph_Update_game env s) := by
  have h0 : s.SameClock (((s.emit .GameState_ReqPadData).external env.GameState_ReqPadData).emit
      .GameState_Update |>.external env.GameState_Update) := rfl
  unfold Graph_Update_game
  dsimp only
  split_ifs
  · exact h0.sameClock_trans (debugMarks_sameClock ..)
  · exact h0

theorem Graph_Update_chain_sameClock (env : Env) (s : Sys) :
    s.SameClock (Graph_Update_chain env s) := by
  unfold Graph_Update_chain
  dsimp only
  exact (OPEN_DISPS_sameClock ..).sameClock_trans ((put_WORK_DISP_sameClock ..).sameClock_trans
    ((put_POLY_OPA_DISP_sameClock ..).sameClock_trans ((put_POLY_XLU_DISP_sameClock ..).sameClock_trans
      ((put_OVERLAY_DISP_sameClock ..).sameClock_trans ((put_OVERLAY_DISP_sameClock ..).sameClock_trans
        ((put_OVERLAY_DISP_sameClock ..).sameClock_trans (CLOSE_DISPS_sameClock ..)))))))

theorem Graph_Update_disas_mode_sameClock (env : Env) (s : Sys) :
    s.SameClock (Graph_Update_disas_mode env s) := by
  unfold Graph_Update_disas_mode
  split_ifs <;> exact rfl

theorem Graph_Update_disas_pre_sameClock (env : Env) (s : Sys) :
    s.SameClock (Graph_Update_disas_pre env s) := by
  unfold Graph_Update_disas_pre
  split_ifs <;> exact rfl

theorem Graph_Update_disas_post_sameClock (env : Env) (s : Sys) :
    s.SameClock (Graph_Update_disas_post env s) := by
  unfold Graph_Update_disas_post
  dsimp only
  split_ifs <;> exact rfl

theorem Graph_Update_disas_sameClock (env : Env) (s : Sys) :
    s.SameClock (Graph_Update_disas env s) := by
  unfold Graph_Update_disas
  dsimp only
  split_ifs
  · exact (Graph_Update_disas_mode_sameClock ..).sameClock_trans
      ((Graph_Update_disas_pre_sameClock ..).sameClock_trans
        ((Graph_DisassembleUCode_sameClock ..).sameClock_trans (Graph_Update_disas_post_sameClock ..)))
  · exact Graph_Update_disas_mode_sameClock ..
  · exact .sameClock_refl s

theorem Graph_Update_transitions_sameClock (env : Env) (s : Sys) :
    s.SameClock (Graph_Update_transitions env s) := by
  unfold Graph_Update_transitions
  dsimp only
  split_ifs <;> exact rfl

theorem Graph_Update_validate_ok_sameClock (s : Sys) : s.SameClock (Graph_Update_validate_ok s) := by
  unfold Graph_Update_validate_ok
  dsimp only
  split_ifs <;> simp [Sys.SameClock, Sys.clock, Sys.emit]

theorem Graph_Update_advance_sameClock (s : Sys) : s.SameClock (Graph_Update_advance s) := rfl

theorem Sys.recv_sameClock (env : Env) (b : Bool) (s : Sys) : s.SameClock (s.recv env b) := by
  unfold Sys.recv Sys.arrived Sys.dequeue Sys.deliver
  exact rfl

theorem Graph_TaskSet00_enter_sameClock (env : Env) (s : Sys) :
    s.SameClock (Graph_TaskSet00_enter env s) := rfl

theorem Graph_TaskSet00_handshake_ok_sameClock (env : Env) (s : Sys) :
    s.SameClock (Graph_TaskSet00_handshake_ok env s) := by
  have h : s.SameClock ((((s.emit (timerEvent env)).recv env OS_MESG_BLOCK).emit .osStopTimer).recv
      env OS_MESG_NOBLOCK) :=
    (Sys.SameClock.sameClock_emit s _).sameClock_trans ((Sys.recv_sameClock ..).sameClock_trans
      ((Sys.SameClock.sameClock_emit _ _).sameClock_trans (Sys.recv_sameClock ..)))
  unfold Graph_TaskSet00_handshake_ok
  dsimp only
  split_ifs
  · exact h.sameClock_trans rfl
  · exact h

theorem Graph_TaskSet00_callback_ok_sameClock (env : Env) (s : Sys) :
    s.SameClock (Graph_TaskSet00_callback_ok env s) := by
  unfold Graph_TaskSet00_callback_ok
  split_ifs <;> exact rfl

theorem Graph_TaskSet00_time_ok_sameClock (env : Env) (s : Sys) :
    s.SameClock (Graph_TaskSet00_time_ok env s) := rfl

theorem Sys.atTaskBuild_sameClock (env : Env) (s : Sys) : s.SameClock (s.atTaskBuild env) :=
  (Graph_TaskSet00_enter_sameClock env s).sameClock_trans
    ((Graph_TaskSet00_handshake_ok_sameClock env _).sameClock_trans
      ((Graph_TaskSet00_callback_ok_sameClock env _).sameClock_trans
        (Graph_TaskSet00_time_ok_sameClock env _)))

theorem Graph_TaskSet00_task_sameClock (env : Env) (s : Sys) :
    s.SameClock (Graph_TaskSet00_task env s) := by
  unfold Graph_TaskSet00_task
  dsimp only
  refine Sys.SameClock.sameClock_trans ?_ (@Sys.SameClock.sameClock_trans _ _ _ (CLOSE_DISPS_sameClock ..) rfl)
  refine Sys.SameClock.sameClock_trans ?_ (@Sys.SameClock.sameClock_trans _ _ _ (OPEN_DISPS_sameClock ..) rfl)
  exact rfl

theorem Graph_TaskSet00_head_ok_sameClock (env : Env) (s : Sys) :
    s.SameClock (Graph_TaskSet00_head_ok env s) :=
  (Sys.atTaskBuild_sameClock env s).sameClock_trans (Graph_TaskSet00_task_sameClock env _)

theorem Graph_TaskSet00_scTask_sameClock (env : Env) (s : Sys) :
    s.SameClock (Graph_TaskSet00_scTask env s) := by
  rw [Graph_TaskSet00_scTask_eq]
  split_ifs <;> exact rfl

theorem Graph_TaskSet00_send_ok_sameClock (env : Env) (s : Sys) :
    s.SameClock (Graph_TaskSet00_send_ok env s) := rfl

theorem Graph_InitTHGA_sameClock (env : Env) (s : Sys) : s.SameClock (Graph_InitTHGA env s) :=
  rfl

theorem Graph_Update_begin_sameClock (env : Env) (s : Sys) :
    s.SameClock (Graph_Update_begin env s) := by
  have h0 : s.SameClock
      (Graph_InitTHGA env { s with gameState := { s.gameState with inPreNMIState := 0 } }) :=
    rfl
  unfold Graph_Update_begin
  dsimp only
  split_ifs
  · exact h0.sameClock_trans (debugMarks_sameClock ..)
  · exact h0

theorem Graph_Update_build_sameClock (env : Env) (s : Sys) :
    s.SameClock (Graph_Update_build env s) :=
  (Graph_Update_begin_sameClock env s).sameClock_trans
    ((Graph_Update_game_sameClock env _).sameClock_trans
      ((Graph_Update_chain_sameClock env _).sameClock_trans (Graph_Update_disas_sameClock env _)))

theorem Sys.atValidation_sameClock (env : Env) (s : Sys) : s.SameClock (s.atValidation env) :=
  (Sys.SameClock.sameClock_emit s _).sameClock_trans (Graph_Update_build_sameClock env _)

theorem Graph_TaskSet00_cfb_sameClock (env : Env) (s : Sys) :
    s.SameClock (Graph_TaskSet00_cfb env s) := by
  unfold Graph_TaskSet00_cfb
  dsimp only
  split_ifs <;> rfl

theorem Graph_TaskSet00_tail_ok_sameClock (env : Env) (s : Sys) :
    s.SameClock (Graph_TaskSet00_tail_ok env s) :=
  (Graph_TaskSet00_scTask_sameClock env s).sameClock_trans
    ((Graph_TaskSet00_cfb_sameClock env _).sameClock_trans
      (Graph_TaskSet00_send_ok_sameClock env _))

/-- A frame that returns ends in `Audio_Update`, the timing bookkeeping and the debug
transitions, and nothing before them writes the statics of the bookkeeping. -/
theorem Graph_Update_returned_finish (env : Env) (s s1 : Sys)
    (hu : Graph_Update env s = .ok () s1) :
    ∃ y, s1 = Graph_Update_finish env y ∧ s.SameClock y := by
  cases hc : s.atFlagCheck env with
  | none =>
    obtain ⟨h1, -⟩ := Graph_Update_of_skipped env s s1 ⟨hu, hc⟩
    exact ⟨_, h1, (Sys.atValidation_sameClock env s).sameClock_trans
      (Graph_Update_validate_ok_sameClock _)⟩
  | some c =>
    have h1 := Graph_Update_of_submitted env s s1 c hu hc
    obtain ⟨h2, -⟩ := Sys.atFlagCheck_some env s c hc
    refine ⟨_, h1, ?_⟩
    rw [h2]
    exact (Sys.atValidation_sameClock env s).sameClock_trans
      ((Graph_Update_validate_ok_sameClock _).sameClock_trans
        ((Graph_TaskSet00_head_ok_sameClock ..).sameClock_trans
          ((Graph_TaskSet00_tail_ok_sameClock ..).sameClock_trans
            (Graph_Update_advance_sameClock _))))

/-- The debug transitions leave the counters of the bookkeeping alone. -/
theorem Graph_Update_transitions_counters (env : Env) (x : Sys) :
    (Graph_Update_transitions env x).gRSPGfxTimeTotal = x.gRSPGfxTimeTotal
    ∧ (Graph_Update_transitions env x).gRSPAudioTimeTotal = x.gRSPAudioTimeTotal
    ∧ (Graph_Update_transitions env x).gRDPTimeTotal = x.gRDPTimeTotal
    ∧ (Graph_Update_transitions env x).gRSPGfxTimeAcc = x.gRSPGfxTimeAcc
    ∧ (Graph_Update_transitions env x).gRSPAudioTimeAcc = x.gRSPAudioTimeAcc
    ∧ (Graph_Update_transitions env x).gRDPTimeAcc = x.gRDPTimeAcc
    ∧ (Graph_Update_transitions env x).sGraphPrevUpdateEndTime = x.sGraphPrevUpdateEndTime
    ∧ (Graph_Update_transitions env x).gGraphUpdatePeriod = x.gGraphUpdatePeriod := by
  unfold Graph_Update_transitions
  dsimp only
  split_ifs <;> exact ⟨rfl, rfl, rfl, rfl, rfl, rfl, rfl, rfl⟩

/-- C21: a frame that returns ends in `Audio_Update`, the timing bookkeeping and the
debug transitions. With `b` the state just before the bookkeeping and `t` the time it
samples with `osGetTime`: after the frame the three totals are the accumulators of `b`,
the three accumulators are 0, the stored end time is `t`, and the update period is
`t` minus the end time stored before (modulo 2^64) when that was not 0 and what it
was when that was 0. The end time and the period stored before are those at the entry of
the frame: the frame writes them nowhere else. -/
theorem C21_timing_bookkeeping (env : Env) (s s1 : Sys)
    (hu : Graph_Update env s = .ok () s1) :
    ∃ y : Sys,
      s1 = Graph_Update_transitions env (Graph_Update_time_ok env (y.atBookkeeping env))
      ∧ Graph_Update_time env (y.atBookkeeping env)
          = .ok () (Graph_Update_time_ok env (y.atBookkeeping env))
      ∧ (y.atBookkeeping env).sGraphPrevUpdateEndTime = s.sGraphPrevUpdateEndTime
      ∧ (y.atBookkeeping env).gGraphUpdatePeriod = s.gGraphUpdatePeriod
      ∧ Event.osGetTime (env.osGetTime (y.atBookkeeping env).nTime % 2 ^ 64) ∈ s1.trace
      ∧ s1.gRSPGfxTimeTotal = (y.atBookkeeping env).gRSPGfxTimeAcc
      ∧ s1.gRSPAudioTimeTotal = (y.atBookkeeping env).gRSPAudioTimeAcc
      ∧ s1.gRDPTimeTotal = (y.atBookkeeping env).gRDPTimeAcc
      ∧ s1.gRSPGfxTimeAcc = 0 ∧ s1.gRSPAudioTimeAcc = 0 ∧ s1.gRDPTimeAcc = 0
      ∧ s1.sGraphPrevUpdateEndTime = env.osGetTime (y.atBookkeeping env).nTime % 2 ^ 64
      ∧ (s.sGraphPrevUpdateEndTime ≠ 0 → s1.gGraphUpdatePeriod
          = sub64 (env.osGetTime (y.atBookkeeping env).nTime % 2 ^ 64)
              s.sGraphPrevUpdateEndTime)
      ∧ (s.sGraphPrevUpdateEndTime = 0 → s1.gGraphUpdatePeriod = s.gGraphUpdatePeriod) := by
  obtain ⟨y, h1, hk⟩ := Graph_Update_returned_finish env s s1 hu
  have hb : (y.atBookkeeping env).clock = s.clock := hk
  simp only [Sys.clock, Prod.mk.injEq] at hb
  obtain ⟨hb1, hb2⟩ := hb
  obtain ⟨c1, c2, c3, c4, c5, c6, c7, c8⟩ :=
    Graph_Update_transitions_counters env (Graph_Update_time_ok env (y.atBookkeeping env))
  have e : s1 = Graph_Update_transitions env (Graph_Update_time_ok env (y.atBookkeeping env)) :=
    h1
  obtain ⟨evs, t, -⟩ := Graph_Update_transitions_notHost env
    (Graph_Update_time_ok env (y.atBookkeeping env))
  refine ⟨y, e, Graph_Update_time_apply env _, hb1, hb2, ?_, ?_, ?_, ?_, ?_, ?_, ?_, ?_, ?_, ?_⟩
  · rw [e, t]
    apply List.mem_append_left
    simp [Graph_Update_time_ok]
  · rw [e, c1]; rfl
  · rw [e, c2]; rfl
  · rw [e, c3]; rfl
  · rw [e, c4]; rfl
  · rw [e, c5]; rfl
  · rw [e, c6]; rfl
  · rw [e, c7]; rfl
  · intro hne
    rw [e, c8, ← hb1]
    have hne2 : (y.atBookkeeping env).sGraphPrevUpdateEndTime ≠ 0 := by rw [hb1]; exact hne
    simp [Graph_Update_time_ok, hne2]
  · intro h0
    rw [e, c8, ← hb2]
    have h02 : (y.atBookkeeping env).sGraphPrevUpdateEndTime = 0 := by rw [hb1]; exact h0
    simp [Graph_Update_time_ok, h02]

theorem clockFrame1_update : Graph_Update clockEnv clockFrame1 = .ok () clockFrame2 := by rfl

theorem clockFrame2_counters :
    clockFrame1.sGraphPrevUpdateEndTime = 4000
    ∧ clockFrame2.sGraphPrevUpdateEndTime = 8000
    ∧ clockFrame2.gGraphUpdatePeriod = 4000
    ∧ clockFrame2.gRSPGfxTimeTotal = 5
    ∧ clockFrame2.gRSPAudioTimeTotal = 7
    ∧ clockFrame2.gRDPTimeTotal = 9 := by
  refine ⟨by rfl, by rfl, by rfl, by rfl, by rfl, by rfl⟩

/-- C21, at the second frame of the machine `clockEnv`, whose clock gives 1000 more at
each call: the end time stored before is 4000, the frame samples 8000. -/
theorem C21_timing_bookkeeping_witness :
    Graph_Update clockEnv clockFrame1 = .ok () clockFrame2
    ∧ clockFrame1.sGraphPrevUpdateEndTime = 4000
    ∧ clockFrame2.sGraphPrevUpdateEndTime = 8000
    ∧ clockFrame2.gGraphUpdatePeriod = 4000
    ∧ clockFrame2.gRSPGfxTimeTotal = 5
    ∧ clockFrame2.gRSPAudioTimeTotal = 7
    ∧ clockFrame2.gRDPTimeTotal = 9
    ∧ ∃ y : Sys,
        clockFrame2.gRSPGfxTimeTotal = (y.atBookkeeping clockEnv).gRSPGfxTimeAcc
        ∧ clockFrame2.gRSPAudioTimeTotal = (y.atBookkeeping clockEnv).gRSPAudioTimeAcc
        ∧ clockFrame2.gRDPTimeTotal = (y.atBookkeeping clockEnv).gRDPTimeAcc
        ∧ clockFrame2.gRSPGfxTimeAcc = 0 ∧ clockFrame2.gRSPAudioTimeAcc = 0
        ∧ clockFrame2.gRDPTimeAcc = 0
        ∧ clockFrame2.sGraphPrevUpdateEndTime
            = clockEnv.osGetTime (y.atBookkeeping clockEnv).nTime % 2 ^ 64
        ∧ (clockFrame1.sGraphPrevUpdateEndTime ≠ 0 → clockFrame2.gGraphUpdatePeriod
            = sub64 (clockEnv.osGetTime (y.atBookkeeping clockEnv).nTime % 2 ^ 64)
                clockFrame1.sGraphPrevUpdateEndTime) :=
  ⟨clockFrame1_update, clockFrame2_counters.1, clockFrame2_counters.2.1,
    clockFrame2_counters.2.2.1, clockFrame2_counters.2.2.2.1, clockFrame2_counters.2.2.2.2.1,
    clockFrame2_counters.2.2.2.2.2,
    match C21_timing_bookkeeping clockEnv clockFrame1 clockFrame2 clockFrame1_update with
    | ⟨y, _, _, _, _, _, a1, a2, a3, a4, a5, a6, a7, a8, _⟩ =>
      ⟨y, a1, a2, a3, a4, a5, a6, a7, a8⟩⟩

/-! ## The work arena at the validation -/

/-- A frame whose validation finds nothing reaches the flag check exactly when the
handshake returns a message other than the timer message. -/
theorem Sys.atFlagCheck_of_sound (env : Env) (s : Sys)
    (hh : (s.atValidation env).headMagic env = some GFXPOOL_HEAD_MAGIC)
    (ht : (s.atValidation env).tailMagic env = some GFXPOOL_TAIL_MAGIC)
    (hc : (s.atValidation env).crashed = false) {m : Nat}
    (hm : (Graph_Update_validate_ok (s.atValidation env)).handshakeMsg env = some m)
    (h6 : m ≠ 666) :
    s.atFlagCheck env
      = some (Graph_TaskSet00_head_ok env (Graph_Update_validate_ok (s.atValidation env))) := by
  have hp : (Graph_Update_validate_ok (s.atValidation env)).problem = false := by
    rw [Graph_Update_validate_ok_problem, hc]
  unfold Sys.atFlagCheck
  rw [Graph_Update_validate_of_intact env _ hh ht]
  simp only [hp, Bool.false_eq_true, if_false]
  rw [Graph_TaskSet00_head_of_some env _ hm h6]

/-- A frame whose validation finds nothing enters `Graph_TaskSet00`; it sends no task
when the handshake returns no message or the timer message. -/
theorem Graph_Update_sound_trace (env : Env) (s : Sys)
    (hh : (s.atValidation env).headMagic env = some GFXPOOL_HEAD_MAGIC)
    (ht : (s.atValidation env).tailMagic env = some GFXPOOL_TAIL_MAGIC)
    (hc : (s.atValidation env).crashed = false) :
    ∃ pre post, (Graph_Update env s).state.trace
        = s.trace ++ (pre ++ .call "Graph_TaskSet00" :: post)
      ∧ (∀ e ∈ pre, e.quiet = true)
      ∧ (((Graph_Update_validate_ok (s.atValidation env)).handshakeMsg env = none
          ∨ (Graph_Update_validate_ok (s.atValidation env)).handshakeMsg env = some 666) →
        (Graph_Update env s).returned = false ∧ ∀ e ∈ post, e.isSend = false) := by
  obtain ⟨-, -, pre, tp, qp⟩ :=
    (Sys.atValidation_calm env s).trans (Graph_Update_validate_ok_calm (s.atValidation env))
  rw [Graph_Update_of_sound env s hh ht hc]
  cases hm : (Graph_Update_validate_ok (s.atValidation env)).handshakeMsg env with
  | none =>
    obtain ⟨x, hx, t⟩ := Graph_TaskSet00_blocked env _ hm
    rw [hx]
    refine ⟨pre, [.osGetTime (env.osGetTime
        (Graph_Update_validate_ok (s.atValidation env)).nTime % 2 ^ 64),
      timerEvent env, .osRecvMesg (queueAddr env) true none], ?_, qp, ?_⟩
    · show x.trace = _
      rw [t, tp, List.append_assoc]
    · intro _
      refine ⟨rfl, ?_⟩
      intro e he
      simp only [List.mem_cons, List.mem_singleton, List.not_mem_nil, or_false] at he
      rcases he with rfl | rfl | rfl <;> rfl
  | some m =>
    by_cases h6 : m = 666
    · subst h6
      obtain ⟨x, dbg, hx, t, q⟩ := Graph_TaskSet00_hung env _ hm
      rw [hx]
      refine ⟨pre, [.osGetTime (env.osGetTime
          (Graph_Update_validate_ok (s.atValidation env)).nTime % 2 ^ 64),
        timerEvent env, .osRecvMesg (queueAddr env) true (some 666), .osStopTimer] ++ dbg
        ++ [.Fault_AddHungupAndCrashImpl "RCP is HUNG UP!!" "Oh! MY GOD!!"], ?_, qp, ?_⟩
      · show x.trace = _
        rw [t, tp]
        simp only [List.append_assoc, List.cons_append, List.nil_append]
      · intro _
        refine ⟨rfl, ?_⟩
        intro e he
        simp only [List.mem_append, List.mem_cons, List.mem_singleton, List.not_mem_nil,
          or_false] at he
        rcases he with ((rfl | rfl | rfl | rfl) | he) | rfl
        · rfl
        · rfl
        · rfl
        · rfl
        · exact Event.isSend_of_quiet e (q e he)
        · rfl
    · obtain ⟨x, t0, r, t1, t2, hx, t⟩ := Graph_TaskSet00_sent env _ hm h6
      rw [hx]
      obtain ⟨-, -, fin, tf, -⟩ := Graph_Update_finish_calm env (Graph_Update_advance x)
      have ta : (Graph_Update_advance x).trace = x.trace := rfl
      refine ⟨pre, _, by
        show (Graph_Update_finish env (Graph_Update_advance x)).trace = _
        rw [tf, ta, t, tp]
        simp only [List.append_assoc, List.cons_append, List.nil_append]
        rfl, qp, ?_⟩
      intro h
      rcases h with h | h
      · cases h
      · exact absurd (Option.some.inj h) h6

/-- C22, as the code has it. On the machine `suppressEnv` the first frame finds both
sentinels intact and no arena crashed, submits its task with the swap suppressed, and
ends with `fbIdx` at its entry value 0: `Graph_TaskSet00` has lowered it before
`Graph_Update` raises it. On the machine `hungEnv` the first frame finds the same, and
the handshake returns the timer message: the thread stops in the fault handler, no task
is sent and both indices keep their entry values. -/
theorem C22_counterexample :
    ((Graph_Init suppressEnv demoSys).atValidation suppressEnv).headMagic suppressEnv
        = some GFXPOOL_HEAD_MAGIC
    ∧ ((Graph_Init suppressEnv demoSys).atValidation suppressEnv).tailMagic suppressEnv
        = some GFXPOOL_TAIL_MAGIC
    ∧ ((Graph_Init suppressEnv demoSys).atValidation suppressEnv).crashed = false
    ∧ (Graph_Update suppressEnv (Graph_Init suppressEnv demoSys)).returned = true
    ∧ (Graph_Init suppressEnv demoSys).gfxCtx.fbIdx = 0
    ∧ (Graph_Update suppressEnv (Graph_Init suppressEnv demoSys)).state.gfxCtx.fbIdx = 0
    ∧ ((Graph_Init hungEnv demoSys).atValidation hungEnv).headMagic hungEnv
        = some GFXPOOL_HEAD_MAGIC
    ∧ ((Graph_Init hungEnv demoSys).atValidation hungEnv).tailMagic hungEnv
        = some GFXPOOL_TAIL_MAGIC
    ∧ ((Graph_Init hungEnv demoSys).atValidation hungEnv).crashed = false
    ∧ (Graph_Update hungEnv (Graph_Init hungEnv demoSys)).stopped = some .hungup
    ∧ (Graph_Update hungEnv (Graph_Init hungEnv demoSys)).state.trace.filter Event.isSend = []
    ∧ (Graph_Update hungEnv (Graph_Init hungEnv demoSys)).state.gfxCtx.gfxPoolIdx = 0
    ∧ (Graph_Update hungEnv (Graph_Init hungEnv demoSys)).state.gfxCtx.fbIdx = 0 :=
  ⟨by rfl, by rfl, by rfl, by rfl, by rfl, by rfl, by rfl, by rfl, by rfl, by rfl, by rfl,
    by rfl, by rfl⟩

/-- C22: a frame whose validation finds both sentinels intact and none of the opaque,
the translucent and the overlay arena crashed, whatever the state of the work arena:
the validation leaves the problem flag clear and the frame enters `Graph_TaskSet00`.
When the handshake returns a message other than the timer message 666 the frame
returns, the task is sent to the scheduler and `gfxPoolIdx` advances; `fbIdx` advances
when the swap-suppression bit is clear, and when it is set it is lowered and raised
again, which leaves a value of type `s32` where it was. When the handshake returns no
message or the timer message the frame does not return and sends no task. -/
theorem C22_work_arena_is_not_validated (env : Env) (s : Sys)
    (hh : (s.atValidation env).headMagic env = some GFXPOOL_HEAD_MAGIC)
    (ht : (s.atValidation env).tailMagic env = some GFXPOOL_TAIL_MAGIC)
    (hc : (s.atValidation env).crashed = false) :
    Graph_Update_validate env (s.atValidation env)
        = .ok () (Graph_Update_validate_ok (s.atValidation env))
    ∧ (Graph_Update_validate_ok (s.atValidation env)).problem = false
    ∧ (∃ pre post, (Graph_Update env s).state.trace
          = s.trace ++ (pre ++ .call "Graph_TaskSet00" :: post)
        ∧ (∀ e ∈ pre, e.quiet = true)
        ∧ (((Graph_Update_validate_ok (s.atValidation env)).handshakeMsg env = none
            ∨ (Graph_Update_validate_ok (s.atValidation env)).handshakeMsg env = some 666) →
          (Graph_Update env s).returned = false ∧ ∀ e ∈ post, e.isSend = false))
    ∧ ∀ m, (Graph_Update_validate_ok (s.atValidation env)).handshakeMsg env = some m →
        m ≠ 666 →
        ∃ s1 c, Graph_Update env s = .ok () s1 ∧ s.atFlagCheck env = some c
          ∧ Event.osSendMesg env.gScheduler_cmdQueue (c.submitted env) OS_MESG_BLOCK ∈ s1.trace
          ∧ s1.gfxCtx.gfxPoolIdx = wrapU32 (s.gfxCtx.gfxPoolIdx + 1)
          ∧ (c.reg env.R_GRAPH_TASKSET00_FLAGS &&& 1 = 0 →
              s1.gfxCtx.fbIdx = wrapS32 (s.gfxCtx.fbIdx + 1))
          ∧ (c.reg env.R_GRAPH_TASKSET00_FLAGS &&& 1 ≠ 0 →
              s1.gfxCtx.fbIdx = wrapS32 (wrapS32 (s.gfxCtx.fbIdx - 1) + 1)
              ∧ (-2 ^ 31 ≤ s.gfxCtx.fbIdx → s.gfxCtx.fbIdx < 2 ^ 31 →
                  s1.gfxCtx.fbIdx = s.gfxCtx.fbIdx)) := by
  have hp : (Graph_Update_validate_ok (s.atValidation env)).problem = false := by
    rw [Graph_Update_validate_ok_problem, hc]
  refine ⟨Graph_Update_validate_of_intact env _ hh ht, hp,
    Graph_Update_sound_trace env s hh ht hc, ?_⟩
  intro m hm h6
  have hf := Sys.atFlagCheck_of_sound env s hh ht hc hm h6
  have hu := (Graph_Update_of_atFlagCheck env s _ hf).1
  have hw : s.swapSuppressed env = some (decide ((Graph_TaskSet00_head_ok env
      (Graph_Update_validate_ok (s.atValidation env))).reg env.R_GRAPH_TASKSET00_FLAGS &&& 1
        ≠ 0)) := by
    unfold Sys.swapSuppressed
    rw [hf]
    rfl
  have hst : ∀ hb : (Graph_TaskSet00_head_ok env (Graph_Update_validate_ok
      (s.atValidation env))).reg env.R_GRAPH_TASKSET00_FLAGS &&& 1 = 0,
      s.swapSuppressed env = some false := fun hb =>
    hw.trans (congrArg some (decide_eq_false (not_not.mpr hb)))
  have hsu : ∀ hb : (Graph_TaskSet00_head_ok env (Graph_Update_validate_ok
      (s.atValidation env))).reg env.R_GRAPH_TASKSET00_FLAGS &&& 1 ≠ 0,
      s.swapSuppressed env = some true := fun hb =>
    hw.trans (congrArg some (decide_eq_true hb))
  refine ⟨_, _, hu, hf, Graph_Update_submitted_trace env s _ _ hu hf, ?_, ?_, ?_⟩
  · by_cases hb : (Graph_TaskSet00_head_ok env
        (Graph_Update_validate_ok (s.atValidation env))).reg env.R_GRAPH_TASKSET00_FLAGS &&& 1 = 0
    · have hs : StraightFrame env s _ := ⟨hu, hst hb⟩
      exact hs.idx.1
    · have hs : SuppressedFrame env s _ := ⟨hu, hsu hb⟩
      exact hs.suppressed_idx.1
  · intro hb
    have hs : StraightFrame env s _ := ⟨hu, hst hb⟩
    exact hs.idx.2
  · intro hb
    have hs : SuppressedFrame env s _ := ⟨hu, hsu hb⟩
    refine ⟨hs.suppressed_idx.2, ?_⟩
    intro h1 h2
    rw [hs.suppressed_idx.2]
    unfold wrapS32
    norm_num at h1 h2 ⊢
    omega

/-- C22, at the first frame of the machine `workCrashEnv`: the work arena is crashed at
the validation, and the frame submits its task and advances both indices. -/
theorem C22_work_arena_is_not_validated_witness :
    THGA_IsCrash ((Graph_Init workCrashEnv demoSys).atValidation workCrashEnv).gfxCtx.work = true
    ∧ ((Graph_Init workCrashEnv demoSys).atValidation workCrashEnv).headMagic workCrashEnv
        = some GFXPOOL_HEAD_MAGIC
    ∧ ((Graph_Init workCrashEnv demoSys).atValidation workCrashEnv).tailMagic workCrashEnv
        = some GFXPOOL_TAIL_MAGIC
    ∧ ((Graph_Init workCrashEnv demoSys).atValidation workCrashEnv).crashed = false
    ∧ (Graph_Update_validate_ok
        ((Graph_Init workCrashEnv demoSys).atValidation workCrashEnv)).handshakeMsg workCrashEnv
        = some 0
    ∧ (Graph_Update workCrashEnv (Graph_Init workCrashEnv demoSys)).state.gfxCtx.gfxPoolIdx = 1
    ∧ (Graph_Update workCrashEnv (Graph_Init workCrashEnv demoSys)).state.gfxCtx.fbIdx = 1
    ∧ ∃ s1 c, Graph_Update workCrashEnv (Graph_Init workCrashEnv demoSys) = .ok () s1
        ∧ (Graph_Init workCrashEnv demoSys).atFlagCheck workCrashEnv = some c
        ∧ Event.osSendMesg workCrashEnv.gScheduler_cmdQueue (c.submitted workCrashEnv)
            OS_MESG_BLOCK ∈ s1.trace
        ∧ s1.gfxCtx.gfxPoolIdx
            = wrapU32 ((Graph_Init workCrashEnv demoSys).gfxCtx.gfxPoolIdx + 1) :=
  ⟨by rfl, by rfl, by rfl, by rfl, by rfl, by rfl, by rfl,
    match (C22_work_arena_is_not_validated workCrashEnv (Graph_Init workCrashEnv demoSys)
      (by rfl) (by rfl) (by rfl)).2.2.2 0 (by rfl) (by decide) with
    | ⟨s1, c, h1, h2, h3, h4, _⟩ => ⟨s1, c, h1, h2, h3, h4⟩⟩

end Oot
